import Mathlib

/-!
# The dashboard state core of `selfdrive/ui/ui.cc`

A shallow embedding of the state-synchronisation code of the UI process:
the event dispatcher `handle_message`, the vision hand-off `ui_update`, the
countdown-gated parameter readers and the body of the main loop.

Conventions of the embedding.

* C `int` fields are `Int`, `uint64_t` fields are `Nat`, `float` fields are
  exact rationals, `bool` fields (and `int` fields that only ever hold a truth
  value) are `Bool`, `char[]` buffers and `std::string` are `String`, one
  character standing for one byte.
* Everything the code does to the outside world is recorded, in program order,
  as a list of `Effect`s.
* Code that always runs to its end is a function to `UIState × List Effect`.
  Code that can stop at a failed `assert`, at a list element beyond the size of
  the list (when the message library stops there, which is a parameter of the
  build), or at a string that does not fit its buffer is a function to `Step`,
  which ends in a value or in a `Fault`; the effects emitted before the fault
  are kept.
* What the outside world answers (poll results, received packets, the
  parameter store, the clock, touches) is an explicit argument.
-/

namespace UI

/-! ## Constants of `ui.hpp` -/

def STATUS_STOPPED : Int := 0
def STATUS_DISENGAGED : Int := 1
def STATUS_ENGAGED : Int := 2
def STATUS_WARNING : Int := 3
def STATUS_ALERT : Int := 4

def NET_CONNECTED : Nat := 0
def NET_DISCONNECTED : Nat := 1
def NET_ERROR : Nat := 2

def UI_BUF_COUNT : Int := 4

def vwp_w : Int := 1920
def vwp_h : Int := 1080
def sbr_w : Int := 300
def bdr_s : Int := 30
def box_x : Int := sbr_w + bdr_s
def box_w : Int := vwp_w - sbr_w - (bdr_s * 2)
def settings_btn_h : Int := 117
def settings_btn_w : Int := 200
def settings_btn_x : Int := 50
def settings_btn_y : Int := 35
def home_btn_h : Int := 180
def home_btn_w : Int := 180
def home_btn_x : Int := 60
def home_btn_y : Int := vwp_h - home_btn_h - 40
def df_btn_h : Int := 180
def df_btn_w : Int := 180
def df_btn_x : Int := 1650
def df_btn_y : Int := 750
def ap_btn_h : Int := 180
def ap_btn_w : Int := 180
def ap_btn_x : Int := 1450
def ap_btn_y : Int := 750

def UI_FREQ : Int := 30

/-! ## Enumerations of the message schema

The schema (`cereal/log.capnp`, `car.capnp`) and `common/visionipc.h` are
declared outside `ui.cc` and `ui.hpp`.  Each enumeration lists the enumerators
that `ui.cc` names and keeps every other value under `other`. -/

/-- Values of `cereal::ControlsState::AlertStatus`. -/
inductive AlertStatus
  | NORMAL
  | USER_PROMPT
  | CRITICAL
  | other (raw : Nat)
  deriving DecidableEq

/-- Values of `cereal::ControlsState::AlertSize`. -/
inductive AlertSize
  | NONE
  | FULL
  | other (raw : Nat)
  deriving DecidableEq

/-- Values of `cereal::CarControl::HUDControl::AudibleAlert`. -/
inductive AudibleAlert
  | NONE
  | CHIME_WARNING_REPEAT
  | other (raw : Nat)
  deriving DecidableEq

/-- Values of `cereal::UiLayoutState::App`. -/
inductive App
  | HOME
  | SETTINGS
  | NONE
  | other (raw : Nat)
  deriving DecidableEq

/-- Values of `cereal::HealthData::HwType`. -/
inductive HwType
  | UNKNOWN
  | other (raw : Nat)
  deriving DecidableEq

/-- Values of `cereal::CarState::GearShifter`. -/
inductive GearShifter
  | REVERSE
  | other (raw : Nat)
  deriving DecidableEq

/-- Values of `VisionStreamType`. -/
inductive VisionStreamType
  | VISION_STREAM_RGB_BACK
  | VISION_STREAM_RGB_FRONT
  | other (raw : Nat)
  deriving DecidableEq

/-! ## Build configuration and library functions -/

/-- What the translation unit takes from outside `ui.cc` and `ui.hpp`: the
`QCOM` and `NDEBUG` preprocessor switches, two constants of
`common/modeldata.h`, the C library's number parsers, and what the list reader
of the message library does at an index beyond the end of a list. -/
structure Config where
  qcom : Bool
  ndebug : Bool
  POLYFIT_DEGREE : Nat
  MODEL_PATH_DISTANCE : Nat
  strtod : String → ℚ
  strtoull : String → Nat
  /-- The answer of `operator[]` of a capnp list reader at an index beyond the
  end of the list.  `ui.cc` indexes without looking at the size, so the outcome
  is decided in the library, which is not part of this repository: `none` when
  the library stops the program at such an index, `some oob` when it hands back
  a value, `oob l i` for index `i` of the list `l`. -/
  list_oob : Option (List ℚ → Nat → ℚ)

/-! ## Vision packets -/

/-- The part of `VisionStreamBufs` that `ui_init_vision` reads. -/
structure VisionStreamBufs where
  type : VisionStreamType
  width : Int
  height : Int
  stride : Int
  buf_len : Nat
  transformed_width : Int
  transformed_height : Int
  front_box_x : Int
  front_box_y : Int
  front_box_width : Int
  front_box_height : Int
  deriving DecidableEq

/-- A `VisionPacket`: its `type` tag with the member of the union `d` that
belongs to it, and `num_fds` for a buffer descriptor. -/
inductive VisionPacket
  | VIPC_STREAM_SUBSCRIBE (type : VisionStreamType) (tbuffer : Bool)
  | VIPC_STREAM_BUFS (stream_bufs : VisionStreamBufs) (num_fds : Int)
  | VIPC_STREAM_ACQUIRE (type : VisionStreamType) (idx : Int)
  | VIPC_STREAM_RELEASE (type : VisionStreamType) (idx : Int)
  | other (raw : Nat)
  deriving DecidableEq

/-! ## Effects and faults -/

/-- Calls that leave the process, in the order the code makes them. -/
inductive Effect
  /-- `s->offroad_sock->send` of a `UiLayoutState` in `update_offroad_layout_state`. -/
  | publish_layout (active_app : App) (sidebar_collapsed : Bool)
  | stop_alert_sound (a : AudibleAlert)
  | play_alert_sound (a : AudibleAlert)
  | vipc_send (fd : Int) (p : VisionPacket)
  | close (fd : Int)
  | read_db_value (name : String) (persistent : Bool)
  | write_db_value (name : String) (value : String)
  | framebuffer_swap_layer (layer : Nat)
  | framebuffer_set_power (powered : Bool)
  | ui_draw
  | ui_draw_vision_alert (size : AlertSize) (color : Int) (text1 text2 : String)
  | set_volume
  deriving DecidableEq

/-- Ways a run stops before the end of the function. -/
inductive Fault
  /-- A failed `assert`. -/
  | assert_failed
  /-- An element read beyond the size of a message list. -/
  | out_of_range
  /-- A string copied into a buffer too small for it. -/
  | buffer_overflow
  /-- The scripted answers of the outside world ran out inside a loop. -/
  | script_exhausted
  deriving DecidableEq

/-- The outcome of running a piece of code: the effects emitted, and either
the value it ends with or the fault it stopped at. -/
structure Step (α : Type) where
  effects : List Effect
  result : Except Fault α

namespace Step

/-- End with a value, no effect. -/
def ok {α : Type} (a : α) : Step α := ⟨[], Except.ok a⟩

/-- Emit the given effects. -/
def emit (es : List Effect) : Step Unit := ⟨es, Except.ok ()⟩

/-- Stop at a fault. -/
def fail {α : Type} (f : Fault) : Step α := ⟨[], Except.error f⟩

/-- Code that cannot stop early: its end value and its effects. -/
def lift {α : Type} (r : α × List Effect) : Step α := ⟨r.2, Except.ok r.1⟩

/-- Sequencing: the second part runs only when the first ended normally. -/
def andThen {α β : Type} (r : Step α) (f : α → Step β) : Step β :=
  match r.result with
  | Except.error e => ⟨r.effects, Except.error e⟩
  | Except.ok a => ⟨r.effects ++ (f a).effects, (f a).result⟩

end Step

/-! ## The state: `UIScene` and `UIState` -/

/-- A `PathData` of `common/modeldata.h`. -/
structure PathData where
  prob : ℚ
  std : ℚ
  poly : List ℚ
  points : List ℚ
  deriving DecidableEq

/-- A `LeadData` of `common/modeldata.h`. -/
structure LeadData where
  dist : ℚ
  prob : ℚ
  std : ℚ
  deriving DecidableEq

/-- A `ModelData` of `common/modeldata.h`. -/
structure ModelData where
  path : PathData
  left_lane : PathData
  right_lane : PathData
  lead : LeadData
  deriving DecidableEq

/-- The struct `UIScene`. -/
structure UIScene where
  frontview : Bool
  fullview : Bool
  transformed_width : Int
  transformed_height : Int
  model : ModelData
  mpc_x : List ℚ
  mpc_y : List ℚ
  world_objects_visible : Bool
  extrinsic_matrix : List ℚ
  v_cruise : ℚ
  v_cruise_update_ts : Nat
  v_ego : ℚ
  decel_for_model : Bool
  speedlimit : ℚ
  speedlimit_valid : Bool
  map_valid : Bool
  curvature : ℚ
  engaged : Bool
  engageable : Bool
  monitoring_active : Bool
  uilayout_sidebarcollapsed : Bool
  uilayout_mapenabled : Bool
  uilayout_mockengaged : Bool
  ui_viz_rx : Int
  ui_viz_rw : Int
  ui_viz_ro : Int
  lead_status : Bool
  lead_d_rel : ℚ
  lead_y_rel : ℚ
  lead_v_rel : ℚ
  lead_status2 : Bool
  lead_d_rel2 : ℚ
  lead_y_rel2 : ℚ
  lead_v_rel2 : ℚ
  face_prob : ℚ
  is_rhd : Bool
  face_x : ℚ
  face_y : ℚ
  front_box_x : Int
  front_box_y : Int
  front_box_width : Int
  front_box_height : Int
  alert_ts : Nat
  alert_text1 : String
  alert_text2 : String
  alert_size : AlertSize
  alert_blinkingrate : ℚ
  awareness_status : ℚ
  gps_planner_active : Bool
  networkType : Nat
  networkStrength : Nat
  batteryPercent : Int
  batteryCharging : Bool
  freeSpace : ℚ
  thermalStatus : Nat
  paTemp : Int
  hwType : HwType
  satelliteCount : Int
  athenaStatus : Nat
  angleSteersDes : ℚ
  angleSteers : ℚ
  ipAddr : String
  alert_rate : Int
  alert_type : Int
  isReversing : Bool
  leftBlinker : Bool
  rightBlinker : Bool
  brakeLights : Bool
  blinker_blinkingrate : Int

/-- The struct `UIState`, without the handles of the renderer, the sockets and
the lock. -/
structure UIState where
  active_app : App
  vision_connected : Bool
  vision_connect_firstrun : Bool
  ipc_fd : Int
  cur_vision_idx : Int
  cur_vision_front_idx : Int
  rgb_width : Int
  rgb_height : Int
  rgb_stride : Int
  rgb_buf_len : Nat
  rgb_front_width : Int
  rgb_front_height : Int
  rgb_front_stride : Int
  rgb_front_buf_len : Nat
  scene : UIScene
  awake : Bool
  awake_timeout : Int
  volume_timeout : Int
  controls_timeout : Int
  alert_sound_timeout : Int
  speed_lim_off_timeout : Int
  is_metric_timeout : Int
  longitudinal_control_timeout : Int
  limit_set_speed_timeout : Int
  hardware_timeout : Int
  last_athena_ping_timeout : Int
  offroad_layout_timeout : Int
  controls_seen : Bool
  last_athena_ping : Nat
  status : Int
  is_metric : Bool
  longitudinal_control : Bool
  limit_set_speed : Bool
  speed_lim_off : ℚ
  is_ego_over_limit : Bool
  alert_type : String
  alert_sound : AudibleAlert
  alert_blinking_alpha : ℚ
  alert_blinked : Bool
  started : Bool
  thermal_started : Bool
  preview_started : Bool
  vision_seen : Bool
  light_sensor : ℚ
  model_changed : Bool
  livempc_or_radarstate_changed : Bool
  dragon_updating_timeout : Int
  dragon_last_modified_timeout : Int
  dragon_ui_speed : Bool
  dragon_ui_event : Bool
  dragon_ui_maxspeed : Bool
  dragon_ui_face : Bool
  dragon_ui_dev : Bool
  dragon_ui_dev_mini : Bool
  dragon_enable_dashcam : Bool
  dragon_ui_volume_boost : ℚ
  dragon_driving_ui : Bool
  dragon_ui_lane : Bool
  dragon_ui_lead : Bool
  dragon_ui_path : Bool
  dragon_ui_blinker : Bool
  dragon_waze_mode : Bool
  dragon_ui_dm_view : Bool
  dragon_updating : Bool
  dragon_df_mode : Nat
  dragon_ap_mode : Nat
  dragon_enable_dm : Bool
  dragon_locale : String
  dragon_ui_screen_off_reversing : Bool
  dragon_last_modified : String
  dragon_ui_screen_off_driving : Bool
  dragon_ui_brightness : Nat

/-! ## Decoded bus events -/

/-- Payload of a `controlsState` event, the fields `handle_message` reads. -/
structure ControlsStateData where
  rearViewCam : Bool
  vCruise : ℚ
  vEgo : ℚ
  curvature : ℚ
  enabled : Bool
  engageable : Bool
  gpsPlannerActive : Bool
  driverMonitoringOn : Bool
  angleSteers : ℚ
  angleSteersDes : ℚ
  decelForModel : Bool
  alertSound : AudibleAlert
  alertType : String
  alertText1 : String
  alertText2 : String
  alertSize : AlertSize
  alertStatus : AlertStatus
  alertBlinkingRate : ℚ
  deriving DecidableEq

/-- One lead of a `radarState` event. -/
structure RadarLead where
  status : Bool
  dRel : ℚ
  yRel : ℚ
  vRel : ℚ
  deriving DecidableEq

/-- A path of a `model` event as it arrives. -/
structure PathMsg where
  prob : ℚ
  std : ℚ
  poly : List ℚ
  deriving DecidableEq

/-- Payload of a `model` event. -/
structure ModelMsg where
  path : PathMsg
  leftLane : PathMsg
  rightLane : PathMsg
  lead : LeadData
  deriving DecidableEq

/-- Payload of a `thermal` event. -/
structure ThermalData where
  networkType : Nat
  networkStrength : Nat
  batteryPercent : Int
  batteryStatus : String
  freeSpace : ℚ
  thermalStatus : Nat
  pa0 : Int
  ipAddr : String
  started : Bool
  deriving DecidableEq

/-- Payload of a `carState` event. -/
structure CarStateData where
  leftBlinker : Bool
  rightBlinker : Bool
  brakeLights : Bool
  gearShifter : GearShifter
  deriving DecidableEq

/-- A decoded `cereal::Event`: its `which()` tag with the payload
`handle_message` reads, and its `logMonoTime`. -/
inductive Event
  | CONTROLS_STATE (logMonoTime : Nat) (data : ControlsStateData)
  | RADAR_STATE (leadOne leadTwo : RadarLead)
  | LIVE_CALIBRATION (extrinsicMatrix : List ℚ)
  | MODEL (model : ModelMsg)
  | LIVE_MPC (x y : List ℚ)
  | UI_LAYOUT_STATE (activeApp : App) (sidebarCollapsed mockEngaged : Bool)
  | LIVE_MAP_DATA (mapValid : Bool)
  | THERMAL (data : ThermalData)
  /-- The payload is `some numMeas` for a measurement report. -/
  | UBLOX_GNSS (measurementReport : Option Int)
  | HEALTH (hwType : HwType)
  | DRIVER_STATE (faceProb : ℚ) (facePosition : List ℚ)
  | D_MONITORING_STATE (isRHD : Bool) (awarenessStatus : ℚ) (isPreview : Bool)
  | CAR_STATE (data : CarStateData)
  | other (raw : Nat)
  deriving DecidableEq

/-! ## Small helpers of `ui.cc` -/

/-- Sequencing of code that cannot stop early. -/
def seq (r : UIState × List Effect) (f : UIState → UIState × List Effect) :
    UIState × List Effect :=
  ((f r.1).1, r.2 ++ (f r.1).2)

/-- The function `update_status`. -/
def update_status (s : UIState) (status : Int) : UIState :=
  if s.status ≠ status then { s with status := status } else s

/-- The function `update_offroad_layout_state`: one message on the layout
socket carrying `active_app` and the sidebar flag.  The state is not changed. -/
def update_offroad_layout_state (s : UIState) : List Effect :=
  [Effect.publish_layout s.active_app s.scene.uilayout_sidebarcollapsed]

/-- The function `set_awake`.  Under `QCOM` the backlight write and the window
service call that go with a power change are left out; the power change itself
is recorded. -/
def set_awake (cfg : Config) (s : UIState) (awake : Bool) : UIState × List Effect :=
  if cfg.qcom then
    let s1 : UIState :=
      if awake then
        { s with awake_timeout :=
            if s.dragon_ui_screen_off_driving && s.started then 10 * 30 else 30 * 30 }
      else s
    if s1.awake ≠ awake then
      ({ s1 with awake := awake }, [Effect.framebuffer_set_power awake])
    else (s1, [])
  else ({ s with awake := true }, [])

/-- The values `l[0] .. l[n - 1]` as `operator[]` hands them back when the
library does not stop at an index beyond the end: the elements of the list,
and `oob l i` at each index `i` beyond its end. -/
def list_values (oob : List ℚ → Nat → ℚ) (l : List ℚ) (n : Nat) : List ℚ :=
  (List.range n).map fun i => (l.get? i).getD (oob l i)

/-- A loop `for (int i = 0; i < n; i++) ... = l[i];` over a message list: the
values read.  The code does not look at the size of the list.  When the list
has `n` elements or more the values are its first `n` elements; when it is
shorter, the reads beyond its end are answered by the library as `cfg.list_oob`
says. -/
def list_read (cfg : Config) (l : List ℚ) (n : Nat) : Step (List ℚ) :=
  if n ≤ l.length then Step.ok (l.take n)
  else
    match cfg.list_oob with
    | none => Step.fail Fault.out_of_range
    | some oob => Step.ok (list_values oob l n)

/-- The function `read_path`: copies `POLYFIT_DEGREE` coefficients out of the
message list and evaluates the cubic at `0 .. MODEL_PATH_DISTANCE - 1`. -/
def read_path (cfg : Config) (pathp : PathMsg) : Step PathData :=
  (list_read cfg pathp.poly cfg.POLYFIT_DEGREE).andThen fun poly =>
  Step.ok
    { prob := pathp.prob
      std := pathp.std
      poly := poly
      points := (List.range cfg.MODEL_PATH_DISTANCE).map fun i =>
        poly.getD 0 0 * ((i * i * i : Nat) : ℚ) + poly.getD 1 0 * ((i * i : Nat) : ℚ)
          + poly.getD 2 0 * (i : ℚ) + poly.getD 3 0 }

/-- The function `read_model`. -/
def read_model (cfg : Config) (model : ModelMsg) : Step ModelData :=
  (read_path cfg model.path).andThen fun path =>
  (read_path cfg model.leftLane).andThen fun left_lane =>
  (read_path cfg model.rightLane).andThen fun right_lane =>
  Step.ok { path := path, left_lane := left_lane, right_lane := right_lane, lead := model.lead }

/-! ## `handle_message` -/

/-- Lines 518-532 of `handle_message`: the alert-sound edge. -/
def handle_alert_sound (cfg : Config) (s : UIState) (data : ControlsStateData) :
    UIState × List Effect :=
  let alert_sound := data.alertSound
  if alert_sound ≠ s.alert_sound then
    let stop : List Effect :=
      if s.alert_sound ≠ AudibleAlert.NONE then [Effect.stop_alert_sound s.alert_sound] else []
    let r : UIState × List Effect :=
      if alert_sound ≠ AudibleAlert.NONE then
        let s1 : UIState := { s with alert_type := data.alertType }
        seq (s1, [Effect.play_alert_sound alert_sound]) fun s1 =>
          if s1.dragon_ui_screen_off_driving then set_awake cfg s1 true else (s1, [])
      else (s, [])
    ({ r.1 with alert_sound := alert_sound }, stop ++ r.2)
  else (s, [])

/-- Lines 537-544 of `handle_message`: the status derived from the alert
status and `scene.engaged`. -/
def handle_alert_status (s : UIState) (alertStatus : AlertStatus) : UIState :=
  if alertStatus = AlertStatus.USER_PROMPT then update_status s STATUS_WARNING
  else if alertStatus = AlertStatus.CRITICAL then update_status s STATUS_ALERT
  else update_status s (if s.scene.engaged then STATUS_ENGAGED else STATUS_DISENGAGED)

/-- Lines 546-562 of `handle_message`: the blink phase. -/
def handle_alert_blinking (s : UIState) (alertBlinkingRate : ℚ) : UIState :=
  let s : UIState := { s with scene := { s.scene with alert_blinkingrate := alertBlinkingRate } }
  if s.scene.alert_blinkingrate > 0 then
    if s.alert_blinked then
      if s.alert_blinking_alpha > 0 ∧ s.alert_blinking_alpha < 1 then
        { s with alert_blinking_alpha :=
            s.alert_blinking_alpha + (5 / 100 : ℚ) * s.scene.alert_blinkingrate }
      else { s with alert_blinked := false }
    else
      if s.alert_blinking_alpha > (25 / 100 : ℚ) then
        { s with alert_blinking_alpha :=
            s.alert_blinking_alpha - (5 / 100 : ℚ) * s.scene.alert_blinkingrate }
      else
        { s with alert_blinking_alpha := s.alert_blinking_alpha + (25 / 100 : ℚ)
                 alert_blinked := true }
  else s

/-- Lines 498-517 of `handle_message`: the fields copied from the message
before the alert sound is looked at. -/
def handle_controls_fields (s : UIState) (logMonoTime : Nat) (data : ControlsStateData) :
    UIState :=
  let s : UIState := { s with controls_timeout := 1 * UI_FREQ }
  let s : UIState := { s with scene := { s.scene with frontview := data.rearViewCam } }
  let s : UIState := if !s.scene.frontview then { s with controls_seen := true } else s
  let s : UIState :=
    if data.vCruise ≠ s.scene.v_cruise then
      { s with scene := { s.scene with v_cruise_update_ts := logMonoTime } }
    else s
  { s with scene :=
      { s.scene with
        v_cruise := data.vCruise
        v_ego := data.vEgo
        curvature := data.curvature
        engaged := data.enabled
        engageable := data.engageable
        gps_planner_active := data.gpsPlannerActive
        monitoring_active := data.driverMonitoringOn
        angleSteers := data.angleSteers
        angleSteersDes := data.angleSteersDes
        decel_for_model := data.decelForModel } }

/-- Lines 533-536 of `handle_message`: the alert texts, time and size. -/
def handle_alert_text (s : UIState) (logMonoTime : Nat) (data : ControlsStateData) : UIState :=
  { s with scene :=
      { s.scene with
        alert_text1 := data.alertText1
        alert_text2 := data.alertText2
        alert_ts := logMonoTime
        alert_size := data.alertSize } }

/-- The `CONTROLS_STATE` arm of `handle_message` (lines 496-562), entered only
when `s->started` holds. -/
def handle_controls_state (cfg : Config) (s : UIState) (logMonoTime : Nat)
    (data : ControlsStateData) : UIState × List Effect :=
  seq (handle_alert_sound cfg (handle_controls_fields s logMonoTime data) data) fun s =>
    let s := handle_alert_text s logMonoTime data
    let s := handle_alert_status s data.alertStatus
    (handle_alert_blinking s data.alertBlinkingRate, [])

/-- The arms of `handle_message` (lines 495-648): the `if / else if` chain on
`event.which()`. -/
def handle_message_arms (cfg : Config) (s : UIState) (event : Event) : Step UIState :=
  match event with
  | Event.CONTROLS_STATE logMonoTime data =>
    if s.started then Step.lift (handle_controls_state cfg s logMonoTime data) else Step.ok s
  | Event.RADAR_STATE leaddatad leaddatad2 =>
    Step.ok
      { s with
        scene :=
          { s.scene with
            lead_status := leaddatad.status
            lead_d_rel := leaddatad.dRel
            lead_y_rel := leaddatad.yRel
            lead_v_rel := leaddatad.vRel
            lead_status2 := leaddatad2.status
            lead_d_rel2 := leaddatad2.dRel
            lead_y_rel2 := leaddatad2.yRel
            lead_v_rel2 := leaddatad2.vRel }
        livempc_or_radarstate_changed := true }
  | Event.LIVE_CALIBRATION extrinsicl =>
    (list_read cfg extrinsicl (3 * 4)).andThen fun v =>
    Step.ok
      { s with
        scene :=
          { s.scene with
            world_objects_visible := true
            extrinsic_matrix := v ++ s.scene.extrinsic_matrix.drop (3 * 4) } }
  | Event.MODEL model =>
    (read_model cfg model).andThen fun d =>
    Step.ok { s with scene := { s.scene with model := d }, model_changed := true }
  | Event.LIVE_MPC x_list y_list =>
    (list_read cfg x_list 50).andThen fun mpc_x =>
    (list_read cfg y_list 50).andThen fun mpc_y =>
    Step.ok
      { s with
        scene := { s.scene with mpc_x := mpc_x, mpc_y := mpc_y }
        livempc_or_radarstate_changed := true }
  | Event.UI_LAYOUT_STATE activeApp sidebarCollapsed mockEngaged =>
    let s : UIState :=
      { s with
        active_app := activeApp
        scene := { s.scene with uilayout_sidebarcollapsed := sidebarCollapsed } }
    if mockEngaged ≠ s.scene.uilayout_mockengaged then
      Step.ok { s with scene := { s.scene with uilayout_mockengaged := mockEngaged } }
    else Step.ok s
  | Event.LIVE_MAP_DATA mapValid =>
    Step.ok { s with scene := { s.scene with map_valid := mapValid } }
  | Event.THERMAL data =>
    Step.ok
      { s with
        scene :=
          { s.scene with
            networkType := data.networkType
            networkStrength := data.networkStrength
            batteryPercent := data.batteryPercent
            batteryCharging := decide (data.batteryStatus = "Charging")
            freeSpace := data.freeSpace
            thermalStatus := data.thermalStatus
            paTemp := data.pa0
            ipAddr := data.ipAddr.take 19 }
        thermal_started := data.started }
  | Event.UBLOX_GNSS measurementReport =>
    match measurementReport with
    | some numMeas => Step.ok { s with scene := { s.scene with satelliteCount := numMeas } }
    | none => Step.ok s
  | Event.HEALTH hwType =>
    Step.ok { s with scene := { s.scene with hwType := hwType }, hardware_timeout := 5 * 30 }
  | Event.DRIVER_STATE faceProb fxy_list =>
    (list_read cfg fxy_list 2).andThen fun fxy =>
    Step.ok
      { s with
        scene :=
          { s.scene with
            face_prob := faceProb
            face_x := fxy.getD 0 0
            face_y := fxy.getD 1 0 } }
  | Event.D_MONITORING_STATE isRHD awarenessStatus isPreview =>
    Step.ok
      { s with
        scene := { s.scene with is_rhd := isRHD, awareness_status := awarenessStatus }
        preview_started := isPreview }
  | Event.CAR_STATE data =>
    let s : UIState :=
      if s.scene.leftBlinker ≠ data.leftBlinker ∨ s.scene.rightBlinker ≠ data.rightBlinker then
        { s with scene := { s.scene with blinker_blinkingrate := 100 } }
      else s
    Step.ok
      { s with
        scene :=
          { s.scene with
            leftBlinker := data.leftBlinker
            rightBlinker := data.rightBlinker
            brakeLights := data.brakeLights
            isReversing := decide (data.gearShifter = GearShifter.REVERSE) } }
  | Event.other _ => Step.ok s

/-- Lines 650-667 of `handle_message`: `started` is recomputed and the
onroad/offroad transition is applied. -/
def handle_message_transition (s : UIState) : UIState × List Effect :=
  let s : UIState := { s with started := s.thermal_started || s.preview_started }
  if !s.started then
    if s.status ≠ STATUS_STOPPED then
      let s := update_status s STATUS_STOPPED
      let s : UIState :=
        { s with
          alert_sound_timeout := 0
          vision_seen := false
          controls_seen := false
          active_app := App.HOME }
      (s, Effect.framebuffer_swap_layer 0 :: update_offroad_layout_state s)
    else (s, [])
  else if s.status = STATUS_STOPPED then
    let s := update_status s STATUS_DISENGAGED
    let s : UIState := { s with active_app := App.NONE }
    (s, update_offroad_layout_state s)
  else (s, [])

/-- The function `handle_message` on a decoded event. -/
def handle_message (cfg : Config) (s : UIState) (event : Event) : Step UIState :=
  (handle_message_arms cfg s event).andThen fun s => Step.lift (handle_message_transition s)

/-! ## Start-up -/

/-- A `PathData` of zero bytes. -/
def PathData.zero : PathData :=
  { prob := 0, std := 0, poly := [], points := [] }

/-- A `LeadData` of zero bytes. -/
def LeadData.zero : LeadData :=
  { dist := 0, prob := 0, std := 0 }

/-- A `ModelData` of zero bytes. -/
def ModelData.zero : ModelData :=
  { path := PathData.zero, left_lane := PathData.zero, right_lane := PathData.zero
    lead := LeadData.zero }

/-- A `UIScene` of zero bytes. -/
def UIScene.zero : UIScene :=
  {
    frontview := false
    fullview := false
    transformed_width := 0
    transformed_height := 0
    model := ModelData.zero
    mpc_x := []
    mpc_y := []
    world_objects_visible := false
    extrinsic_matrix := []
    v_cruise := 0
    v_cruise_update_ts := 0
    v_ego := 0
    decel_for_model := false
    speedlimit := 0
    speedlimit_valid := false
    map_valid := false
    curvature := 0
    engaged := false
    engageable := false
    monitoring_active := false
    uilayout_sidebarcollapsed := false
    uilayout_mapenabled := false
    uilayout_mockengaged := false
    ui_viz_rx := 0
    ui_viz_rw := 0
    ui_viz_ro := 0
    lead_status := false
    lead_d_rel := 0
    lead_y_rel := 0
    lead_v_rel := 0
    lead_status2 := false
    lead_d_rel2 := 0
    lead_y_rel2 := 0
    lead_v_rel2 := 0
    face_prob := 0
    is_rhd := false
    face_x := 0
    face_y := 0
    front_box_x := 0
    front_box_y := 0
    front_box_width := 0
    front_box_height := 0
    alert_ts := 0
    alert_text1 := ""
    alert_text2 := ""
    alert_size := AlertSize.NONE
    alert_blinkingrate := 0
    awareness_status := 0
    gps_planner_active := false
    networkType := 0
    networkStrength := 0
    batteryPercent := 0
    batteryCharging := false
    freeSpace := 0
    thermalStatus := 0
    paTemp := 0
    hwType := HwType.UNKNOWN
    satelliteCount := 0
    athenaStatus := 0
    angleSteersDes := 0
    angleSteers := 0
    ipAddr := ""
    alert_rate := 0
    alert_type := 0
    isReversing := false
    leftBlinker := false
    rightBlinker := false
    brakeLights := false
    blinker_blinkingrate := 0 }

/-- The state after `memset(s, 0, sizeof(UIState))`. -/
def UIState.zero : UIState :=
  {
    active_app := App.HOME
    vision_connected := false
    vision_connect_firstrun := false
    ipc_fd := 0
    cur_vision_idx := 0
    cur_vision_front_idx := 0
    rgb_width := 0
    rgb_height := 0
    rgb_stride := 0
    rgb_buf_len := 0
    rgb_front_width := 0
    rgb_front_height := 0
    rgb_front_stride := 0
    rgb_front_buf_len := 0
    scene := UIScene.zero
    awake := false
    awake_timeout := 0
    volume_timeout := 0
    controls_timeout := 0
    alert_sound_timeout := 0
    speed_lim_off_timeout := 0
    is_metric_timeout := 0
    longitudinal_control_timeout := 0
    limit_set_speed_timeout := 0
    hardware_timeout := 0
    last_athena_ping_timeout := 0
    offroad_layout_timeout := 0
    controls_seen := false
    last_athena_ping := 0
    status := 0
    is_metric := false
    longitudinal_control := false
    limit_set_speed := false
    speed_lim_off := 0
    is_ego_over_limit := false
    alert_type := ""
    alert_sound := AudibleAlert.NONE
    alert_blinking_alpha := 0
    alert_blinked := false
    started := false
    thermal_started := false
    preview_started := false
    vision_seen := false
    light_sensor := 0
    model_changed := false
    livempc_or_radarstate_changed := false
    dragon_updating_timeout := 0
    dragon_last_modified_timeout := 0
    dragon_ui_speed := false
    dragon_ui_event := false
    dragon_ui_maxspeed := false
    dragon_ui_face := false
    dragon_ui_dev := false
    dragon_ui_dev_mini := false
    dragon_enable_dashcam := false
    dragon_ui_volume_boost := 0
    dragon_driving_ui := false
    dragon_ui_lane := false
    dragon_ui_lead := false
    dragon_ui_path := false
    dragon_ui_blinker := false
    dragon_waze_mode := false
    dragon_ui_dm_view := false
    dragon_updating := false
    dragon_df_mode := 0
    dragon_ap_mode := 0
    dragon_enable_dm := false
    dragon_locale := ""
    dragon_ui_screen_off_reversing := false
    dragon_last_modified := ""
    dragon_ui_screen_off_driving := false
    dragon_ui_brightness := 0 }

/-- The function `ui_init`, as far as the modelled fields go. -/
def ui_init (cfg : Config) : UIState × List Effect :=
  seq (set_awake cfg { UIState.zero with ipc_fd := -1 } true) fun s =>
    ({ s with model_changed := false, livempc_or_radarstate_changed := false }, [])

/-- The state `main` enters its loop with (lines 1049-1061). -/
def main_init (cfg : Config) : UIState × List Effect :=
  seq (ui_init cfg) fun s =>
    let s : UIState :=
      { s with
        volume_timeout := 5 * UI_FREQ
        scene := { s.scene with satelliteCount := -1, alert_rate := 0, alert_type := 1 }
        started := false
        vision_seen := false }
    if s.dragon_ui_screen_off_driving then set_awake cfg s true else (s, [])

/-! ## The parameter store and its readers -/

/-- The parameter store as `read_db_value` sees it: the value kept under a name
(in the persistent directory or not), or none when the read fails. -/
abbrev Store := String → Bool → Option String

/-- The function `read_param_bool`: the new value of `*param`. -/
def read_param_bool (store : Store) (param : Bool) (param_name : String)
    (persistent_param : Bool) : Bool × List Effect :=
  match store param_name persistent_param with
  | some str => (decide (str.get 0 = '1'), [Effect.read_db_value param_name persistent_param])
  | none => (param, [Effect.read_db_value param_name persistent_param])

/-- The function `read_param_float`: the new value of `*param` and the result
code, `0` for a successful read and `-1` for a failed one. -/
def read_param_float (cfg : Config) (store : Store) (param : ℚ) (param_name : String)
    (persistent_param : Bool) : (ℚ × Int) × List Effect :=
  match store param_name persistent_param with
  | some str => ((cfg.strtod str, 0), [Effect.read_db_value param_name persistent_param])
  | none => ((param, -1), [Effect.read_db_value param_name persistent_param])

/-- The function `read_param_uint64`: the new value of `*dest` and the result
code. -/
def read_param_uint64 (cfg : Config) (store : Store) (dest : Nat) (param_name : String)
    (persistent_param : Bool) : (Nat × Int) × List Effect :=
  match store param_name persistent_param with
  | some str =>
    ((cfg.strtoull str % 2 ^ 64, 0), [Effect.read_db_value param_name persistent_param])
  | none => ((dest, -1), [Effect.read_db_value param_name persistent_param])

/-- The function `read_param_string`: the new content of `param`.  It reads
without the persistence flag, and `snprintf(param, 128, "%s", s)` writes up to
127 characters and a terminator whatever the buffer holds.  `size` is the size
of the buffer `param` points to, which the C function is not told: both call
sites pass a `char[20]` field of `UIState` (`ui.hpp` lines 354 and 356).  A
character of the model stands for a byte.  A value that does not fit is written
beyond the end of the buffer, over the fields that follow it: what the
program does from there on is not modelled, and the run ends with
`Fault.buffer_overflow`. -/
def read_param_string (store : Store) (param : String) (size : Nat) (param_name : String) :
    Step String :=
  (Step.emit [Effect.read_db_value param_name false]).andThen fun _ =>
  match store param_name false with
  | some str =>
    if min str.length 127 + 1 ≤ size then Step.ok (str.take 127)
    else Step.fail Fault.buffer_overflow
  | none => Step.ok param

/-- The function `read_param_bool_timeout`: the new values of `*param` and
`*timeout`. -/
def read_param_bool_timeout (store : Store) (param : Bool) (param_name : String)
    (timeout : Int) (persistent_param : Bool) : (Bool × Int) × List Effect :=
  if timeout > 0 then ((param, timeout - 1), [])
  else
    let r := read_param_bool store param param_name persistent_param
    ((r.1, 2 * UI_FREQ), r.2)

/-- The function `read_param_float_timeout`: the new values of `*param` and
`*timeout`. -/
def read_param_float_timeout (cfg : Config) (store : Store) (param : ℚ) (param_name : String)
    (timeout : Int) (persistent_param : Bool) : (ℚ × Int) × List Effect :=
  if timeout > 0 then ((param, timeout - 1), [])
  else
    let r := read_param_float cfg store param param_name persistent_param
    ((r.1.1, 2 * UI_FREQ), r.2)

/-- The function `read_param_uint64_timeout`: the new values of `*dest` and
`*timeout`, and the returned code.  The reading branch returns before the
assignment to `*timeout`, so the countdown is left as it was. -/
def read_param_uint64_timeout (cfg : Config) (store : Store) (dest : Nat) (param_name : String)
    (timeout : Int) (persistent_param : Bool) : (Nat × Int × Int) × List Effect :=
  if timeout > 0 then ((dest, timeout - 1, 0), [])
  else
    let r := read_param_uint64 cfg store dest param_name persistent_param
    ((r.1.1, timeout, r.1.2), r.2)

/-- The function `read_param_string_timeout`: the new content of `param` and
the new value of `*timeout`.  `size` is the size of the buffer `param` points
to. -/
def read_param_string_timeout (store : Store) (param : String) (size : Nat)
    (param_name : String) (timeout : Int) : Step (String × Int) :=
  if timeout > 0 then Step.ok (param, timeout - 1)
  else
    (read_param_string store param size param_name).andThen fun r =>
    Step.ok (r, 2 * UI_FREQ)

/-- The function `update_offroad_layout_timeout`: the new value of `*timeout`. -/
def update_offroad_layout_timeout (s : UIState) (timeout : Int) : Int × List Effect :=
  if timeout > 0 then (timeout - 1, [])
  else (2 * UI_FREQ, update_offroad_layout_state s)

/-! ## Touch handlers -/

/-- The function `navigate_to_settings`. -/
def navigate_to_settings (cfg : Config) (s : UIState) : UIState × List Effect :=
  if cfg.qcom then
    let s : UIState := { s with active_app := App.SETTINGS }
    (s, update_offroad_layout_state s)
  else (s, [])

/-- The function `navigate_to_home`. -/
def navigate_to_home (cfg : Config) (s : UIState) : UIState × List Effect :=
  if cfg.qcom then
    let s : UIState :=
      if s.started then { s with active_app := App.NONE } else { s with active_app := App.HOME }
    (s, update_offroad_layout_state s)
  else (s, [])

/-- The function `handle_sidebar_touch`. -/
def handle_sidebar_touch (cfg : Config) (s : UIState) (touch_x touch_y : Int) :
    UIState × List Effect :=
  if !s.scene.uilayout_sidebarcollapsed ∧ touch_x ≤ sbr_w then
    let r1 : UIState × List Effect :=
      if touch_x ≥ settings_btn_x ∧ touch_x < settings_btn_x + settings_btn_w
          ∧ touch_y ≥ settings_btn_y ∧ touch_y < settings_btn_y + settings_btn_h then
        navigate_to_settings cfg s
      else (s, [])
    seq r1 fun s =>
      if touch_x ≥ home_btn_x ∧ touch_x < home_btn_x + home_btn_w
          ∧ touch_y ≥ home_btn_y ∧ touch_y < home_btn_y + home_btn_h then
        seq (navigate_to_home cfg s) fun s =>
          if s.started then
            let s : UIState := { s with scene := { s.scene with uilayout_sidebarcollapsed := true } }
            (s, update_offroad_layout_state s)
          else (s, [])
      else (s, [])
  else (s, [])

/-- The function `handle_driver_view_touch`. -/
def handle_driver_view_touch (s : UIState) (_touch_x _touch_y : Int) : UIState × List Effect :=
  (s, [Effect.write_db_value "IsDriverViewEnabled" "0"])

/-- The conversion `(int)` of a `uint64_t`. -/
def int_of_uint64 (n : Nat) : Int :=
  if n % 2 ^ 32 < 2 ^ 31 then ((n % 2 ^ 32 : Nat) : Int) else ((n % 2 ^ 32 : Nat) : Int) - 2 ^ 32

/-- The function `handle_dp_btn_touch`: whether a button was hit, and the new
state.  `time` is the answer of `time(NULL)`.  Three things the C code does
here are left out.  `sprintf(str, "%d", val)` prints the mode, a digit and a
terminator, into `char str[1]`, one byte beyond its end; the value written to
the store is taken to be the digit.  `write_db_value("DragonLastModified",
time_str, 11)` writes the 11 bytes of `time_str`, which hold the digits of the
time, a terminator and, for a time of fewer than ten digits, bytes never
assigned; the value written is taken to be the digits, at most ten.  `val++`
is the increment of an `int`, taken here without a bound, the value being
replaced by 1 as soon as it reaches 5 (or 4). -/
def handle_dp_btn_touch (s : UIState) (touch_x touch_y : Int) (time : Nat) :
    (Bool × UIState) × List Effect :=
  if s.started ∧ s.active_app ≠ App.SETTINGS then
    if int_of_uint64 s.dragon_df_mode > 0 ∧ touch_x ≥ df_btn_x ∧ touch_x ≤ df_btn_x + df_btn_w
        ∧ touch_y ≥ df_btn_y ∧ touch_y ≤ df_btn_y + df_btn_h then
      let val : Int := int_of_uint64 s.dragon_df_mode + 1
      let val : Int := if val ≥ 5 then 1 else val
      ((true,
          { s with
            scene := { s.scene with uilayout_sidebarcollapsed := true }
            dragon_df_mode := val.toNat }),
        [Effect.write_db_value "DragonDynamicFollow" ((toString val).take 1),
          Effect.write_db_value "DragonLastModified" ((toString time).take 10)])
    else if int_of_uint64 s.dragon_ap_mode > 0 ∧ touch_x ≥ ap_btn_x
        ∧ touch_x ≤ ap_btn_x + ap_btn_w ∧ touch_y ≥ ap_btn_y ∧ touch_y ≤ ap_btn_y + ap_btn_h then
      let val : Int := int_of_uint64 s.dragon_ap_mode + 1
      let val : Int := if val ≥ 4 then 1 else val
      ((true,
          { s with
            scene := { s.scene with uilayout_sidebarcollapsed := true }
            dragon_ap_mode := val.toNat }),
        [Effect.write_db_value "DragonAccelProfile" ((toString val).take 1),
          Effect.write_db_value "DragonLastModified" ((toString time).take 10)])
    else ((false, s), [])
  else ((false, s), [])

/-- The function `handle_vision_touch`. -/
def handle_vision_touch (s : UIState) (touch_x touch_y : Int) : UIState × List Effect :=
  if s.started ∧ touch_x ≥ s.scene.ui_viz_rx - bdr_s ∧ s.active_app ≠ App.SETTINGS then
    let r : UIState × List Effect :=
      if !s.scene.frontview then
        ({ s with scene :=
            { s.scene with uilayout_sidebarcollapsed := !s.scene.uilayout_sidebarcollapsed } }, [])
      else handle_driver_view_touch s touch_x touch_y
    (r.1, r.2 ++ update_offroad_layout_state r.1)
  else (s, [])

/-! ## `check_messages` and `ui_update` -/

/-- The function `check_messages`, on the events the poller delivers until it
runs dry, in the order they are received. -/
def check_messages (cfg : Config) (s : UIState) : List Event → Step UIState
  | [] => Step.ok s
  | event :: rest => (handle_message cfg s event).andThen fun s => check_messages cfg s rest

/-- A use of `assert`: checked unless `NDEBUG` is set. -/
def c_assert (cfg : Config) (cond : Bool) : Step Unit :=
  if cfg.ndebug || cond then Step.ok () else Step.fail Fault.assert_failed

/-- What one pass of the loop of `ui_update` finds. -/
inductive PollAnswer
  /-- `zmq_poll` fails with `EINTR` or `EAGAIN`. -/
  | poll_interrupted
  /-- `zmq_poll` fails with another error. -/
  | poll_failed
  /-- `zmq_poll` returns `0`: nothing to read. -/
  | poll_empty
  /-- `zmq_poll` reports input and `vipc_recv` returns `<= 0`. -/
  | recv_failed
  /-- `zmq_poll` reports input and `vipc_recv` delivers a packet. -/
  | recv (rp : VisionPacket)
  deriving DecidableEq

/-- Lines 756-769 of `ui_update`: what the first run after a connect does to
the state once the textures are set up. -/
def ui_update_firstrun_state (s : UIState) : UIState × List Effect :=
  let s : UIState := { s with scene := { s.scene with uilayout_sidebarcollapsed := true } }
  let publish := update_offroad_layout_state s
  let s : UIState :=
    { s with
      scene :=
        { s.scene with
          ui_viz_rx := box_x - sbr_w + bdr_s * 2
          ui_viz_rw := box_w + sbr_w - (bdr_s * 2)
          ui_viz_ro := 0 }
      vision_connect_firstrun := false
      alert_blinking_alpha := 1
      alert_blinked := false }
  if s.dragon_waze_mode then (s, publish ++ [Effect.framebuffer_swap_layer 0x00010000])
  else (s, publish)

/-- Lines 690-770 of `ui_update`: the work of the first run after a connect.
The texture set-up is left out but for its closing `assert`, which `gl_ok`
answers. -/
def ui_update_firstrun (cfg : Config) (s : UIState) (gl_ok : Bool) : Step UIState :=
  if s.vision_connect_firstrun then
    (c_assert cfg gl_ok).andThen fun _ => Step.lift (ui_update_firstrun_state s)
  else Step.ok s

/-- Lines 807-838 of `ui_update`: a received packet. -/
def ui_update_packet (cfg : Config) (s : UIState) (rp : VisionPacket) : Step UIState :=
  match rp with
  | VisionPacket.VIPC_STREAM_ACQUIRE type idx =>
    let front : Bool := decide (type = VisionStreamType.VISION_STREAM_RGB_FRONT)
    let release_idx : Int := if front then s.cur_vision_front_idx else s.cur_vision_idx
    (if release_idx ≥ 0 then
      Step.emit [Effect.vipc_send s.ipc_fd (VisionPacket.VIPC_STREAM_RELEASE type release_idx)]
    else Step.ok ()).andThen fun _ =>
    (c_assert cfg (decide (idx < UI_BUF_COUNT))).andThen fun _ =>
    if front then Step.ok { s with cur_vision_front_idx := idx }
    else Step.ok { s with cur_vision_idx := idx }
  | _ => (c_assert cfg false).andThen fun _ => Step.ok s

/-- Lines 774-840 of `ui_update`: the loop, one answer of the transport per
pass. -/
def ui_update_loop (cfg : Config) (s : UIState) : List PollAnswer → Step UIState
  | [] => (c_assert cfg (decide (s.ipc_fd ≥ 0))).andThen fun _ => Step.fail Fault.script_exhausted
  | answer :: rest =>
    (c_assert cfg (decide (s.ipc_fd ≥ 0))).andThen fun _ =>
    match answer with
    | PollAnswer.poll_interrupted => ui_update_loop cfg s rest
    | PollAnswer.poll_failed =>
      (Step.emit [Effect.close s.ipc_fd]).andThen fun _ =>
      Step.ok { s with ipc_fd := -1, vision_connected := false }
    | PollAnswer.poll_empty => Step.ok s
    | PollAnswer.recv_failed =>
      (Step.emit [Effect.close s.ipc_fd]).andThen fun _ =>
      Step.ok { s with ipc_fd := -1, vision_connected := false }
    | PollAnswer.recv rp => ui_update_packet cfg s rp

/-- The function `ui_update`. -/
def ui_update (cfg : Config) (s : UIState) (gl_ok : Bool) (answers : List PollAnswer) :
    Step UIState :=
  (ui_update_firstrun cfg s gl_ok).andThen fun s => ui_update_loop cfg s answers

/-! ## The body of the main loop -/

/-- What the outside world answers during one pass of the main loop. -/
structure TickEnv where
  /-- The answer of `touch_poll`: the coordinates when a touch is reported. -/
  touch : Option (Int × Int)
  /-- The answer of `time(NULL)`. -/
  time : Nat
  /-- Whether `glGetError()` reports no error in the first run of `ui_update`. -/
  gl_ok : Bool
  /-- The answers of the vision socket to the passes of the loop of `ui_update`. -/
  answers : List PollAnswer
  /-- The events `check_messages` receives, in order. -/
  events : List Event
  /-- The parameter store as the reads of this pass find it. -/
  store : Store
  /-- The answer of `nanos_since_boot()` at the connectivity check. -/
  nanos_since_boot : Nat

/-- The state `main` carries from one pass of its loop to the next: the
`UIState` and the file-scope buffer `last_modified`. -/
structure MainState where
  s : UIState
  last_modified : String

/-- Lines 1084-1087 of `main`: the geometry that follows the sidebar. -/
def tick_layout (s : UIState) : UIState :=
  let hasSidebar : Bool := !s.scene.uilayout_sidebarcollapsed
  { s with
    scene :=
      { s.scene with
        ui_viz_rx := if hasSidebar then box_x else box_x - sbr_w + bdr_s * 2
        ui_viz_rw := if hasSidebar then box_w else box_w + sbr_w - bdr_s * 2
        ui_viz_ro := if hasSidebar then -(sbr_w - 6 * bdr_s) else 0 } }

/-- Lines 1101-1104 of `main`: the routing of a touch to the three handlers. -/
def tick_route_touch (cfg : Config) (s : UIState) (touch_x touch_y : Int) (time : Nat) :
    UIState × List Effect :=
  let r := handle_dp_btn_touch s touch_x touch_y time
  if !r.1.1 then
    seq (seq (r.1.2, r.2) fun s => handle_sidebar_touch cfg s touch_x touch_y) fun s =>
      handle_vision_touch s touch_x touch_y
  else (r.1.2, r.2)

/-- Lines 1089-1107 of `main`: the forced collapse in waze mode, or the touch. -/
def tick_touch (cfg : Config) (s : UIState) (env : TickEnv) : UIState × List Effect :=
  if s.started && s.dragon_waze_mode then
    ({ s with scene := { s.scene with uilayout_sidebarcollapsed := true } }, [])
  else
    match env.touch with
    | none => (s, [])
    | some (touch_x, touch_y) =>
      if s.dragon_ui_screen_off_driving ∧ s.awake_timeout = 0 then set_awake cfg s true
      else seq (set_awake cfg s true) fun s => tick_route_touch cfg s touch_x touch_y env.time

/-- Lines 1113-1119 of `main`: the screen policy while the car is started. -/
def tick_screen (cfg : Config) (s : UIState) : UIState × List Effect :=
  if s.dragon_ui_screen_off_driving then (s, [])
  else if s.scene.isReversing && s.dragon_ui_screen_off_reversing then set_awake cfg s false
  else set_awake cfg s true

/-- Lines 1127-1134 of `main`: the redraw when the session stopped in this pass. -/
def tick_stopped (s : UIState) : UIState × List Effect :=
  if !s.started then
    let s : UIState := { s with scene := { s.scene with uilayout_sidebarcollapsed := false } }
    (s, update_offroad_layout_state s ++ [Effect.ui_draw])
  else (s, [])

/-- Lines 1109-1135 of `main`: the vision update and the bus events. -/
def tick_messages (cfg : Config) (s : UIState) (env : TickEnv) : Step UIState :=
  if !s.started then check_messages cfg s env.events
  else
    (Step.lift (tick_screen cfg s)).andThen fun s =>
    (if s.vision_connected then ui_update cfg s env.gl_ok env.answers else Step.ok s).andThen
      fun s =>
    (check_messages cfg s env.events).andThen fun s => Step.lift (tick_stopped s)

/-- Lines 1137-1142 of `main`: the awake countdown. -/
def tick_awake (cfg : Config) (s : UIState) : UIState × List Effect :=
  if s.awake_timeout > 0 then ({ s with awake_timeout := s.awake_timeout - 1 }, [])
  else set_awake cfg s false

/-- Lines 1144-1149 of `main`: the hardware countdown. -/
def tick_hardware (s : UIState) : UIState :=
  if s.hardware_timeout > 0 then { s with hardware_timeout := s.hardware_timeout - 1 }
  else { s with scene := { s.scene with hwType := HwType.UNKNOWN } }

/-- Lines 1151-1156 of `main`: the drawing while the screen is on. -/
def tick_draw (s : UIState) : List Effect :=
  if s.awake then [Effect.ui_draw] else []

/-- Lines 1158-1168 of `main`: the volume countdown.  The volume computed from
`v_ego` goes to the audio service and is not modelled. -/
def tick_volume (s : UIState) : UIState × List Effect :=
  if s.volume_timeout > 0 then ({ s with volume_timeout := s.volume_timeout - 1 }, [])
  else ({ s with volume_timeout := 5 * UI_FREQ }, [Effect.set_volume])

/-- Lines 1174-1187 of `main`: the synthesized alert, entered when the car is
started, controls have been seen and the alert is not yet shown. -/
def tick_controls_unresponsive (s : UIState) : UIState × List Effect :=
  let s : UIState := { s with scene := { s.scene with alert_size := AlertSize.FULL } }
  let s := update_status s STATUS_ALERT
  let s : UIState :=
    { s with
      scene :=
        { s.scene with
          alert_text1 := "TAKE CONTROL IMMEDIATELY"
          alert_text2 := "Controls Unresponsive" } }
  let draw :=
    Effect.ui_draw_vision_alert s.scene.alert_size s.status s.scene.alert_text1
      s.scene.alert_text2
  let s : UIState :=
    { s with
      alert_sound_timeout := 2 * UI_FREQ
      alert_sound := AudibleAlert.CHIME_WARNING_REPEAT }
  (s, [draw, Effect.play_alert_sound s.alert_sound])

/-- Lines 1170-1191 of `main`: the controls countdown. -/
def tick_controls (s : UIState) : UIState × List Effect :=
  if s.controls_timeout > 0 then ({ s with controls_timeout := s.controls_timeout - 1 }, [])
  else
    let r : UIState × List Effect :=
      if s.started ∧ s.controls_seen ∧ s.scene.alert_text2 ≠ "Controls Unresponsive" then
        tick_controls_unresponsive s
      else (s, [])
    ({ r.1 with alert_sound_timeout := r.1.alert_sound_timeout - 1, controls_seen := false }, r.2)

/-- Lines 1193-1198 of `main`: the end of the alert sound. -/
def tick_alert_sound (s : UIState) : UIState × List Effect :=
  if (!s.started || (s.started && decide (s.alert_sound_timeout = 0))) ∧
      s.alert_sound ≠ AudibleAlert.NONE then
    ({ s with alert_sound := AudibleAlert.NONE }, [Effect.stop_alert_sound s.alert_sound])
  else (s, [])

/-- Lines 1200-1216 of `main`: the countdown-gated parameter reads.  The last
of them reads a string into the `char[20]` field `dragon_last_modified`. -/
def tick_params (cfg : Config) (s : UIState) (env : TickEnv) : Step UIState :=
  let r1 := read_param_bool_timeout env.store s.is_metric "IsMetric" s.is_metric_timeout false
  let s : UIState := { s with is_metric := r1.1.1, is_metric_timeout := r1.1.2 }
  let r2 :=
    read_param_bool_timeout env.store s.longitudinal_control "LongitudinalControl"
      s.longitudinal_control_timeout false
  let s : UIState :=
    { s with longitudinal_control := r2.1.1, longitudinal_control_timeout := r2.1.2 }
  let r3 :=
    read_param_bool_timeout env.store s.limit_set_speed "LimitSetSpeed"
      s.limit_set_speed_timeout false
  let s : UIState := { s with limit_set_speed := r3.1.1, limit_set_speed_timeout := r3.1.2 }
  let r4 :=
    read_param_float_timeout cfg env.store s.speed_lim_off "SpeedLimitOffset"
      s.limit_set_speed_timeout false
  let s : UIState := { s with speed_lim_off := r4.1.1, limit_set_speed_timeout := r4.1.2 }
  let r5 :=
    read_param_uint64_timeout cfg env.store s.last_athena_ping "LastAthenaPingTime"
      s.last_athena_ping_timeout false
  let s : UIState := { s with last_athena_ping := r5.1.1, last_athena_ping_timeout := r5.1.2.1 }
  let param_read : Int := r5.1.2.2
  let s : UIState :=
    { s with
      scene :=
        { s.scene with
          athenaStatus :=
            if param_read ≠ 0 then NET_DISCONNECTED
            else if (env.nanos_since_boot + 2 ^ 64 - s.last_athena_ping) % 2 ^ 64 < 70000000000 then
              NET_CONNECTED
            else NET_ERROR } }
  let r6 := update_offroad_layout_timeout s s.offroad_layout_timeout
  let s : UIState := { s with offroad_layout_timeout := r6.1 }
  let r7 :=
    read_param_bool_timeout env.store s.dragon_updating "DragonUpdating"
      s.dragon_updating_timeout false
  let s : UIState := { s with dragon_updating := r7.1.1, dragon_updating_timeout := r7.1.2 }
  (Step.emit (r1.2 ++ r2.2 ++ r3.2 ++ r4.2 ++ r5.2 ++ r6.2 ++ r7.2)).andThen fun _ =>
  (read_param_string_timeout env.store s.dragon_last_modified 20 "DragonLastModified"
    s.dragon_last_modified_timeout).andThen fun r8 =>
  Step.ok { s with dragon_last_modified := r8.1, dragon_last_modified_timeout := r8.2 }

/-- Lines 1220-1228 of `main`: the settings read whenever the generation
changed.  The first of them reads a string into the `char[20]` field
`dragon_locale`. -/
def refresh_settings (cfg : Config) (s : UIState) (store : Store) : Step UIState :=
  (read_param_string store s.dragon_locale 20 "DragonLocale").andThen fun r1 =>
  let r2 := read_param_bool store s.dragon_waze_mode "DragonWazeMode" false
  let r3 := read_param_float cfg store s.dragon_ui_volume_boost "DragonUIVolumeBoost" false
  let r4 := read_param_uint64 cfg store s.dragon_df_mode "DragonDynamicFollow" false
  let r5 := read_param_uint64 cfg store s.dragon_ap_mode "DragonAccelProfile" false
  let r6 :=
    read_param_bool store s.dragon_ui_screen_off_reversing "DragonUIScreenOffReversing" false
  let r7 := read_param_bool store s.dragon_ui_screen_off_driving "DragonUIScreenOffDriving" false
  let r8 := read_param_uint64 cfg store s.dragon_ui_brightness "DragonUIBrightness" false
  Step.lift
    ({ s with
        dragon_locale := r1
        dragon_waze_mode := r2.1
        dragon_ui_volume_boost := r3.1.1
        dragon_df_mode := r4.1.1
        dragon_ap_mode := r5.1.1
        dragon_ui_screen_off_reversing := r6.1
        dragon_ui_screen_off_driving := r7.1
        dragon_ui_brightness := r8.1.1 },
      r2.2 ++ r3.2 ++ r4.2 ++ r5.2 ++ r6.2 ++ r7.2 ++ r8.2)

/-- Lines 1230-1263 of `main`, which are also lines 402-435 of
`ui_init_vision` word for word: the display toggles, forced off in waze mode
and read from the store otherwise. -/
def refresh_toggles (s : UIState) (store : Store) : UIState × List Effect :=
  if s.dragon_waze_mode then
    ({ s with
        dragon_ui_speed := false
        dragon_ui_event := false
        dragon_ui_maxspeed := false
        dragon_ui_face := false
        dragon_ui_dev := false
        dragon_ui_dev_mini := false
        dragon_enable_dashcam := false
        dragon_driving_ui := false
        dragon_ui_lane := false
        dragon_ui_lead := false
        dragon_ui_path := false
        dragon_ui_blinker := false
        dragon_ui_dm_view := false }, [])
  else
    let r0 := read_param_bool store s.dragon_enable_dm "DragonEnableDriverMonitoring" false
    let s : UIState := { s with dragon_enable_dm := r0.1 }
    let rf : Bool × List Effect :=
      if !s.dragon_enable_dm then (false, [])
      else read_param_bool store s.dragon_ui_face "DragonUIFace" false
    let r1 := read_param_bool store s.dragon_ui_speed "DragonUISpeed" false
    let r2 := read_param_bool store s.dragon_ui_event "DragonUIEvent" false
    let r3 := read_param_bool store s.dragon_ui_maxspeed "DragonUIMaxSpeed" false
    let r4 := read_param_bool store s.dragon_ui_dev "DragonUIDev" false
    let r5 := read_param_bool store s.dragon_ui_dev_mini "DragonUIDevMini" false
    let r6 := read_param_bool store s.dragon_enable_dashcam "DragonEnableDashcam" false
    let r7 := read_param_bool store s.dragon_driving_ui "DragonDrivingUI" false
    let r8 := read_param_bool store s.dragon_ui_lane "DragonUILane" false
    let r9 := read_param_bool store s.dragon_ui_lead "DragonUILead" false
    let r10 := read_param_bool store s.dragon_ui_path "DragonUIPath" false
    let r11 := read_param_bool store s.dragon_ui_blinker "DragonUIBlinker" false
    let r12 := read_param_bool store s.dragon_ui_dm_view "DragonUIDMView" false
    ({ s with
        dragon_ui_face := rf.1
        dragon_ui_speed := r1.1
        dragon_ui_event := r2.1
        dragon_ui_maxspeed := r3.1
        dragon_ui_dev := r4.1
        dragon_ui_dev_mini := r5.1
        dragon_enable_dashcam := r6.1
        dragon_driving_ui := r7.1
        dragon_ui_lane := r8.1
        dragon_ui_lead := r9.1
        dragon_ui_path := r10.1
        dragon_ui_blinker := r11.1
        dragon_ui_dm_view := r12.1 },
      r0.2 ++ rf.2 ++ r1.2 ++ r2.2 ++ r3.2 ++ r4.2 ++ r5.2 ++ r6.2 ++ r7.2 ++ r8.2 ++ r9.2
        ++ r10.2 ++ r11.2 ++ r12.2)

/-- Lines 1217-1264 of `main`: when `last_modified` differs from the cached
`DragonLastModified`, it takes the first 20 characters of the cached value and
the dependent settings are read. -/
def tick_generation (cfg : Config) (m : MainState) (store : Store) : Step MainState :=
  if m.last_modified ≠ m.s.dragon_last_modified then
    (refresh_settings cfg m.s store).andThen fun s1 =>
    let r2 := refresh_toggles s1 store
    Step.lift ({ s := r2.1, last_modified := m.s.dragon_last_modified.take 20 }, r2.2)
  else Step.ok m

/-- Lines 1083-1135 of `main`: the layout, the touch, the vision update and the
bus events of one pass. -/
def tick_events (cfg : Config) (s : UIState) (env : TickEnv) : Step UIState :=
  (Step.lift (tick_touch cfg (tick_layout s) env)).andThen fun s => tick_messages cfg s env

/-- Lines 1137-1264 of `main`: the countdowns, the parameter reads and the
generation check, which run after the touch and the events of the pass. -/
def tick_rest (cfg : Config) (s : UIState) (last_modified : String) (env : TickEnv) :
    Step MainState :=
  let r1 := tick_awake cfg s
  let s2 := tick_hardware r1.1
  let r3 := tick_volume s2
  let r4 := tick_controls r3.1
  let r5 := tick_alert_sound r4.1
  (Step.emit (r1.2 ++ tick_draw s2 ++ r3.2 ++ r4.2 ++ r5.2)).andThen fun _ =>
  (tick_params cfg r5.1 env).andThen fun s6 =>
  tick_generation cfg { s := s6, last_modified := last_modified } env.store

/-- One pass of the loop of `main`, lines 1083-1264.  The backlight (lines
1072-1081) and the buffer swap after the lock is released are left out. -/
def main_tick (cfg : Config) (m : MainState) (env : TickEnv) : Step MainState :=
  (tick_events cfg m.s env).andThen fun s => tick_rest cfg s m.last_modified env

/-- Consecutive passes of the loop of `main`, one `TickEnv` per pass. -/
def main_ticks (cfg : Config) (m : MainState) : List TickEnv → Step MainState
  | [] => Step.ok m
  | env :: rest => (main_tick cfg m env).andThen fun m => main_ticks cfg m rest

/-! ## The vision connection -/

/-- What one `vipc_recv` of `vision_subscribe` finds. -/
inductive RecvAnswer
  /-- `vipc_recv` returns `<= 0`. -/
  | recv_failed
  /-- `vipc_recv` delivers a packet. -/
  | recv (rp : VisionPacket)
  deriving DecidableEq

/-- The negation of the loop condition of `vision_subscribe` (line 875): the
packet is a buffer descriptor of the requested stream. -/
def VisionPacket.is_bufs_of (rp : VisionPacket) (type : VisionStreamType) : Bool :=
  match rp with
  | VisionPacket.VIPC_STREAM_BUFS stream_bufs _ => decide (stream_bufs.type = type)
  | _ => false

/-- Lines 865-874 of `vision_subscribe`: an `ACQUIRE` is answered with a
`RELEASE` of the same stream and slot.  The value that `vipc_send` returns is
not looked at. -/
def vision_subscribe_release (fd : Int) (rp : VisionPacket) : List Effect :=
  match rp with
  | VisionPacket.VIPC_STREAM_ACQUIRE type idx =>
    [Effect.vipc_send fd (VisionPacket.VIPC_STREAM_RELEASE type idx)]
  | _ => []

/-- Lines 857-877 of `vision_subscribe`: the receive loop, one answer of the
transport per pass, with the return value and the content of `*rp`.  A failed
receive leaves `*rp` as it was. -/
def vision_subscribe_loop (fd : Int) (type : VisionStreamType) (rp : VisionPacket) :
    List RecvAnswer → Step (Int × VisionPacket)
  | [] => Step.fail Fault.script_exhausted
  | RecvAnswer.recv_failed :: _ => ⟨[Effect.close fd], Except.ok (0, rp)⟩
  | RecvAnswer.recv p :: rest =>
    (Step.emit (vision_subscribe_release fd p)).andThen fun _ =>
    if p.is_bufs_of type then Step.ok (1, p) else vision_subscribe_loop fd type p rest

/-- The function `vision_subscribe`: the return value and the content of
`*rp`.  `send_err` is the value `vipc_send` returns for the `SUBSCRIBE`. -/
def vision_subscribe (fd : Int) (rp : VisionPacket) (type : VisionStreamType) (send_err : Int)
    (answers : List RecvAnswer) : Step (Int × VisionPacket) :=
  (Step.emit [Effect.vipc_send fd (VisionPacket.VIPC_STREAM_SUBSCRIBE type true)]).andThen
    fun _ =>
  if send_err < 0 then ⟨[Effect.close fd], Except.ok (0, rp)⟩
  else vision_subscribe_loop fd type rp answers

/-- A `VisionStreamBufs` of zero bytes. -/
def VisionStreamBufs.zero : VisionStreamBufs :=
  { type := VisionStreamType.VISION_STREAM_RGB_BACK, width := 0, height := 0, stride := 0
    buf_len := 0, transformed_width := 0, transformed_height := 0, front_box_x := 0
    front_box_y := 0, front_box_width := 0, front_box_height := 0 }

/-- The members `d.stream_bufs` and `num_fds` of a packet.  In a packet of
another kind the union holds other data; it is rendered as zeros.
`vision_connect_thread` reads the members only of a packet for which
`vision_subscribe` returned 1. -/
def VisionPacket.bufs : VisionPacket → VisionStreamBufs × Int
  | VisionPacket.VIPC_STREAM_BUFS stream_bufs num_fds => (stream_bufs, num_fds)
  | _ => (VisionStreamBufs.zero, 0)

/-- Lines 353-364 of `ui_init_vision`: the compound literal assigned to
`s->scene`.  Members it does not name are zero. -/
def ui_init_vision_scene (back_bufs : VisionStreamBufs) (frontview fullview : Bool) : UIScene :=
  { UIScene.zero with
    frontview := frontview
    fullview := fullview
    transformed_width := back_bufs.transformed_width
    transformed_height := back_bufs.transformed_height
    front_box_x := back_bufs.front_box_x
    front_box_y := back_bufs.front_box_y
    front_box_width := back_bufs.front_box_width
    front_box_height := back_bufs.front_box_height
    world_objects_visible := false
    gps_planner_active := false }

/-- Lines 383-400 of `ui_init_vision`: the parameters read at a connect, and
the copy of the cached `DragonLastModified` into `last_modified`. -/
def ui_init_vision_params (cfg : Config) (m : MainState) (store : Store) :
    Step MainState :=
  let s := m.s
  let r1 := read_param_float cfg store s.speed_lim_off "SpeedLimitOffset" false
  let r2 := read_param_bool store s.is_metric "IsMetric" false
  let r3 := read_param_bool store s.longitudinal_control "LongitudinalControl" false
  let r4 := read_param_bool store s.limit_set_speed "LimitSetSpeed" false
  (Step.emit (r1.2 ++ r2.2 ++ r3.2 ++ r4.2)).andThen fun _ =>
  (read_param_string store s.dragon_last_modified 20 "DragonLastModified").andThen fun r5 =>
  (read_param_string store s.dragon_locale 20 "DragonLocale").andThen fun r6 =>
  let r7 := read_param_float cfg store s.dragon_ui_volume_boost "DragonUIVolumeBoost" false
  let r8 := read_param_bool store s.dragon_waze_mode "DragonWazeMode" false
  let r9 := read_param_bool store s.dragon_updating "DragonUpdating" false
  let r10 := read_param_uint64 cfg store s.dragon_df_mode "DragonDynamicFollow" false
  let r11 := read_param_uint64 cfg store s.dragon_ap_mode "DragonAccelProfile" false
  let r12 :=
    read_param_bool store s.dragon_ui_screen_off_reversing "DragonUIScreenOffReversing" false
  let r13 := read_param_bool store s.dragon_ui_screen_off_driving "DragonUIScreenOffDriving" false
  let r14 := read_param_uint64 cfg store s.dragon_ui_brightness "DragonUIBrightness" false
  Step.lift
    ({ s :=
        { s with
          speed_lim_off := r1.1.1
          is_metric := r2.1
          longitudinal_control := r3.1
          limit_set_speed := r4.1
          dragon_last_modified := r5
          dragon_locale := r6
          dragon_ui_volume_boost := r7.1.1
          dragon_waze_mode := r8.1
          dragon_updating := r9.1
          dragon_df_mode := r10.1.1
          dragon_ap_mode := r11.1.1
          dragon_ui_screen_off_reversing := r12.1
          dragon_ui_screen_off_driving := r13.1
          dragon_ui_brightness := r14.1.1 },
        last_modified := r5.take 20 },
      r7.2 ++ r8.2 ++ r9.2 ++ r10.2 ++ r11.2 ++ r12.2 ++ r13.2 ++ r14.2)

/-- Lines 350-381 of `ui_init_vision`: the slots, the scene and the geometry of
the two streams.  The mapping of the buffers and `rgb_transform` are left
out. -/
def ui_init_vision_state (s : UIState) (back_bufs front_bufs : VisionStreamBufs)
    (frontview fullview : Bool) : UIState :=
  { s with
    cur_vision_idx := -1
    cur_vision_front_idx := -1
    scene := ui_init_vision_scene back_bufs frontview fullview
    rgb_width := back_bufs.width
    rgb_height := back_bufs.height
    rgb_stride := back_bufs.stride
    rgb_buf_len := back_bufs.buf_len
    rgb_front_width := front_bufs.width
    rgb_front_height := front_bufs.height
    rgb_front_stride := front_bufs.stride
    rgb_front_buf_len := front_bufs.buf_len }

/-- Lines 437-444 of `ui_init_vision`: the offsets of the countdowns. -/
def ui_init_vision_timeouts (s : UIState) : UIState :=
  { s with
    longitudinal_control_timeout := UI_FREQ / 3
    is_metric_timeout := UI_FREQ / 2
    limit_set_speed_timeout := UI_FREQ
    dragon_last_modified_timeout := UI_FREQ / 4
    dragon_updating_timeout := UI_FREQ / 5 }

/-- The function `ui_init_vision`.  `frontview` and `fullview` say whether the
environment variables `FRONTVIEW` and `FULLVIEW` are set. -/
def ui_init_vision (cfg : Config) (m : MainState) (back_bufs : VisionStreamBufs)
    (num_back_fds : Int) (front_bufs : VisionStreamBufs) (num_front_fds : Int) (store : Store)
    (frontview fullview : Bool) : Step MainState :=
  (c_assert cfg (decide (num_back_fds = UI_BUF_COUNT))).andThen fun _ =>
  (c_assert cfg (decide (num_front_fds = UI_BUF_COUNT))).andThen fun _ =>
  (ui_init_vision_params cfg
    { m with s := ui_init_vision_state m.s back_bufs front_bufs frontview fullview }
    store).andThen fun m1 =>
  let r2 := refresh_toggles m1.s store
  Step.lift ({ m1 with s := ui_init_vision_timeouts r2.1 }, r2.2)

/-- What the outside world answers during one connection attempt of
`vision_connect_thread`. -/
structure ConnectEnv where
  /-- The answer of `vipc_connect`. -/
  fd : Int
  /-- The content of the local `back_rp` before the first `vision_subscribe`. -/
  back_rp : VisionPacket
  /-- The value `vipc_send` returns for the `SUBSCRIBE` of the rear stream. -/
  back_send : Int
  /-- The answers of `vipc_recv` during the first `vision_subscribe`. -/
  back_answers : List RecvAnswer
  /-- The content of the local `front_rp` before the second `vision_subscribe`. -/
  front_rp : VisionPacket
  /-- The value `vipc_send` returns for the `SUBSCRIBE` of the front stream. -/
  front_send : Int
  /-- The answers of `vipc_recv` during the second `vision_subscribe`. -/
  front_answers : List RecvAnswer
  /-- The parameter store as `ui_init_vision` finds it. -/
  store : Store
  /-- Whether the environment variable `FRONTVIEW` is set. -/
  frontview : Bool
  /-- Whether the environment variable `FULLVIEW` is set. -/
  fullview : Bool

/-- Lines 899-909 of `vision_connect_thread`: what is done under the lock once
both streams are subscribed.  The draining of the bus sockets that follows
(lines 911-922) drops the pending messages and writes nothing. -/
def vision_connect_commit (cfg : Config) (m : MainState) (env : ConnectEnv)
    (back_rp front_rp : VisionPacket) : Step MainState :=
  (c_assert cfg (!m.s.vision_connected)).andThen fun _ =>
  (ui_init_vision cfg { m with s := { m.s with ipc_fd := env.fd } } back_rp.bufs.1
    back_rp.bufs.2 front_rp.bufs.1 front_rp.bufs.2 env.store env.frontview env.fullview).andThen
    fun m =>
  Step.ok
    { m with
      s :=
        { m.s with
          vision_connected := true
          vision_seen := true
          vision_connect_firstrun := true } }

/-- One pass of the loop of `vision_connect_thread` (lines 886-924).
`connected` is the value of `vision_connected` read under the lock at line
888; `m` is the shared state as it is when the lock is taken again at line
899.  Nothing shared is written before that line. -/
def vision_connect_attempt (cfg : Config) (connected : Bool) (m : MainState)
    (env : ConnectEnv) : Step MainState :=
  if connected then Step.ok m
  else if env.fd < 0 then Step.ok m
  else
    (vision_subscribe env.fd env.back_rp VisionStreamType.VISION_STREAM_RGB_BACK env.back_send
      env.back_answers).andThen fun back =>
    if back.1 = 0 then Step.ok m
    else
      (vision_subscribe env.fd env.front_rp VisionStreamType.VISION_STREAM_RGB_FRONT
        env.front_send env.front_answers).andThen fun front =>
      if front.1 = 0 then Step.ok m
      else vision_connect_commit cfg m env back.2 front.2

/-! ## Auxiliary definitions for the proofs -/

/-- The countdowns of the gated parameter readers that work, and the cached
`DragonLastModified`. -/
def params_view (s : UIState) : Int × Int × Int × Int × Int × String :=
  (s.is_metric_timeout, s.longitudinal_control_timeout, s.limit_set_speed_timeout,
    s.dragon_updating_timeout, s.dragon_last_modified_timeout, s.dragon_last_modified)

/-- The two fields of the controls watchdog. -/
def controls_view (s : UIState) : Bool × Int := (s.controls_seen, s.controls_timeout)

/-- The session flags and the status. -/
def session_view (s : UIState) : Bool × Bool × Bool × Int :=
  (s.started, s.thermal_started, s.preview_started, s.status)

/-- The tracked alert sound and its countdown. -/
def sound_view (s : UIState) : AudibleAlert × Int := (s.alert_sound, s.alert_sound_timeout)

/-- The blink phase and its direction flag. -/
def blink_view (s : UIState) : ℚ × Bool := (s.alert_blinking_alpha, s.alert_blinked)

/-- The state `s` with the fields `set_awake` writes taken from `t`. -/
def set_awake_writes (s t : UIState) : UIState :=
  { s with awake := t.awake, awake_timeout := t.awake_timeout }

/-- The state `s` with the fields `handle_alert_sound` writes taken from `t`. -/
def handle_alert_sound_writes (s t : UIState) : UIState :=
  { s with awake := t.awake, awake_timeout := t.awake_timeout, alert_type := t.alert_type, alert_sound := t.alert_sound }

/-- The state `s` with the fields `handle_controls_fields` writes taken from `t`. -/
def handle_controls_fields_writes (s t : UIState) : UIState :=
  { s with controls_timeout := t.controls_timeout, controls_seen := t.controls_seen, scene := t.scene }

/-- The state `s` with the fields `handle_alert_text` writes taken from `t`. -/
def handle_alert_text_writes (s t : UIState) : UIState :=
  { s with scene := t.scene }

/-- The state `s` with the fields `handle_alert_status` writes taken from `t`. -/
def handle_alert_status_writes (s t : UIState) : UIState :=
  { s with status := t.status }

/-- The state `s` with the fields `handle_message_transition` writes taken from `t`. -/
def handle_message_transition_writes (s t : UIState) : UIState :=
  { s with started := t.started, status := t.status, alert_sound_timeout := t.alert_sound_timeout, vision_seen := t.vision_seen, controls_seen := t.controls_seen, active_app := t.active_app }

/-- The state `s` with the fields `handle_alert_blinking` writes taken from `t`. -/
def handle_alert_blinking_writes (s t : UIState) : UIState :=
  { s with scene := t.scene, alert_blinking_alpha := t.alert_blinking_alpha, alert_blinked := t.alert_blinked }

/-- The state `s` with the fields `tick_layout` writes taken from `t`. -/
def tick_layout_writes (s t : UIState) : UIState :=
  { s with scene := t.scene }

/-- The state `s` with the fields `navigate_to_settings` writes taken from `t`. -/
def navigate_to_settings_writes (s t : UIState) : UIState :=
  { s with active_app := t.active_app }

/-- The state `s` with the fields `navigate_to_home` writes taken from `t`. -/
def navigate_to_home_writes (s t : UIState) : UIState :=
  { s with active_app := t.active_app }

/-- The state `s` with the fields `handle_vision_touch` writes taken from `t`. -/
def handle_vision_touch_writes (s t : UIState) : UIState :=
  { s with scene := t.scene }

/-- The state `s` with the fields `handle_dp_btn_touch` writes taken from `t`. -/
def handle_dp_btn_touch_writes (s t : UIState) : UIState :=
  { s with scene := t.scene, dragon_df_mode := t.dragon_df_mode, dragon_ap_mode := t.dragon_ap_mode }

/-- The state `s` with the fields `tick_screen` writes taken from `t`. -/
def tick_screen_writes (s t : UIState) : UIState :=
  { s with awake := t.awake, awake_timeout := t.awake_timeout }

/-- The state `s` with the fields `ui_update_firstrun_state` writes taken from `t`. -/
def ui_update_firstrun_state_writes (s t : UIState) : UIState :=
  { s with scene := t.scene, vision_connect_firstrun := t.vision_connect_firstrun, alert_blinking_alpha := t.alert_blinking_alpha, alert_blinked := t.alert_blinked }

/-- The state `s` with the fields `tick_stopped` writes taken from `t`. -/
def tick_stopped_writes (s t : UIState) : UIState :=
  { s with scene := t.scene }

/-- The state `s` with the fields `tick_awake` writes taken from `t`. -/
def tick_awake_writes (s t : UIState) : UIState :=
  { s with awake := t.awake, awake_timeout := t.awake_timeout }

/-- The state `s` with the fields `tick_hardware` writes taken from `t`. -/
def tick_hardware_writes (s t : UIState) : UIState :=
  { s with hardware_timeout := t.hardware_timeout, scene := t.scene }

/-- The state `s` with the fields `tick_volume` writes taken from `t`. -/
def tick_volume_writes (s t : UIState) : UIState :=
  { s with volume_timeout := t.volume_timeout }

/-- The state `s` with the fields `tick_alert_sound` writes taken from `t`. -/
def tick_alert_sound_writes (s t : UIState) : UIState :=
  { s with alert_sound := t.alert_sound }

/-- The state `s` with the fields `tick_controls` writes taken from `t`. -/
def tick_controls_writes (s t : UIState) : UIState :=
  { s with controls_timeout := t.controls_timeout, scene := t.scene, status := t.status, alert_sound_timeout := t.alert_sound_timeout, alert_sound := t.alert_sound, controls_seen := t.controls_seen }

/-- The state `s` with the fields `refresh_settings_fit` writes taken from `t`. -/
def refresh_settings_fit_writes (s t : UIState) : UIState :=
  { s with dragon_locale := t.dragon_locale, dragon_waze_mode := t.dragon_waze_mode, dragon_ui_volume_boost := t.dragon_ui_volume_boost, dragon_df_mode := t.dragon_df_mode, dragon_ap_mode := t.dragon_ap_mode, dragon_ui_screen_off_reversing := t.dragon_ui_screen_off_reversing, dragon_ui_screen_off_driving := t.dragon_ui_screen_off_driving, dragon_ui_brightness := t.dragon_ui_brightness }

/-- The state `s` with the fields `refresh_toggles` writes taken from `t`. -/
def refresh_toggles_writes (s t : UIState) : UIState :=
  { s with dragon_enable_dm := t.dragon_enable_dm, dragon_ui_speed := t.dragon_ui_speed, dragon_ui_event := t.dragon_ui_event, dragon_ui_maxspeed := t.dragon_ui_maxspeed, dragon_ui_face := t.dragon_ui_face, dragon_ui_dev := t.dragon_ui_dev, dragon_ui_dev_mini := t.dragon_ui_dev_mini, dragon_enable_dashcam := t.dragon_enable_dashcam, dragon_driving_ui := t.dragon_driving_ui, dragon_ui_lane := t.dragon_ui_lane, dragon_ui_lead := t.dragon_ui_lead, dragon_ui_path := t.dragon_ui_path, dragon_ui_blinker := t.dragon_ui_blinker, dragon_ui_dm_view := t.dragon_ui_dm_view }

/-- The state `s` with the fields `tick_params_fit` writes taken from `t`. -/
def tick_params_fit_writes (s t : UIState) : UIState :=
  { s with is_metric := t.is_metric, is_metric_timeout := t.is_metric_timeout, longitudinal_control := t.longitudinal_control, longitudinal_control_timeout := t.longitudinal_control_timeout, limit_set_speed := t.limit_set_speed, limit_set_speed_timeout := t.limit_set_speed_timeout, speed_lim_off := t.speed_lim_off, last_athena_ping := t.last_athena_ping, last_athena_ping_timeout := t.last_athena_ping_timeout, scene := t.scene, offroad_layout_timeout := t.offroad_layout_timeout, dragon_updating := t.dragon_updating, dragon_updating_timeout := t.dragon_updating_timeout, dragon_last_modified := t.dragon_last_modified, dragon_last_modified_timeout := t.dragon_last_modified_timeout }

/-- The status the `CONTROLS_STATE` arm derives from the alert status and the
`enabled` flag of a message. -/
def derived_status (alertStatus : AlertStatus) (enabled : Bool) : Int :=
  if alertStatus = AlertStatus.USER_PROMPT then STATUS_WARNING
  else if alertStatus = AlertStatus.CRITICAL then STATUS_ALERT
  else if enabled then STATUS_ENGAGED
  else STATUS_DISENGAGED

/-- A build for the device: `QCOM` set, cubic paths of 192 points, and a list
reader that stops the program at an index beyond the end of a list.  Its
parsers stand in for `strtod` and `strtoull` on strings of decimal digits
only: such a string is read as its number, as the C functions read it, and
every other string as 0, which the C functions do not do for signs, blanks,
fractions, exponents or trailing text.  The stores of the concrete passes
below answer a parsed read with `1` or not at all. -/
def cfg_qcom : Config :=
  { qcom := true
    ndebug := false
    POLYFIT_DEGREE := 4
    MODEL_PATH_DISTANCE := 192
    strtod := fun str => (str.toNat?.getD 0 : ℚ)
    strtoull := fun str => str.toNat?.getD 0
    list_oob := none }

/-- The build `cfg_qcom` with a list reader that hands back 0 at every index
beyond the end of a list. -/
def cfg_unchecked : Config := { cfg_qcom with list_oob := some fun _ _ => 0 }

/-! ### The parameter reads when every string fits its buffer

The functions below give the end state and the effects of the string reader
and of the code that calls it for the case that no value read overflows a
buffer.  The lemmas named in their comments relate them to the functions
they describe. -/

/-- What `read_param_string` leaves in `param`, and its one effect, when the
value read fits the buffer (`read_param_string_fits`). -/
def read_param_string_fit (store : Store) (param : String) (param_name : String) :
    String × List Effect :=
  match store param_name false with
  | some str => (str.take 127, [Effect.read_db_value param_name false])
  | none => (param, [Effect.read_db_value param_name false])

/-- What `read_param_string_timeout` leaves in `param` and `*timeout`, and its
effects, when the value read fits the buffer. -/
def read_param_string_timeout_fit (store : Store) (param : String) (param_name : String)
    (timeout : Int) : (String × Int) × List Effect :=
  if timeout > 0 then ((param, timeout - 1), [])
  else
    let r := read_param_string_fit store param param_name
    ((r.1, 2 * UI_FREQ), r.2)

/-- The state and the effects of `tick_params` when the `DragonLastModified`
value it reads fits the buffer (`tick_params_fits`). -/
def tick_params_fit (cfg : Config) (s : UIState) (env : TickEnv) : UIState × List Effect :=
  let r1 := read_param_bool_timeout env.store s.is_metric "IsMetric" s.is_metric_timeout false
  let s : UIState := { s with is_metric := r1.1.1, is_metric_timeout := r1.1.2 }
  let r2 :=
    read_param_bool_timeout env.store s.longitudinal_control "LongitudinalControl"
      s.longitudinal_control_timeout false
  let s : UIState :=
    { s with longitudinal_control := r2.1.1, longitudinal_control_timeout := r2.1.2 }
  let r3 :=
    read_param_bool_timeout env.store s.limit_set_speed "LimitSetSpeed"
      s.limit_set_speed_timeout false
  let s : UIState := { s with limit_set_speed := r3.1.1, limit_set_speed_timeout := r3.1.2 }
  let r4 :=
    read_param_float_timeout cfg env.store s.speed_lim_off "SpeedLimitOffset"
      s.limit_set_speed_timeout false
  let s : UIState := { s with speed_lim_off := r4.1.1, limit_set_speed_timeout := r4.1.2 }
  let r5 :=
    read_param_uint64_timeout cfg env.store s.last_athena_ping "LastAthenaPingTime"
      s.last_athena_ping_timeout false
  let s : UIState := { s with last_athena_ping := r5.1.1, last_athena_ping_timeout := r5.1.2.1 }
  let param_read : Int := r5.1.2.2
  let s : UIState :=
    { s with
      scene :=
        { s.scene with
          athenaStatus :=
            if param_read ≠ 0 then NET_DISCONNECTED
            else if (env.nanos_since_boot + 2 ^ 64 - s.last_athena_ping) % 2 ^ 64 < 70000000000 then
              NET_CONNECTED
            else NET_ERROR } }
  let r6 := update_offroad_layout_timeout s s.offroad_layout_timeout
  let s : UIState := { s with offroad_layout_timeout := r6.1 }
  let r7 :=
    read_param_bool_timeout env.store s.dragon_updating "DragonUpdating"
      s.dragon_updating_timeout false
  let s : UIState := { s with dragon_updating := r7.1.1, dragon_updating_timeout := r7.1.2 }
  let r8 :=
    read_param_string_timeout_fit env.store s.dragon_last_modified "DragonLastModified"
      s.dragon_last_modified_timeout
  let s : UIState :=
    { s with dragon_last_modified := r8.1.1, dragon_last_modified_timeout := r8.1.2 }
  (s, r1.2 ++ r2.2 ++ r3.2 ++ r4.2 ++ r5.2 ++ r6.2 ++ r7.2 ++ r8.2)

/-- The state and the effects of `refresh_settings` when the `DragonLocale`
value it reads fits the buffer (`refresh_settings_fits`). -/
def refresh_settings_fit (cfg : Config) (s : UIState) (store : Store) : UIState × List Effect :=
  let r1 := read_param_string_fit store s.dragon_locale "DragonLocale"
  let r2 := read_param_bool store s.dragon_waze_mode "DragonWazeMode" false
  let r3 := read_param_float cfg store s.dragon_ui_volume_boost "DragonUIVolumeBoost" false
  let r4 := read_param_uint64 cfg store s.dragon_df_mode "DragonDynamicFollow" false
  let r5 := read_param_uint64 cfg store s.dragon_ap_mode "DragonAccelProfile" false
  let r6 :=
    read_param_bool store s.dragon_ui_screen_off_reversing "DragonUIScreenOffReversing" false
  let r7 := read_param_bool store s.dragon_ui_screen_off_driving "DragonUIScreenOffDriving" false
  let r8 := read_param_uint64 cfg store s.dragon_ui_brightness "DragonUIBrightness" false
  ({ s with
      dragon_locale := r1.1
      dragon_waze_mode := r2.1
      dragon_ui_volume_boost := r3.1.1
      dragon_df_mode := r4.1.1
      dragon_ap_mode := r5.1.1
      dragon_ui_screen_off_reversing := r6.1
      dragon_ui_screen_off_driving := r7.1
      dragon_ui_brightness := r8.1.1 },
    r1.2 ++ r2.2 ++ r3.2 ++ r4.2 ++ r5.2 ++ r6.2 ++ r7.2 ++ r8.2)

/-- The state and the effects of `tick_generation` when the `DragonLocale`
value it reads fits the buffer (`tick_generation_fits`). -/
def tick_generation_fit (cfg : Config) (m : MainState) (store : Store) : MainState × List Effect :=
  if m.last_modified ≠ m.s.dragon_last_modified then
    let r1 := refresh_settings_fit cfg m.s store
    let r2 := refresh_toggles r1.1 store
    ({ s := r2.1, last_modified := m.s.dragon_last_modified.take 20 }, r1.2 ++ r2.2)
  else (m, [])

/-- The state and the effects of `tick_rest` when the strings it reads fit
their buffers (`tick_rest_fits_eq`, `tick_rest_ok`). -/
def tick_rest_fit (cfg : Config) (s : UIState) (last_modified : String) (env : TickEnv) :
    MainState × List Effect :=
  let r1 := tick_awake cfg s
  let s2 := tick_hardware r1.1
  let r3 := tick_volume s2
  let r4 := tick_controls r3.1
  let r5 := tick_alert_sound r4.1
  let r6 := tick_params_fit cfg r5.1 env
  let r7 := tick_generation_fit cfg { s := r6.1, last_modified := last_modified } env.store
  (r7.1, r1.2 ++ tick_draw s2 ++ r3.2 ++ r4.2 ++ r5.2 ++ r6.2 ++ r7.2)

/-- The state and the effects of `ui_init_vision_params` when the strings it
reads fit their buffers (`ui_init_vision_params_fits`). -/
def ui_init_vision_params_fit (cfg : Config) (m : MainState) (store : Store) :
    MainState × List Effect :=
  let s := m.s
  let r1 := read_param_float cfg store s.speed_lim_off "SpeedLimitOffset" false
  let r2 := read_param_bool store s.is_metric "IsMetric" false
  let r3 := read_param_bool store s.longitudinal_control "LongitudinalControl" false
  let r4 := read_param_bool store s.limit_set_speed "LimitSetSpeed" false
  let r5 := read_param_string_fit store s.dragon_last_modified "DragonLastModified"
  let r6 := read_param_string_fit store s.dragon_locale "DragonLocale"
  let r7 := read_param_float cfg store s.dragon_ui_volume_boost "DragonUIVolumeBoost" false
  let r8 := read_param_bool store s.dragon_waze_mode "DragonWazeMode" false
  let r9 := read_param_bool store s.dragon_updating "DragonUpdating" false
  let r10 := read_param_uint64 cfg store s.dragon_df_mode "DragonDynamicFollow" false
  let r11 := read_param_uint64 cfg store s.dragon_ap_mode "DragonAccelProfile" false
  let r12 :=
    read_param_bool store s.dragon_ui_screen_off_reversing "DragonUIScreenOffReversing" false
  let r13 := read_param_bool store s.dragon_ui_screen_off_driving "DragonUIScreenOffDriving" false
  let r14 := read_param_uint64 cfg store s.dragon_ui_brightness "DragonUIBrightness" false
  ({ s :=
      { s with
        speed_lim_off := r1.1.1
        is_metric := r2.1
        longitudinal_control := r3.1
        limit_set_speed := r4.1
        dragon_last_modified := r5.1
        dragon_locale := r6.1
        dragon_ui_volume_boost := r7.1.1
        dragon_waze_mode := r8.1
        dragon_updating := r9.1
        dragon_df_mode := r10.1.1
        dragon_ap_mode := r11.1.1
        dragon_ui_screen_off_reversing := r12.1
        dragon_ui_screen_off_driving := r13.1
        dragon_ui_brightness := r14.1.1 },
      last_modified := r5.1.take 20 },
    r1.2 ++ r2.2 ++ r3.2 ++ r4.2 ++ r5.2 ++ r6.2 ++ r7.2 ++ r8.2 ++ r9.2 ++ r10.2 ++ r11.2
      ++ r12.2 ++ r13.2 ++ r14.2)

/-- Whether the value a read of `param_name` finds fits a buffer of `size`
bytes as `read_param_string` copies it: the read fails, or the first 127
characters and the terminator take at most `size` bytes. -/
def Store.fits (store : Store) (size : Nat) (param_name : String) : Bool :=
  match store param_name false with
  | some str => decide (min str.length 127 + 1 ≤ size)
  | none => true

/-- A `controlsState` payload with every field at its default. -/
def ControlsStateData.zero : ControlsStateData :=
  { rearViewCam := false, vCruise := 0, vEgo := 0, curvature := 0, enabled := false
    engageable := false, gpsPlannerActive := false, driverMonitoringOn := false
    angleSteers := 0, angleSteersDes := 0, decelForModel := false
    alertSound := AudibleAlert.NONE, alertType := "", alertText1 := "", alertText2 := ""
    alertSize := AlertSize.NONE, alertStatus := AlertStatus.NORMAL, alertBlinkingRate := 0 }

/-- A `thermal` payload with every field at its default. -/
def ThermalData.zero : ThermalData :=
  { networkType := 0, networkStrength := 0, batteryPercent := 0, batteryStatus := ""
    freeSpace := 0, thermalStatus := 0, pa0 := 0, ipAddr := "", started := false }

/-- An onroad state: the start-up state after a `thermal` event with
`started = true` has been handled. -/
def onroad_state : UIState :=
  { UIState.zero with
    ipc_fd := -1, started := true, thermal_started := true, status := STATUS_DISENGAGED
    active_app := App.NONE }

/-- Whether an effect is a layout notification. -/
def Effect.is_publish : Effect → Bool
  | Effect.publish_layout _ _ => true
  | _ => false

/-- Whether an effect is a packet sent on the vision socket. -/
def Effect.is_vipc_send : Effect → Bool
  | Effect.vipc_send _ _ => true
  | _ => false

/-- The slot index `ui_update` holds for the camera a stream type is taken to
belong to: the front camera for `VISION_STREAM_RGB_FRONT`, the rear camera
otherwise. -/
def owned_idx (s : UIState) (type : VisionStreamType) : Int :=
  if type = VisionStreamType.VISION_STREAM_RGB_FRONT then s.cur_vision_front_idx
  else s.cur_vision_idx

/-- A connected state that owns slot 2 of the rear camera and no slot of the
front camera. -/
def connected_state : UIState :=
  { onroad_state with
    ipc_fd := 5, vision_connected := true, cur_vision_idx := 2, cur_vision_front_idx := -1 }

/-- A store that answers every read with the text `1`. -/
def store_ones : Store := fun _ _ => some "1"

/-- A store in which every read fails. -/
def store_empty : Store := fun _ _ => none

/-- Whether an effect is a read of the parameter store. -/
def Effect.is_read : Effect → Bool
  | Effect.read_db_value _ _ => true
  | _ => false

/-- Whether an effect is the drawing of the synthesized alert. -/
def Effect.is_alert_draw : Effect → Bool
  | Effect.ui_draw_vision_alert _ _ _ _ => true
  | _ => false

/-- Whether an effect is a store read or the drawing of the synthesized alert:
the two kinds of effect that only the countdown blocks of the main loop emit. -/
def Effect.is_loud (e : Effect) : Bool := e.is_read || e.is_alert_draw

/-- Whether an event is a `controlsState` event. -/
def Event.is_controls : Event → Bool
  | Event.CONTROLS_STATE _ _ => true
  | _ => false

/-- The relation between two states that agree on the parameter countdowns, the
cached `DragonLastModified` and the fields of the controls watchdog. -/
def keeps (s s' : UIState) : Prop :=
  params_view s' = params_view s ∧ controls_view s' = controls_view s

/-- What the touch, the vision update and the bus events of a pass can do to
the fields the countdown blocks depend on: the parameter countdowns and the
cached `DragonLastModified` are kept; `controls_seen`, once false, stays false
unless a `controlsState` event is handled (`quiet` says none is); and
`controls_timeout` is kept or set to `UI_FREQ`. -/
def events_rel (quiet : Bool) (s s' : UIState) : Prop :=
  params_view s' = params_view s ∧
  (quiet = true → s.controls_seen = false → s'.controls_seen = false) ∧
  (s'.controls_timeout = s.controls_timeout ∨ s'.controls_timeout = UI_FREQ)

/-- Whether no event of a list is a `controlsState` event. -/
def no_controls (events : List Event) : Bool := events.all fun e => !e.is_controls

/-- The countdown after one call of a gated reader that resets it. -/
def gate (c : Int) : Int := if c > 0 then c - 1 else 2 * UI_FREQ

/-- The effects of one call of a gated reader: a read of `name` when the
countdown is not positive. -/
def gated_read (c : Int) (name : String) : List Effect :=
  if c > 0 then [] else [Effect.read_db_value name false]

/-- The six entries the main loop refreshes through a gated reader whose
countdown is reset after a read. -/
inductive Entry
  | IsMetric
  | LongitudinalControl
  | LimitSetSpeed
  | SpeedLimitOffset
  | DragonUpdating
  | DragonLastModified
  deriving DecidableEq

/-- The name of an entry in the store. -/
def Entry.name : Entry → String
  | Entry.IsMetric => "IsMetric"
  | Entry.LongitudinalControl => "LongitudinalControl"
  | Entry.LimitSetSpeed => "LimitSetSpeed"
  | Entry.SpeedLimitOffset => "SpeedLimitOffset"
  | Entry.DragonUpdating => "DragonUpdating"
  | Entry.DragonLastModified => "DragonLastModified"

/-- The countdown field the main loop passes to the reader of an entry.
`LimitSetSpeed` and `SpeedLimitOffset` share one. -/
def Entry.countdown : Entry → UIState → Int
  | Entry.IsMetric, s => s.is_metric_timeout
  | Entry.LongitudinalControl, s => s.longitudinal_control_timeout
  | Entry.LimitSetSpeed, s => s.limit_set_speed_timeout
  | Entry.SpeedLimitOffset, s => s.limit_set_speed_timeout
  | Entry.DragonUpdating, s => s.dragon_updating_timeout
  | Entry.DragonLastModified, s => s.dragon_last_modified_timeout

/-- The number of passes of the main loop before the pass that reads an entry,
as a function of its countdown `c` at the start of a pass (for `0 <= c <= 60`).
The shared countdown is stepped twice a pass, by the reader of `LimitSetSpeed`
first. -/
def Entry.phase : Entry → UIState → Int
  | Entry.LimitSetSpeed, s =>
    if s.limit_set_speed_timeout % 2 = 0 then s.limit_set_speed_timeout / 2
    else (s.limit_set_speed_timeout + 61) / 2
  | Entry.SpeedLimitOffset, s =>
    if s.limit_set_speed_timeout % 2 = 1 then (s.limit_set_speed_timeout - 1) / 2
    else (s.limit_set_speed_timeout + 60) / 2
  | e, s => e.countdown s

/-- The number of reads of the store entry `name` among some effects. -/
def reads_of (name : String) (es : List Effect) : Nat :=
  es.count (Effect.read_db_value name false)

/-- The names `refresh_settings` reads, in order. -/
def settings_names : List String :=
  ["DragonLocale", "DragonWazeMode", "DragonUIVolumeBoost", "DragonDynamicFollow",
    "DragonAccelProfile", "DragonUIScreenOffReversing", "DragonUIScreenOffDriving",
    "DragonUIBrightness"]

/-- The names of the display toggles `refresh_toggles` reads after
`DragonEnableDriverMonitoring` and `DragonUIFace`, in order. -/
def toggle_names : List String :=
  ["DragonUISpeed", "DragonUIEvent", "DragonUIMaxSpeed", "DragonUIDev", "DragonUIDevMini",
    "DragonEnableDashcam", "DragonDrivingUI", "DragonUILane", "DragonUILead", "DragonUIPath",
    "DragonUIBlinker", "DragonUIDMView"]

/-- The reads of a list of names, in order. -/
def reads (names : List String) : List Effect :=
  names.map fun name => Effect.read_db_value name false

/-- The state a pass has when it reaches the controls countdown (line 1170). -/
def before_controls (cfg : Config) (s : UIState) : UIState :=
  (tick_volume (tick_hardware (tick_awake cfg s).1)).1

/-- The state a pass has when it reaches the parameter reads (line 1200). -/
def before_params (cfg : Config) (s : UIState) : UIState :=
  (tick_alert_sound (tick_controls (before_controls cfg s)).1).1

/-- Whether the strings the second half of a pass reads fit their buffers: the
gated read of `DragonLastModified` when its countdown has run out, and the read
of `DragonLocale` when the generation check then finds a change. -/
def tick_rest_fits (cfg : Config) (s : UIState) (last_modified : String) (env : TickEnv) :
    Bool :=
  (decide ((before_params cfg s).dragon_last_modified_timeout > 0) ||
      env.store.fits 20 "DragonLastModified") &&
    (decide
        (last_modified = (tick_params_fit cfg (before_params cfg s) env).1.dragon_last_modified) ||
      env.store.fits 20 "DragonLocale")

/-- Whether the two strings a pass can read from the store fit their
buffers. -/
def TickEnv.fits (env : TickEnv) : Bool :=
  env.store.fits 20 "DragonLastModified" && env.store.fits 20 "DragonLocale"

/-- One pass of the main loop when every string read fits its buffer
(`main_tick_fit_eq`). -/
def main_tick_fit (cfg : Config) (m : MainState) (env : TickEnv) : Step MainState :=
  (tick_events cfg m.s env).andThen fun s => Step.lift (tick_rest_fit cfg s m.last_modified env)

/-- Passes of the main loop when every string read fits its buffer
(`main_ticks_fit_eq`). -/
def main_ticks_fit (cfg : Config) (m : MainState) : List TickEnv → Step MainState
  | [] => Step.ok m
  | env :: rest => (main_tick_fit cfg m env).andThen fun m1 => main_ticks_fit cfg m1 rest

/-- A pass in which the outside world is silent: no touch, no bus event,
nothing on the vision socket, and a store in which every read fails. -/
def idle_env : TickEnv :=
  { touch := none, time := 0, gl_ok := true, answers := [], events := []
    store := store_empty, nanos_since_boot := 0 }

/-- The start-up state with the `IsMetric` countdown just reset, as it is at
the start of the pass that follows a read of `IsMetric`. -/
def main_after_read : MainState :=
  { s := { UIState.zero with ipc_fd := -1, is_metric_timeout := 60 }, last_modified := "" }

/-- The names the parameter block of a pass reads through gated readers. -/
def gated_names : List String :=
  ["IsMetric", "LongitudinalControl", "LimitSetSpeed", "SpeedLimitOffset", "LastAthenaPingTime",
    "DragonUpdating", "DragonLastModified"]

/-- Every name the refresh after a generation change can read. -/
def dependent_names : List String :=
  settings_names ++ "DragonEnableDriverMonitoring" :: "DragonUIFace" :: toggle_names

/-- The store contents that put the UI into waze mode: every read answers `1`. -/
def waze_env : TickEnv := { idle_env with store := store_ones }

/-- A store that answers every read with `1`, except that `DragonLocale` reads
as a value of 25 characters. -/
def store_long_locale : Store := fun name _ =>
  if name = "DragonLocale" then some "aaaaaaaaaaaaaaaaaaaaaaaaa" else some "1"

/-- A silent pass over `store_long_locale`. -/
def long_locale_env : TickEnv := { idle_env with store := store_long_locale }

/-- The start-up state of `main`: the zeroed `UIState` with the descriptor
closed, and an empty `last_modified`. -/
def main_start : MainState :=
  { s := { UIState.zero with ipc_fd := -1 }, last_modified := "" }

/-- An onroad state whose last `controlsState` event carried the alert text
`Controls Unresponsive` and whose controls countdown has run out. -/
def unresponsive_shown : UIState :=
  { onroad_state with
    controls_seen := true
    controls_timeout := 0
    scene := { UIScene.zero with alert_text2 := "Controls Unresponsive" } }

/-- The twelve display toggles of a state, in the order of `toggle_names`. -/
def display_toggles (s : UIState) : List Bool :=
  [s.dragon_ui_speed, s.dragon_ui_event, s.dragon_ui_maxspeed, s.dragon_ui_dev,
    s.dragon_ui_dev_mini, s.dragon_enable_dashcam, s.dragon_driving_ui, s.dragon_ui_lane,
    s.dragon_ui_lead, s.dragon_ui_path, s.dragon_ui_blinker, s.dragon_ui_dm_view]

/-- The names `ui_init_vision_params` reads, in order. -/
def init_names : List String :=
  ["SpeedLimitOffset", "IsMetric", "LongitudinalControl", "LimitSetSpeed", "DragonLastModified",
    "DragonLocale", "DragonUIVolumeBoost", "DragonWazeMode", "DragonUpdating",
    "DragonDynamicFollow", "DragonAccelProfile", "DragonUIScreenOffReversing",
    "DragonUIScreenOffDriving", "DragonUIBrightness"]

/-- A buffer descriptor of the given stream, all sizes zero. -/
def bufs_of (type : VisionStreamType) : VisionStreamBufs :=
  { VisionStreamBufs.zero with type := type }

/-- Whether an effect is a call of `stop_alert_sound` or `play_alert_sound`. -/
def Effect.is_sound : Effect → Bool
  | Effect.stop_alert_sound _ => true
  | Effect.play_alert_sound _ => true
  | _ => false

/-- The sound calls the alert-sound edge makes for a tracked sound `p` and a
requested sound `a`: none when they are equal; otherwise the stop of `p` unless
it is `NONE`, then the play of `a` unless it is `NONE`. -/
def sound_edge (p a : AudibleAlert) : List Effect :=
  if a = p then []
  else
    (if p ≠ AudibleAlert.NONE then [Effect.stop_alert_sound p] else []) ++
      (if a ≠ AudibleAlert.NONE then [Effect.play_alert_sound a] else [])

/-- Whether an answer keeps the loop of `vision_subscribe` going: a packet
that is not a buffer descriptor of the requested stream. -/
def RecvAnswer.continues (type : VisionStreamType) : RecvAnswer → Bool
  | RecvAnswer.recv rp => !rp.is_bufs_of type
  | RecvAnswer.recv_failed => false

/-- One `RELEASE` for each `ACQUIRE` among some answers, with its stream type
and slot index, in the order of arrival. -/
def releases_of (fd : Int) (answers : List RecvAnswer) : List Effect :=
  answers.filterMap fun a =>
    match a with
    | RecvAnswer.recv (VisionPacket.VIPC_STREAM_ACQUIRE type idx) =>
      some (Effect.vipc_send fd (VisionPacket.VIPC_STREAM_RELEASE type idx))
    | _ => none

/-- The packet `*rp` holds after some answers: the last packet among them, or
the content it had before. -/
def last_rp (rp : VisionPacket) : List RecvAnswer → VisionPacket
  | [] => rp
  | RecvAnswer.recv_failed :: rest => last_rp rp rest
  | RecvAnswer.recv p :: rest => last_rp p rest

/-- The `SUBSCRIBE` that `vision_subscribe` sends. -/
def subscribe_send (fd : Int) (type : VisionStreamType) : Effect :=
  Effect.vipc_send fd (VisionPacket.VIPC_STREAM_SUBSCRIBE type true)

/-- The answers of a connection attempt on descriptor 5 in which both streams
deliver their buffer descriptor at once, with four descriptors each, and every
store read fails. -/
def connect_env_ok : ConnectEnv :=
  { fd := 5
    back_rp := VisionPacket.other 0
    back_send := 1
    back_answers :=
      [RecvAnswer.recv
        (VisionPacket.VIPC_STREAM_BUFS (bufs_of VisionStreamType.VISION_STREAM_RGB_BACK) 4)]
    front_rp := VisionPacket.other 0
    front_send := 1
    front_answers :=
      [RecvAnswer.recv
        (VisionPacket.VIPC_STREAM_BUFS (bufs_of VisionStreamType.VISION_STREAM_RGB_FRONT) 4)]
    store := store_empty
    frontview := false
    fullview := false }

/-- The answers of a connection attempt in which the rear stream delivers its
buffer descriptor and the receive of the front-stream handshake fails. -/
def connect_env_front_lost : ConnectEnv :=
  { connect_env_ok with front_answers := [RecvAnswer.recv_failed] }

/-- Whether an effect is a `close` of a descriptor. -/
def Effect.is_close : Effect → Bool
  | Effect.close _ => true
  | _ => false

/-- Whether a packet is an `ACQUIRE`. -/
def VisionPacket.is_acquire : VisionPacket → Bool
  | VisionPacket.VIPC_STREAM_ACQUIRE _ _ => true
  | _ => false

/-- The values of the layout notifications among some effects, in order. -/
def publishes (es : List Effect) : List (App × Bool) :=
  es.filterMap fun e =>
    match e with
    | Effect.publish_layout active_app sidebar_collapsed => some (active_app, sidebar_collapsed)
    | _ => none

/-- A state of the main loop while driving: the onroad state with a speed, an
engaged controller, alert texts, a collapsed sidebar, a hardware type and the
reverse gear recorded in the scene by bus events. -/
def main_driving : MainState :=
  { s :=
      { onroad_state with
        scene :=
          { UIScene.zero with
            v_ego := 20
            engaged := true
            alert_text1 := "TAKE CONTROL"
            alert_text2 := "Lane Departure"
            uilayout_sidebarcollapsed := true
            hwType := HwType.other 3
            isReversing := true } },
    last_modified := "" }

/-- A pass whose only input is a touch on the last column of the sidebar
region, `x = sbr_w`. -/
def edge_touch_env : TickEnv := { idle_env with touch := some (300, 500) }

/-- Whether the lists of an event are as long as `handle_message` takes them
to be: 50 entries in both lists of `liveMpc`, 12 in the extrinsic matrix of
`liveCalibration`, 2 in the face position of `driverState`, and
`POLYFIT_DEGREE` coefficients in each path of `model`. -/
def Event.well_formed (cfg : Config) : Event → Bool
  | Event.LIVE_CALIBRATION extrinsicMatrix => decide (3 * 4 ≤ extrinsicMatrix.length)
  | Event.MODEL model =>
    decide (cfg.POLYFIT_DEGREE ≤ model.path.poly.length) &&
      decide (cfg.POLYFIT_DEGREE ≤ model.leftLane.poly.length) &&
      decide (cfg.POLYFIT_DEGREE ≤ model.rightLane.poly.length)
  | Event.LIVE_MPC x y => decide (50 ≤ x.length) && decide (50 ≤ y.length)
  | Event.DRIVER_STATE _ facePosition => decide (2 ≤ facePosition.length)
  | _ => true


/-- One step of the blink phase, on the pair of `alert_blinking_alpha` and
`alert_blinked`, as a message with blinking rate `rate` makes it: nothing for
a rate that is not positive; going up (`alert_blinked` set), `0.05 * rate`
more while the phase is strictly between 0 and 1, and the flag cleared
otherwise; going down, `0.05 * rate` less while the phase is above `0.25`, and
`0.25` more with the flag set otherwise. -/
def blink_step (v : ℚ × Bool) (rate : ℚ) : ℚ × Bool :=
  if rate > 0 then
    if v.2 then
      if v.1 > 0 ∧ v.1 < 1 then (v.1 + (5 / 100 : ℚ) * rate, true) else (v.1, false)
    else
      if v.1 > (25 / 100 : ℚ) then (v.1 - (5 / 100 : ℚ) * rate, false)
      else (v.1 + (25 / 100 : ℚ), true)
  else v

/-- The lower bound of the blink phase for blinking rates up to `R`. -/
def blink_low (R : ℚ) : ℚ := 25 / 100 - (5 / 100 : ℚ) * R

/-- The upper bound of the blink phase for blinking rates up to `R`. -/
def blink_high (R : ℚ) : ℚ := 1 + (5 / 100 : ℚ) * R

/-- Whether an event is no `controlsState` event with a blinking rate above
`R`. -/
def Event.blink_rate_le (R : ℚ) : Event → Prop
  | Event.CONTROLS_STATE _ data => data.alertBlinkingRate ≤ R
  | _ => True

/-- The onroad state with the blink phase as the vision first-run sets it:
`alert_blinking_alpha = 1.0`, `alert_blinked = false`. -/
def blink_start : UIState :=
  { onroad_state with alert_blinking_alpha := 1, alert_blinked := false }

/-- A `controlsState` event with the given blinking rate. -/
def blink_event (rate : ℚ) : Event :=
  Event.CONTROLS_STATE 0 { ControlsStateData.zero with alertBlinkingRate := rate }

/-- The parameters whose countdowns `ui_init_vision` offsets and whose readers
in the parameter block of a pass are gated by those countdowns. -/
def staggered_names : List String :=
  ["IsMetric", "LongitudinalControl", "LimitSetSpeed", "SpeedLimitOffset", "DragonUpdating",
    "DragonLastModified"]

/-- The fields the session and the alert sound depend on: the session flags,
the status, the tracked alert sound and its countdown. -/
def core_view (s : UIState) : (Bool × Bool × Bool × Int) × (AudibleAlert × Int) :=
  (session_view s, sound_view s)

/-- The five values of the status. -/
def status_valid (status : Int) : Prop :=
  status = STATUS_STOPPED ∨ status = STATUS_DISENGAGED ∨ status = STATUS_ENGAGED ∨
    status = STATUS_WARNING ∨ status = STATUS_ALERT

/-- The session invariant: `started` is the disjunction of `thermal_started`
and `preview_started`, the status is one of the five values, and it is
`STATUS_STOPPED` exactly when `started` is false. -/
def session_ok (s : UIState) : Prop :=
  s.started = (s.thermal_started || s.preview_started) ∧ status_valid s.status ∧
    (s.status = STATUS_STOPPED ↔ s.started = false)

/-- Whether an event fits a run in which controls keep requesting the alert
sound `a` while thermal keeps the session started: a `controlsState` event
requests `a` and a `thermal` event reports `started`; every other event fits. -/
def Event.requests (a : AudibleAlert) : Event → Bool
  | Event.CONTROLS_STATE _ data => decide (data.alertSound = a)
  | Event.THERMAL data => data.started
  | _ => true

/-- Whether the events of a pass all fit `Event.requests`, with a
`controlsState` event among them. -/
def TickEnv.requests (a : AudibleAlert) (env : TickEnv) : Bool :=
  env.events.all (Event.requests a) && env.events.any Event.is_controls

/-- The sound calls of a pass in an onroad session whose `controlsState`
events request `a`, for a tracked sound `p` and a sound countdown `countdown`
at the start of the pass: the edge from `p` to `a`, and with the countdown at
zero the stop of `a` at the end of the pass. -/
def pass_sounds (p a : AudibleAlert) (countdown : Int) : List Effect :=
  sound_edge p a ++
    (if countdown = 0 ∧ a ≠ AudibleAlert.NONE then [Effect.stop_alert_sound a] else [])

/-- A `controlsState` event that requests `CHIME_WARNING_REPEAT`. -/
def chime_event : Event :=
  Event.CONTROLS_STATE 0
    { ControlsStateData.zero with alertSound := AudibleAlert.CHIME_WARNING_REPEAT }

/-- A pass whose only input is `chime_event`. -/
def chime_env : TickEnv := { idle_env with events := [chime_event] }

/-- A pass whose only input is a `thermal` event that reports `started`. -/
def thermal_env : TickEnv :=
  { idle_env with events := [Event.THERMAL { ThermalData.zero with started := true }] }

/-- A pass whose inputs are a `thermal` event that reports `started` and then
`chime_event`. -/
def thermal_chime_env : TickEnv :=
  { idle_env with
    events := [Event.THERMAL { ThermalData.zero with started := true }, chime_event] }

/-! ## Frame lemmas -/

/-- `set_awake` writes nothing but the fields named in `set_awake_writes`. -/
theorem set_awake_frame (cfg : Config) (s : UIState) (awake : Bool) :
    (set_awake cfg s awake).1 = set_awake_writes s (set_awake cfg s awake).1 := by
  simp only [set_awake, set_awake_writes]
  split_ifs <;> rfl

@[simp] theorem set_awake_status (cfg : Config) (s : UIState) (awake : Bool) :
    (set_awake cfg s awake).1.status = s.status := by
  have h := congrArg UIState.status (set_awake_frame cfg s awake)
  exact h

@[simp] theorem set_awake_started (cfg : Config) (s : UIState) (awake : Bool) :
    (set_awake cfg s awake).1.started = s.started := by
  have h := congrArg UIState.started (set_awake_frame cfg s awake)
  exact h

@[simp] theorem set_awake_thermal_started (cfg : Config) (s : UIState) (awake : Bool) :
    (set_awake cfg s awake).1.thermal_started = s.thermal_started := by
  have h := congrArg UIState.thermal_started (set_awake_frame cfg s awake)
  exact h

@[simp] theorem set_awake_preview_started (cfg : Config) (s : UIState) (awake : Bool) :
    (set_awake cfg s awake).1.preview_started = s.preview_started := by
  have h := congrArg UIState.preview_started (set_awake_frame cfg s awake)
  exact h

@[simp] theorem set_awake_controls_seen (cfg : Config) (s : UIState) (awake : Bool) :
    (set_awake cfg s awake).1.controls_seen = s.controls_seen := by
  have h := congrArg UIState.controls_seen (set_awake_frame cfg s awake)
  exact h

@[simp] theorem set_awake_controls_timeout (cfg : Config) (s : UIState) (awake : Bool) :
    (set_awake cfg s awake).1.controls_timeout = s.controls_timeout := by
  have h := congrArg UIState.controls_timeout (set_awake_frame cfg s awake)
  exact h

@[simp] theorem set_awake_active_app (cfg : Config) (s : UIState) (awake : Bool) :
    (set_awake cfg s awake).1.active_app = s.active_app := by
  have h := congrArg UIState.active_app (set_awake_frame cfg s awake)
  exact h

@[simp] theorem set_awake_alert_sound_timeout (cfg : Config) (s : UIState) (awake : Bool) :
    (set_awake cfg s awake).1.alert_sound_timeout = s.alert_sound_timeout := by
  have h := congrArg UIState.alert_sound_timeout (set_awake_frame cfg s awake)
  exact h

@[simp] theorem set_awake_vision_seen (cfg : Config) (s : UIState) (awake : Bool) :
    (set_awake cfg s awake).1.vision_seen = s.vision_seen := by
  have h := congrArg UIState.vision_seen (set_awake_frame cfg s awake)
  exact h

@[simp] theorem set_awake_alert_sound (cfg : Config) (s : UIState) (awake : Bool) :
    (set_awake cfg s awake).1.alert_sound = s.alert_sound := by
  have h := congrArg UIState.alert_sound (set_awake_frame cfg s awake)
  exact h

@[simp] theorem set_awake_scene (cfg : Config) (s : UIState) (awake : Bool) :
    (set_awake cfg s awake).1.scene = s.scene := by
  have h := congrArg UIState.scene (set_awake_frame cfg s awake)
  exact h

@[simp] theorem set_awake_alert_blinking_alpha (cfg : Config) (s : UIState) (awake : Bool) :
    (set_awake cfg s awake).1.alert_blinking_alpha = s.alert_blinking_alpha := by
  have h := congrArg UIState.alert_blinking_alpha (set_awake_frame cfg s awake)
  exact h

@[simp] theorem set_awake_alert_blinked (cfg : Config) (s : UIState) (awake : Bool) :
    (set_awake cfg s awake).1.alert_blinked = s.alert_blinked := by
  have h := congrArg UIState.alert_blinked (set_awake_frame cfg s awake)
  exact h

@[simp] theorem set_awake_alert_type (cfg : Config) (s : UIState) (awake : Bool) :
    (set_awake cfg s awake).1.alert_type = s.alert_type := by
  have h := congrArg UIState.alert_type (set_awake_frame cfg s awake)
  exact h

@[simp] theorem set_awake_dragon_ui_screen_off_driving (cfg : Config) (s : UIState) (awake : Bool) :
    (set_awake cfg s awake).1.dragon_ui_screen_off_driving = s.dragon_ui_screen_off_driving := by
  have h := congrArg UIState.dragon_ui_screen_off_driving (set_awake_frame cfg s awake)
  exact h

@[simp] theorem set_awake_params_view (cfg : Config) (s : UIState) (awake : Bool) :
    params_view (set_awake cfg s awake).1 = params_view s := by
  have h := congrArg params_view (set_awake_frame cfg s awake)
  exact h

@[simp] theorem set_awake_controls_view (cfg : Config) (s : UIState) (awake : Bool) :
    controls_view (set_awake cfg s awake).1 = controls_view s := by
  have h := congrArg controls_view (set_awake_frame cfg s awake)
  exact h

@[simp] theorem set_awake_session_view (cfg : Config) (s : UIState) (awake : Bool) :
    session_view (set_awake cfg s awake).1 = session_view s := by
  have h := congrArg session_view (set_awake_frame cfg s awake)
  exact h

@[simp] theorem set_awake_sound_view (cfg : Config) (s : UIState) (awake : Bool) :
    sound_view (set_awake cfg s awake).1 = sound_view s := by
  have h := congrArg sound_view (set_awake_frame cfg s awake)
  exact h

@[simp] theorem set_awake_blink_view (cfg : Config) (s : UIState) (awake : Bool) :
    blink_view (set_awake cfg s awake).1 = blink_view s := by
  have h := congrArg blink_view (set_awake_frame cfg s awake)
  exact h

/-- `handle_alert_sound` writes nothing but the fields named in `handle_alert_sound_writes`. -/
theorem handle_alert_sound_frame (cfg : Config) (s : UIState) (data : ControlsStateData) :
    (handle_alert_sound cfg s data).1 = handle_alert_sound_writes s (handle_alert_sound cfg s data).1 := by
  simp only [handle_alert_sound, seq, set_awake, handle_alert_sound_writes]
  split_ifs <;> rfl

@[simp] theorem handle_alert_sound_status (cfg : Config) (s : UIState) (data : ControlsStateData) :
    (handle_alert_sound cfg s data).1.status = s.status := by
  have h := congrArg UIState.status (handle_alert_sound_frame cfg s data)
  exact h

@[simp] theorem handle_alert_sound_started (cfg : Config) (s : UIState) (data : ControlsStateData) :
    (handle_alert_sound cfg s data).1.started = s.started := by
  have h := congrArg UIState.started (handle_alert_sound_frame cfg s data)
  exact h

@[simp] theorem handle_alert_sound_thermal_started (cfg : Config) (s : UIState) (data : ControlsStateData) :
    (handle_alert_sound cfg s data).1.thermal_started = s.thermal_started := by
  have h := congrArg UIState.thermal_started (handle_alert_sound_frame cfg s data)
  exact h

@[simp] theorem handle_alert_sound_preview_started (cfg : Config) (s : UIState) (data : ControlsStateData) :
    (handle_alert_sound cfg s data).1.preview_started = s.preview_started := by
  have h := congrArg UIState.preview_started (handle_alert_sound_frame cfg s data)
  exact h

@[simp] theorem handle_alert_sound_controls_seen (cfg : Config) (s : UIState) (data : ControlsStateData) :
    (handle_alert_sound cfg s data).1.controls_seen = s.controls_seen := by
  have h := congrArg UIState.controls_seen (handle_alert_sound_frame cfg s data)
  exact h

@[simp] theorem handle_alert_sound_controls_timeout (cfg : Config) (s : UIState) (data : ControlsStateData) :
    (handle_alert_sound cfg s data).1.controls_timeout = s.controls_timeout := by
  have h := congrArg UIState.controls_timeout (handle_alert_sound_frame cfg s data)
  exact h

@[simp] theorem handle_alert_sound_alert_sound_timeout (cfg : Config) (s : UIState) (data : ControlsStateData) :
    (handle_alert_sound cfg s data).1.alert_sound_timeout = s.alert_sound_timeout := by
  have h := congrArg UIState.alert_sound_timeout (handle_alert_sound_frame cfg s data)
  exact h

@[simp] theorem handle_alert_sound_vision_seen (cfg : Config) (s : UIState) (data : ControlsStateData) :
    (handle_alert_sound cfg s data).1.vision_seen = s.vision_seen := by
  have h := congrArg UIState.vision_seen (handle_alert_sound_frame cfg s data)
  exact h

@[simp] theorem handle_alert_sound_scene (cfg : Config) (s : UIState) (data : ControlsStateData) :
    (handle_alert_sound cfg s data).1.scene = s.scene := by
  have h := congrArg UIState.scene (handle_alert_sound_frame cfg s data)
  exact h

@[simp] theorem handle_alert_sound_alert_blinking_alpha (cfg : Config) (s : UIState) (data : ControlsStateData) :
    (handle_alert_sound cfg s data).1.alert_blinking_alpha = s.alert_blinking_alpha := by
  have h := congrArg UIState.alert_blinking_alpha (handle_alert_sound_frame cfg s data)
  exact h

@[simp] theorem handle_alert_sound_alert_blinked (cfg : Config) (s : UIState) (data : ControlsStateData) :
    (handle_alert_sound cfg s data).1.alert_blinked = s.alert_blinked := by
  have h := congrArg UIState.alert_blinked (handle_alert_sound_frame cfg s data)
  exact h

@[simp] theorem handle_alert_sound_dragon_ui_screen_off_driving (cfg : Config) (s : UIState) (data : ControlsStateData) :
    (handle_alert_sound cfg s data).1.dragon_ui_screen_off_driving = s.dragon_ui_screen_off_driving := by
  have h := congrArg UIState.dragon_ui_screen_off_driving (handle_alert_sound_frame cfg s data)
  exact h

@[simp] theorem handle_alert_sound_params_view (cfg : Config) (s : UIState) (data : ControlsStateData) :
    params_view (handle_alert_sound cfg s data).1 = params_view s := by
  have h := congrArg params_view (handle_alert_sound_frame cfg s data)
  exact h

@[simp] theorem handle_alert_sound_controls_view (cfg : Config) (s : UIState) (data : ControlsStateData) :
    controls_view (handle_alert_sound cfg s data).1 = controls_view s := by
  have h := congrArg controls_view (handle_alert_sound_frame cfg s data)
  exact h

@[simp] theorem handle_alert_sound_session_view (cfg : Config) (s : UIState) (data : ControlsStateData) :
    session_view (handle_alert_sound cfg s data).1 = session_view s := by
  have h := congrArg session_view (handle_alert_sound_frame cfg s data)
  exact h

@[simp] theorem handle_alert_sound_blink_view (cfg : Config) (s : UIState) (data : ControlsStateData) :
    blink_view (handle_alert_sound cfg s data).1 = blink_view s := by
  have h := congrArg blink_view (handle_alert_sound_frame cfg s data)
  exact h

/-- `handle_controls_fields` writes nothing but the fields named in `handle_controls_fields_writes`. -/
theorem handle_controls_fields_frame (s : UIState) (logMonoTime : Nat) (data : ControlsStateData) :
    (handle_controls_fields s logMonoTime data) = handle_controls_fields_writes s (handle_controls_fields s logMonoTime data) := by
  simp only [handle_controls_fields, handle_controls_fields_writes]
  split_ifs <;> rfl

@[simp] theorem handle_controls_fields_status (s : UIState) (logMonoTime : Nat) (data : ControlsStateData) :
    (handle_controls_fields s logMonoTime data).status = s.status := by
  have h := congrArg UIState.status (handle_controls_fields_frame s logMonoTime data)
  exact h

@[simp] theorem handle_controls_fields_started (s : UIState) (logMonoTime : Nat) (data : ControlsStateData) :
    (handle_controls_fields s logMonoTime data).started = s.started := by
  have h := congrArg UIState.started (handle_controls_fields_frame s logMonoTime data)
  exact h

@[simp] theorem handle_controls_fields_thermal_started (s : UIState) (logMonoTime : Nat) (data : ControlsStateData) :
    (handle_controls_fields s logMonoTime data).thermal_started = s.thermal_started := by
  have h := congrArg UIState.thermal_started (handle_controls_fields_frame s logMonoTime data)
  exact h

@[simp] theorem handle_controls_fields_preview_started (s : UIState) (logMonoTime : Nat) (data : ControlsStateData) :
    (handle_controls_fields s logMonoTime data).preview_started = s.preview_started := by
  have h := congrArg UIState.preview_started (handle_controls_fields_frame s logMonoTime data)
  exact h

@[simp] theorem handle_controls_fields_alert_sound_timeout (s : UIState) (logMonoTime : Nat) (data : ControlsStateData) :
    (handle_controls_fields s logMonoTime data).alert_sound_timeout = s.alert_sound_timeout := by
  have h := congrArg UIState.alert_sound_timeout (handle_controls_fields_frame s logMonoTime data)
  exact h

@[simp] theorem handle_controls_fields_vision_seen (s : UIState) (logMonoTime : Nat) (data : ControlsStateData) :
    (handle_controls_fields s logMonoTime data).vision_seen = s.vision_seen := by
  have h := congrArg UIState.vision_seen (handle_controls_fields_frame s logMonoTime data)
  exact h

@[simp] theorem handle_controls_fields_alert_sound (s : UIState) (logMonoTime : Nat) (data : ControlsStateData) :
    (handle_controls_fields s logMonoTime data).alert_sound = s.alert_sound := by
  have h := congrArg UIState.alert_sound (handle_controls_fields_frame s logMonoTime data)
  exact h

@[simp] theorem handle_controls_fields_alert_blinking_alpha (s : UIState) (logMonoTime : Nat) (data : ControlsStateData) :
    (handle_controls_fields s logMonoTime data).alert_blinking_alpha = s.alert_blinking_alpha := by
  have h := congrArg UIState.alert_blinking_alpha (handle_controls_fields_frame s logMonoTime data)
  exact h

@[simp] theorem handle_controls_fields_alert_blinked (s : UIState) (logMonoTime : Nat) (data : ControlsStateData) :
    (handle_controls_fields s logMonoTime data).alert_blinked = s.alert_blinked := by
  have h := congrArg UIState.alert_blinked (handle_controls_fields_frame s logMonoTime data)
  exact h

@[simp] theorem handle_controls_fields_awake (s : UIState) (logMonoTime : Nat) (data : ControlsStateData) :
    (handle_controls_fields s logMonoTime data).awake = s.awake := by
  have h := congrArg UIState.awake (handle_controls_fields_frame s logMonoTime data)
  exact h

@[simp] theorem handle_controls_fields_awake_timeout (s : UIState) (logMonoTime : Nat) (data : ControlsStateData) :
    (handle_controls_fields s logMonoTime data).awake_timeout = s.awake_timeout := by
  have h := congrArg UIState.awake_timeout (handle_controls_fields_frame s logMonoTime data)
  exact h

@[simp] theorem handle_controls_fields_alert_type (s : UIState) (logMonoTime : Nat) (data : ControlsStateData) :
    (handle_controls_fields s logMonoTime data).alert_type = s.alert_type := by
  have h := congrArg UIState.alert_type (handle_controls_fields_frame s logMonoTime data)
  exact h

@[simp] theorem handle_controls_fields_dragon_ui_screen_off_driving (s : UIState) (logMonoTime : Nat) (data : ControlsStateData) :
    (handle_controls_fields s logMonoTime data).dragon_ui_screen_off_driving = s.dragon_ui_screen_off_driving := by
  have h := congrArg UIState.dragon_ui_screen_off_driving (handle_controls_fields_frame s logMonoTime data)
  exact h

@[simp] theorem handle_controls_fields_params_view (s : UIState) (logMonoTime : Nat) (data : ControlsStateData) :
    params_view (handle_controls_fields s logMonoTime data) = params_view s := by
  have h := congrArg params_view (handle_controls_fields_frame s logMonoTime data)
  exact h

@[simp] theorem handle_controls_fields_session_view (s : UIState) (logMonoTime : Nat) (data : ControlsStateData) :
    session_view (handle_controls_fields s logMonoTime data) = session_view s := by
  have h := congrArg session_view (handle_controls_fields_frame s logMonoTime data)
  exact h

@[simp] theorem handle_controls_fields_sound_view (s : UIState) (logMonoTime : Nat) (data : ControlsStateData) :
    sound_view (handle_controls_fields s logMonoTime data) = sound_view s := by
  have h := congrArg sound_view (handle_controls_fields_frame s logMonoTime data)
  exact h

@[simp] theorem handle_controls_fields_blink_view (s : UIState) (logMonoTime : Nat) (data : ControlsStateData) :
    blink_view (handle_controls_fields s logMonoTime data) = blink_view s := by
  have h := congrArg blink_view (handle_controls_fields_frame s logMonoTime data)
  exact h

/-- `handle_alert_text` writes nothing but the fields named in `handle_alert_text_writes`. -/
theorem handle_alert_text_frame (s : UIState) (logMonoTime : Nat) (data : ControlsStateData) :
    (handle_alert_text s logMonoTime data) = handle_alert_text_writes s (handle_alert_text s logMonoTime data) := by
  rfl

@[simp] theorem handle_alert_text_status (s : UIState) (logMonoTime : Nat) (data : ControlsStateData) :
    (handle_alert_text s logMonoTime data).status = s.status := by
  have h := congrArg UIState.status (handle_alert_text_frame s logMonoTime data)
  exact h

@[simp] theorem handle_alert_text_started (s : UIState) (logMonoTime : Nat) (data : ControlsStateData) :
    (handle_alert_text s logMonoTime data).started = s.started := by
  have h := congrArg UIState.started (handle_alert_text_frame s logMonoTime data)
  exact h

@[simp] theorem handle_alert_text_thermal_started (s : UIState) (logMonoTime : Nat) (data : ControlsStateData) :
    (handle_alert_text s logMonoTime data).thermal_started = s.thermal_started := by
  have h := congrArg UIState.thermal_started (handle_alert_text_frame s logMonoTime data)
  exact h

@[simp] theorem handle_alert_text_preview_started (s : UIState) (logMonoTime : Nat) (data : ControlsStateData) :
    (handle_alert_text s logMonoTime data).preview_started = s.preview_started := by
  have h := congrArg UIState.preview_started (handle_alert_text_frame s logMonoTime data)
  exact h

@[simp] theorem handle_alert_text_controls_seen (s : UIState) (logMonoTime : Nat) (data : ControlsStateData) :
    (handle_alert_text s logMonoTime data).controls_seen = s.controls_seen := by
  have h := congrArg UIState.controls_seen (handle_alert_text_frame s logMonoTime data)
  exact h

@[simp] theorem handle_alert_text_controls_timeout (s : UIState) (logMonoTime : Nat) (data : ControlsStateData) :
    (handle_alert_text s logMonoTime data).controls_timeout = s.controls_timeout := by
  have h := congrArg UIState.controls_timeout (handle_alert_text_frame s logMonoTime data)
  exact h

@[simp] theorem handle_alert_text_alert_sound_timeout (s : UIState) (logMonoTime : Nat) (data : ControlsStateData) :
    (handle_alert_text s logMonoTime data).alert_sound_timeout = s.alert_sound_timeout := by
  have h := congrArg UIState.alert_sound_timeout (handle_alert_text_frame s logMonoTime data)
  exact h

@[simp] theorem handle_alert_text_vision_seen (s : UIState) (logMonoTime : Nat) (data : ControlsStateData) :
    (handle_alert_text s logMonoTime data).vision_seen = s.vision_seen := by
  have h := congrArg UIState.vision_seen (handle_alert_text_frame s logMonoTime data)
  exact h

@[simp] theorem handle_alert_text_alert_sound (s : UIState) (logMonoTime : Nat) (data : ControlsStateData) :
    (handle_alert_text s logMonoTime data).alert_sound = s.alert_sound := by
  have h := congrArg UIState.alert_sound (handle_alert_text_frame s logMonoTime data)
  exact h

@[simp] theorem handle_alert_text_alert_blinking_alpha (s : UIState) (logMonoTime : Nat) (data : ControlsStateData) :
    (handle_alert_text s logMonoTime data).alert_blinking_alpha = s.alert_blinking_alpha := by
  have h := congrArg UIState.alert_blinking_alpha (handle_alert_text_frame s logMonoTime data)
  exact h

@[simp] theorem handle_alert_text_alert_blinked (s : UIState) (logMonoTime : Nat) (data : ControlsStateData) :
    (handle_alert_text s logMonoTime data).alert_blinked = s.alert_blinked := by
  have h := congrArg UIState.alert_blinked (handle_alert_text_frame s logMonoTime data)
  exact h

@[simp] theorem handle_alert_text_awake (s : UIState) (logMonoTime : Nat) (data : ControlsStateData) :
    (handle_alert_text s logMonoTime data).awake = s.awake := by
  have h := congrArg UIState.awake (handle_alert_text_frame s logMonoTime data)
  exact h

@[simp] theorem handle_alert_text_awake_timeout (s : UIState) (logMonoTime : Nat) (data : ControlsStateData) :
    (handle_alert_text s logMonoTime data).awake_timeout = s.awake_timeout := by
  have h := congrArg UIState.awake_timeout (handle_alert_text_frame s logMonoTime data)
  exact h

@[simp] theorem handle_alert_text_alert_type (s : UIState) (logMonoTime : Nat) (data : ControlsStateData) :
    (handle_alert_text s logMonoTime data).alert_type = s.alert_type := by
  have h := congrArg UIState.alert_type (handle_alert_text_frame s logMonoTime data)
  exact h

@[simp] theorem handle_alert_text_dragon_ui_screen_off_driving (s : UIState) (logMonoTime : Nat) (data : ControlsStateData) :
    (handle_alert_text s logMonoTime data).dragon_ui_screen_off_driving = s.dragon_ui_screen_off_driving := by
  have h := congrArg UIState.dragon_ui_screen_off_driving (handle_alert_text_frame s logMonoTime data)
  exact h

@[simp] theorem handle_alert_text_params_view (s : UIState) (logMonoTime : Nat) (data : ControlsStateData) :
    params_view (handle_alert_text s logMonoTime data) = params_view s := by
  have h := congrArg params_view (handle_alert_text_frame s logMonoTime data)
  exact h

@[simp] theorem handle_alert_text_controls_view (s : UIState) (logMonoTime : Nat) (data : ControlsStateData) :
    controls_view (handle_alert_text s logMonoTime data) = controls_view s := by
  have h := congrArg controls_view (handle_alert_text_frame s logMonoTime data)
  exact h

@[simp] theorem handle_alert_text_session_view (s : UIState) (logMonoTime : Nat) (data : ControlsStateData) :
    session_view (handle_alert_text s logMonoTime data) = session_view s := by
  have h := congrArg session_view (handle_alert_text_frame s logMonoTime data)
  exact h

@[simp] theorem handle_alert_text_sound_view (s : UIState) (logMonoTime : Nat) (data : ControlsStateData) :
    sound_view (handle_alert_text s logMonoTime data) = sound_view s := by
  have h := congrArg sound_view (handle_alert_text_frame s logMonoTime data)
  exact h

@[simp] theorem handle_alert_text_blink_view (s : UIState) (logMonoTime : Nat) (data : ControlsStateData) :
    blink_view (handle_alert_text s logMonoTime data) = blink_view s := by
  have h := congrArg blink_view (handle_alert_text_frame s logMonoTime data)
  exact h

/-- `handle_alert_status` writes nothing but the fields named in `handle_alert_status_writes`. -/
theorem handle_alert_status_frame (s : UIState) (alertStatus : AlertStatus) :
    (handle_alert_status s alertStatus) = handle_alert_status_writes s (handle_alert_status s alertStatus) := by
  simp only [handle_alert_status, update_status, handle_alert_status_writes]
  split_ifs <;> rfl

@[simp] theorem handle_alert_status_started (s : UIState) (alertStatus : AlertStatus) :
    (handle_alert_status s alertStatus).started = s.started := by
  have h := congrArg UIState.started (handle_alert_status_frame s alertStatus)
  exact h

@[simp] theorem handle_alert_status_thermal_started (s : UIState) (alertStatus : AlertStatus) :
    (handle_alert_status s alertStatus).thermal_started = s.thermal_started := by
  have h := congrArg UIState.thermal_started (handle_alert_status_frame s alertStatus)
  exact h

@[simp] theorem handle_alert_status_preview_started (s : UIState) (alertStatus : AlertStatus) :
    (handle_alert_status s alertStatus).preview_started = s.preview_started := by
  have h := congrArg UIState.preview_started (handle_alert_status_frame s alertStatus)
  exact h

@[simp] theorem handle_alert_status_controls_seen (s : UIState) (alertStatus : AlertStatus) :
    (handle_alert_status s alertStatus).controls_seen = s.controls_seen := by
  have h := congrArg UIState.controls_seen (handle_alert_status_frame s alertStatus)
  exact h

@[simp] theorem handle_alert_status_controls_timeout (s : UIState) (alertStatus : AlertStatus) :
    (handle_alert_status s alertStatus).controls_timeout = s.controls_timeout := by
  have h := congrArg UIState.controls_timeout (handle_alert_status_frame s alertStatus)
  exact h

@[simp] theorem handle_alert_status_alert_sound_timeout (s : UIState) (alertStatus : AlertStatus) :
    (handle_alert_status s alertStatus).alert_sound_timeout = s.alert_sound_timeout := by
  have h := congrArg UIState.alert_sound_timeout (handle_alert_status_frame s alertStatus)
  exact h

@[simp] theorem handle_alert_status_vision_seen (s : UIState) (alertStatus : AlertStatus) :
    (handle_alert_status s alertStatus).vision_seen = s.vision_seen := by
  have h := congrArg UIState.vision_seen (handle_alert_status_frame s alertStatus)
  exact h

@[simp] theorem handle_alert_status_alert_sound (s : UIState) (alertStatus : AlertStatus) :
    (handle_alert_status s alertStatus).alert_sound = s.alert_sound := by
  have h := congrArg UIState.alert_sound (handle_alert_status_frame s alertStatus)
  exact h

@[simp] theorem handle_alert_status_alert_blinking_alpha (s : UIState) (alertStatus : AlertStatus) :
    (handle_alert_status s alertStatus).alert_blinking_alpha = s.alert_blinking_alpha := by
  have h := congrArg UIState.alert_blinking_alpha (handle_alert_status_frame s alertStatus)
  exact h

@[simp] theorem handle_alert_status_alert_blinked (s : UIState) (alertStatus : AlertStatus) :
    (handle_alert_status s alertStatus).alert_blinked = s.alert_blinked := by
  have h := congrArg UIState.alert_blinked (handle_alert_status_frame s alertStatus)
  exact h

@[simp] theorem handle_alert_status_awake (s : UIState) (alertStatus : AlertStatus) :
    (handle_alert_status s alertStatus).awake = s.awake := by
  have h := congrArg UIState.awake (handle_alert_status_frame s alertStatus)
  exact h

@[simp] theorem handle_alert_status_awake_timeout (s : UIState) (alertStatus : AlertStatus) :
    (handle_alert_status s alertStatus).awake_timeout = s.awake_timeout := by
  have h := congrArg UIState.awake_timeout (handle_alert_status_frame s alertStatus)
  exact h

@[simp] theorem handle_alert_status_alert_type (s : UIState) (alertStatus : AlertStatus) :
    (handle_alert_status s alertStatus).alert_type = s.alert_type := by
  have h := congrArg UIState.alert_type (handle_alert_status_frame s alertStatus)
  exact h

@[simp] theorem handle_alert_status_dragon_ui_screen_off_driving (s : UIState) (alertStatus : AlertStatus) :
    (handle_alert_status s alertStatus).dragon_ui_screen_off_driving = s.dragon_ui_screen_off_driving := by
  have h := congrArg UIState.dragon_ui_screen_off_driving (handle_alert_status_frame s alertStatus)
  exact h

@[simp] theorem handle_alert_status_params_view (s : UIState) (alertStatus : AlertStatus) :
    params_view (handle_alert_status s alertStatus) = params_view s := by
  have h := congrArg params_view (handle_alert_status_frame s alertStatus)
  exact h

@[simp] theorem handle_alert_status_controls_view (s : UIState) (alertStatus : AlertStatus) :
    controls_view (handle_alert_status s alertStatus) = controls_view s := by
  have h := congrArg controls_view (handle_alert_status_frame s alertStatus)
  exact h

@[simp] theorem handle_alert_status_sound_view (s : UIState) (alertStatus : AlertStatus) :
    sound_view (handle_alert_status s alertStatus) = sound_view s := by
  have h := congrArg sound_view (handle_alert_status_frame s alertStatus)
  exact h

@[simp] theorem handle_alert_status_blink_view (s : UIState) (alertStatus : AlertStatus) :
    blink_view (handle_alert_status s alertStatus) = blink_view s := by
  have h := congrArg blink_view (handle_alert_status_frame s alertStatus)
  exact h

/-- `handle_message_transition` writes nothing but the fields named in `handle_message_transition_writes`. -/
theorem handle_message_transition_frame (s : UIState) :
    (handle_message_transition s).1 = handle_message_transition_writes s (handle_message_transition s).1 := by
  simp only [handle_message_transition, update_status, handle_message_transition_writes]
  split_ifs <;> rfl

@[simp] theorem handle_message_transition_thermal_started (s : UIState) :
    (handle_message_transition s).1.thermal_started = s.thermal_started := by
  have h := congrArg UIState.thermal_started (handle_message_transition_frame s)
  exact h

@[simp] theorem handle_message_transition_preview_started (s : UIState) :
    (handle_message_transition s).1.preview_started = s.preview_started := by
  have h := congrArg UIState.preview_started (handle_message_transition_frame s)
  exact h

@[simp] theorem handle_message_transition_controls_timeout (s : UIState) :
    (handle_message_transition s).1.controls_timeout = s.controls_timeout := by
  have h := congrArg UIState.controls_timeout (handle_message_transition_frame s)
  exact h

@[simp] theorem handle_message_transition_alert_sound (s : UIState) :
    (handle_message_transition s).1.alert_sound = s.alert_sound := by
  have h := congrArg UIState.alert_sound (handle_message_transition_frame s)
  exact h

@[simp] theorem handle_message_transition_scene (s : UIState) :
    (handle_message_transition s).1.scene = s.scene := by
  have h := congrArg UIState.scene (handle_message_transition_frame s)
  exact h

@[simp] theorem handle_message_transition_alert_blinking_alpha (s : UIState) :
    (handle_message_transition s).1.alert_blinking_alpha = s.alert_blinking_alpha := by
  have h := congrArg UIState.alert_blinking_alpha (handle_message_transition_frame s)
  exact h

@[simp] theorem handle_message_transition_alert_blinked (s : UIState) :
    (handle_message_transition s).1.alert_blinked = s.alert_blinked := by
  have h := congrArg UIState.alert_blinked (handle_message_transition_frame s)
  exact h

@[simp] theorem handle_message_transition_awake (s : UIState) :
    (handle_message_transition s).1.awake = s.awake := by
  have h := congrArg UIState.awake (handle_message_transition_frame s)
  exact h

@[simp] theorem handle_message_transition_awake_timeout (s : UIState) :
    (handle_message_transition s).1.awake_timeout = s.awake_timeout := by
  have h := congrArg UIState.awake_timeout (handle_message_transition_frame s)
  exact h

@[simp] theorem handle_message_transition_alert_type (s : UIState) :
    (handle_message_transition s).1.alert_type = s.alert_type := by
  have h := congrArg UIState.alert_type (handle_message_transition_frame s)
  exact h

@[simp] theorem handle_message_transition_dragon_ui_screen_off_driving (s : UIState) :
    (handle_message_transition s).1.dragon_ui_screen_off_driving = s.dragon_ui_screen_off_driving := by
  have h := congrArg UIState.dragon_ui_screen_off_driving (handle_message_transition_frame s)
  exact h

@[simp] theorem handle_message_transition_params_view (s : UIState) :
    params_view (handle_message_transition s).1 = params_view s := by
  have h := congrArg params_view (handle_message_transition_frame s)
  exact h

@[simp] theorem handle_message_transition_blink_view (s : UIState) :
    blink_view (handle_message_transition s).1 = blink_view s := by
  have h := congrArg blink_view (handle_message_transition_frame s)
  exact h

/-- `handle_alert_blinking` writes nothing but the fields named in `handle_alert_blinking_writes`. -/
theorem handle_alert_blinking_frame (s : UIState) (alertBlinkingRate : ℚ) :
    (handle_alert_blinking s alertBlinkingRate) = handle_alert_blinking_writes s (handle_alert_blinking s alertBlinkingRate) := by
  simp only [handle_alert_blinking, handle_alert_blinking_writes]
  split_ifs <;> rfl

@[simp] theorem handle_alert_blinking_status (s : UIState) (alertBlinkingRate : ℚ) :
    (handle_alert_blinking s alertBlinkingRate).status = s.status := by
  have h := congrArg UIState.status (handle_alert_blinking_frame s alertBlinkingRate)
  exact h

@[simp] theorem handle_alert_blinking_started (s : UIState) (alertBlinkingRate : ℚ) :
    (handle_alert_blinking s alertBlinkingRate).started = s.started := by
  have h := congrArg UIState.started (handle_alert_blinking_frame s alertBlinkingRate)
  exact h

@[simp] theorem handle_alert_blinking_thermal_started (s : UIState) (alertBlinkingRate : ℚ) :
    (handle_alert_blinking s alertBlinkingRate).thermal_started = s.thermal_started := by
  have h := congrArg UIState.thermal_started (handle_alert_blinking_frame s alertBlinkingRate)
  exact h

@[simp] theorem handle_alert_blinking_preview_started (s : UIState) (alertBlinkingRate : ℚ) :
    (handle_alert_blinking s alertBlinkingRate).preview_started = s.preview_started := by
  have h := congrArg UIState.preview_started (handle_alert_blinking_frame s alertBlinkingRate)
  exact h

@[simp] theorem handle_alert_blinking_controls_seen (s : UIState) (alertBlinkingRate : ℚ) :
    (handle_alert_blinking s alertBlinkingRate).controls_seen = s.controls_seen := by
  have h := congrArg UIState.controls_seen (handle_alert_blinking_frame s alertBlinkingRate)
  exact h

@[simp] theorem handle_alert_blinking_controls_timeout (s : UIState) (alertBlinkingRate : ℚ) :
    (handle_alert_blinking s alertBlinkingRate).controls_timeout = s.controls_timeout := by
  have h := congrArg UIState.controls_timeout (handle_alert_blinking_frame s alertBlinkingRate)
  exact h

@[simp] theorem handle_alert_blinking_alert_sound_timeout (s : UIState) (alertBlinkingRate : ℚ) :
    (handle_alert_blinking s alertBlinkingRate).alert_sound_timeout = s.alert_sound_timeout := by
  have h := congrArg UIState.alert_sound_timeout (handle_alert_blinking_frame s alertBlinkingRate)
  exact h

@[simp] theorem handle_alert_blinking_vision_seen (s : UIState) (alertBlinkingRate : ℚ) :
    (handle_alert_blinking s alertBlinkingRate).vision_seen = s.vision_seen := by
  have h := congrArg UIState.vision_seen (handle_alert_blinking_frame s alertBlinkingRate)
  exact h

@[simp] theorem handle_alert_blinking_alert_sound (s : UIState) (alertBlinkingRate : ℚ) :
    (handle_alert_blinking s alertBlinkingRate).alert_sound = s.alert_sound := by
  have h := congrArg UIState.alert_sound (handle_alert_blinking_frame s alertBlinkingRate)
  exact h

@[simp] theorem handle_alert_blinking_awake (s : UIState) (alertBlinkingRate : ℚ) :
    (handle_alert_blinking s alertBlinkingRate).awake = s.awake := by
  have h := congrArg UIState.awake (handle_alert_blinking_frame s alertBlinkingRate)
  exact h

@[simp] theorem handle_alert_blinking_awake_timeout (s : UIState) (alertBlinkingRate : ℚ) :
    (handle_alert_blinking s alertBlinkingRate).awake_timeout = s.awake_timeout := by
  have h := congrArg UIState.awake_timeout (handle_alert_blinking_frame s alertBlinkingRate)
  exact h

@[simp] theorem handle_alert_blinking_alert_type (s : UIState) (alertBlinkingRate : ℚ) :
    (handle_alert_blinking s alertBlinkingRate).alert_type = s.alert_type := by
  have h := congrArg UIState.alert_type (handle_alert_blinking_frame s alertBlinkingRate)
  exact h

@[simp] theorem handle_alert_blinking_dragon_ui_screen_off_driving (s : UIState) (alertBlinkingRate : ℚ) :
    (handle_alert_blinking s alertBlinkingRate).dragon_ui_screen_off_driving = s.dragon_ui_screen_off_driving := by
  have h := congrArg UIState.dragon_ui_screen_off_driving (handle_alert_blinking_frame s alertBlinkingRate)
  exact h

@[simp] theorem handle_alert_blinking_params_view (s : UIState) (alertBlinkingRate : ℚ) :
    params_view (handle_alert_blinking s alertBlinkingRate) = params_view s := by
  have h := congrArg params_view (handle_alert_blinking_frame s alertBlinkingRate)
  exact h

@[simp] theorem handle_alert_blinking_controls_view (s : UIState) (alertBlinkingRate : ℚ) :
    controls_view (handle_alert_blinking s alertBlinkingRate) = controls_view s := by
  have h := congrArg controls_view (handle_alert_blinking_frame s alertBlinkingRate)
  exact h

@[simp] theorem handle_alert_blinking_session_view (s : UIState) (alertBlinkingRate : ℚ) :
    session_view (handle_alert_blinking s alertBlinkingRate) = session_view s := by
  have h := congrArg session_view (handle_alert_blinking_frame s alertBlinkingRate)
  exact h

@[simp] theorem handle_alert_blinking_sound_view (s : UIState) (alertBlinkingRate : ℚ) :
    sound_view (handle_alert_blinking s alertBlinkingRate) = sound_view s := by
  have h := congrArg sound_view (handle_alert_blinking_frame s alertBlinkingRate)
  exact h

/-- `tick_layout` writes nothing but the fields named in `tick_layout_writes`. -/
theorem tick_layout_frame (s : UIState) :
    (tick_layout s) = tick_layout_writes s (tick_layout s) := by
  rfl

@[simp] theorem tick_layout_started (s : UIState) :
    (tick_layout s).started = s.started := by
  have h := congrArg UIState.started (tick_layout_frame s)
  exact h

@[simp] theorem tick_layout_status (s : UIState) :
    (tick_layout s).status = s.status := by
  have h := congrArg UIState.status (tick_layout_frame s)
  exact h

@[simp] theorem tick_layout_params_view (s : UIState) :
    params_view (tick_layout s) = params_view s := by
  have h := congrArg params_view (tick_layout_frame s)
  exact h

@[simp] theorem tick_layout_controls_view (s : UIState) :
    controls_view (tick_layout s) = controls_view s := by
  have h := congrArg controls_view (tick_layout_frame s)
  exact h

@[simp] theorem tick_layout_session_view (s : UIState) :
    session_view (tick_layout s) = session_view s := by
  have h := congrArg session_view (tick_layout_frame s)
  exact h

@[simp] theorem tick_layout_sound_view (s : UIState) :
    sound_view (tick_layout s) = sound_view s := by
  have h := congrArg sound_view (tick_layout_frame s)
  exact h

@[simp] theorem tick_layout_blink_view (s : UIState) :
    blink_view (tick_layout s) = blink_view s := by
  have h := congrArg blink_view (tick_layout_frame s)
  exact h

/-- `navigate_to_settings` writes nothing but the fields named in `navigate_to_settings_writes`. -/
theorem navigate_to_settings_frame (cfg : Config) (s : UIState) :
    (navigate_to_settings cfg s).1 = navigate_to_settings_writes s (navigate_to_settings cfg s).1 := by
  simp only [navigate_to_settings, navigate_to_settings_writes]
  split_ifs <;> rfl

@[simp] theorem navigate_to_settings_started (cfg : Config) (s : UIState) :
    (navigate_to_settings cfg s).1.started = s.started := by
  have h := congrArg UIState.started (navigate_to_settings_frame cfg s)
  exact h

@[simp] theorem navigate_to_settings_status (cfg : Config) (s : UIState) :
    (navigate_to_settings cfg s).1.status = s.status := by
  have h := congrArg UIState.status (navigate_to_settings_frame cfg s)
  exact h

@[simp] theorem navigate_to_settings_scene (cfg : Config) (s : UIState) :
    (navigate_to_settings cfg s).1.scene = s.scene := by
  have h := congrArg UIState.scene (navigate_to_settings_frame cfg s)
  exact h

@[simp] theorem navigate_to_settings_params_view (cfg : Config) (s : UIState) :
    params_view (navigate_to_settings cfg s).1 = params_view s := by
  have h := congrArg params_view (navigate_to_settings_frame cfg s)
  exact h

@[simp] theorem navigate_to_settings_controls_view (cfg : Config) (s : UIState) :
    controls_view (navigate_to_settings cfg s).1 = controls_view s := by
  have h := congrArg controls_view (navigate_to_settings_frame cfg s)
  exact h

@[simp] theorem navigate_to_settings_session_view (cfg : Config) (s : UIState) :
    session_view (navigate_to_settings cfg s).1 = session_view s := by
  have h := congrArg session_view (navigate_to_settings_frame cfg s)
  exact h

@[simp] theorem navigate_to_settings_sound_view (cfg : Config) (s : UIState) :
    sound_view (navigate_to_settings cfg s).1 = sound_view s := by
  have h := congrArg sound_view (navigate_to_settings_frame cfg s)
  exact h

@[simp] theorem navigate_to_settings_blink_view (cfg : Config) (s : UIState) :
    blink_view (navigate_to_settings cfg s).1 = blink_view s := by
  have h := congrArg blink_view (navigate_to_settings_frame cfg s)
  exact h

/-- `navigate_to_home` writes nothing but the fields named in `navigate_to_home_writes`. -/
theorem navigate_to_home_frame (cfg : Config) (s : UIState) :
    (navigate_to_home cfg s).1 = navigate_to_home_writes s (navigate_to_home cfg s).1 := by
  simp only [navigate_to_home, navigate_to_home_writes]
  split_ifs <;> rfl

@[simp] theorem navigate_to_home_started (cfg : Config) (s : UIState) :
    (navigate_to_home cfg s).1.started = s.started := by
  have h := congrArg UIState.started (navigate_to_home_frame cfg s)
  exact h

@[simp] theorem navigate_to_home_status (cfg : Config) (s : UIState) :
    (navigate_to_home cfg s).1.status = s.status := by
  have h := congrArg UIState.status (navigate_to_home_frame cfg s)
  exact h

@[simp] theorem navigate_to_home_scene (cfg : Config) (s : UIState) :
    (navigate_to_home cfg s).1.scene = s.scene := by
  have h := congrArg UIState.scene (navigate_to_home_frame cfg s)
  exact h

@[simp] theorem navigate_to_home_params_view (cfg : Config) (s : UIState) :
    params_view (navigate_to_home cfg s).1 = params_view s := by
  have h := congrArg params_view (navigate_to_home_frame cfg s)
  exact h

@[simp] theorem navigate_to_home_controls_view (cfg : Config) (s : UIState) :
    controls_view (navigate_to_home cfg s).1 = controls_view s := by
  have h := congrArg controls_view (navigate_to_home_frame cfg s)
  exact h

@[simp] theorem navigate_to_home_session_view (cfg : Config) (s : UIState) :
    session_view (navigate_to_home cfg s).1 = session_view s := by
  have h := congrArg session_view (navigate_to_home_frame cfg s)
  exact h

@[simp] theorem navigate_to_home_sound_view (cfg : Config) (s : UIState) :
    sound_view (navigate_to_home cfg s).1 = sound_view s := by
  have h := congrArg sound_view (navigate_to_home_frame cfg s)
  exact h

@[simp] theorem navigate_to_home_blink_view (cfg : Config) (s : UIState) :
    blink_view (navigate_to_home cfg s).1 = blink_view s := by
  have h := congrArg blink_view (navigate_to_home_frame cfg s)
  exact h

/-- `handle_vision_touch` writes nothing but the fields named in `handle_vision_touch_writes`. -/
theorem handle_vision_touch_frame (s : UIState) (touch_x touch_y : Int) :
    (handle_vision_touch s touch_x touch_y).1 = handle_vision_touch_writes s (handle_vision_touch s touch_x touch_y).1 := by
  simp only [handle_vision_touch, handle_driver_view_touch, handle_vision_touch_writes]
  split_ifs <;> rfl

@[simp] theorem handle_vision_touch_started (s : UIState) (touch_x touch_y : Int) :
    (handle_vision_touch s touch_x touch_y).1.started = s.started := by
  have h := congrArg UIState.started (handle_vision_touch_frame s touch_x touch_y)
  exact h

@[simp] theorem handle_vision_touch_status (s : UIState) (touch_x touch_y : Int) :
    (handle_vision_touch s touch_x touch_y).1.status = s.status := by
  have h := congrArg UIState.status (handle_vision_touch_frame s touch_x touch_y)
  exact h

@[simp] theorem handle_vision_touch_params_view (s : UIState) (touch_x touch_y : Int) :
    params_view (handle_vision_touch s touch_x touch_y).1 = params_view s := by
  have h := congrArg params_view (handle_vision_touch_frame s touch_x touch_y)
  exact h

@[simp] theorem handle_vision_touch_controls_view (s : UIState) (touch_x touch_y : Int) :
    controls_view (handle_vision_touch s touch_x touch_y).1 = controls_view s := by
  have h := congrArg controls_view (handle_vision_touch_frame s touch_x touch_y)
  exact h

@[simp] theorem handle_vision_touch_session_view (s : UIState) (touch_x touch_y : Int) :
    session_view (handle_vision_touch s touch_x touch_y).1 = session_view s := by
  have h := congrArg session_view (handle_vision_touch_frame s touch_x touch_y)
  exact h

@[simp] theorem handle_vision_touch_sound_view (s : UIState) (touch_x touch_y : Int) :
    sound_view (handle_vision_touch s touch_x touch_y).1 = sound_view s := by
  have h := congrArg sound_view (handle_vision_touch_frame s touch_x touch_y)
  exact h

@[simp] theorem handle_vision_touch_blink_view (s : UIState) (touch_x touch_y : Int) :
    blink_view (handle_vision_touch s touch_x touch_y).1 = blink_view s := by
  have h := congrArg blink_view (handle_vision_touch_frame s touch_x touch_y)
  exact h

/-- `handle_dp_btn_touch` writes nothing but the fields named in `handle_dp_btn_touch_writes`. -/
theorem handle_dp_btn_touch_frame (s : UIState) (touch_x touch_y : Int) (time : Nat) :
    (handle_dp_btn_touch s touch_x touch_y time).1.2 = handle_dp_btn_touch_writes s (handle_dp_btn_touch s touch_x touch_y time).1.2 := by
  simp only [handle_dp_btn_touch, handle_dp_btn_touch_writes]
  split_ifs <;> rfl

@[simp] theorem handle_dp_btn_touch_started (s : UIState) (touch_x touch_y : Int) (time : Nat) :
    (handle_dp_btn_touch s touch_x touch_y time).1.2.started = s.started := by
  have h := congrArg UIState.started (handle_dp_btn_touch_frame s touch_x touch_y time)
  exact h

@[simp] theorem handle_dp_btn_touch_status (s : UIState) (touch_x touch_y : Int) (time : Nat) :
    (handle_dp_btn_touch s touch_x touch_y time).1.2.status = s.status := by
  have h := congrArg UIState.status (handle_dp_btn_touch_frame s touch_x touch_y time)
  exact h

@[simp] theorem handle_dp_btn_touch_params_view (s : UIState) (touch_x touch_y : Int) (time : Nat) :
    params_view (handle_dp_btn_touch s touch_x touch_y time).1.2 = params_view s := by
  have h := congrArg params_view (handle_dp_btn_touch_frame s touch_x touch_y time)
  exact h

@[simp] theorem handle_dp_btn_touch_controls_view (s : UIState) (touch_x touch_y : Int) (time : Nat) :
    controls_view (handle_dp_btn_touch s touch_x touch_y time).1.2 = controls_view s := by
  have h := congrArg controls_view (handle_dp_btn_touch_frame s touch_x touch_y time)
  exact h

@[simp] theorem handle_dp_btn_touch_session_view (s : UIState) (touch_x touch_y : Int) (time : Nat) :
    session_view (handle_dp_btn_touch s touch_x touch_y time).1.2 = session_view s := by
  have h := congrArg session_view (handle_dp_btn_touch_frame s touch_x touch_y time)
  exact h

@[simp] theorem handle_dp_btn_touch_sound_view (s : UIState) (touch_x touch_y : Int) (time : Nat) :
    sound_view (handle_dp_btn_touch s touch_x touch_y time).1.2 = sound_view s := by
  have h := congrArg sound_view (handle_dp_btn_touch_frame s touch_x touch_y time)
  exact h

@[simp] theorem handle_dp_btn_touch_blink_view (s : UIState) (touch_x touch_y : Int) (time : Nat) :
    blink_view (handle_dp_btn_touch s touch_x touch_y time).1.2 = blink_view s := by
  have h := congrArg blink_view (handle_dp_btn_touch_frame s touch_x touch_y time)
  exact h

/-- `tick_screen` writes nothing but the fields named in `tick_screen_writes`. -/
theorem tick_screen_frame (cfg : Config) (s : UIState) :
    (tick_screen cfg s).1 = tick_screen_writes s (tick_screen cfg s).1 := by
  simp only [tick_screen, set_awake, tick_screen_writes]
  split_ifs <;> rfl

@[simp] theorem tick_screen_started (cfg : Config) (s : UIState) :
    (tick_screen cfg s).1.started = s.started := by
  have h := congrArg UIState.started (tick_screen_frame cfg s)
  exact h

@[simp] theorem tick_screen_status (cfg : Config) (s : UIState) :
    (tick_screen cfg s).1.status = s.status := by
  have h := congrArg UIState.status (tick_screen_frame cfg s)
  exact h

@[simp] theorem tick_screen_scene (cfg : Config) (s : UIState) :
    (tick_screen cfg s).1.scene = s.scene := by
  have h := congrArg UIState.scene (tick_screen_frame cfg s)
  exact h

@[simp] theorem tick_screen_params_view (cfg : Config) (s : UIState) :
    params_view (tick_screen cfg s).1 = params_view s := by
  have h := congrArg params_view (tick_screen_frame cfg s)
  exact h

@[simp] theorem tick_screen_controls_view (cfg : Config) (s : UIState) :
    controls_view (tick_screen cfg s).1 = controls_view s := by
  have h := congrArg controls_view (tick_screen_frame cfg s)
  exact h

@[simp] theorem tick_screen_session_view (cfg : Config) (s : UIState) :
    session_view (tick_screen cfg s).1 = session_view s := by
  have h := congrArg session_view (tick_screen_frame cfg s)
  exact h

@[simp] theorem tick_screen_sound_view (cfg : Config) (s : UIState) :
    sound_view (tick_screen cfg s).1 = sound_view s := by
  have h := congrArg sound_view (tick_screen_frame cfg s)
  exact h

@[simp] theorem tick_screen_blink_view (cfg : Config) (s : UIState) :
    blink_view (tick_screen cfg s).1 = blink_view s := by
  have h := congrArg blink_view (tick_screen_frame cfg s)
  exact h

/-- `ui_update_firstrun_state` writes nothing but the fields named in `ui_update_firstrun_state_writes`. -/
theorem ui_update_firstrun_state_frame (s : UIState) :
    (ui_update_firstrun_state s).1 = ui_update_firstrun_state_writes s (ui_update_firstrun_state s).1 := by
  simp only [ui_update_firstrun_state, ui_update_firstrun_state_writes]
  split_ifs <;> rfl

@[simp] theorem ui_update_firstrun_state_started (s : UIState) :
    (ui_update_firstrun_state s).1.started = s.started := by
  have h := congrArg UIState.started (ui_update_firstrun_state_frame s)
  exact h

@[simp] theorem ui_update_firstrun_state_status (s : UIState) :
    (ui_update_firstrun_state s).1.status = s.status := by
  have h := congrArg UIState.status (ui_update_firstrun_state_frame s)
  exact h

@[simp] theorem ui_update_firstrun_state_params_view (s : UIState) :
    params_view (ui_update_firstrun_state s).1 = params_view s := by
  have h := congrArg params_view (ui_update_firstrun_state_frame s)
  exact h

@[simp] theorem ui_update_firstrun_state_controls_view (s : UIState) :
    controls_view (ui_update_firstrun_state s).1 = controls_view s := by
  have h := congrArg controls_view (ui_update_firstrun_state_frame s)
  exact h

@[simp] theorem ui_update_firstrun_state_session_view (s : UIState) :
    session_view (ui_update_firstrun_state s).1 = session_view s := by
  have h := congrArg session_view (ui_update_firstrun_state_frame s)
  exact h

@[simp] theorem ui_update_firstrun_state_sound_view (s : UIState) :
    sound_view (ui_update_firstrun_state s).1 = sound_view s := by
  have h := congrArg sound_view (ui_update_firstrun_state_frame s)
  exact h

/-- `tick_stopped` writes nothing but the fields named in `tick_stopped_writes`. -/
theorem tick_stopped_frame (s : UIState) :
    (tick_stopped s).1 = tick_stopped_writes s (tick_stopped s).1 := by
  simp only [tick_stopped, tick_stopped_writes]
  split_ifs <;> rfl

@[simp] theorem tick_stopped_started (s : UIState) :
    (tick_stopped s).1.started = s.started := by
  have h := congrArg UIState.started (tick_stopped_frame s)
  exact h

@[simp] theorem tick_stopped_status (s : UIState) :
    (tick_stopped s).1.status = s.status := by
  have h := congrArg UIState.status (tick_stopped_frame s)
  exact h

@[simp] theorem tick_stopped_params_view (s : UIState) :
    params_view (tick_stopped s).1 = params_view s := by
  have h := congrArg params_view (tick_stopped_frame s)
  exact h

@[simp] theorem tick_stopped_controls_view (s : UIState) :
    controls_view (tick_stopped s).1 = controls_view s := by
  have h := congrArg controls_view (tick_stopped_frame s)
  exact h

@[simp] theorem tick_stopped_session_view (s : UIState) :
    session_view (tick_stopped s).1 = session_view s := by
  have h := congrArg session_view (tick_stopped_frame s)
  exact h

@[simp] theorem tick_stopped_sound_view (s : UIState) :
    sound_view (tick_stopped s).1 = sound_view s := by
  have h := congrArg sound_view (tick_stopped_frame s)
  exact h

@[simp] theorem tick_stopped_blink_view (s : UIState) :
    blink_view (tick_stopped s).1 = blink_view s := by
  have h := congrArg blink_view (tick_stopped_frame s)
  exact h

/-- `tick_awake` writes nothing but the fields named in `tick_awake_writes`. -/
theorem tick_awake_frame (cfg : Config) (s : UIState) :
    (tick_awake cfg s).1 = tick_awake_writes s (tick_awake cfg s).1 := by
  simp only [tick_awake, set_awake, tick_awake_writes]
  split_ifs <;> rfl

@[simp] theorem tick_awake_started (cfg : Config) (s : UIState) :
    (tick_awake cfg s).1.started = s.started := by
  have h := congrArg UIState.started (tick_awake_frame cfg s)
  exact h

@[simp] theorem tick_awake_status (cfg : Config) (s : UIState) :
    (tick_awake cfg s).1.status = s.status := by
  have h := congrArg UIState.status (tick_awake_frame cfg s)
  exact h

@[simp] theorem tick_awake_params_view (cfg : Config) (s : UIState) :
    params_view (tick_awake cfg s).1 = params_view s := by
  have h := congrArg params_view (tick_awake_frame cfg s)
  exact h

@[simp] theorem tick_awake_controls_view (cfg : Config) (s : UIState) :
    controls_view (tick_awake cfg s).1 = controls_view s := by
  have h := congrArg controls_view (tick_awake_frame cfg s)
  exact h

@[simp] theorem tick_awake_session_view (cfg : Config) (s : UIState) :
    session_view (tick_awake cfg s).1 = session_view s := by
  have h := congrArg session_view (tick_awake_frame cfg s)
  exact h

@[simp] theorem tick_awake_sound_view (cfg : Config) (s : UIState) :
    sound_view (tick_awake cfg s).1 = sound_view s := by
  have h := congrArg sound_view (tick_awake_frame cfg s)
  exact h

@[simp] theorem tick_awake_blink_view (cfg : Config) (s : UIState) :
    blink_view (tick_awake cfg s).1 = blink_view s := by
  have h := congrArg blink_view (tick_awake_frame cfg s)
  exact h

/-- `tick_hardware` writes nothing but the fields named in `tick_hardware_writes`. -/
theorem tick_hardware_frame (s : UIState) :
    (tick_hardware s) = tick_hardware_writes s (tick_hardware s) := by
  simp only [tick_hardware, tick_hardware_writes]
  split_ifs <;> rfl

@[simp] theorem tick_hardware_started (s : UIState) :
    (tick_hardware s).started = s.started := by
  have h := congrArg UIState.started (tick_hardware_frame s)
  exact h

@[simp] theorem tick_hardware_status (s : UIState) :
    (tick_hardware s).status = s.status := by
  have h := congrArg UIState.status (tick_hardware_frame s)
  exact h

@[simp] theorem tick_hardware_params_view (s : UIState) :
    params_view (tick_hardware s) = params_view s := by
  have h := congrArg params_view (tick_hardware_frame s)
  exact h

@[simp] theorem tick_hardware_controls_view (s : UIState) :
    controls_view (tick_hardware s) = controls_view s := by
  have h := congrArg controls_view (tick_hardware_frame s)
  exact h

@[simp] theorem tick_hardware_session_view (s : UIState) :
    session_view (tick_hardware s) = session_view s := by
  have h := congrArg session_view (tick_hardware_frame s)
  exact h

@[simp] theorem tick_hardware_sound_view (s : UIState) :
    sound_view (tick_hardware s) = sound_view s := by
  have h := congrArg sound_view (tick_hardware_frame s)
  exact h

@[simp] theorem tick_hardware_blink_view (s : UIState) :
    blink_view (tick_hardware s) = blink_view s := by
  have h := congrArg blink_view (tick_hardware_frame s)
  exact h

/-- `tick_volume` writes nothing but the fields named in `tick_volume_writes`. -/
theorem tick_volume_frame (s : UIState) :
    (tick_volume s).1 = tick_volume_writes s (tick_volume s).1 := by
  simp only [tick_volume, tick_volume_writes]
  split_ifs <;> rfl

@[simp] theorem tick_volume_started (s : UIState) :
    (tick_volume s).1.started = s.started := by
  have h := congrArg UIState.started (tick_volume_frame s)
  exact h

@[simp] theorem tick_volume_status (s : UIState) :
    (tick_volume s).1.status = s.status := by
  have h := congrArg UIState.status (tick_volume_frame s)
  exact h

@[simp] theorem tick_volume_params_view (s : UIState) :
    params_view (tick_volume s).1 = params_view s := by
  have h := congrArg params_view (tick_volume_frame s)
  exact h

@[simp] theorem tick_volume_controls_view (s : UIState) :
    controls_view (tick_volume s).1 = controls_view s := by
  have h := congrArg controls_view (tick_volume_frame s)
  exact h

@[simp] theorem tick_volume_session_view (s : UIState) :
    session_view (tick_volume s).1 = session_view s := by
  have h := congrArg session_view (tick_volume_frame s)
  exact h

@[simp] theorem tick_volume_sound_view (s : UIState) :
    sound_view (tick_volume s).1 = sound_view s := by
  have h := congrArg sound_view (tick_volume_frame s)
  exact h

@[simp] theorem tick_volume_blink_view (s : UIState) :
    blink_view (tick_volume s).1 = blink_view s := by
  have h := congrArg blink_view (tick_volume_frame s)
  exact h

/-- `tick_alert_sound` writes nothing but the fields named in `tick_alert_sound_writes`. -/
theorem tick_alert_sound_frame (s : UIState) :
    (tick_alert_sound s).1 = tick_alert_sound_writes s (tick_alert_sound s).1 := by
  simp only [tick_alert_sound, tick_alert_sound_writes]
  split_ifs <;> rfl

@[simp] theorem tick_alert_sound_started (s : UIState) :
    (tick_alert_sound s).1.started = s.started := by
  have h := congrArg UIState.started (tick_alert_sound_frame s)
  exact h

@[simp] theorem tick_alert_sound_params_view (s : UIState) :
    params_view (tick_alert_sound s).1 = params_view s := by
  have h := congrArg params_view (tick_alert_sound_frame s)
  exact h

@[simp] theorem tick_alert_sound_session_view (s : UIState) :
    session_view (tick_alert_sound s).1 = session_view s := by
  have h := congrArg session_view (tick_alert_sound_frame s)
  exact h

@[simp] theorem tick_alert_sound_blink_view (s : UIState) :
    blink_view (tick_alert_sound s).1 = blink_view s := by
  have h := congrArg blink_view (tick_alert_sound_frame s)
  exact h

/-- `tick_controls` writes nothing but the fields named in `tick_controls_writes`. -/
theorem tick_controls_frame (s : UIState) :
    (tick_controls s).1 = tick_controls_writes s (tick_controls s).1 := by
  simp only [tick_controls, tick_controls_unresponsive, update_status, tick_controls_writes]
  split_ifs <;> rfl

@[simp] theorem tick_controls_started (s : UIState) :
    (tick_controls s).1.started = s.started := by
  have h := congrArg UIState.started (tick_controls_frame s)
  exact h

@[simp] theorem tick_controls_params_view (s : UIState) :
    params_view (tick_controls s).1 = params_view s := by
  have h := congrArg params_view (tick_controls_frame s)
  exact h

@[simp] theorem tick_controls_blink_view (s : UIState) :
    blink_view (tick_controls s).1 = blink_view s := by
  have h := congrArg blink_view (tick_controls_frame s)
  exact h

/-- `refresh_settings_fit` writes nothing but the fields named in `refresh_settings_fit_writes`. -/
theorem refresh_settings_fit_frame (cfg : Config) (s : UIState) (store : Store) :
    (refresh_settings_fit cfg s store).1 = refresh_settings_fit_writes s (refresh_settings_fit cfg s store).1 := by
  rfl

@[simp] theorem refresh_settings_fit_started (cfg : Config) (s : UIState) (store : Store) :
    (refresh_settings_fit cfg s store).1.started = s.started := by
  have h := congrArg UIState.started (refresh_settings_fit_frame cfg s store)
  exact h

@[simp] theorem refresh_settings_fit_params_view (cfg : Config) (s : UIState) (store : Store) :
    params_view (refresh_settings_fit cfg s store).1 = params_view s := by
  have h := congrArg params_view (refresh_settings_fit_frame cfg s store)
  exact h

@[simp] theorem refresh_settings_fit_controls_view (cfg : Config) (s : UIState) (store : Store) :
    controls_view (refresh_settings_fit cfg s store).1 = controls_view s := by
  have h := congrArg controls_view (refresh_settings_fit_frame cfg s store)
  exact h

@[simp] theorem refresh_settings_fit_session_view (cfg : Config) (s : UIState) (store : Store) :
    session_view (refresh_settings_fit cfg s store).1 = session_view s := by
  have h := congrArg session_view (refresh_settings_fit_frame cfg s store)
  exact h

@[simp] theorem refresh_settings_fit_sound_view (cfg : Config) (s : UIState) (store : Store) :
    sound_view (refresh_settings_fit cfg s store).1 = sound_view s := by
  have h := congrArg sound_view (refresh_settings_fit_frame cfg s store)
  exact h

@[simp] theorem refresh_settings_fit_blink_view (cfg : Config) (s : UIState) (store : Store) :
    blink_view (refresh_settings_fit cfg s store).1 = blink_view s := by
  have h := congrArg blink_view (refresh_settings_fit_frame cfg s store)
  exact h

/-- `refresh_toggles` writes nothing but the fields named in `refresh_toggles_writes`. -/
theorem refresh_toggles_frame (s : UIState) (store : Store) :
    (refresh_toggles s store).1 = refresh_toggles_writes s (refresh_toggles s store).1 := by
  simp only [refresh_toggles, refresh_toggles_writes]
  split_ifs <;> rfl

@[simp] theorem refresh_toggles_started (s : UIState) (store : Store) :
    (refresh_toggles s store).1.started = s.started := by
  have h := congrArg UIState.started (refresh_toggles_frame s store)
  exact h

@[simp] theorem refresh_toggles_status (s : UIState) (store : Store) :
    (refresh_toggles s store).1.status = s.status := by
  have h := congrArg UIState.status (refresh_toggles_frame s store)
  exact h

@[simp] theorem refresh_toggles_scene (s : UIState) (store : Store) :
    (refresh_toggles s store).1.scene = s.scene := by
  have h := congrArg UIState.scene (refresh_toggles_frame s store)
  exact h

@[simp] theorem refresh_toggles_params_view (s : UIState) (store : Store) :
    params_view (refresh_toggles s store).1 = params_view s := by
  have h := congrArg params_view (refresh_toggles_frame s store)
  exact h

@[simp] theorem refresh_toggles_controls_view (s : UIState) (store : Store) :
    controls_view (refresh_toggles s store).1 = controls_view s := by
  have h := congrArg controls_view (refresh_toggles_frame s store)
  exact h

@[simp] theorem refresh_toggles_session_view (s : UIState) (store : Store) :
    session_view (refresh_toggles s store).1 = session_view s := by
  have h := congrArg session_view (refresh_toggles_frame s store)
  exact h

@[simp] theorem refresh_toggles_sound_view (s : UIState) (store : Store) :
    sound_view (refresh_toggles s store).1 = sound_view s := by
  have h := congrArg sound_view (refresh_toggles_frame s store)
  exact h

@[simp] theorem refresh_toggles_blink_view (s : UIState) (store : Store) :
    blink_view (refresh_toggles s store).1 = blink_view s := by
  have h := congrArg blink_view (refresh_toggles_frame s store)
  exact h

/-- `tick_params_fit` writes nothing but the fields named in `tick_params_fit_writes`. -/
theorem tick_params_fit_frame (cfg : Config) (s : UIState) (env : TickEnv) :
    (tick_params_fit cfg s env).1 = tick_params_fit_writes s (tick_params_fit cfg s env).1 := by
  rfl

@[simp] theorem tick_params_fit_started (cfg : Config) (s : UIState) (env : TickEnv) :
    (tick_params_fit cfg s env).1.started = s.started := by
  have h := congrArg UIState.started (tick_params_fit_frame cfg s env)
  exact h

@[simp] theorem tick_params_fit_session_view (cfg : Config) (s : UIState) (env : TickEnv) :
    session_view (tick_params_fit cfg s env).1 = session_view s := by
  have h := congrArg session_view (tick_params_fit_frame cfg s env)
  exact h

@[simp] theorem tick_params_fit_sound_view (cfg : Config) (s : UIState) (env : TickEnv) :
    sound_view (tick_params_fit cfg s env).1 = sound_view s := by
  have h := congrArg sound_view (tick_params_fit_frame cfg s env)
  exact h

@[simp] theorem tick_params_fit_blink_view (cfg : Config) (s : UIState) (env : TickEnv) :
    blink_view (tick_params_fit cfg s env).1 = blink_view s := by
  have h := congrArg blink_view (tick_params_fit_frame cfg s env)
  exact h

set_option maxRecDepth 100000

/-! ## Message lists -/

theorem Step.andThen_result_ok {α β : Type} (r : Step α) (f : α → Step β) (b : β)
    (h : (r.andThen f).result = Except.ok b) :
    ∃ a, r.result = Except.ok a ∧ (f a).result = Except.ok b := by
  unfold Step.andThen at h
  cases hr : r.result with
  | error e =>
    rw [hr] at h
    cases h
  | ok a =>
    rw [hr] at h
    exact ⟨a, rfl, h⟩

theorem Step.andThen_effects_nil {α β : Type} (r : Step α) (f : α → Step β)
    (hr : r.effects = []) (hf : ∀ a, (f a).effects = []) : (r.andThen f).effects = [] := by
  unfold Step.andThen
  cases r.result with
  | error e => exact hr
  | ok a =>
    dsimp only
    rw [hr, hf a]
    rfl

theorem list_read_effects (cfg : Config) (l : List ℚ) (n : Nat) :
    (list_read cfg l n).effects = [] := by
  unfold list_read
  split_ifs
  · rfl
  · cases cfg.list_oob <;> rfl

/-- A list that is long enough is read as it is. -/
theorem list_read_of_le (cfg : Config) (l : List ℚ) (n : Nat) (h : n ≤ l.length) :
    list_read cfg l n = Step.ok (l.take n) := by
  unfold list_read
  rw [if_pos h]

/-- A list that is too short, read with a library that stops at an index
beyond the end. -/
theorem list_read_stops (cfg : Config) (l : List ℚ) (n : Nat) (h : l.length < n)
    (hc : cfg.list_oob = none) : list_read cfg l n = Step.fail Fault.out_of_range := by
  unfold list_read
  rw [if_neg (not_le.mpr h), hc]

/-- A list that is too short, read with a library that hands back a value at
an index beyond the end. -/
theorem list_read_oob (cfg : Config) (l : List ℚ) (n : Nat) (oob : List ℚ → Nat → ℚ)
    (h : l.length < n) (hc : cfg.list_oob = some oob) :
    list_read cfg l n = Step.ok (list_values oob l n) := by
  unfold list_read
  rw [if_neg (not_le.mpr h), hc]

theorem read_path_effects (cfg : Config) (pathp : PathMsg) :
    (read_path cfg pathp).effects = [] :=
  Step.andThen_effects_nil _ _ (list_read_effects cfg _ _) (fun _ => rfl)

theorem read_model_effects (cfg : Config) (model : ModelMsg) :
    (read_model cfg model).effects = [] :=
  Step.andThen_effects_nil _ _ (read_path_effects cfg _) fun _ =>
    Step.andThen_effects_nil _ _ (read_path_effects cfg _) fun _ =>
      Step.andThen_effects_nil _ _ (read_path_effects cfg _) fun _ => rfl

/-- The `MODEL` arm, when it ends normally. -/
theorem handle_message_arms_model (cfg : Config) (s s1 : UIState) (m : ModelMsg)
    (h : (handle_message_arms cfg s (Event.MODEL m)).result = Except.ok s1) :
    ∃ d, s1 = { s with scene := { s.scene with model := d }, model_changed := true } := by
  unfold handle_message_arms at h
  obtain ⟨d, -, h2⟩ := Step.andThen_result_ok _ _ _ h
  unfold Step.ok at h2
  cases h2
  exact ⟨d, rfl⟩

/-- The `LIVE_CALIBRATION` arm, when it ends normally. -/
theorem handle_message_arms_calibration (cfg : Config) (s s1 : UIState) (l : List ℚ)
    (h : (handle_message_arms cfg s (Event.LIVE_CALIBRATION l)).result = Except.ok s1) :
    ∃ v, s1 =
      { s with
        scene :=
          { s.scene with
            world_objects_visible := true
            extrinsic_matrix := v ++ s.scene.extrinsic_matrix.drop (3 * 4) } } := by
  unfold handle_message_arms at h
  obtain ⟨v, -, h2⟩ := Step.andThen_result_ok _ _ _ h
  unfold Step.ok at h2
  cases h2
  exact ⟨v, rfl⟩

/-- The `LIVE_MPC` arm, when it ends normally. -/
theorem handle_message_arms_mpc (cfg : Config) (s s1 : UIState) (x y : List ℚ)
    (h : (handle_message_arms cfg s (Event.LIVE_MPC x y)).result = Except.ok s1) :
    ∃ mpc_x mpc_y, s1 =
      { s with
        scene := { s.scene with mpc_x := mpc_x, mpc_y := mpc_y }
        livempc_or_radarstate_changed := true } := by
  unfold handle_message_arms at h
  obtain ⟨vx, -, h2⟩ := Step.andThen_result_ok _ _ _ h
  obtain ⟨vy, -, h3⟩ := Step.andThen_result_ok _ _ _ h2
  unfold Step.ok at h3
  cases h3
  exact ⟨vx, vy, rfl⟩

/-- The `DRIVER_STATE` arm, when it ends normally. -/
theorem handle_message_arms_driver (cfg : Config) (s s1 : UIState) (p : ℚ) (l : List ℚ)
    (h : (handle_message_arms cfg s (Event.DRIVER_STATE p l)).result = Except.ok s1) :
    ∃ fxy : List ℚ, s1 =
      { s with
        scene :=
          { s.scene with face_prob := p, face_x := fxy.getD 0 0, face_y := fxy.getD 1 0 } } := by
  unfold handle_message_arms at h
  obtain ⟨v, -, h2⟩ := Step.andThen_result_ok _ _ _ h
  unfold Step.ok at h2
  cases h2
  exact ⟨v, rfl⟩

/-- The arms of `handle_message` other than `CONTROLS_STATE` make no call at
all. -/
theorem handle_message_arms_other_effects (cfg : Config) (s : UIState) (event : Event)
    (hev : event.is_controls = false) :
    (handle_message_arms cfg s event).effects = [] := by
  cases event with
  | CONTROLS_STATE t d => cases hev
  | MODEL m =>
    unfold handle_message_arms
    exact Step.andThen_effects_nil _ _ (read_model_effects cfg m) (fun _ => rfl)
  | LIVE_CALIBRATION l =>
    unfold handle_message_arms
    exact Step.andThen_effects_nil _ _ (list_read_effects cfg _ _) (fun _ => rfl)
  | LIVE_MPC x y =>
    unfold handle_message_arms
    exact Step.andThen_effects_nil _ _ (list_read_effects cfg _ _) fun _ =>
      Step.andThen_effects_nil _ _ (list_read_effects cfg _ _) (fun _ => rfl)
  | DRIVER_STATE p l =>
    unfold handle_message_arms
    exact Step.andThen_effects_nil _ _ (list_read_effects cfg _ _) (fun _ => rfl)
  | UBLOX_GNSS r =>
    cases r <;> rfl
  | _ =>
    simp only [handle_message_arms, Step.ok, Step.fail]
    try split_ifs
    all_goals rfl

/-! ## The string reads and their buffers -/

theorem Step.emit_andThen {β : Type} (es : List Effect) (f : Unit → Step β) :
    (Step.emit es).andThen f = ⟨es ++ (f ()).effects, (f ()).result⟩ := rfl

theorem Step.lift_andThen {α β : Type} (r : α × List Effect) (f : α → Step β) :
    (Step.lift r).andThen f = ⟨r.2 ++ (f r.1).effects, (f r.1).result⟩ := rfl

theorem Step.ok_andThen {α β : Type} (a : α) (f : α → Step β) :
    (Step.ok a).andThen f = f a := by
  unfold Step.ok Step.andThen
  dsimp only
  rw [List.nil_append]

theorem Step.error_andThen {α β : Type} (es : List Effect) (e : Fault) (f : α → Step β) :
    (Step.andThen (⟨es, Except.error e⟩ : Step α) f) = ⟨es, Except.error e⟩ := rfl

/-- `read_param_string` when the value read fits the buffer. -/
theorem read_param_string_fits (store : Store) (param : String) (size : Nat) (name : String)
    (h : store.fits size name = true) :
    read_param_string store param size name =
      Step.lift (read_param_string_fit store param name) := by
  unfold read_param_string read_param_string_fit
  unfold Store.fits at h
  rw [Step.emit_andThen]
  cases hs : store name false with
  | none => rfl
  | some str =>
    rw [hs] at h
    have hP : min str.length 127 + 1 ≤ size := of_decide_eq_true h
    dsimp only
    rw [if_pos hP]
    unfold Step.ok Step.lift
    dsimp only
    rw [List.append_nil]

/-- `read_param_string` when the value read does not fit the buffer: the read
is made, and the copy runs beyond the end of the buffer. -/
theorem read_param_string_overflow (store : Store) (param : String) (size : Nat)
    (name : String) (h : store.fits size name = false) :
    read_param_string store param size name =
      ⟨[Effect.read_db_value name false], Except.error Fault.buffer_overflow⟩ := by
  unfold read_param_string
  unfold Store.fits at h
  cases hs : store name false with
  | none =>
    rw [hs] at h
    cases h
  | some str =>
    rw [hs] at h
    have hP : ¬ min str.length 127 + 1 ≤ size := of_decide_eq_false h
    dsimp only
    rw [if_neg hP]
    rfl

theorem read_param_string_fit_effects (store : Store) (param : String) (name : String) :
    (read_param_string_fit store param name).2 = [Effect.read_db_value name false] := by
  unfold read_param_string_fit
  cases store name false <;> rfl

theorem read_param_string_timeout_fits (store : Store) (param : String) (size : Nat)
    (name : String) (c : Int) (h : c > 0 ∨ store.fits size name = true) :
    read_param_string_timeout store param size name c =
      Step.lift (read_param_string_timeout_fit store param name c) := by
  unfold read_param_string_timeout read_param_string_timeout_fit
  by_cases hc : c > 0
  · rw [if_pos hc, if_pos hc]
    rfl
  · rw [if_neg hc, if_neg hc, read_param_string_fits store param size name (h.resolve_left hc),
      Step.lift_andThen]
    unfold Step.ok Step.lift
    dsimp only
    rw [List.append_nil]

theorem read_param_string_timeout_overflow (store : Store) (param : String) (size : Nat)
    (name : String) (c : Int) (hc : ¬ c > 0) (h : store.fits size name = false) :
    read_param_string_timeout store param size name c =
      ⟨[Effect.read_db_value name false], Except.error Fault.buffer_overflow⟩ := by
  unfold read_param_string_timeout
  rw [if_neg hc, read_param_string_overflow store param size name h]
  rfl

/-- The parameter block of a pass when the gated read of `DragonLastModified`
is not made or fits: it ends normally, as `tick_params_fit` says. -/
theorem tick_params_fits (cfg : Config) (s : UIState) (env : TickEnv)
    (h : s.dragon_last_modified_timeout > 0 ∨ env.store.fits 20 "DragonLastModified" = true) :
    tick_params cfg s env = Step.lift (tick_params_fit cfg s env) := by
  unfold tick_params tick_params_fit
  dsimp only
  rw [read_param_string_timeout_fits _ _ _ _ _ h, Step.emit_andThen, Step.lift_andThen]
  unfold Step.ok Step.lift
  dsimp only
  rw [List.append_nil]

/-- The parameter block of a pass when the gated read of `DragonLastModified`
is made and does not fit: it makes the effects of `tick_params_fit` and stops
at the overflow. -/
theorem tick_params_overflow (cfg : Config) (s : UIState) (env : TickEnv)
    (hc : ¬ s.dragon_last_modified_timeout > 0)
    (h : env.store.fits 20 "DragonLastModified" = false) :
    tick_params cfg s env =
      ⟨(tick_params_fit cfg s env).2, Except.error Fault.buffer_overflow⟩ := by
  unfold tick_params tick_params_fit
  dsimp only
  rw [read_param_string_timeout_overflow _ _ _ _ _ hc h, Step.emit_andThen,
    Step.error_andThen]
  unfold read_param_string_timeout_fit
  rw [if_neg hc]
  dsimp only
  rw [read_param_string_fit_effects]

theorem refresh_settings_fits (cfg : Config) (s : UIState) (store : Store)
    (h : store.fits 20 "DragonLocale" = true) :
    refresh_settings cfg s store = Step.lift (refresh_settings_fit cfg s store) := by
  unfold refresh_settings refresh_settings_fit
  rw [read_param_string_fits _ _ _ _ h, Step.lift_andThen]
  unfold Step.lift
  dsimp only
  rw [read_param_string_fit_effects]
  simp only [List.append_assoc, List.singleton_append, List.cons_append, List.nil_append]

theorem refresh_settings_overflow (cfg : Config) (s : UIState) (store : Store)
    (h : store.fits 20 "DragonLocale" = false) :
    refresh_settings cfg s store =
      ⟨[Effect.read_db_value "DragonLocale" false], Except.error Fault.buffer_overflow⟩ := by
  unfold refresh_settings
  rw [read_param_string_overflow _ _ _ _ h]
  rfl

theorem tick_generation_fits (cfg : Config) (m : MainState) (store : Store)
    (h : m.last_modified = m.s.dragon_last_modified ∨ store.fits 20 "DragonLocale" = true) :
    tick_generation cfg m store = Step.lift (tick_generation_fit cfg m store) := by
  unfold tick_generation tick_generation_fit
  by_cases hm : m.last_modified = m.s.dragon_last_modified
  · rw [if_neg (not_not.mpr hm), if_neg (not_not.mpr hm)]
    rfl
  · rw [if_pos hm, if_pos hm, refresh_settings_fits cfg m.s store (h.resolve_left hm),
      Step.lift_andThen]
    rfl

theorem tick_generation_overflow (cfg : Config) (m : MainState) (store : Store)
    (hm : m.last_modified ≠ m.s.dragon_last_modified)
    (h : store.fits 20 "DragonLocale" = false) :
    tick_generation cfg m store =
      ⟨[Effect.read_db_value "DragonLocale" false], Except.error Fault.buffer_overflow⟩ := by
  unfold tick_generation
  rw [if_pos hm, refresh_settings_overflow cfg m.s store h]
  rfl

theorem tick_generation_fit_overflow_effects (cfg : Config) (m : MainState) (store : Store)
    (hm : m.last_modified ≠ m.s.dragon_last_modified) :
    ∃ post, (tick_generation_fit cfg m store).2 =
      [Effect.read_db_value "DragonLocale" false] ++ post := by
  unfold tick_generation_fit
  rw [if_pos hm]
  unfold refresh_settings_fit
  dsimp only
  rw [read_param_string_fit_effects]
  simp only [List.append_assoc]
  exact ⟨_, rfl⟩

theorem tick_rest_unfold (cfg : Config) (s : UIState) (lm : String) (env : TickEnv) :
    tick_rest cfg s lm env =
      (Step.emit ((tick_awake cfg s).2 ++ tick_draw (tick_hardware (tick_awake cfg s).1) ++
        (tick_volume (tick_hardware (tick_awake cfg s).1)).2 ++
        (tick_controls (before_controls cfg s)).2 ++
        (tick_alert_sound (tick_controls (before_controls cfg s)).1).2)).andThen fun _ =>
      (tick_params cfg (before_params cfg s) env).andThen fun s6 =>
      tick_generation cfg { s := s6, last_modified := lm } env.store := rfl

theorem tick_rest_fit_unfold (cfg : Config) (s : UIState) (lm : String) (env : TickEnv) :
    tick_rest_fit cfg s lm env =
      ((tick_generation_fit cfg
          { s := (tick_params_fit cfg (before_params cfg s) env).1, last_modified := lm }
          env.store).1,
        (tick_awake cfg s).2 ++ tick_draw (tick_hardware (tick_awake cfg s).1) ++
        (tick_volume (tick_hardware (tick_awake cfg s).1)).2 ++
        (tick_controls (before_controls cfg s)).2 ++
        (tick_alert_sound (tick_controls (before_controls cfg s)).1).2 ++
        (tick_params_fit cfg (before_params cfg s) env).2 ++
        (tick_generation_fit cfg
          { s := (tick_params_fit cfg (before_params cfg s) env).1, last_modified := lm }
          env.store).2) := rfl

/-- The second half of a pass when the strings it reads fit their buffers: it
ends normally, as `tick_rest_fit` says. -/
theorem tick_rest_fits_eq (cfg : Config) (s : UIState) (lm : String) (env : TickEnv)
    (h : tick_rest_fits cfg s lm env = true) :
    tick_rest cfg s lm env = Step.lift (tick_rest_fit cfg s lm env) := by
  unfold tick_rest_fits at h
  simp only [Bool.and_eq_true, Bool.or_eq_true, decide_eq_true_eq] at h
  rw [tick_rest_unfold, tick_rest_fit_unfold, tick_params_fits cfg _ env h.1, Step.emit_andThen,
    Step.lift_andThen, tick_generation_fits cfg _ env.store h.2]
  unfold Step.lift
  dsimp only
  simp only [List.append_assoc]

/-- The second half of a pass when a string it reads does not fit its buffer:
it stops at the overflow, having made the first of the effects of
`tick_rest_fit`. -/
theorem tick_rest_overflow (cfg : Config) (s : UIState) (lm : String) (env : TickEnv)
    (h : tick_rest_fits cfg s lm env = false) :
    ∃ pre post, (tick_rest_fit cfg s lm env).2 = pre ++ post ∧
      tick_rest cfg s lm env = ⟨pre, Except.error Fault.buffer_overflow⟩ := by
  by_cases h1 : (before_params cfg s).dragon_last_modified_timeout > 0 ∨
      env.store.fits 20 "DragonLastModified" = true
  · have h2 : ¬ (lm = (tick_params_fit cfg (before_params cfg s) env).1.dragon_last_modified ∨
        env.store.fits 20 "DragonLocale" = true) := by
      intro h2
      have : tick_rest_fits cfg s lm env = true := by
        unfold tick_rest_fits
        simp only [Bool.and_eq_true, Bool.or_eq_true, decide_eq_true_eq]
        exact ⟨h1, h2⟩
      rw [this] at h
      cases h
    have hm : lm ≠ (tick_params_fit cfg (before_params cfg s) env).1.dragon_last_modified :=
      fun hx => h2 (Or.inl hx)
    have hf : env.store.fits 20 "DragonLocale" = false := by
      cases hx : env.store.fits 20 "DragonLocale" with
      | false => rfl
      | true => exact absurd (Or.inr hx) h2
    obtain ⟨post, hpost⟩ := tick_generation_fit_overflow_effects cfg
      { s := (tick_params_fit cfg (before_params cfg s) env).1, last_modified := lm } env.store hm
    refine ⟨(tick_awake cfg s).2 ++ tick_draw (tick_hardware (tick_awake cfg s).1) ++
        (tick_volume (tick_hardware (tick_awake cfg s).1)).2 ++
        (tick_controls (before_controls cfg s)).2 ++
        (tick_alert_sound (tick_controls (before_controls cfg s)).1).2 ++
        (tick_params_fit cfg (before_params cfg s) env).2 ++
        [Effect.read_db_value "DragonLocale" false], post, ?_, ?_⟩
    · rw [tick_rest_fit_unfold]
      dsimp only
      rw [hpost]
      simp only [List.append_assoc]
    · rw [tick_rest_unfold, tick_params_fits cfg _ env h1, Step.emit_andThen, Step.lift_andThen,
        tick_generation_overflow cfg _ env.store hm hf]
      dsimp only
      simp only [List.append_assoc]
  · have hc : ¬ (before_params cfg s).dragon_last_modified_timeout > 0 :=
      fun hx => h1 (Or.inl hx)
    have hf : env.store.fits 20 "DragonLastModified" = false := by
      cases hx : env.store.fits 20 "DragonLastModified" with
      | false => rfl
      | true => exact absurd (Or.inr hx) h1
    refine ⟨(tick_awake cfg s).2 ++ tick_draw (tick_hardware (tick_awake cfg s).1) ++
        (tick_volume (tick_hardware (tick_awake cfg s).1)).2 ++
        (tick_controls (before_controls cfg s)).2 ++
        (tick_alert_sound (tick_controls (before_controls cfg s)).1).2 ++
        (tick_params_fit cfg (before_params cfg s) env).2,
      (tick_generation_fit cfg
        { s := (tick_params_fit cfg (before_params cfg s) env).1, last_modified := lm }
        env.store).2, ?_, ?_⟩
    · rw [tick_rest_fit_unfold]
    · rw [tick_rest_unfold, tick_params_overflow cfg _ env hc hf, Step.emit_andThen,
        Step.error_andThen]

/-- A second half of a pass that ends normally ends as `tick_rest_fit` says. -/
theorem tick_rest_ok (cfg : Config) (s : UIState) (lm : String) (env : TickEnv) (m' : MainState)
    (h : (tick_rest cfg s lm env).result = Except.ok m') :
    tick_rest_fits cfg s lm env = true ∧ m' = (tick_rest_fit cfg s lm env).1 ∧
      (tick_rest cfg s lm env).effects = (tick_rest_fit cfg s lm env).2 := by
  cases hf : tick_rest_fits cfg s lm env with
  | false =>
    obtain ⟨pre, post, -, e⟩ := tick_rest_overflow cfg s lm env hf
    rw [e] at h
    cases h
  | true =>
    rw [tick_rest_fits_eq cfg s lm env hf] at h ⊢
    unfold Step.lift at h ⊢
    cases h
    exact ⟨rfl, rfl, rfl⟩

theorem tick_rest_fits_of_env (cfg : Config) (s : UIState) (lm : String) (env : TickEnv)
    (h : env.fits = true) : tick_rest_fits cfg s lm env = true := by
  unfold TickEnv.fits at h
  rw [Bool.and_eq_true] at h
  unfold tick_rest_fits
  rw [h.1, h.2, Bool.or_true, Bool.or_true]
  rfl

/-- A pass in which the strings of the store fit their buffers. -/
theorem main_tick_fit_eq (cfg : Config) (m : MainState) (env : TickEnv) (h : env.fits = true) :
    main_tick cfg m env = main_tick_fit cfg m env := by
  unfold main_tick main_tick_fit
  congr 1
  funext s
  exact tick_rest_fits_eq cfg s m.last_modified env (tick_rest_fits_of_env cfg s _ env h)

/-- Passes in which the strings of the store fit their buffers. -/
theorem main_ticks_fit_eq (cfg : Config) :
    ∀ (envs : List TickEnv) (m : MainState), (∀ env ∈ envs, env.fits = true) →
      main_ticks cfg m envs = main_ticks_fit cfg m envs := by
  intro envs
  induction envs with
  | nil =>
    intro m _
    rfl
  | cons env rest ih =>
    intro m h
    unfold main_ticks main_ticks_fit
    rw [main_tick_fit_eq cfg m env (h env (List.mem_cons_self env rest))]
    congr 1
    funext m1
    exact ih m1 (fun e he => h e (List.mem_cons_of_mem env he))

theorem idle_fits (n : Nat) : ∀ env ∈ List.replicate n idle_env, env.fits = true := by
  intro env he
  rw [List.eq_of_mem_replicate he]
  rfl

/-- The parameter reads of `ui_init_vision` when both strings fit their
buffers: they end normally, as `ui_init_vision_params_fit` says. -/
theorem ui_init_vision_params_fits (cfg : Config) (m : MainState) (store : Store)
    (h1 : store.fits 20 "DragonLastModified" = true) (h2 : store.fits 20 "DragonLocale" = true) :
    ui_init_vision_params cfg m store = Step.lift (ui_init_vision_params_fit cfg m store) := by
  unfold ui_init_vision_params ui_init_vision_params_fit
  dsimp only
  rw [read_param_string_fits _ _ _ _ h1, read_param_string_fits _ _ _ _ h2, Step.emit_andThen,
    Step.lift_andThen, Step.lift_andThen]
  unfold Step.lift
  dsimp only
  simp only [List.append_assoc]

/-- The parameter reads of `ui_init_vision` stop at the overflow when one of
the two strings does not fit its buffer. -/
theorem ui_init_vision_params_overflow (cfg : Config) (m : MainState) (store : Store)
    (h : store.fits 20 "DragonLastModified" = false ∨ store.fits 20 "DragonLocale" = false) :
    (ui_init_vision_params cfg m store).result = Except.error Fault.buffer_overflow := by
  unfold ui_init_vision_params
  dsimp only
  rw [Step.emit_andThen]
  cases h1 : store.fits 20 "DragonLastModified" with
  | false =>
    rw [read_param_string_overflow _ _ _ _ h1, Step.error_andThen]
  | true =>
    have h2 : store.fits 20 "DragonLocale" = false := by
      rcases h with h | h
      · rw [h1] at h
        cases h
      · exact h
    rw [read_param_string_fits _ _ _ _ h1, Step.lift_andThen,
      read_param_string_overflow _ _ _ _ h2, Step.error_andThen]

/-- Parameter reads of `ui_init_vision` that end normally end as
`ui_init_vision_params_fit` says. -/
theorem ui_init_vision_params_ok (cfg : Config) (m m' : MainState) (store : Store)
    (h : (ui_init_vision_params cfg m store).result = Except.ok m') :
    (store.fits 20 "DragonLastModified" = true ∧ store.fits 20 "DragonLocale" = true) ∧
      m' = (ui_init_vision_params_fit cfg m store).1 ∧
      (ui_init_vision_params cfg m store).effects = (ui_init_vision_params_fit cfg m store).2 := by
  cases h1 : store.fits 20 "DragonLastModified" with
  | false =>
    rw [ui_init_vision_params_overflow cfg m store (Or.inl h1)] at h
    cases h
  | true =>
    cases h2 : store.fits 20 "DragonLocale" with
    | false =>
      rw [ui_init_vision_params_overflow cfg m store (Or.inr h2)] at h
      cases h
    | true =>
      rw [ui_init_vision_params_fits cfg m store h1 h2] at h ⊢
      unfold Step.lift at h ⊢
      cases h
      exact ⟨⟨rfl, rfl⟩, rfl, rfl⟩

/-! ## The `CONTROLS_STATE` arm -/

theorem handle_alert_status_eq (s : UIState) (a : AlertStatus) :
    (handle_alert_status s a).status = derived_status a s.scene.engaged := by
  simp only [handle_alert_status, update_status, derived_status]
  split_ifs <;> first | rfl | simp_all

theorem handle_controls_fields_engaged (s : UIState) (t : Nat) (d : ControlsStateData) :
    (handle_controls_fields s t d).scene.engaged = d.enabled := by
  simp only [handle_controls_fields]

theorem handle_controls_state_status (cfg : Config) (s : UIState) (t : Nat)
    (d : ControlsStateData) :
    (handle_controls_state cfg s t d).1.status = derived_status d.alertStatus d.enabled := by
  simp only [handle_controls_state, seq, handle_alert_blinking_status, handle_alert_status_eq]
  have h : (handle_alert_text (handle_alert_sound cfg (handle_controls_fields s t d) d).1 t
      d).scene.engaged = d.enabled := by
    simp only [handle_alert_text, handle_alert_sound_scene, handle_controls_fields_engaged]
  rw [h]

theorem handle_controls_state_thermal_started (cfg : Config) (s : UIState) (t : Nat)
    (d : ControlsStateData) :
    (handle_controls_state cfg s t d).1.thermal_started = s.thermal_started := by
  simp only [handle_controls_state, seq, handle_alert_blinking_thermal_started,
    handle_alert_status_thermal_started, handle_alert_text_thermal_started,
    handle_alert_sound_thermal_started, handle_controls_fields_thermal_started]

theorem handle_controls_state_preview_started (cfg : Config) (s : UIState) (t : Nat)
    (d : ControlsStateData) :
    (handle_controls_state cfg s t d).1.preview_started = s.preview_started := by
  simp only [handle_controls_state, seq, handle_alert_blinking_preview_started,
    handle_alert_status_preview_started, handle_alert_text_preview_started,
    handle_alert_sound_preview_started, handle_controls_fields_preview_started]

theorem derived_status_ne_stopped (a : AlertStatus) (e : Bool) :
    derived_status a e ≠ STATUS_STOPPED := by
  unfold derived_status
  split_ifs <;> decide

/-! ## The session transition -/

theorem transition_stay_onroad (s : UIState)
    (hon : (s.thermal_started || s.preview_started) = true) (hst : s.status ≠ STATUS_STOPPED) :
    handle_message_transition s = ({ s with started := true }, []) := by
  simp only [handle_message_transition, hon]
  simp [hst]

theorem transition_go_onroad (s : UIState)
    (hon : (s.thermal_started || s.preview_started) = true) (hst : s.status = STATUS_STOPPED) :
    handle_message_transition s =
      ({ s with started := true, status := STATUS_DISENGAGED, active_app := App.NONE },
        [Effect.publish_layout App.NONE s.scene.uilayout_sidebarcollapsed]) := by
  simp only [handle_message_transition, hon]
  simp [hst, update_status, update_offroad_layout_state, STATUS_STOPPED, STATUS_DISENGAGED]

theorem transition_stay_offroad (s : UIState)
    (hoff : (s.thermal_started || s.preview_started) = false) (hst : s.status = STATUS_STOPPED) :
    handle_message_transition s = ({ s with started := false }, []) := by
  simp only [handle_message_transition, hoff]
  simp [hst]

theorem transition_go_offroad (s : UIState)
    (hoff : (s.thermal_started || s.preview_started) = false) (hst : s.status ≠ STATUS_STOPPED) :
    handle_message_transition s =
      ({ s with started := false, status := STATUS_STOPPED, alert_sound_timeout := 0,
                vision_seen := false, controls_seen := false, active_app := App.HOME },
        [Effect.framebuffer_swap_layer 0,
          Effect.publish_layout App.HOME s.scene.uilayout_sidebarcollapsed]) := by
  simp only [handle_message_transition, hoff]
  simp [hst, update_status, update_offroad_layout_state]

/-- When the session is not started the `CONTROLS_STATE` arm is skipped. -/
theorem handle_message_controls_not_started (cfg : Config) (s : UIState) (t : Nat)
    (d : ControlsStateData) (hs : s.started = false) :
    handle_message cfg s (Event.CONTROLS_STATE t d) = Step.lift (handle_message_transition s) := by
  simp [handle_message, handle_message_arms, hs, Step.ok, Step.andThen, Step.lift]

/-- When the session is started the `CONTROLS_STATE` arm runs, then the transition. -/
theorem handle_message_controls_started (cfg : Config) (s : UIState) (t : Nat)
    (d : ControlsStateData) (hs : s.started = true) :
    handle_message cfg s (Event.CONTROLS_STATE t d) =
      Step.lift (seq (handle_controls_state cfg s t d) handle_message_transition) := by
  simp [handle_message, handle_message_arms, hs, Step.andThen, Step.lift, seq]

/-- A `controlsState` event handled in an onroad session: the call ends
normally, the status is the derived one and the session flags are kept. -/
theorem handle_message_controls_onroad (cfg : Config) (s : UIState) (t : Nat)
    (d : ControlsStateData) (hs : s.started = true)
    (hon : (s.thermal_started || s.preview_started) = true) :
    ∃ s', (handle_message cfg s (Event.CONTROLS_STATE t d)).result = Except.ok s' ∧
      s'.status = derived_status d.alertStatus d.enabled ∧ s'.started = true ∧
      s'.thermal_started = s.thermal_started ∧ s'.preview_started = s.preview_started := by
  rw [handle_message_controls_started cfg s t d hs]
  have hon' : ((handle_controls_state cfg s t d).1.thermal_started ||
      (handle_controls_state cfg s t d).1.preview_started) = true := by
    rw [handle_controls_state_thermal_started, handle_controls_state_preview_started]
    exact hon
  have hst : (handle_controls_state cfg s t d).1.status ≠ STATUS_STOPPED := by
    rw [handle_controls_state_status]
    exact derived_status_ne_stopped _ _
  have htr := transition_stay_onroad _ hon' hst
  refine ⟨(handle_message_transition (handle_controls_state cfg s t d).1).1, rfl, ?_, ?_, ?_, ?_⟩
  · rw [htr]
    exact handle_controls_state_status cfg s t d
  · rw [htr]
  · rw [htr]
    exact handle_controls_state_thermal_started cfg s t d
  · rw [htr]
    exact handle_controls_state_preview_started cfg s t d

/-- A `controlsState` event handled while the consistent state is offroad:
the call ends normally with status `STATUS_STOPPED`. -/
theorem handle_message_controls_offroad (cfg : Config) (s : UIState) (t : Nat)
    (d : ControlsStateData) (hs : s.started = false)
    (hoff : (s.thermal_started || s.preview_started) = false) :
    ∃ s', (handle_message cfg s (Event.CONTROLS_STATE t d)).result = Except.ok s' ∧
      s'.status = STATUS_STOPPED ∧ s'.started = false ∧
      s'.thermal_started = s.thermal_started ∧ s'.preview_started = s.preview_started := by
  rw [handle_message_controls_not_started cfg s t d hs]
  by_cases hst : s.status = STATUS_STOPPED
  · exact ⟨_, rfl, by rw [transition_stay_offroad s hoff hst]; exact ⟨hst, rfl, rfl, rfl⟩⟩
  · exact ⟨_, rfl, by rw [transition_go_offroad s hoff hst]; exact ⟨rfl, rfl, rfl, rfl⟩⟩

/-! ## C1 -/

/-- C1, as stated, fails: in the start-up state, where `started` is false, a
`controlsState` event with alert status `CRITICAL` leaves the status at
`STATUS_STOPPED` and not at `STATUS_ALERT`. -/
theorem handle_message_controls_offroad_keeps_stopped :
    ∃ s', (handle_message cfg_qcom UIState.zero
        (Event.CONTROLS_STATE 0
          { ControlsStateData.zero with alertStatus := AlertStatus.CRITICAL })).result
        = Except.ok s' ∧
      s'.status = STATUS_STOPPED ∧ s'.status ≠ STATUS_ALERT :=
  ⟨_, rfl, rfl, by decide⟩

/-- C1, amended: for every state of an onroad session (`started` true, with
`thermal_started` or `preview_started` true) and every `controlsState` event,
`handle_message` ends normally and the status afterwards is `STATUS_WARNING`
for alert status `USER_PROMPT`, `STATUS_ALERT` for `CRITICAL`, and otherwise
`STATUS_ENGAGED` if the event's `enabled` flag is set, else `STATUS_DISENGAGED`. -/
theorem handle_message_controls_status (cfg : Config) (s : UIState) (t : Nat)
    (d : ControlsStateData) (hs : s.started = true)
    (hon : (s.thermal_started || s.preview_started) = true) :
    ∃ s', (handle_message cfg s (Event.CONTROLS_STATE t d)).result = Except.ok s' ∧
      s'.status =
        if d.alertStatus = AlertStatus.USER_PROMPT then STATUS_WARNING
        else if d.alertStatus = AlertStatus.CRITICAL then STATUS_ALERT
        else if d.enabled then STATUS_ENGAGED
        else STATUS_DISENGAGED := by
  obtain ⟨s', h1, h2, -⟩ := handle_message_controls_onroad cfg s t d hs hon
  exact ⟨s', h1, h2⟩

/-- C1, amended, at an onroad state and a `USER_PROMPT` event. -/
theorem handle_message_controls_status_witness :
    ∃ s', (handle_message cfg_qcom onroad_state
        (Event.CONTROLS_STATE 7
          { ControlsStateData.zero with alertStatus := AlertStatus.USER_PROMPT })).result
        = Except.ok s' ∧
      s'.status = STATUS_WARNING :=
  handle_message_controls_status cfg_qcom onroad_state 7
    { ControlsStateData.zero with alertStatus := AlertStatus.USER_PROMPT } rfl rfl

/-! ## C2 -/

/-- C2: in an onroad session, a `controlsState` event with `enabled`,
`engageable` and alert status `NORMAL` gives `STATUS_ENGAGED`, and a following
event with alert status `CRITICAL` gives `STATUS_ALERT` whatever its `enabled`
flag is. -/
theorem handle_message_engaged_then_critical (cfg : Config) (s : UIState) (t1 t2 : Nat)
    (d1 d2 : ControlsStateData) (hs : s.started = true)
    (hon : (s.thermal_started || s.preview_started) = true)
    (h1 : d1.enabled = true) (h1e : d1.engageable = true)
    (h1a : d1.alertStatus = AlertStatus.NORMAL) (h2 : d2.alertStatus = AlertStatus.CRITICAL) :
    ∃ s1 s2, (handle_message cfg s (Event.CONTROLS_STATE t1 d1)).result = Except.ok s1 ∧
      s1.status = STATUS_ENGAGED ∧
      (handle_message cfg s1 (Event.CONTROLS_STATE t2 d2)).result = Except.ok s2 ∧
      s2.status = STATUS_ALERT := by
  have _ := h1e
  obtain ⟨s1, hr1, hst1, hs1, hth1, hpr1⟩ := handle_message_controls_onroad cfg s t1 d1 hs hon
  have hon1 : (s1.thermal_started || s1.preview_started) = true := by
    rw [hth1, hpr1]
    exact hon
  obtain ⟨s2, hr2, hst2, -⟩ := handle_message_controls_onroad cfg s1 t2 d2 hs1 hon1
  refine ⟨s1, s2, hr1, ?_, hr2, ?_⟩
  · rw [hst1, h1a, h1]
    rfl
  · rw [hst2, h2]
    rfl

/-- C2 at an onroad state, the second event with `enabled` cleared. -/
theorem handle_message_engaged_then_critical_witness :
    ∃ s1 s2,
      (handle_message cfg_qcom onroad_state
        (Event.CONTROLS_STATE 1
          { ControlsStateData.zero with enabled := true, engageable := true })).result
        = Except.ok s1 ∧
      s1.status = STATUS_ENGAGED ∧
      (handle_message cfg_qcom s1
        (Event.CONTROLS_STATE 2
          { ControlsStateData.zero with alertStatus := AlertStatus.CRITICAL })).result
        = Except.ok s2 ∧
      s2.status = STATUS_ALERT :=
  handle_message_engaged_then_critical cfg_qcom onroad_state 1 2
    { ControlsStateData.zero with enabled := true, engageable := true }
    { ControlsStateData.zero with alertStatus := AlertStatus.CRITICAL } rfl rfl rfl rfl rfl rfl

/-! ## C3 -/

/-- The status after a `controlsState` event handled in a consistent state:
the derived status when the session is started, `STATUS_STOPPED` otherwise. -/
theorem handle_message_controls_consistent (cfg : Config) (s : UIState) (t : Nat)
    (d : ControlsStateData) (hinv : s.started = (s.thermal_started || s.preview_started)) :
    ∃ s', (handle_message cfg s (Event.CONTROLS_STATE t d)).result = Except.ok s' ∧
      s'.status = (if s.started then derived_status d.alertStatus d.enabled else STATUS_STOPPED) ∧
      s'.started = s.started ∧
      s'.thermal_started = s.thermal_started ∧ s'.preview_started = s.preview_started := by
  cases hs : s.started
  · obtain ⟨s', h1, h2, h3, h4⟩ :=
      handle_message_controls_offroad cfg s t d hs (by rw [← hinv]; exact hs)
    exact ⟨s', h1, by simpa using h2, h3, h4⟩
  · obtain ⟨s', h1, h2, h3, h4⟩ :=
      handle_message_controls_onroad cfg s t d hs (by rw [← hinv]; exact hs)
    exact ⟨s', h1, by simpa using h2, h3, h4⟩

/-- C3: in a state where `started` agrees with `thermal_started ||
preview_started` (which holds at start-up and after every `handle_message`),
handling the same `controlsState` event twice in a row gives the same status
after the second call as after the first, and that status is the same whatever
status was held before the first call. -/
theorem handle_message_controls_idempotent (cfg : Config) (s : UIState) (t : Nat)
    (d : ControlsStateData) (hinv : s.started = (s.thermal_started || s.preview_started)) :
    ∃ s1 s2, (handle_message cfg s (Event.CONTROLS_STATE t d)).result = Except.ok s1 ∧
      (handle_message cfg s1 (Event.CONTROLS_STATE t d)).result = Except.ok s2 ∧
      s2.status = s1.status ∧
      ∀ st : Int, ∃ s1',
        (handle_message cfg { s with status := st } (Event.CONTROLS_STATE t d)).result
          = Except.ok s1' ∧
        s1'.status = s1.status := by
  obtain ⟨s1, hr1, hst1, hs1, hth1, hpr1⟩ := handle_message_controls_consistent cfg s t d hinv
  have hinv1 : s1.started = (s1.thermal_started || s1.preview_started) := by
    rw [hs1, hth1, hpr1]
    exact hinv
  obtain ⟨s2, hr2, hst2, -⟩ := handle_message_controls_consistent cfg s1 t d hinv1
  refine ⟨s1, s2, hr1, hr2, ?_, ?_⟩
  · rw [hst2, hst1, hs1]
  · intro st
    obtain ⟨s1', hr1', hst1', -⟩ :=
      handle_message_controls_consistent cfg { s with status := st } t d hinv
    exact ⟨s1', hr1', by rw [hst1', hst1]⟩

/-- C3 at an onroad state and a `CRITICAL` event. -/
theorem handle_message_controls_idempotent_witness :
    ∃ s1 s2,
      (handle_message cfg_qcom onroad_state
        (Event.CONTROLS_STATE 3
          { ControlsStateData.zero with alertStatus := AlertStatus.CRITICAL })).result
        = Except.ok s1 ∧
      (handle_message cfg_qcom s1
        (Event.CONTROLS_STATE 3
          { ControlsStateData.zero with alertStatus := AlertStatus.CRITICAL })).result
        = Except.ok s2 ∧
      s2.status = s1.status ∧
      ∀ st : Int, ∃ s1',
        (handle_message cfg_qcom { onroad_state with status := st }
          (Event.CONTROLS_STATE 3
            { ControlsStateData.zero with alertStatus := AlertStatus.CRITICAL })).result
          = Except.ok s1' ∧
        s1'.status = s1.status :=
  handle_message_controls_idempotent cfg_qcom onroad_state 3
    { ControlsStateData.zero with alertStatus := AlertStatus.CRITICAL } rfl

/-- The invariant C3 assumes holds in the state `main` enters its loop with. -/
theorem main_init_consistent (cfg : Config) :
    (main_init cfg).1.started =
      ((main_init cfg).1.thermal_started || (main_init cfg).1.preview_started) := by
  simp only [main_init, ui_init, seq]
  split_ifs <;> simp [UIState.zero]

/-- The invariant C3 assumes holds after every `handle_message` call that ends
normally, whatever the state before. -/
theorem handle_message_consistent (cfg : Config) (s s' : UIState) (event : Event)
    (h : (handle_message cfg s event).result = Except.ok s') :
    s'.started = (s'.thermal_started || s'.preview_started) := by
  unfold handle_message at h
  cases hr : (handle_message_arms cfg s event).result with
  | error e => simp [Step.andThen, hr] at h
  | ok s1 =>
    simp only [Step.andThen, hr, Step.lift] at h
    injection h with h
    subst h
    simp only [handle_message_transition]
    split_ifs <;> simp_all [update_status]

/-! ## C4 -/

/-- `handle_message` once the arms are known to have ended normally. -/
theorem handle_message_of_arms (cfg : Config) (s s1 : UIState) (event : Event)
    (es : List Effect) (h : handle_message_arms cfg s event = ⟨es, Except.ok s1⟩) :
    handle_message cfg s event =
      ⟨es ++ (handle_message_transition s1).2, Except.ok (handle_message_transition s1).1⟩ := by
  simp only [handle_message, h, Step.andThen, Step.lift]

/-- C4: from a state with `started` false and status `STATUS_STOPPED`, a
`thermal` event with `started = true` or a `dMonitoringState` event with
`isPreview = true` makes `started` true; the call ends normally with status
`STATUS_DISENGAGED` and `active_app = NONE`, and its only layout notification
is one carrying `active_app = NONE` and the sidebar flag of the end state. -/
theorem handle_message_session_start (cfg : Config) (s : UIState) (event : Event)
    (hs : s.started = false) (hst : s.status = STATUS_STOPPED)
    (hev : (∃ d, event = Event.THERMAL d ∧ d.started = true) ∨
      (∃ isRHD awarenessStatus, event = Event.D_MONITORING_STATE isRHD awarenessStatus true)) :
    ∃ s', (handle_message cfg s event).result = Except.ok s' ∧
      s'.started = true ∧ s'.status = STATUS_DISENGAGED ∧ s'.active_app = App.NONE ∧
      (handle_message cfg s event).effects.filter Effect.is_publish =
        [Effect.publish_layout App.NONE s'.scene.uilayout_sidebarcollapsed] := by
  have _ := hs
  have harms : ∃ s1, handle_message_arms cfg s event = ⟨[], Except.ok s1⟩ ∧
      (s1.thermal_started || s1.preview_started) = true ∧ s1.status = s.status := by
    rcases hev with ⟨d, rfl, hd⟩ | ⟨r, a, rfl⟩
    · exact ⟨_, rfl, by simp [hd], rfl⟩
    · exact ⟨_, rfl, by simp, rfl⟩
  obtain ⟨s1, ha, hon, hst1⟩ := harms
  rw [handle_message_of_arms cfg s s1 event [] ha,
    transition_go_onroad s1 hon (by rw [hst1]; exact hst)]
  exact ⟨_, rfl, rfl, rfl, rfl, rfl⟩

/-- C4 at the start-up state and a `thermal` event with `started = true`. -/
theorem handle_message_session_start_witness :
    ∃ s', (handle_message cfg_qcom UIState.zero
        (Event.THERMAL { ThermalData.zero with started := true })).result = Except.ok s' ∧
      s'.started = true ∧ s'.status = STATUS_DISENGAGED ∧ s'.active_app = App.NONE ∧
      (handle_message cfg_qcom UIState.zero
        (Event.THERMAL { ThermalData.zero with started := true })).effects.filter
          Effect.is_publish =
        [Effect.publish_layout App.NONE s'.scene.uilayout_sidebarcollapsed] :=
  handle_message_session_start cfg_qcom UIState.zero
    (Event.THERMAL { ThermalData.zero with started := true }) rfl rfl
    (Or.inl ⟨_, rfl, rfl⟩)

/-! ## C5 -/

/-- The arms of `handle_message` either keep the status or, for a
`controlsState` event, set it to a derived status. -/
theorem handle_message_arms_status (cfg : Config) (s s1 : UIState) (event : Event)
    (h : (handle_message_arms cfg s event).result = Except.ok s1) :
    s1.status = s.status ∨ ∃ a e, s1.status = derived_status a e := by
  cases event with
  | CONTROLS_STATE t d =>
    by_cases hs : s.started = true
    · right
      simp only [handle_message_arms, hs, if_true, Step.lift] at h
      injection h with h
      subst h
      exact ⟨_, _, handle_controls_state_status cfg s t d⟩
    · left
      simp only [handle_message_arms, hs, Step.ok] at h
      injection h with h
      subst h
      rfl
  | MODEL m =>
    left
    obtain ⟨v, rfl⟩ := handle_message_arms_model cfg s s1 m h
    rfl
  | LIVE_CALIBRATION l =>
    left
    obtain ⟨v, rfl⟩ := handle_message_arms_calibration cfg s s1 l h
    rfl
  | LIVE_MPC x y =>
    left
    obtain ⟨v, w, rfl⟩ := handle_message_arms_mpc cfg s s1 x y h
    rfl
  | DRIVER_STATE p l =>
    left
    obtain ⟨v, rfl⟩ := handle_message_arms_driver cfg s s1 p l h
    rfl
  | UBLOX_GNSS r =>
    left
    cases r <;>
    · simp only [handle_message_arms, Step.ok] at h
      cases h
      rfl
  | _ =>
    left
    simp only [handle_message_arms, Step.ok, Step.fail] at h
    try split_ifs at h
    all_goals try dsimp only at h
    all_goals
      cases h
      rfl

/-- Every effect of `set_awake` is a power change. -/
theorem set_awake_effects (cfg : Config) (s : UIState) (awake : Bool) :
    ∀ e ∈ (set_awake cfg s awake).2, ∃ b, e = Effect.framebuffer_set_power b := by
  simp only [set_awake]
  split_ifs <;> simp

/-- Every effect of `handle_alert_sound` is a sound call or a power change. -/
theorem handle_alert_sound_effects (cfg : Config) (s : UIState) (d : ControlsStateData) :
    ∀ e ∈ (handle_alert_sound cfg s d).2,
      (∃ a, e = Effect.stop_alert_sound a) ∨ (∃ a, e = Effect.play_alert_sound a) ∨
        ∃ b, e = Effect.framebuffer_set_power b := by
  intro e he
  simp only [handle_alert_sound, seq] at he
  split_ifs at he <;> simp only [List.mem_append, List.mem_singleton, List.not_mem_nil,
    List.append_nil, or_false, false_or] at he
  all_goals
    first
    | (rcases he with he | he | he
       · exact Or.inl ⟨_, he⟩
       · exact Or.inr (Or.inl ⟨_, he⟩)
       · exact Or.inr (Or.inr (set_awake_effects cfg _ true e he)))
    | (rcases he with he | he
       · exact Or.inl ⟨_, he⟩
       · exact Or.inr (Or.inl ⟨_, he⟩))
    | (rcases he with he | he
       · exact Or.inr (Or.inl ⟨_, he⟩)
       · exact Or.inr (Or.inr (set_awake_effects cfg _ true e he)))
    | exact Or.inl ⟨_, he⟩
    | exact Or.inr (Or.inl ⟨_, he⟩)

/-- Every effect of the `CONTROLS_STATE` arm is a sound call or a power change. -/
theorem handle_controls_state_effects (cfg : Config) (s : UIState) (t : Nat)
    (d : ControlsStateData) :
    ∀ e ∈ (handle_controls_state cfg s t d).2,
      (∃ a, e = Effect.stop_alert_sound a) ∨ (∃ a, e = Effect.play_alert_sound a) ∨
        ∃ b, e = Effect.framebuffer_set_power b := by
  intro e he
  simp only [handle_controls_state, seq, List.append_nil] at he
  exact handle_alert_sound_effects cfg _ d e he

/-- The `CONTROLS_STATE` arm publishes no layout notification. -/
theorem handle_controls_state_no_publish (cfg : Config) (s : UIState) (t : Nat)
    (d : ControlsStateData) :
    (handle_controls_state cfg s t d).2.filter Effect.is_publish = [] := by
  rw [List.filter_eq_nil_iff]
  intro e he
  rcases handle_controls_state_effects cfg s t d e he with ⟨a, rfl⟩ | ⟨a, rfl⟩ | ⟨b, rfl⟩ <;>
    simp [Effect.is_publish]

/-- The arms of `handle_message` publish no layout notification. -/
theorem handle_message_arms_no_publish (cfg : Config) (s : UIState) (event : Event) :
    (handle_message_arms cfg s event).effects.filter Effect.is_publish = [] := by
  by_cases hc : event.is_controls = true
  · cases event with
    | CONTROLS_STATE t d =>
      by_cases hs : s.started = true
      · simp only [handle_message_arms, hs, if_true, Step.lift]
        exact handle_controls_state_no_publish cfg s t d
      · simp [handle_message_arms, hs, Step.ok]
    | _ => cases hc
  · simp only [handle_message_arms_other_effects cfg s event (Bool.eq_false_iff.mpr hc),
      List.filter_nil]

/-- C5: from a state with `started` true and a status other than
`STATUS_STOPPED`, a `handle_message` call after which `thermal_started` and
`preview_started` are both false ends with `started` false, status
`STATUS_STOPPED`, `active_app = HOME`, `alert_sound_timeout = 0`, `vision_seen`
and `controls_seen` false, and publishes the layout notification (once,
carrying `active_app = HOME`).  A `thermal` event with `started = false` while
`preview_started` is false, and a `dMonitoringState` event with
`isPreview = false` while `thermal_started` is false, are such calls and end
normally. -/
theorem handle_message_session_stop (cfg : Config) (s : UIState) (event : Event)
    (hs : s.started = true) (hst : s.status ≠ STATUS_STOPPED) :
    (∀ s', (handle_message cfg s event).result = Except.ok s' →
      s'.thermal_started = false → s'.preview_started = false →
      s'.started = false ∧ s'.status = STATUS_STOPPED ∧ s'.active_app = App.HOME ∧
      s'.alert_sound_timeout = 0 ∧ s'.vision_seen = false ∧ s'.controls_seen = false ∧
      (handle_message cfg s event).effects.filter Effect.is_publish =
        [Effect.publish_layout App.HOME s'.scene.uilayout_sidebarcollapsed]) ∧
    (((∃ d, event = Event.THERMAL d ∧ d.started = false ∧ s.preview_started = false) ∨
      (∃ isRHD awarenessStatus, event = Event.D_MONITORING_STATE isRHD awarenessStatus false ∧
        s.thermal_started = false)) →
      ∃ s', (handle_message cfg s event).result = Except.ok s' ∧
        s'.thermal_started = false ∧ s'.preview_started = false) := by
  have _ := hs
  have key : ∀ s1 es, handle_message_arms cfg s event = ⟨es, Except.ok s1⟩ →
      (s1.thermal_started || s1.preview_started) = false →
      handle_message cfg s event =
        ⟨es ++ [Effect.framebuffer_swap_layer 0,
            Effect.publish_layout App.HOME s1.scene.uilayout_sidebarcollapsed],
          Except.ok { s1 with started := false, status := STATUS_STOPPED,
                              alert_sound_timeout := 0, vision_seen := false,
                              controls_seen := false, active_app := App.HOME }⟩ := by
    intro s1 es ha hoff
    have hst1 : s1.status ≠ STATUS_STOPPED := by
      have hres : (handle_message_arms cfg s event).result = Except.ok s1 := by rw [ha]
      rcases handle_message_arms_status cfg s s1 event hres with h | ⟨a, e, h⟩
      · rw [h]
        exact hst
      · rw [h]
        exact derived_status_ne_stopped a e
    rw [handle_message_of_arms cfg s s1 event es ha, transition_go_offroad s1 hoff hst1]
  constructor
  · intro s' hr hth hpr
    cases ha : handle_message_arms cfg s event with
    | mk es r =>
      cases r with
      | error e =>
        simp only [handle_message, ha, Step.andThen] at hr
        cases hr
      | ok s1 =>
        have hth1 : s1.thermal_started = s'.thermal_started ∧
            s1.preview_started = s'.preview_started := by
          rw [handle_message_of_arms cfg s s1 event es ha] at hr
          cases hr
          exact ⟨(handle_message_transition_thermal_started s1).symm,
            (handle_message_transition_preview_started s1).symm⟩
        have hoff : (s1.thermal_started || s1.preview_started) = false := by
          rw [hth1.1, hth1.2, hth, hpr]
          rfl
        have hnp := handle_message_arms_no_publish cfg s event
        rw [ha] at hnp
        rw [key s1 es ha hoff] at hr ⊢
        cases hr
        refine ⟨rfl, rfl, rfl, rfl, rfl, rfl, ?_⟩
        simp only [List.filter_append, hnp]
        rfl
  · intro hev
    have harms : ∃ s1, handle_message_arms cfg s event = ⟨[], Except.ok s1⟩ ∧
        s1.thermal_started = false ∧ s1.preview_started = false := by
      rcases hev with ⟨d, rfl, hd, hp⟩ | ⟨r, a, rfl, hth⟩
      · exact ⟨_, rfl, hd, hp⟩
      · exact ⟨_, rfl, hth, rfl⟩
    obtain ⟨s1, ha, hth, hpr⟩ := harms
    rw [key s1 [] ha (by rw [hth, hpr]; rfl)]
    exact ⟨_, rfl, hth, hpr⟩

/-- C5 at an onroad state and a `thermal` event with `started = false`. -/
theorem handle_message_session_stop_witness :
    ∃ s', (handle_message cfg_qcom onroad_state (Event.THERMAL ThermalData.zero)).result
        = Except.ok s' ∧
      s'.started = false ∧ s'.status = STATUS_STOPPED ∧ s'.active_app = App.HOME ∧
      s'.alert_sound_timeout = 0 ∧ s'.vision_seen = false ∧ s'.controls_seen = false ∧
      (handle_message cfg_qcom onroad_state (Event.THERMAL ThermalData.zero)).effects.filter
          Effect.is_publish =
        [Effect.publish_layout App.HOME s'.scene.uilayout_sidebarcollapsed] :=
  ⟨_, rfl,
    (handle_message_session_stop cfg_qcom onroad_state (Event.THERMAL ThermalData.zero) rfl
      (by decide)).1 _ rfl rfl rfl⟩

/-! ## C6 -/

theorem c_assert_true (cfg : Config) : c_assert cfg true = Step.ok () := by
  simp [c_assert]

theorem Step.andThen_ok_unit {β : Type} (f : Unit → Step β) :
    Step.andThen (Step.ok ()) f = f () := by
  simp [Step.andThen, Step.ok]

/-- The first-run block of `ui_update` when the GL check passes. -/
theorem ui_update_firstrun_ok (cfg : Config) (s : UIState) :
    ui_update_firstrun cfg s true =
      Step.lift (if s.vision_connect_firstrun then ui_update_firstrun_state s else (s, [])) := by
  simp only [ui_update_firstrun, c_assert_true, Step.andThen_ok_unit]
  split_ifs <;> rfl

/-- The first-run block sends nothing on the vision socket and keeps the
descriptor and the slot indices. -/
theorem ui_update_firstrun_state_keeps (s : UIState) :
    (ui_update_firstrun_state s).2.filter Effect.is_vipc_send = [] ∧
      (ui_update_firstrun_state s).1.ipc_fd = s.ipc_fd ∧
      (ui_update_firstrun_state s).1.cur_vision_idx = s.cur_vision_idx ∧
      (ui_update_firstrun_state s).1.cur_vision_front_idx = s.cur_vision_front_idx := by
  simp only [ui_update_firstrun_state]
  split_ifs <;> exact ⟨rfl, rfl, rfl, rfl⟩

/-- The effects of `ui_update` on an `ACQUIRE` packet: one `RELEASE` of the
owned slot, or nothing when no slot is owned. -/
theorem ui_update_packet_acquire_effects (cfg : Config) (s : UIState) (type : VisionStreamType)
    (idx : Int) :
    (ui_update_packet cfg s (VisionPacket.VIPC_STREAM_ACQUIRE type idx)).effects =
      if owned_idx s type ≥ 0 then
        [Effect.vipc_send s.ipc_fd (VisionPacket.VIPC_STREAM_RELEASE type (owned_idx s type))]
      else [] := by
  simp only [ui_update_packet, owned_idx, c_assert, Step.andThen, Step.ok, Step.emit, Step.fail]
  by_cases hf : type = VisionStreamType.VISION_STREAM_RGB_FRONT <;>
    by_cases hn : cfg.ndebug = true <;> by_cases hi : idx < UI_BUF_COUNT <;>
    simp only [hf, hn, hi, decide_True, decide_False, if_true, if_false, Bool.or_true,
      Bool.or_false, Bool.true_or, Bool.false_or] <;>
    split_ifs <;> simp_all

/-- The record made by `ui_update` on an `ACQUIRE` packet whose index passes
the `assert` (or when `NDEBUG` is set). -/
theorem ui_update_packet_acquire_result (cfg : Config) (s : UIState) (type : VisionStreamType)
    (idx : Int) (h : idx < UI_BUF_COUNT ∨ cfg.ndebug = true) :
    (ui_update_packet cfg s (VisionPacket.VIPC_STREAM_ACQUIRE type idx)).result =
      Except.ok
        (if type = VisionStreamType.VISION_STREAM_RGB_FRONT then
          { s with cur_vision_front_idx := idx }
        else { s with cur_vision_idx := idx }) := by
  have hc : c_assert cfg (decide (idx < UI_BUF_COUNT)) = Step.ok () := by
    rcases h with h | h <;> simp [c_assert, h]
  simp only [ui_update_packet, hc, Step.andThen, Step.ok, Step.emit]
  split_ifs <;> simp_all

/-- The outcome of `ui_update` on an `ACQUIRE` packet whose index fails the
`assert`. -/
theorem ui_update_packet_acquire_abort (cfg : Config) (s : UIState) (type : VisionStreamType)
    (idx : Int) (h : ¬ idx < UI_BUF_COUNT) (hn : cfg.ndebug = false) :
    (ui_update_packet cfg s (VisionPacket.VIPC_STREAM_ACQUIRE type idx)).result =
      Except.error Fault.assert_failed := by
  have hc : c_assert cfg (decide (idx < UI_BUF_COUNT)) = Step.fail Fault.assert_failed := by
    simp [c_assert, h, hn]
  simp only [ui_update_packet, hc, Step.andThen, Step.ok, Step.emit, Step.fail]
  split_ifs <;> rfl

/-- The loop of `ui_update` retries after interrupted polls and then handles
the packet it receives. -/
theorem ui_update_loop_recv (cfg : Config) (s : UIState) (rp : VisionPacket)
    (rest : List PollAnswer) (hfd : 0 ≤ s.ipc_fd) (k : Nat) :
    ui_update_loop cfg s
        (List.replicate k PollAnswer.poll_interrupted ++ PollAnswer.recv rp :: rest) =
      ui_update_packet cfg s rp := by
  have hc : c_assert cfg (decide (s.ipc_fd ≥ 0)) = Step.ok () := by
    simp [c_assert, hfd]
  induction k with
  | zero => simp only [List.replicate, List.nil_append, ui_update_loop, hc, Step.andThen_ok_unit]
  | succ n ih =>
    simp only [List.replicate, List.cons_append, ui_update_loop, hc, Step.andThen_ok_unit]
    exact ih

/-- `ui_update` on a received packet, after any number of interrupted polls. -/
theorem ui_update_recv (cfg : Config) (s : UIState) (rp : VisionPacket)
    (rest : List PollAnswer) (hfd : 0 ≤ s.ipc_fd) (k : Nat) :
    ui_update cfg s true
        (List.replicate k PollAnswer.poll_interrupted ++ PollAnswer.recv rp :: rest) =
      (Step.lift (if s.vision_connect_firstrun then ui_update_firstrun_state s else (s, []))).andThen
        fun s1 => ui_update_packet cfg s1 rp := by
  simp only [ui_update, ui_update_firstrun_ok, Step.lift, Step.andThen]
  rw [ui_update_loop_recv]
  split_ifs
  · rw [(ui_update_firstrun_state_keeps s).2.1]
    exact hfd
  · exact hfd

/-- C6: when `ui_update` (with an open descriptor and a passing GL check)
receives an `ACQUIRE` packet, after any number of interrupted polls, the
packets it sends on the vision socket are exactly one `RELEASE` carrying the
packet's stream type and the slot index owned for that camera before the
call, if that index is `>= 0`, and none otherwise.  When the new index passes
the `assert` it is recorded for that camera and the other camera's index is
kept; when it fails the `assert` the run aborts after the `RELEASE` without
recording it. -/
theorem ui_update_acquire_release (cfg : Config) (s : UIState) (type : VisionStreamType)
    (idx : Int) (k : Nat) (rest : List PollAnswer) (hfd : 0 ≤ s.ipc_fd) :
    (ui_update cfg s true
        (List.replicate k PollAnswer.poll_interrupted ++
          PollAnswer.recv (VisionPacket.VIPC_STREAM_ACQUIRE type idx) :: rest)).effects.filter
        Effect.is_vipc_send =
      (if owned_idx s type ≥ 0 then
        [Effect.vipc_send s.ipc_fd (VisionPacket.VIPC_STREAM_RELEASE type (owned_idx s type))]
      else []) ∧
    (idx < UI_BUF_COUNT ∨ cfg.ndebug = true →
      ∃ s', (ui_update cfg s true
          (List.replicate k PollAnswer.poll_interrupted ++
            PollAnswer.recv (VisionPacket.VIPC_STREAM_ACQUIRE type idx) :: rest)).result
          = Except.ok s' ∧
        owned_idx s' type = idx ∧
        (type = VisionStreamType.VISION_STREAM_RGB_FRONT →
          s'.cur_vision_idx = s.cur_vision_idx) ∧
        (type ≠ VisionStreamType.VISION_STREAM_RGB_FRONT →
          s'.cur_vision_front_idx = s.cur_vision_front_idx)) ∧
    (¬ idx < UI_BUF_COUNT ∧ cfg.ndebug = false →
      (ui_update cfg s true
          (List.replicate k PollAnswer.poll_interrupted ++
            PollAnswer.recv (VisionPacket.VIPC_STREAM_ACQUIRE type idx) :: rest)).result
        = Except.error Fault.assert_failed) := by
  rw [ui_update_recv cfg s _ rest hfd k]
  have hpre : ∃ s1 es1,
      Step.lift (if s.vision_connect_firstrun then ui_update_firstrun_state s else (s, [])) =
        ⟨es1, Except.ok s1⟩ ∧
      es1.filter Effect.is_vipc_send = [] ∧ s1.ipc_fd = s.ipc_fd ∧
      s1.cur_vision_idx = s.cur_vision_idx ∧
      s1.cur_vision_front_idx = s.cur_vision_front_idx := by
    have hfr := ui_update_firstrun_state_keeps s
    by_cases h1 : s.vision_connect_firstrun = true
    · exact ⟨(ui_update_firstrun_state s).1, (ui_update_firstrun_state s).2,
        by simp only [h1, if_true, Step.lift], hfr⟩
    · exact ⟨s, [], by simp only [h1, if_false, Step.lift]; rfl, rfl, rfl, rfl, rfl⟩
  obtain ⟨s1, es1, hlift, hes, hfd1, hi1, hi2⟩ := hpre
  rw [hlift]
  have ho : owned_idx s1 type = owned_idx s type := by
    simp only [owned_idx, hi1, hi2]
  simp only [Step.andThen, List.filter_append, hes, List.nil_append,
    ui_update_packet_acquire_effects, ho, hfd1]
  refine ⟨?_, ?_, ?_⟩
  · split_ifs <;> simp [Effect.is_vipc_send]
  · intro h
    rw [ui_update_packet_acquire_result cfg s1 type idx h]
    refine ⟨_, rfl, ?_, ?_, ?_⟩
    · simp only [owned_idx]
      split_ifs <;> rfl
    · intro ht
      simp only [ht, if_true]
      exact hi1
    · intro ht
      simp only [ht, if_false]
      exact hi2
  · intro h
    rw [ui_update_packet_acquire_abort cfg s1 type idx h.1 h.2]

/-- C6 at a state owning slot 2 of the rear camera: an `ACQUIRE` of rear slot 3
after one interrupted poll sends one `RELEASE` of slot 2. -/
theorem ui_update_acquire_release_witness :
    (ui_update cfg_qcom connected_state true
        [PollAnswer.poll_interrupted,
          PollAnswer.recv
            (VisionPacket.VIPC_STREAM_ACQUIRE VisionStreamType.VISION_STREAM_RGB_BACK 3)]
      ).effects.filter Effect.is_vipc_send =
      [Effect.vipc_send 5
        (VisionPacket.VIPC_STREAM_RELEASE VisionStreamType.VISION_STREAM_RGB_BACK 2)] :=
  (ui_update_acquire_release cfg_qcom connected_state VisionStreamType.VISION_STREAM_RGB_BACK 3 1
    [] (by decide)).1

/-! ## C8 -/

/-- `read_param_bool_timeout` follows the countdown contract: no read and a
decrement while the countdown is positive; one read, the cache updated on
success, and the countdown set to `2 * UI_FREQ` when it is zero. -/
theorem read_param_bool_timeout_contract (store : Store) (param : Bool) (name : String)
    (timeout : Int) (persistent : Bool) :
    (0 < timeout →
      read_param_bool_timeout store param name timeout persistent
        = ((param, timeout - 1), [])) ∧
    (timeout = 0 →
      (read_param_bool_timeout store param name timeout persistent).1.2 = 60 ∧
      (read_param_bool_timeout store param name timeout persistent).2
        = [Effect.read_db_value name persistent] ∧
      (read_param_bool_timeout store param name timeout persistent).1.1
        = match store name persistent with
          | some str => decide (str.get 0 = '1')
          | none => param) := by
  constructor
  · intro h
    simp [read_param_bool_timeout, h]
  · intro h
    subst h
    simp only [read_param_bool_timeout, read_param_bool, UI_FREQ]
    cases store name persistent <;> simp

/-- `read_param_float_timeout` follows the countdown contract. -/
theorem read_param_float_timeout_contract (cfg : Config) (store : Store) (param : ℚ)
    (name : String) (timeout : Int) (persistent : Bool) :
    (0 < timeout →
      read_param_float_timeout cfg store param name timeout persistent
        = ((param, timeout - 1), [])) ∧
    (timeout = 0 →
      (read_param_float_timeout cfg store param name timeout persistent).1.2 = 60 ∧
      (read_param_float_timeout cfg store param name timeout persistent).2
        = [Effect.read_db_value name persistent] ∧
      (read_param_float_timeout cfg store param name timeout persistent).1.1
        = match store name persistent with
          | some str => cfg.strtod str
          | none => param) := by
  constructor
  · intro h
    simp [read_param_float_timeout, h]
  · intro h
    subst h
    simp only [read_param_float_timeout, read_param_float, UI_FREQ]
    cases store name persistent <;> simp

/-- `read_param_string_timeout_fit` follows the countdown contract. -/
theorem read_param_string_timeout_fit_contract (store : Store) (param : String) (name : String)
    (timeout : Int) :
    (0 < timeout →
      read_param_string_timeout_fit store param name timeout = ((param, timeout - 1), [])) ∧
    (timeout = 0 →
      (read_param_string_timeout_fit store param name timeout).1.2 = 60 ∧
      (read_param_string_timeout_fit store param name timeout).2
        = [Effect.read_db_value name false] ∧
      (read_param_string_timeout_fit store param name timeout).1.1
        = match store name false with
          | some str => str.take 127
          | none => param) := by
  constructor
  · intro h
    simp [read_param_string_timeout_fit, h]
  · intro h
    subst h
    simp only [read_param_string_timeout_fit, read_param_string_fit, UI_FREQ]
    cases store name false <;> simp

/-- `read_param_string_timeout` follows the countdown contract: no read and a
decrement while the countdown is positive; at zero one read, and when the value
read fits the buffer of `size` bytes the cache is updated on success and the
countdown set to `2 * UI_FREQ`.  A value that does not fit is copied beyond the
end of the buffer. -/
theorem read_param_string_timeout_contract (store : Store) (param : String) (size : Nat)
    (name : String) (timeout : Int) :
    (0 < timeout →
      read_param_string_timeout store param size name timeout = Step.ok (param, timeout - 1)) ∧
    (timeout = 0 → store.fits size name = true →
      read_param_string_timeout store param size name timeout =
        ⟨[Effect.read_db_value name false],
          Except.ok ((match store name false with
            | some str => str.take 127
            | none => param), 60)⟩) ∧
    (timeout = 0 → store.fits size name = false →
      read_param_string_timeout store param size name timeout =
        ⟨[Effect.read_db_value name false], Except.error Fault.buffer_overflow⟩) := by
  refine ⟨?_, ?_, ?_⟩
  · intro h
    unfold read_param_string_timeout
    rw [if_pos h]
  · intro h hf
    subst h
    rw [read_param_string_timeout_fits store param size name 0 (Or.inr hf)]
    obtain ⟨k1, k2, k3⟩ := (read_param_string_timeout_fit_contract store param name 0).2 rfl
    have e : read_param_string_timeout_fit store param name 0 =
        (((match store name false with
          | some str => str.take 127
          | none => param), 60), [Effect.read_db_value name false]) :=
      Prod.ext (Prod.ext k3 k1) k2
    rw [e]
    rfl
  · intro h hf
    subst h
    exact read_param_string_timeout_overflow store param size name 0 (by decide) hf

/-- `read_param_uint64_timeout` with a countdown that is not positive reads
the store and leaves the countdown as it was. -/
theorem read_param_uint64_timeout_expired (cfg : Config) (store : Store) (dest : Nat)
    (name : String) (timeout : Int) (persistent : Bool) (h : ¬ 0 < timeout) :
    (read_param_uint64_timeout cfg store dest name timeout persistent).1.2.1 = timeout ∧
    (read_param_uint64_timeout cfg store dest name timeout persistent).2
      = [Effect.read_db_value name persistent] := by
  simp only [read_param_uint64_timeout, read_param_uint64, gt_iff_lt, h, if_false]
  cases store name persistent <;> simp

/-- C8 fails for `read_param_uint64_timeout`: called with a countdown of zero
it reads the store once and the countdown afterwards is still zero, not
`2 * UI_FREQ`. -/
theorem read_param_uint64_timeout_no_reset :
    (read_param_uint64_timeout cfg_qcom store_ones 0 "LastAthenaPingTime" 0 false).2
      = [Effect.read_db_value "LastAthenaPingTime" false] ∧
    (read_param_uint64_timeout cfg_qcom store_ones 0 "LastAthenaPingTime" 0 false).1.2.1 = 0 ∧
    (read_param_uint64_timeout cfg_qcom store_ones 0 "LastAthenaPingTime" 0 false).1.2.1
      ≠ 2 * UI_FREQ :=
  ⟨rfl, rfl, by decide⟩

/-! ## The main loop: what each part emits and keeps -/

theorem Step.andThen_effects_filter {α β : Type} (p : Effect → Bool) (r : Step α)
    (f : α → Step β) (hr : r.effects.filter p = [])
    (hf : ∀ a, (f a).effects.filter p = []) :
    (r.andThen f).effects.filter p = [] := by
  unfold Step.andThen
  cases r.result with
  | error e => exact hr
  | ok a => simp only [List.filter_append, hr, hf a, List.append_nil]

theorem Step.andThen_effects_ok {α β : Type} (r : Step α) (f : α → Step β) (a : α)
    (h : r.result = Except.ok a) :
    (r.andThen f).effects = r.effects ++ (f a).effects := by
  unfold Step.andThen
  rw [h]

theorem Step.andThen_result_of_ok {α β : Type} (r : Step α) (f : α → Step β) (a : α)
    (h : r.result = Except.ok a) :
    (r.andThen f).result = (f a).result := by
  unfold Step.andThen
  rw [h]

theorem set_awake_quiet (cfg : Config) (s : UIState) (awake : Bool) :
    (set_awake cfg s awake).2.filter Effect.is_loud = [] := by
  simp only [set_awake]
  split_ifs <;> rfl

theorem handle_controls_state_quiet (cfg : Config) (s : UIState) (t : Nat)
    (d : ControlsStateData) :
    (handle_controls_state cfg s t d).2.filter Effect.is_loud = [] := by
  rw [List.filter_eq_nil_iff]
  intro e he
  rcases handle_controls_state_effects cfg s t d e he with ⟨a, rfl⟩ | ⟨a, rfl⟩ | ⟨b, rfl⟩ <;>
    simp [Effect.is_loud, Effect.is_read, Effect.is_alert_draw]

theorem handle_message_arms_quiet (cfg : Config) (s : UIState) (event : Event) :
    (handle_message_arms cfg s event).effects.filter Effect.is_loud = [] := by
  by_cases hc : event.is_controls = true
  · cases event with
    | CONTROLS_STATE t d =>
      by_cases hs : s.started = true
      · simp only [handle_message_arms, hs, if_true, Step.lift]
        exact handle_controls_state_quiet cfg s t d
      · simp [handle_message_arms, hs, Step.ok]
    | _ => cases hc
  · simp only [handle_message_arms_other_effects cfg s event (Bool.eq_false_iff.mpr hc),
      List.filter_nil]

theorem handle_message_transition_quiet (s : UIState) :
    (handle_message_transition s).2.filter Effect.is_loud = [] := by
  simp only [handle_message_transition, update_offroad_layout_state]
  split_ifs <;> rfl

theorem handle_message_quiet (cfg : Config) (s : UIState) (event : Event) :
    (handle_message cfg s event).effects.filter Effect.is_loud = [] :=
  Step.andThen_effects_filter _ _ _ (handle_message_arms_quiet cfg s event)
    (fun s1 => handle_message_transition_quiet s1)

theorem check_messages_quiet (cfg : Config) (events : List Event) :
    ∀ s, (check_messages cfg s events).effects.filter Effect.is_loud = [] := by
  induction events with
  | nil => intro s; rfl
  | cons ev rest ih =>
    intro s
    exact Step.andThen_effects_filter _ _ _ (handle_message_quiet cfg s ev) (fun s1 => ih s1)

theorem keeps_refl (s : UIState) : keeps s s := ⟨rfl, rfl⟩

theorem keeps_trans {s1 s2 s3 : UIState} (h1 : keeps s1 s2) (h2 : keeps s2 s3) : keeps s1 s3 :=
  ⟨h2.1.trans h1.1, h2.2.trans h1.2⟩

theorem seq_keeps (r : UIState × List Effect) (f : UIState → UIState × List Effect)
    (s : UIState) (hr : keeps s r.1) (hf : ∀ s1, keeps s1 (f s1).1) : keeps s (seq r f).1 :=
  keeps_trans hr (hf r.1)

theorem seq_quiet (r : UIState × List Effect) (f : UIState → UIState × List Effect)
    (hr : r.2.filter Effect.is_loud = []) (hf : ∀ s1, (f s1).2.filter Effect.is_loud = []) :
    (seq r f).2.filter Effect.is_loud = [] := by
  simp only [seq, List.filter_append, hr, hf r.1, List.append_nil]

theorem set_awake_keeps (cfg : Config) (s : UIState) (awake : Bool) :
    keeps s (set_awake cfg s awake).1 :=
  ⟨set_awake_params_view cfg s awake, set_awake_controls_view cfg s awake⟩

theorem navigate_to_settings_quiet (cfg : Config) (s : UIState) :
    (navigate_to_settings cfg s).2.filter Effect.is_loud = [] := by
  simp only [navigate_to_settings, update_offroad_layout_state]
  split_ifs <;> rfl

theorem navigate_to_home_quiet (cfg : Config) (s : UIState) :
    (navigate_to_home cfg s).2.filter Effect.is_loud = [] := by
  simp only [navigate_to_home, update_offroad_layout_state]
  split_ifs <;> rfl

theorem params_view_scene (s : UIState) (sc : UIScene) :
    params_view { s with scene := sc } = params_view s := rfl

theorem controls_view_scene (s : UIState) (sc : UIScene) :
    controls_view { s with scene := sc } = controls_view s := rfl

theorem handle_sidebar_touch_quiet (cfg : Config) (s : UIState) (x y : Int) :
    (handle_sidebar_touch cfg s x y).2.filter Effect.is_loud = [] := by
  simp only [handle_sidebar_touch, seq]
  split_ifs <;>
    simp [List.filter_append, navigate_to_settings_quiet, navigate_to_home_quiet,
      update_offroad_layout_state, Effect.is_loud, Effect.is_read, Effect.is_alert_draw]

theorem handle_sidebar_touch_keeps (cfg : Config) (s : UIState) (x y : Int) :
    keeps s (handle_sidebar_touch cfg s x y).1 := by
  simp only [handle_sidebar_touch, seq]
  split_ifs <;> constructor <;>
    simp only [params_view_scene, controls_view_scene, navigate_to_settings_params_view,
      navigate_to_home_params_view, navigate_to_settings_controls_view,
      navigate_to_home_controls_view]

theorem handle_dp_btn_touch_quiet (s : UIState) (x y : Int) (time : Nat) :
    (handle_dp_btn_touch s x y time).2.filter Effect.is_loud = [] := by
  simp only [handle_dp_btn_touch]
  split_ifs <;> rfl

theorem handle_vision_touch_quiet (s : UIState) (x y : Int) :
    (handle_vision_touch s x y).2.filter Effect.is_loud = [] := by
  simp only [handle_vision_touch, handle_driver_view_touch, update_offroad_layout_state]
  split_ifs <;> rfl

theorem tick_route_touch_quiet (cfg : Config) (s : UIState) (x y : Int) (time : Nat) :
    (tick_route_touch cfg s x y time).2.filter Effect.is_loud = [] := by
  simp only [tick_route_touch, seq]
  split_ifs <;>
    simp only [List.filter_append, handle_dp_btn_touch_quiet, handle_sidebar_touch_quiet,
      handle_vision_touch_quiet, List.append_nil]

theorem tick_route_touch_keeps (cfg : Config) (s : UIState) (x y : Int) (time : Nat) :
    keeps s (tick_route_touch cfg s x y time).1 := by
  have hdp : keeps s (handle_dp_btn_touch s x y time).1.2 :=
    ⟨handle_dp_btn_touch_params_view s x y time, handle_dp_btn_touch_controls_view s x y time⟩
  simp only [tick_route_touch, seq]
  split_ifs
  · refine keeps_trans (keeps_trans hdp (handle_sidebar_touch_keeps cfg _ x y)) ?_
    exact ⟨handle_vision_touch_params_view _ x y, handle_vision_touch_controls_view _ x y⟩
  · exact hdp

theorem tick_touch_quiet (cfg : Config) (s : UIState) (env : TickEnv) :
    (tick_touch cfg s env).2.filter Effect.is_loud = [] := by
  unfold tick_touch
  cases env.touch with
  | none =>
    simp only
    split_ifs <;> rfl
  | some p =>
    obtain ⟨x, y⟩ := p
    simp only
    split_ifs <;>
      simp only [seq, List.filter_append, set_awake_quiet, tick_route_touch_quiet,
        List.append_nil, List.filter_nil]

theorem tick_touch_keeps (cfg : Config) (s : UIState) (env : TickEnv) :
    keeps s (tick_touch cfg s env).1 := by
  unfold tick_touch
  cases env.touch with
  | none =>
    simp only
    split_ifs
    · exact ⟨rfl, rfl⟩
    · exact keeps_refl s
  | some p =>
    obtain ⟨x, y⟩ := p
    simp only
    split_ifs
    · exact ⟨rfl, rfl⟩
    · exact set_awake_keeps cfg s true
    · exact keeps_trans (set_awake_keeps cfg s true) (tick_route_touch_keeps cfg _ x y env.time)

theorem tick_screen_quiet (cfg : Config) (s : UIState) :
    (tick_screen cfg s).2.filter Effect.is_loud = [] := by
  unfold tick_screen
  split_ifs
  · rfl
  · exact set_awake_quiet cfg s false
  · exact set_awake_quiet cfg s true

theorem tick_stopped_quiet (s : UIState) :
    (tick_stopped s).2.filter Effect.is_loud = [] := by
  simp only [tick_stopped, update_offroad_layout_state]
  split_ifs <;> rfl

theorem c_assert_quiet (cfg : Config) (c : Bool) :
    (c_assert cfg c).effects.filter Effect.is_loud = [] := by
  unfold c_assert
  split_ifs <;> rfl

theorem ui_update_firstrun_state_quiet (s : UIState) :
    (ui_update_firstrun_state s).2.filter Effect.is_loud = [] := by
  simp only [ui_update_firstrun_state, update_offroad_layout_state]
  split_ifs <;> rfl

theorem ui_update_firstrun_quiet (cfg : Config) (s : UIState) (gl_ok : Bool) :
    (ui_update_firstrun cfg s gl_ok).effects.filter Effect.is_loud = [] := by
  unfold ui_update_firstrun
  split_ifs
  · exact Step.andThen_effects_filter _ _ _ (c_assert_quiet cfg gl_ok)
      (fun _ => ui_update_firstrun_state_quiet s)
  · rfl

theorem ui_update_packet_quiet (cfg : Config) (s : UIState) (rp : VisionPacket) :
    (ui_update_packet cfg s rp).effects.filter Effect.is_loud = [] := by
  cases rp with
  | VIPC_STREAM_ACQUIRE type idx =>
    simp only [ui_update_packet]
    refine Step.andThen_effects_filter _ _ _ ?_ (fun _ => ?_)
    · split_ifs <;> rfl
    · refine Step.andThen_effects_filter _ _ _ (c_assert_quiet cfg _) (fun _ => ?_)
      split_ifs <;> rfl
  | _ =>
    simp only [ui_update_packet]
    exact Step.andThen_effects_filter _ _ _ (c_assert_quiet cfg _) (fun _ => rfl)

theorem ui_update_loop_quiet (cfg : Config) (s : UIState) (answers : List PollAnswer) :
    (ui_update_loop cfg s answers).effects.filter Effect.is_loud = [] := by
  induction answers with
  | nil =>
    simp only [ui_update_loop]
    exact Step.andThen_effects_filter _ _ _ (c_assert_quiet cfg _) (fun _ => rfl)
  | cons a rest ih =>
    simp only [ui_update_loop]
    refine Step.andThen_effects_filter _ _ _ (c_assert_quiet cfg _) (fun _ => ?_)
    cases a with
    | poll_interrupted => exact ih
    | poll_failed => rfl
    | poll_empty => rfl
    | recv_failed => rfl
    | recv rp => exact ui_update_packet_quiet cfg s rp

theorem ui_update_quiet (cfg : Config) (s : UIState) (gl_ok : Bool)
    (answers : List PollAnswer) :
    (ui_update cfg s gl_ok answers).effects.filter Effect.is_loud = [] :=
  Step.andThen_effects_filter _ _ _ (ui_update_firstrun_quiet cfg s gl_ok)
    (fun s1 => ui_update_loop_quiet cfg s1 answers)

theorem tick_messages_quiet (cfg : Config) (s : UIState) (env : TickEnv) :
    (tick_messages cfg s env).effects.filter Effect.is_loud = [] := by
  unfold tick_messages
  split_ifs
  · exact check_messages_quiet cfg env.events s
  · refine Step.andThen_effects_filter _ _ _ (tick_screen_quiet cfg s) (fun s1 => ?_)
    refine Step.andThen_effects_filter _ _ _ ?_ (fun s2 => ?_)
    · split_ifs
      · exact ui_update_quiet cfg s1 env.gl_ok env.answers
      · rfl
    · exact Step.andThen_effects_filter _ _ _ (check_messages_quiet cfg env.events s2)
        (fun s3 => tick_stopped_quiet s3)

theorem tick_events_quiet (cfg : Config) (s : UIState) (env : TickEnv) :
    (tick_events cfg s env).effects.filter Effect.is_loud = [] :=
  Step.andThen_effects_filter _ _ _ (tick_touch_quiet cfg (tick_layout s) env)
    (fun s1 => tick_messages_quiet cfg s1 env)

theorem Step.lift_result_ok {α : Type} (r : α × List Effect) (a : α)
    (h : (Step.lift r).result = Except.ok a) : a = r.1 := by
  simp only [Step.lift] at h
  cases h
  rfl

theorem ui_update_firstrun_keeps_views (cfg : Config) (s s' : UIState) (gl_ok : Bool)
    (h : (ui_update_firstrun cfg s gl_ok).result = Except.ok s') : keeps s s' := by
  unfold ui_update_firstrun at h
  split_ifs at h
  · obtain ⟨_, -, h2⟩ := Step.andThen_result_ok _ _ _ h
    rw [Step.lift_result_ok _ _ h2]
    exact ⟨ui_update_firstrun_state_params_view s, ui_update_firstrun_state_controls_view s⟩
  · cases h
    exact keeps_refl s

theorem ui_update_packet_keeps (cfg : Config) (s s' : UIState) (rp : VisionPacket)
    (h : (ui_update_packet cfg s rp).result = Except.ok s') : keeps s s' := by
  cases rp with
  | VIPC_STREAM_ACQUIRE type idx =>
    simp only [ui_update_packet] at h
    obtain ⟨_, -, h2⟩ := Step.andThen_result_ok _ _ _ h
    obtain ⟨_, -, h3⟩ := Step.andThen_result_ok _ _ _ h2
    split_ifs at h3 <;>
    · cases h3
      exact ⟨rfl, rfl⟩
  | _ =>
    simp only [ui_update_packet] at h
    obtain ⟨_, -, h2⟩ := Step.andThen_result_ok _ _ _ h
    cases h2
    exact keeps_refl s

theorem ui_update_loop_keeps (cfg : Config) (s s' : UIState) (answers : List PollAnswer)
    (h : (ui_update_loop cfg s answers).result = Except.ok s') : keeps s s' := by
  induction answers with
  | nil =>
    simp only [ui_update_loop] at h
    obtain ⟨_, -, h2⟩ := Step.andThen_result_ok _ _ _ h
    cases h2
  | cons a rest ih =>
    simp only [ui_update_loop] at h
    obtain ⟨_, -, h2⟩ := Step.andThen_result_ok _ _ _ h
    cases a with
    | poll_interrupted => exact ih h2
    | poll_failed =>
      cases h2
      exact ⟨rfl, rfl⟩
    | poll_empty =>
      cases h2
      exact keeps_refl s
    | recv_failed =>
      cases h2
      exact ⟨rfl, rfl⟩
    | recv rp => exact ui_update_packet_keeps cfg s s' rp h2

theorem ui_update_keeps (cfg : Config) (s s' : UIState) (gl_ok : Bool)
    (answers : List PollAnswer) (h : (ui_update cfg s gl_ok answers).result = Except.ok s') :
    keeps s s' := by
  obtain ⟨s1, h1, h2⟩ := Step.andThen_result_ok _ _ _ h
  exact keeps_trans (ui_update_firstrun_keeps_views cfg s s1 gl_ok h1)
    (ui_update_loop_keeps cfg s1 s' answers h2)

theorem handle_controls_state_params_view (cfg : Config) (s : UIState) (t : Nat)
    (d : ControlsStateData) :
    params_view (handle_controls_state cfg s t d).1 = params_view s := by
  simp only [handle_controls_state, seq, handle_alert_blinking_params_view,
    handle_alert_status_params_view, handle_alert_text_params_view,
    handle_alert_sound_params_view, handle_controls_fields_params_view]

/-- The arms of `handle_message` keep the parameter countdowns and the cached
`DragonLastModified`. -/
theorem handle_message_arms_params_view (cfg : Config) (s s1 : UIState) (event : Event)
    (h : (handle_message_arms cfg s event).result = Except.ok s1) :
    params_view s1 = params_view s := by
  cases event with
  | CONTROLS_STATE t d =>
    by_cases hs : s.started = true
    · simp only [handle_message_arms, hs, if_true, Step.lift] at h
      cases h
      exact handle_controls_state_params_view cfg s t d
    · simp only [handle_message_arms, hs, Step.ok] at h
      cases h
      rfl
  | MODEL m =>
    obtain ⟨v, rfl⟩ := handle_message_arms_model cfg s s1 m h
    rfl
  | LIVE_CALIBRATION l =>
    obtain ⟨v, rfl⟩ := handle_message_arms_calibration cfg s s1 l h
    rfl
  | LIVE_MPC x y =>
    obtain ⟨v, w, rfl⟩ := handle_message_arms_mpc cfg s s1 x y h
    rfl
  | DRIVER_STATE p l =>
    obtain ⟨v, rfl⟩ := handle_message_arms_driver cfg s s1 p l h
    rfl
  | UBLOX_GNSS r =>
    cases r <;>
    · simp only [handle_message_arms, Step.ok] at h
      cases h
      rfl
  | _ =>
    simp only [handle_message_arms, Step.ok, Step.fail] at h
    try split_ifs at h
    all_goals try dsimp only at h
    all_goals
      cases h
      rfl

/-- The arms of `handle_message` other than `CONTROLS_STATE` keep the fields of
the controls watchdog. -/
theorem handle_message_arms_controls_view (cfg : Config) (s s1 : UIState) (event : Event)
    (hev : event.is_controls = false)
    (h : (handle_message_arms cfg s event).result = Except.ok s1) :
    controls_view s1 = controls_view s := by
  cases event with
  | CONTROLS_STATE t d => cases hev
  | MODEL m =>
    obtain ⟨v, rfl⟩ := handle_message_arms_model cfg s s1 m h
    rfl
  | LIVE_CALIBRATION l =>
    obtain ⟨v, rfl⟩ := handle_message_arms_calibration cfg s s1 l h
    rfl
  | LIVE_MPC x y =>
    obtain ⟨v, w, rfl⟩ := handle_message_arms_mpc cfg s s1 x y h
    rfl
  | DRIVER_STATE p l =>
    obtain ⟨v, rfl⟩ := handle_message_arms_driver cfg s s1 p l h
    rfl
  | UBLOX_GNSS r =>
    cases r <;>
    · simp only [handle_message_arms, Step.ok] at h
      cases h
      rfl
  | _ =>
    simp only [handle_message_arms, Step.ok, Step.fail] at h
    try split_ifs at h
    all_goals try dsimp only at h
    all_goals
      cases h
      rfl

/-- The `CONTROLS_STATE` arm starts the controls countdown at `UI_FREQ`. -/
theorem handle_controls_fields_timeout (s : UIState) (t : Nat) (d : ControlsStateData) :
    (handle_controls_fields s t d).controls_timeout = UI_FREQ := by
  simp only [handle_controls_fields]
  split_ifs <;> rfl

/-- Every arm of `handle_message` keeps `controls_timeout` or sets it to
`UI_FREQ`. -/
theorem handle_message_arms_controls_timeout (cfg : Config) (s s1 : UIState) (event : Event)
    (h : (handle_message_arms cfg s event).result = Except.ok s1) :
    s1.controls_timeout = s.controls_timeout ∨ s1.controls_timeout = UI_FREQ := by
  by_cases hev : event.is_controls = false
  · left
    exact congrArg Prod.snd (handle_message_arms_controls_view cfg s s1 event hev h)
  · cases event with
    | CONTROLS_STATE t d =>
      by_cases hs : s.started = true
      · right
        simp only [handle_message_arms, hs, if_true, Step.lift] at h
        cases h
        simp only [handle_controls_state, seq, handle_alert_blinking_controls_timeout,
          handle_alert_status_controls_timeout, handle_alert_text_controls_timeout,
          handle_alert_sound_controls_timeout]
        exact handle_controls_fields_timeout s t d
      · left
        simp only [handle_message_arms, hs, Step.ok] at h
        cases h
        rfl
    | _ => exact absurd rfl hev

theorem events_rel_of_keeps (q : Bool) {s s' : UIState} (h : keeps s s') : events_rel q s s' := by
  refine ⟨h.1, ?_, Or.inl (congrArg Prod.snd h.2)⟩
  intro _ hs
  have h2 : s'.controls_seen = s.controls_seen := congrArg Prod.fst h.2
  rw [h2, hs]

theorem events_rel_trans (q : Bool) {s1 s2 s3 : UIState} (h1 : events_rel q s1 s2)
    (h2 : events_rel q s2 s3) : events_rel q s1 s3 := by
  refine ⟨h2.1.trans h1.1, fun hq hs => h2.2.1 hq (h1.2.1 hq hs), ?_⟩
  rcases h2.2.2 with h | h
  · rcases h1.2.2 with h' | h'
    · exact Or.inl (h.trans h')
    · exact Or.inr (h.trans h')
  · exact Or.inr h

theorem handle_message_events_rel (cfg : Config) (s s' : UIState) (event : Event)
    (h : (handle_message cfg s event).result = Except.ok s') :
    events_rel (!event.is_controls) s s' := by
  unfold handle_message at h
  obtain ⟨s1, h1, h2⟩ := Step.andThen_result_ok _ _ _ h
  rw [Step.lift_result_ok _ _ h2]
  refine ⟨?_, ?_, ?_⟩
  · rw [handle_message_transition_params_view]
    exact handle_message_arms_params_view cfg s s1 event h1
  · intro hq hs
    have hq' : event.is_controls = false := by simpa using hq
    have hv := handle_message_arms_controls_view cfg s s1 event hq' h1
    have hs1 : s1.controls_seen = false := by
      have h3 : s1.controls_seen = s.controls_seen := congrArg Prod.fst hv
      rw [h3, hs]
    simp only [handle_message_transition, update_status]
    split_ifs <;> first | rfl | exact hs1
  · rw [handle_message_transition_controls_timeout]
    exact handle_message_arms_controls_timeout cfg s s1 event h1

theorem check_messages_events_rel (cfg : Config) (events : List Event) :
    ∀ s s', (check_messages cfg s events).result = Except.ok s' →
      events_rel (no_controls events) s s' := by
  induction events with
  | nil =>
    intro s s' h
    cases h
    exact events_rel_of_keeps _ (keeps_refl s)
  | cons ev rest ih =>
    intro s s' h
    simp only [check_messages] at h
    obtain ⟨s1, h1, h2⟩ := Step.andThen_result_ok _ _ _ h
    have r1 := handle_message_events_rel cfg s s1 ev h1
    have r2 := ih s1 s' h2
    refine ⟨r2.1.trans r1.1, ?_, ?_⟩
    · intro hq hs
      simp only [no_controls, List.all_cons, Bool.and_eq_true] at hq
      exact r2.2.1 (by simpa [no_controls] using hq.2) (r1.2.1 hq.1 hs)
    · rcases r2.2.2 with h | h
      · rcases r1.2.2 with h' | h'
        · exact Or.inl (h.trans h')
        · exact Or.inr (h.trans h')
      · exact Or.inr h

theorem tick_messages_events_rel (cfg : Config) (s s' : UIState) (env : TickEnv)
    (h : (tick_messages cfg s env).result = Except.ok s') :
    events_rel (no_controls env.events) s s' := by
  unfold tick_messages at h
  split_ifs at h
  · exact check_messages_events_rel cfg env.events s s' h
  · obtain ⟨s1, h1, h2⟩ := Step.andThen_result_ok _ _ _ h
    obtain ⟨s2, h3, h4⟩ := Step.andThen_result_ok _ _ _ h2
    obtain ⟨s3, h5, h6⟩ := Step.andThen_result_ok _ _ _ h4
    have k1 : keeps s s1 := by
      rw [Step.lift_result_ok _ _ h1]
      exact ⟨tick_screen_params_view cfg s, tick_screen_controls_view cfg s⟩
    have k2 : keeps s1 s2 := by
      split_ifs at h3
      · exact ui_update_keeps cfg s1 s2 env.gl_ok env.answers h3
      · cases h3
        exact keeps_refl s1
    have k3 : keeps s3 s' := by
      rw [Step.lift_result_ok _ _ h6]
      exact ⟨tick_stopped_params_view s3, tick_stopped_controls_view s3⟩
    exact events_rel_trans _ (events_rel_of_keeps _ (keeps_trans k1 k2))
      (events_rel_trans _ (check_messages_events_rel cfg env.events s2 s3 h5)
        (events_rel_of_keeps _ k3))

/-- The touch, the vision update and the bus events of a pass keep the fields
the countdown blocks depend on, in the sense of `events_rel`. -/
theorem tick_events_events_rel (cfg : Config) (s s' : UIState) (env : TickEnv)
    (h : (tick_events cfg s env).result = Except.ok s') :
    events_rel (no_controls env.events) s s' := by
  unfold tick_events at h
  obtain ⟨s1, h1, h2⟩ := Step.andThen_result_ok _ _ _ h
  have k1 : keeps s s1 := by
    rw [Step.lift_result_ok _ _ h1]
    exact keeps_trans ⟨tick_layout_params_view s, tick_layout_controls_view s⟩
      (tick_touch_keeps cfg _ env)
  exact events_rel_trans _ (events_rel_of_keeps _ k1) (tick_messages_events_rel cfg s1 s' env h2)

/-! ## The countdown-gated readers in the main loop -/

theorem read_param_bool_effects (store : Store) (param : Bool) (name : String) (p : Bool) :
    (read_param_bool store param name p).2 = [Effect.read_db_value name p] := by
  unfold read_param_bool
  cases store name p <;> rfl

theorem read_param_float_effects (cfg : Config) (store : Store) (param : ℚ) (name : String)
    (p : Bool) : (read_param_float cfg store param name p).2 = [Effect.read_db_value name p] := by
  unfold read_param_float
  cases store name p <;> rfl

theorem read_param_uint64_effects (cfg : Config) (store : Store) (dest : Nat) (name : String)
    (p : Bool) : (read_param_uint64 cfg store dest name p).2 = [Effect.read_db_value name p] := by
  unfold read_param_uint64
  cases store name p <;> rfl

theorem read_param_bool_timeout_gate (store : Store) (param : Bool) (name : String) (c : Int) :
    (read_param_bool_timeout store param name c false).1.2 = gate c ∧
      (read_param_bool_timeout store param name c false).2 = gated_read c name := by
  simp only [read_param_bool_timeout, gate, gated_read, read_param_bool_effects]
  split_ifs <;> exact ⟨rfl, rfl⟩

theorem read_param_float_timeout_gate (cfg : Config) (store : Store) (param : ℚ) (name : String)
    (c : Int) :
    (read_param_float_timeout cfg store param name c false).1.2 = gate c ∧
      (read_param_float_timeout cfg store param name c false).2 = gated_read c name := by
  simp only [read_param_float_timeout, gate, gated_read, read_param_float_effects]
  split_ifs <;> exact ⟨rfl, rfl⟩

theorem read_param_string_timeout_fit_gate (store : Store) (param : String) (name : String)
    (c : Int) :
    (read_param_string_timeout_fit store param name c).1.2 = gate c ∧
      (read_param_string_timeout_fit store param name c).2 = gated_read c name := by
  simp only [read_param_string_timeout_fit, gate, gated_read, read_param_string_fit_effects]
  split_ifs <;> exact ⟨rfl, rfl⟩

theorem read_param_uint64_timeout_effects (cfg : Config) (store : Store) (dest : Nat)
    (name : String) (c : Int) :
    (read_param_uint64_timeout cfg store dest name c false).2 = gated_read c name := by
  simp only [read_param_uint64_timeout, gated_read, read_param_uint64_effects]
  split_ifs <;> rfl

/-- The countdowns after the parameter block of a pass. -/
theorem tick_params_fit_countdowns (cfg : Config) (s : UIState) (env : TickEnv) :
    (tick_params_fit cfg s env).1.is_metric_timeout = gate s.is_metric_timeout ∧
    (tick_params_fit cfg s env).1.longitudinal_control_timeout
      = gate s.longitudinal_control_timeout ∧
    (tick_params_fit cfg s env).1.limit_set_speed_timeout = gate (gate s.limit_set_speed_timeout) ∧
    (tick_params_fit cfg s env).1.dragon_updating_timeout = gate s.dragon_updating_timeout ∧
    (tick_params_fit cfg s env).1.dragon_last_modified_timeout
      = gate s.dragon_last_modified_timeout := by
  simp only [tick_params_fit]
  refine ⟨?_, ?_, ?_, ?_, ?_⟩
  · exact (read_param_bool_timeout_gate _ _ _ _).1
  · exact (read_param_bool_timeout_gate _ _ _ _).1
  · rw [(read_param_float_timeout_gate _ _ _ _ _).1, (read_param_bool_timeout_gate _ _ _ _).1]
  · exact (read_param_bool_timeout_gate _ _ _ _).1
  · exact (read_param_string_timeout_fit_gate _ _ _ _).1

/-- The effects of the parameter block of a pass. -/
theorem tick_params_fit_effects (cfg : Config) (s : UIState) (env : TickEnv) :
    (tick_params_fit cfg s env).2 =
      gated_read s.is_metric_timeout "IsMetric" ++
      gated_read s.longitudinal_control_timeout "LongitudinalControl" ++
      gated_read s.limit_set_speed_timeout "LimitSetSpeed" ++
      gated_read (gate s.limit_set_speed_timeout) "SpeedLimitOffset" ++
      gated_read s.last_athena_ping_timeout "LastAthenaPingTime" ++
      (update_offroad_layout_timeout (tick_params_fit cfg s env).1 s.offroad_layout_timeout).2 ++
      gated_read s.dragon_updating_timeout "DragonUpdating" ++
      gated_read s.dragon_last_modified_timeout "DragonLastModified" := by
  simp only [tick_params_fit, (read_param_bool_timeout_gate _ _ _ _).2,
    (read_param_float_timeout_gate _ _ _ _ _).2, (read_param_string_timeout_fit_gate _ _ _ _).2,
    read_param_uint64_timeout_effects, (read_param_bool_timeout_gate _ _ _ _).1]
  rfl

/-- The effects of `refresh_settings_fit`: one read of each of its eight names. -/
theorem refresh_settings_fit_effects (cfg : Config) (s : UIState) (store : Store) :
    (refresh_settings_fit cfg s store).2 = reads settings_names := by
  simp only [refresh_settings_fit, read_param_bool_effects, read_param_float_effects,
    read_param_uint64_effects, read_param_string_fit_effects]
  rfl

/-- The effects of `refresh_toggles`: nothing in waze mode; otherwise the read
of `DragonEnableDriverMonitoring`, the read of `DragonUIFace` when driver
monitoring is enabled, and the reads of the twelve other toggles. -/
theorem refresh_toggles_effects (s : UIState) (store : Store) :
    (refresh_toggles s store).2 =
      if s.dragon_waze_mode then []
      else
        Effect.read_db_value "DragonEnableDriverMonitoring" false ::
          ((if (read_param_bool store s.dragon_enable_dm "DragonEnableDriverMonitoring" false).1
              then [Effect.read_db_value "DragonUIFace" false] else []) ++
            reads toggle_names) := by
  simp only [refresh_toggles, read_param_bool_effects]
  split_ifs <;> simp_all [reads, toggle_names, read_param_bool_effects]

theorem refresh_keeps (cfg : Config) (s : UIState) (store : Store) :
    keeps s (refresh_toggles (refresh_settings_fit cfg s store).1 store).1 :=
  keeps_trans
    ⟨refresh_settings_fit_params_view cfg s store, refresh_settings_fit_controls_view cfg s store⟩
    ⟨refresh_toggles_params_view _ store, refresh_toggles_controls_view _ store⟩

theorem tick_generation_fit_keeps (cfg : Config) (m : MainState) (store : Store) :
    keeps m.s (tick_generation_fit cfg m store).1.s := by
  unfold tick_generation_fit
  split_ifs
  · exact refresh_keeps cfg m.s store
  · exact keeps_refl m.s

/-- The effects of the generation check: the refresh when `last_modified`
differs from the cached `DragonLastModified`, nothing otherwise. -/
theorem tick_generation_fit_effects (cfg : Config) (m : MainState) (store : Store) :
    (tick_generation_fit cfg m store).2 =
      if m.last_modified ≠ m.s.dragon_last_modified then
        reads settings_names ++ (refresh_toggles (refresh_settings_fit cfg m.s store).1 store).2
      else [] := by
  unfold tick_generation_fit
  split_ifs
  · simp only [refresh_settings_fit_effects]
  · rfl

/-- The recorded generation after the generation check. -/
theorem tick_generation_fit_last_modified (cfg : Config) (m : MainState) (store : Store) :
    (tick_generation_fit cfg m store).1.last_modified =
      if m.last_modified ≠ m.s.dragon_last_modified then m.s.dragon_last_modified.take 20
      else m.last_modified := by
  by_cases h : m.last_modified = m.s.dragon_last_modified
  · simp only [tick_generation_fit, h, ne_eq, not_true_eq_false, if_false]
  · simp only [tick_generation_fit, h, ne_eq, not_false_eq_true, if_true]

theorem before_controls_keeps (cfg : Config) (s : UIState) : keeps s (before_controls cfg s) := by
  unfold before_controls
  exact keeps_trans
    (keeps_trans ⟨tick_awake_params_view cfg s, tick_awake_controls_view cfg s⟩
      ⟨tick_hardware_params_view _, tick_hardware_controls_view _⟩)
    ⟨tick_volume_params_view _, tick_volume_controls_view _⟩

theorem before_params_params_view (cfg : Config) (s : UIState) :
    params_view (before_params cfg s) = params_view s := by
  unfold before_params
  rw [tick_alert_sound_params_view, tick_controls_params_view]
  exact (before_controls_keeps cfg s).1

/-- The end state of the second half of a pass. -/
theorem tick_rest_fit_state (cfg : Config) (s : UIState) (lm : String) (env : TickEnv) :
    (tick_rest_fit cfg s lm env).1 =
      (tick_generation_fit cfg
        { s := (tick_params_fit cfg (before_params cfg s) env).1, last_modified := lm }
        env.store).1 := rfl

/-- The effects of the second half of a pass, part by part. -/
theorem tick_rest_fit_effects (cfg : Config) (s : UIState) (lm : String) (env : TickEnv) :
    (tick_rest_fit cfg s lm env).2 =
      (tick_awake cfg s).2 ++ tick_draw (tick_hardware (tick_awake cfg s).1) ++
        (tick_volume (tick_hardware (tick_awake cfg s).1)).2 ++
        (tick_controls (before_controls cfg s)).2 ++
        (tick_alert_sound (tick_controls (before_controls cfg s)).1).2 ++
        (tick_params_fit cfg (before_params cfg s) env).2 ++
        (tick_generation_fit cfg
          { s := (tick_params_fit cfg (before_params cfg s) env).1, last_modified := lm }
          env.store).2 := rfl

theorem tick_awake_quiet (cfg : Config) (s : UIState) :
    (tick_awake cfg s).2.filter Effect.is_loud = [] := by
  unfold tick_awake
  split_ifs
  · rfl
  · exact set_awake_quiet cfg s false

theorem tick_draw_quiet (s : UIState) : (tick_draw s).filter Effect.is_loud = [] := by
  unfold tick_draw
  split_ifs <;> rfl

theorem tick_volume_quiet (s : UIState) : (tick_volume s).2.filter Effect.is_loud = [] := by
  unfold tick_volume
  split_ifs <;> rfl

theorem tick_alert_sound_quiet (s : UIState) :
    (tick_alert_sound s).2.filter Effect.is_loud = [] := by
  unfold tick_alert_sound
  split_ifs <;> rfl

theorem tick_controls_no_read (s : UIState) :
    (tick_controls s).2.filter Effect.is_read = [] := by
  simp only [tick_controls, tick_controls_unresponsive]
  split_ifs <;> rfl

theorem filter_is_read_of_quiet (es : List Effect) (h : es.filter Effect.is_loud = []) :
    es.filter Effect.is_read = [] := by
  rw [List.filter_eq_nil_iff] at h ⊢
  intro e he hr
  exact h e he (by simp [Effect.is_loud, hr])

theorem reads_of_filter (name : String) (es : List Effect) :
    reads_of name es = reads_of name (es.filter Effect.is_read) := by
  unfold reads_of
  rw [List.count_filter]
  rfl

theorem reads_of_append (name : String) (es es' : List Effect) :
    reads_of name (es ++ es') = reads_of name es + reads_of name es' := by
  unfold reads_of
  exact List.count_append _ _ _

/-- The store reads of the second half of a pass are those of the parameter
block and of the generation check. -/
theorem tick_rest_fit_reads (cfg : Config) (s : UIState) (lm : String) (env : TickEnv) :
    (tick_rest_fit cfg s lm env).2.filter Effect.is_read =
      (tick_params_fit cfg (before_params cfg s) env).2.filter Effect.is_read ++
        (tick_generation_fit cfg
          { s := (tick_params_fit cfg (before_params cfg s) env).1, last_modified := lm }
          env.store).2.filter Effect.is_read := by
  rw [tick_rest_fit_effects]
  simp only [List.filter_append, filter_is_read_of_quiet _ (tick_awake_quiet cfg s),
    filter_is_read_of_quiet _ (tick_draw_quiet _), filter_is_read_of_quiet _ (tick_volume_quiet _),
    tick_controls_no_read, filter_is_read_of_quiet _ (tick_alert_sound_quiet _),
    List.nil_append, List.append_nil]

theorem reads_of_gated_read (name n : String) (c : Int) :
    reads_of name (gated_read c n) = if n = name ∧ ¬ c > 0 then 1 else 0 := by
  unfold reads_of gated_read
  by_cases hc : c > 0
  · simp [hc]
  · by_cases hn : n = name
    · simp [hc, hn]
    · simp [hc, hn, List.count_cons]

theorem reads_of_layout_timeout (name : String) (s : UIState) (c : Int) :
    reads_of name (update_offroad_layout_timeout s c).2 = 0 := by
  unfold reads_of update_offroad_layout_timeout update_offroad_layout_state
  split_ifs <;> simp

/-- The generation check reads none of the six gated entries. -/
theorem reads_of_tick_generation (cfg : Config) (m : MainState) (store : Store) (e : Entry) :
    reads_of e.name (tick_generation_fit cfg m store).2 = 0 := by
  rw [tick_generation_fit_effects, refresh_toggles_effects]
  split_ifs <;> cases e <;> decide

theorem gate_range (c : Int) (h0 : 0 ≤ c) (h1 : c ≤ 60) : 0 ≤ gate c ∧ gate c ≤ 60 := by
  unfold gate UI_FREQ
  split_ifs <;> omega

/-- The store reads of the six gated entries in the parameter block. -/
theorem reads_of_tick_params (cfg : Config) (s : UIState) (env : TickEnv) (e : Entry) :
    reads_of e.name (tick_params_fit cfg s env).2 =
      match e with
      | Entry.SpeedLimitOffset => if gate s.limit_set_speed_timeout > 0 then 0 else 1
      | e => if e.countdown s > 0 then 0 else 1 := by
  rw [tick_params_fit_effects]
  simp only [reads_of_append, reads_of_gated_read, reads_of_layout_timeout]
  cases e <;> simp [Entry.name, Entry.countdown] <;> split_ifs <;> omega

/-- One pass of the second half of the loop, seen from one gated entry: it is
read in this pass when its phase is zero, and its phase counts down from 60. -/
theorem tick_rest_fit_entry (cfg : Config) (s : UIState) (lm : String) (env : TickEnv) (e : Entry)
    (h0 : 0 ≤ e.countdown s) (h1 : e.countdown s ≤ 60) :
    reads_of e.name (tick_rest_fit cfg s lm env).2 = (if e.phase s = 0 then 1 else 0) ∧
    e.phase (tick_rest_fit cfg s lm env).1.s = (if e.phase s = 0 then 60 else e.phase s - 1) ∧
    0 ≤ e.countdown (tick_rest_fit cfg s lm env).1.s ∧
    e.countdown (tick_rest_fit cfg s lm env).1.s ≤ 60 := by
  have hv := before_params_params_view cfg s
  have hc := tick_params_fit_countdowns cfg (before_params cfg s) env
  have hg := (tick_generation_fit_keeps cfg
    { s := (tick_params_fit cfg (before_params cfg s) env).1, last_modified := lm } env.store).1
  rw [← tick_rest_fit_state] at hg
  have hr : reads_of e.name (tick_rest_fit cfg s lm env).2 =
      reads_of e.name (tick_params_fit cfg (before_params cfg s) env).2 := by
    rw [reads_of_filter, tick_rest_fit_reads, reads_of_append, ← reads_of_filter, ← reads_of_filter,
      reads_of_tick_generation, Nat.add_zero]
  rw [hr, reads_of_tick_params]
  simp only [params_view, Prod.mk.injEq] at hv hg
  obtain ⟨v1, v2, v3, v4, v5, -⟩ := hv
  obtain ⟨g1, g2, g3, g4, g5, -⟩ := hg
  obtain ⟨c1, c2, c3, c4, c5⟩ := hc
  rw [c1, v1] at g1
  rw [c2, v2] at g2
  rw [c3, v3] at g3
  rw [c4, v4] at g4
  rw [c5, v5] at g5
  cases e <;> simp only [Entry.countdown, Entry.phase] at h0 h1 ⊢
  · simp only [g1, v1, gate, UI_FREQ]
    split_ifs <;> omega
  · simp only [g2, v2, gate, UI_FREQ]
    split_ifs <;> omega
  · simp only [g3, v3, gate, UI_FREQ]
    split_ifs <;> omega
  · simp only [g3, v3, gate, UI_FREQ]
    split_ifs <;> omega
  · simp only [g4, v4, gate, UI_FREQ]
    split_ifs <;> omega
  · simp only [g5, v5, gate, UI_FREQ]
    split_ifs <;> omega

/-! ## Passes of the main loop -/

/-- A pass that ends normally is its first half followed by its second half. -/
theorem main_tick_ok (cfg : Config) (m m' : MainState) (env : TickEnv)
    (h : (main_tick cfg m env).result = Except.ok m') :
    ∃ s1, (tick_events cfg m.s env).result = Except.ok s1 ∧
      m' = (tick_rest_fit cfg s1 m.last_modified env).1 ∧
      (main_tick cfg m env).effects =
        (tick_events cfg m.s env).effects ++ (tick_rest_fit cfg s1 m.last_modified env).2 := by
  unfold main_tick at h ⊢
  obtain ⟨s1, h1, h2⟩ := Step.andThen_result_ok _ _ _ h
  obtain ⟨-, hm, he⟩ := tick_rest_ok cfg s1 m.last_modified env m' h2
  refine ⟨s1, h1, hm, ?_⟩
  rw [Step.andThen_effects_ok _ _ s1 h1, he]

theorem entry_of_params_view (e : Entry) (s s' : UIState)
    (h : params_view s' = params_view s) :
    e.countdown s' = e.countdown s ∧ e.phase s' = e.phase s := by
  simp only [params_view, Prod.mk.injEq] at h
  obtain ⟨v1, v2, v3, v4, v5, -⟩ := h
  cases e <;> simp only [Entry.countdown, Entry.phase, v1, v2, v3, v4, v5, and_self]

/-- One pass of the main loop, seen from one gated entry. -/
theorem main_tick_entry (cfg : Config) (m m' : MainState) (env : TickEnv) (e : Entry)
    (h : (main_tick cfg m env).result = Except.ok m')
    (h0 : 0 ≤ e.countdown m.s) (h1 : e.countdown m.s ≤ 60) :
    reads_of e.name (main_tick cfg m env).effects = (if e.phase m.s = 0 then 1 else 0) ∧
    e.phase m'.s = (if e.phase m.s = 0 then 60 else e.phase m.s - 1) ∧
    0 ≤ e.countdown m'.s ∧ e.countdown m'.s ≤ 60 := by
  obtain ⟨s1, hs1, hm', heff⟩ := main_tick_ok cfg m m' env h
  have hrel := (tick_events_events_rel cfg m.s s1 env hs1).1
  obtain ⟨hc, hp⟩ := entry_of_params_view e m.s s1 hrel
  have key := tick_rest_fit_entry cfg s1 m.last_modified env e (by rw [hc]; exact h0)
    (by rw [hc]; exact h1)
  rw [hp] at key
  rw [hm', heff, reads_of_append]
  have hq : reads_of e.name (tick_events cfg m.s env).effects = 0 := by
    rw [reads_of_filter, filter_is_read_of_quiet _ (tick_events_quiet cfg m.s env)]
    rfl
  rw [hq, Nat.zero_add]
  exact key

theorem entry_phase_range (e : Entry) (s : UIState) (h0 : 0 ≤ e.countdown s)
    (h1 : e.countdown s ≤ 60) : 0 ≤ e.phase s ∧ e.phase s ≤ 60 := by
  cases e <;> simp only [Entry.countdown, Entry.phase] at h0 h1 ⊢ <;> (try split_ifs) <;> omega

/-- The number of store reads of a gated entry over a run of passes that ends
normally: with `p` the phase of the entry at the start, it is
`(T + 60 - p) / 61` for `T` passes. -/
theorem main_ticks_entry (cfg : Config) (e : Entry) (envs : List TickEnv) :
    ∀ m m', (main_ticks cfg m envs).result = Except.ok m' →
      0 ≤ e.countdown m.s → e.countdown m.s ≤ 60 →
      (reads_of e.name (main_ticks cfg m envs).effects : Int) =
        ((envs.length : Int) + 60 - e.phase m.s) / 61 := by
  induction envs with
  | nil =>
    intro m m' _ h0 h1
    have hp := entry_phase_range e m.s h0 h1
    simp only [main_ticks, Step.ok, reads_of, List.count_nil, List.length_nil]
    omega
  | cons env rest ih =>
    intro m m' h h0 h1
    simp only [main_ticks] at h ⊢
    obtain ⟨m1, hm1, hrest⟩ := Step.andThen_result_ok _ _ _ h
    obtain ⟨hr, hp, hc0, hc1⟩ := main_tick_entry cfg m m1 env e hm1 h0 h1
    have hrange := entry_phase_range e m.s h0 h1
    have ih' := ih m1 m' hrest hc0 hc1
    rw [Step.andThen_effects_ok _ _ m1 hm1, reads_of_append, hr]
    push_cast
    rw [ih', hp, List.length_cons]
    push_cast
    split_ifs <;> omega

theorem tick_rest_fit_started (cfg : Config) (s : UIState) (lm : String) (env : TickEnv) :
    (tick_rest_fit cfg s lm env).1.s.started = s.started := by
  rw [tick_rest_fit_state]
  unfold tick_generation_fit
  split_ifs
  · simp only [refresh_toggles_started, refresh_settings_fit_started, tick_params_fit_started,
      before_params, before_controls, tick_alert_sound_started, tick_controls_started,
      tick_volume_started, tick_hardware_started, tick_awake_started]
  · simp only [tick_params_fit_started,
      before_params, before_controls, tick_alert_sound_started, tick_controls_started,
      tick_volume_started, tick_hardware_started, tick_awake_started]

/-- With an empty store every string read fits its buffer. -/
theorem tick_rest_fits_idle (cfg : Config) (s : UIState) (lm : String) :
    tick_rest_fits cfg s lm idle_env = true := by
  unfold tick_rest_fits
  have h1 : idle_env.store.fits 20 "DragonLastModified" = true := rfl
  have h2 : idle_env.store.fits 20 "DragonLocale" = true := rfl
  rw [h1, h2, Bool.or_true, Bool.or_true]
  rfl

/-- With the session stopped, a pass without touch and bus events in which
the strings read fit their buffers ends normally and leaves the session
stopped. -/
theorem main_tick_silent (cfg : Config) (m : MainState) (env : TickEnv)
    (hs : m.s.started = false) (ht : env.touch = none) (he : env.events = [])
    (hf : tick_rest_fits cfg (tick_layout m.s) m.last_modified env = true) :
    ∃ m', (main_tick cfg m env).result = Except.ok m' ∧ m'.s.started = false := by
  have h1 : (tick_events cfg m.s env).result = Except.ok (tick_layout m.s) := by
    have ht : tick_touch cfg (tick_layout m.s) env = (tick_layout m.s, []) := by
      simp [tick_touch, ht, hs]
    have hm : tick_messages cfg (tick_layout m.s) env = Step.ok (tick_layout m.s) := by
      simp [tick_messages, he, hs, check_messages]
    simp only [tick_events, ht, Step.lift, Step.andThen, hm, Step.ok]
  refine ⟨(tick_rest_fit cfg (tick_layout m.s) m.last_modified env).1, ?_, ?_⟩
  · unfold main_tick
    rw [Step.andThen_result_of_ok _ _ _ h1, tick_rest_fits_eq cfg _ _ env hf]
    rfl
  · rw [tick_rest_fit_started, tick_layout_started]
    exact hs

theorem main_tick_idle (cfg : Config) (m : MainState) (hs : m.s.started = false) :
    ∃ m', (main_tick cfg m idle_env).result = Except.ok m' ∧ m'.s.started = false :=
  main_tick_silent cfg m idle_env hs rfl rfl (tick_rest_fits_idle cfg _ _)

/-- With the session stopped, any number of silent passes end normally. -/
theorem main_ticks_idle (cfg : Config) (n : Nat) :
    ∀ m : MainState, m.s.started = false →
      ∃ m', (main_ticks cfg m (List.replicate n idle_env)).result = Except.ok m' := by
  induction n with
  | zero => intro m _; exact ⟨m, rfl⟩
  | succ k ih =>
    intro m hs
    obtain ⟨m1, h1, hs1⟩ := main_tick_idle cfg m hs
    obtain ⟨m', h'⟩ := ih m1 hs1
    refine ⟨m', ?_⟩
    simp only [List.replicate, main_ticks]
    rw [Step.andThen_result_of_ok _ _ _ h1]
    exact h'

/-! ## C9 -/

/-- C9, as stated, fails: from the state a pass is in right after a read of
`IsMetric` (countdown 60), 121 silent passes read `IsMetric` once (in the 61st
pass; the next read falls in the 122nd), while `ceil(121 / 60)` is 3. -/
theorem main_ticks_reads_drift :
    ∃ m', (main_ticks cfg_qcom main_after_read (List.replicate 121 idle_env)).result
        = Except.ok m' ∧
      reads_of "IsMetric"
        (main_ticks cfg_qcom main_after_read (List.replicate 121 idle_env)).effects = 1 ∧
      (121 + 59) / 60 = 3 := by
  obtain ⟨m', h⟩ := main_ticks_idle cfg_qcom 121 main_after_read rfl
  refine ⟨m', h, ?_, rfl⟩
  have key := main_ticks_entry cfg_qcom Entry.IsMetric (List.replicate 121 idle_env)
    main_after_read m' h (by decide) (by decide)
  have hp : Entry.IsMetric.phase main_after_read.s = 60 := rfl
  rw [hp, List.length_replicate] at key
  have hn : Entry.IsMetric.name = "IsMetric" := rfl
  rw [hn] at key
  omega

/-- C9, amended: for each of the six entries whose gated reader resets its
countdown (`IsMetric`, `LongitudinalControl`, `LimitSetSpeed`,
`SpeedLimitOffset`, `DragonUpdating`, `DragonLastModified`), whose countdown is
within `0 .. 2 * UI_FREQ` at the start, over every run of `T` passes of the
main loop that ends normally and into which `vision_connect_thread` commits no
connection, the number of store reads of the entry differs from `ceil(T / 61)`
by at most 1, whatever the touches, events and store contents of the passes
are; 61 is `2 * UI_FREQ + 1`, the passes from one read to the next.  The run
is `main_ticks`, in which each pass starts in the state the pass before it
left: a connection committed between two passes runs `ui_init_vision`, which
reads the entries by no countdown and sets the countdowns to the offsets of
lines 437-444, and the count starts anew from the state it leaves. -/
theorem main_ticks_reads_bound (cfg : Config) (e : Entry) (m m' : MainState)
    (envs : List TickEnv) (h : (main_ticks cfg m envs).result = Except.ok m')
    (h0 : 0 ≤ e.countdown m.s) (h1 : e.countdown m.s ≤ 2 * UI_FREQ) :
    reads_of e.name (main_ticks cfg m envs).effects ≤ (envs.length + 60) / 61 + 1 ∧
    (envs.length + 60) / 61 ≤ reads_of e.name (main_ticks cfg m envs).effects + 1 := by
  have h1' : e.countdown m.s ≤ 60 := h1
  have key := main_ticks_entry cfg e envs m m' h h0 h1'
  have hp := entry_phase_range e m.s h0 h1'
  omega

/-- C9, amended, at the shared countdown: 200 silent passes from the start-up
state, entry `SpeedLimitOffset`. -/
theorem main_ticks_reads_bound_witness :
    reads_of "SpeedLimitOffset"
        (main_ticks cfg_qcom main_after_read (List.replicate 200 idle_env)).effects
      ≤ ((List.replicate 200 idle_env).length + 60) / 61 + 1 ∧
    ((List.replicate 200 idle_env).length + 60) / 61 ≤
      reads_of "SpeedLimitOffset"
        (main_ticks cfg_qcom main_after_read (List.replicate 200 idle_env)).effects + 1 := by
  obtain ⟨m', h⟩ := main_ticks_idle cfg_qcom 200 main_after_read rfl
  exact main_ticks_reads_bound cfg_qcom Entry.SpeedLimitOffset main_after_read m'
    (List.replicate 200 idle_env) h (by decide) (by decide)

/-! ## The generation check -/

theorem String.take_of_length_le (str : String) (n : Nat) (h : str.length ≤ n) :
    str.take n = str := by
  rw [String.take_eq]
  have h' : str.data.length ≤ n := h
  rw [List.take_of_length_le h']

theorem reads_of_gated_read_other (name n : String) (c : Int) (h : n ≠ name) :
    reads_of name (gated_read c n) = 0 := by
  rw [reads_of_gated_read]
  simp [h]

/-- The parameter block reads no name outside `gated_names`. -/
theorem reads_of_tick_params_other (cfg : Config) (s : UIState) (env : TickEnv) (name : String)
    (h : name ∉ gated_names) : reads_of name (tick_params_fit cfg s env).2 = 0 := by
  simp only [gated_names, List.mem_cons, List.mem_singleton, List.not_mem_nil, not_or,
    or_false] at h
  obtain ⟨h1, h2, h3, h4, h5, h6, h7⟩ := h
  rw [tick_params_fit_effects]
  simp only [reads_of_append, reads_of_layout_timeout,
    reads_of_gated_read_other _ _ _ (Ne.symm h1), reads_of_gated_read_other _ _ _ (Ne.symm h2),
    reads_of_gated_read_other _ _ _ (Ne.symm h3), reads_of_gated_read_other _ _ _ (Ne.symm h4),
    reads_of_gated_read_other _ _ _ (Ne.symm h5), reads_of_gated_read_other _ _ _ (Ne.symm h6),
    reads_of_gated_read_other _ _ _ (Ne.symm h7)]

theorem dependent_not_gated : ∀ name ∈ dependent_names, name ∉ gated_names := by decide

/-- The store reads of a pass that ends normally, for a name that only the
refresh reads: they are those of the generation check, which starts from the
state the parameter block leaves. -/
theorem main_tick_dependent_reads (cfg : Config) (m m' : MainState) (env : TickEnv)
    (h : (main_tick cfg m env).result = Except.ok m') :
    ∃ sp : UIState,
      m' = (tick_generation_fit cfg { s := sp, last_modified := m.last_modified } env.store).1 ∧
      ∀ name ∈ dependent_names,
        reads_of name (main_tick cfg m env).effects =
          reads_of name
            (tick_generation_fit cfg { s := sp, last_modified := m.last_modified } env.store).2 := by
  obtain ⟨s1, hs1, hm', heff⟩ := main_tick_ok cfg m m' env h
  refine ⟨(tick_params_fit cfg (before_params cfg s1) env).1, ?_, ?_⟩
  · rw [hm', tick_rest_fit_state]
  · intro name hn
    have hq : reads_of name (tick_events cfg m.s env).effects = 0 := by
      rw [reads_of_filter, filter_is_read_of_quiet _ (tick_events_quiet cfg m.s env)]
      rfl
    rw [heff, reads_of_append, hq, Nat.zero_add, reads_of_filter, tick_rest_fit_reads,
      reads_of_append, ← reads_of_filter, ← reads_of_filter,
      reads_of_tick_params_other cfg _ env name (dependent_not_gated name hn), Nat.zero_add]

theorem refresh_toggles_flags (s : UIState) (store : Store) :
    (refresh_toggles s store).1.dragon_waze_mode = s.dragon_waze_mode ∧
    (refresh_toggles s store).1.dragon_enable_dm =
      (if s.dragon_waze_mode then s.dragon_enable_dm
       else (read_param_bool store s.dragon_enable_dm "DragonEnableDriverMonitoring" false).1) ∧
    (refresh_toggles s store).1.dragon_last_modified = s.dragon_last_modified := by
  simp only [refresh_toggles]
  split_ifs <;> exact ⟨rfl, rfl, rfl⟩

theorem reads_settings_only :
    (∀ name ∈ settings_names, reads_of name (reads settings_names) = 1) ∧
    (∀ name ∈ "DragonEnableDriverMonitoring" :: "DragonUIFace" :: toggle_names,
      reads_of name (reads settings_names) = 0) := by
  decide

theorem reads_toggles_with_face :
    (∀ name ∈ settings_names,
      reads_of name (Effect.read_db_value "DragonEnableDriverMonitoring" false ::
        ([Effect.read_db_value "DragonUIFace" false] ++ reads toggle_names)) = 0) ∧
    (∀ name ∈ "DragonEnableDriverMonitoring" :: "DragonUIFace" :: toggle_names,
      reads_of name (Effect.read_db_value "DragonEnableDriverMonitoring" false ::
        ([Effect.read_db_value "DragonUIFace" false] ++ reads toggle_names)) = 1) := by
  decide

theorem reads_toggles_without_face :
    (∀ name ∈ settings_names,
      reads_of name (Effect.read_db_value "DragonEnableDriverMonitoring" false ::
        ([] ++ reads toggle_names)) = 0) ∧
    (∀ name ∈ "DragonEnableDriverMonitoring" :: toggle_names,
      reads_of name (Effect.read_db_value "DragonEnableDriverMonitoring" false ::
        ([] ++ reads toggle_names)) = 1) ∧
    reads_of "DragonUIFace" (Effect.read_db_value "DragonEnableDriverMonitoring" false ::
        ([] ++ reads toggle_names)) = 0 := by
  decide

/-- What the generation check reads and records, in terms of the state it
starts from and the state it ends in. -/
theorem tick_generation_fit_reads (cfg : Config) (mp : MainState) (store : Store) :
    (tick_generation_fit cfg mp store).1.s.dragon_last_modified = mp.s.dragon_last_modified ∧
    (∀ name ∈ settings_names,
      reads_of name (tick_generation_fit cfg mp store).2 =
        if mp.last_modified ≠ mp.s.dragon_last_modified then 1 else 0) ∧
    (∀ name ∈ "DragonEnableDriverMonitoring" :: toggle_names,
      reads_of name (tick_generation_fit cfg mp store).2 =
        if mp.last_modified ≠ mp.s.dragon_last_modified ∧
            (tick_generation_fit cfg mp store).1.s.dragon_waze_mode = false then 1 else 0) ∧
    reads_of "DragonUIFace" (tick_generation_fit cfg mp store).2 =
      (if mp.last_modified ≠ mp.s.dragon_last_modified ∧
          (tick_generation_fit cfg mp store).1.s.dragon_waze_mode = false ∧
          (tick_generation_fit cfg mp store).1.s.dragon_enable_dm = true then 1 else 0) ∧
    (tick_generation_fit cfg mp store).1.last_modified =
      (if mp.last_modified ≠ mp.s.dragon_last_modified then mp.s.dragon_last_modified.take 20
       else mp.last_modified) := by
  refine ⟨?_, ?_⟩
  · have h := (tick_generation_fit_keeps cfg mp store).1
    simp only [params_view, Prod.mk.injEq] at h
    exact h.2.2.2.2.2
  rw [tick_generation_fit_effects, tick_generation_fit_last_modified]
  by_cases hch : mp.last_modified = mp.s.dragon_last_modified
  · simp only [hch, ne_eq, not_true_eq_false, if_false, false_and]
    exact ⟨fun _ _ => rfl, fun _ _ => rfl, rfl, trivial⟩
  · have hst : (tick_generation_fit cfg mp store).1.s =
        (refresh_toggles (refresh_settings_fit cfg mp.s store).1 store).1 := by
      simp only [tick_generation_fit, ne_eq, hch, not_false_eq_true, if_true]
    obtain ⟨hw, hdm, -⟩ := refresh_toggles_flags (refresh_settings_fit cfg mp.s store).1 store
    rw [hst, hw, hdm, refresh_toggles_effects]
    simp only [ne_eq, hch, not_false_eq_true, if_true, true_and]
    by_cases hwz : (refresh_settings_fit cfg mp.s store).1.dragon_waze_mode = true
    · simp only [hwz, if_true, List.append_nil, Bool.true_eq_false, if_false, false_and]
      refine ⟨reads_settings_only.1, fun n hn => reads_settings_only.2 n ?_,
        reads_settings_only.2 _ (by decide), trivial⟩
      simp only [List.mem_cons] at hn ⊢
      tauto
    · have hwz' : (refresh_settings_fit cfg mp.s store).1.dragon_waze_mode = false := by
        simpa using hwz
      simp only [hwz', Bool.false_eq_true, if_false, if_true, true_and]
      by_cases hd : (read_param_bool store (refresh_settings_fit cfg mp.s store).1.dragon_enable_dm
          "DragonEnableDriverMonitoring" false).1 = true
      · simp only [hd, if_true]
        refine ⟨fun n hn => ?_, fun n hn => ?_, ?_, trivial⟩
        · rw [reads_of_append, reads_settings_only.1 n hn, reads_toggles_with_face.1 n hn]
        · have hn' : n ∈ "DragonEnableDriverMonitoring" :: "DragonUIFace" :: toggle_names := by
            simp only [List.mem_cons] at hn ⊢
            tauto
          rw [reads_of_append, reads_settings_only.2 n hn', reads_toggles_with_face.2 n hn']
        · rw [reads_of_append, reads_settings_only.2 _ (by decide),
            reads_toggles_with_face.2 _ (by decide)]
      · have hd' : (read_param_bool store (refresh_settings_fit cfg mp.s store).1.dragon_enable_dm
            "DragonEnableDriverMonitoring" false).1 = false := by simpa using hd
        simp only [hd', Bool.false_eq_true, if_false, and_false]
        refine ⟨fun n hn => ?_, fun n hn => ?_, ?_, trivial⟩
        · rw [reads_of_append, reads_settings_only.1 n hn, reads_toggles_without_face.1 n hn]
        · have hn' : n ∈ "DragonEnableDriverMonitoring" :: "DragonUIFace" :: toggle_names := by
            simp only [List.mem_cons] at hn ⊢
            tauto
          rw [reads_of_append, reads_settings_only.2 n hn', reads_toggles_without_face.2.1 n hn]
        · rw [reads_of_append, reads_settings_only.2 _ (by decide),
            reads_toggles_without_face.2.2]

/-- A pass that ends normally has read only strings that fit their buffers. -/
theorem main_tick_ok_fits (cfg : Config) (m m' : MainState) (env : TickEnv)
    (h : (main_tick cfg m env).result = Except.ok m') :
    ∃ s1, (tick_events cfg m.s env).result = Except.ok s1 ∧
      tick_rest_fits cfg s1 m.last_modified env = true := by
  unfold main_tick at h
  obtain ⟨s1, h1, h2⟩ := Step.andThen_result_ok _ _ _ h
  exact ⟨s1, h1, (tick_rest_ok cfg s1 m.last_modified env m' h2).1⟩

/-- A pass in which a string read from the store does not fit its buffer does
not end normally: it stops at the copy that runs beyond the end of the
buffer. -/
theorem main_tick_overflow (cfg : Config) (m : MainState) (env : TickEnv) (s1 : UIState)
    (h1 : (tick_events cfg m.s env).result = Except.ok s1)
    (hf : tick_rest_fits cfg s1 m.last_modified env = false) :
    (main_tick cfg m env).result = Except.error Fault.buffer_overflow := by
  unfold main_tick
  rw [Step.andThen_result_of_ok _ _ _ h1]
  obtain ⟨pre, post, -, e⟩ := tick_rest_overflow cfg s1 m.last_modified env hf
  rw [e]

/-- The strings read in a pass that ends normally: a gated read of
`DragonLastModified` found a value that fits its buffer, and so did the read
of `DragonLocale` when the generation had changed. -/
theorem main_tick_strings_fit (cfg : Config) (m m' : MainState) (env : TickEnv)
    (h : (main_tick cfg m env).result = Except.ok m') :
    (reads_of "DragonLastModified" (main_tick cfg m env).effects ≠ 0 →
      env.store.fits 20 "DragonLastModified" = true) ∧
    (m.last_modified ≠ m'.s.dragon_last_modified → env.store.fits 20 "DragonLocale" = true) := by
  obtain ⟨s1, hs1, hm', heff⟩ := main_tick_ok cfg m m' env h
  obtain ⟨s2, hs2, hfit⟩ := main_tick_ok_fits cfg m m' env h
  have e12 : s2 = s1 := by
    rw [hs2] at hs1
    cases hs1
    rfl
  rw [e12] at hfit
  unfold tick_rest_fits at hfit
  simp only [Bool.and_eq_true, Bool.or_eq_true, decide_eq_true_eq] at hfit
  obtain ⟨f1, f2⟩ := hfit
  have g0 := (tick_generation_fit_reads cfg
    { s := (tick_params_fit cfg (before_params cfg s1) env).1, last_modified := m.last_modified }
    env.store).1
  rw [← tick_rest_fit_state, ← hm'] at g0
  constructor
  · intro hr
    have hq : reads_of Entry.DragonLastModified.name (tick_events cfg m.s env).effects = 0 := by
      rw [reads_of_filter, filter_is_read_of_quiet _ (tick_events_quiet cfg m.s env)]
      rfl
    have hn : reads_of Entry.DragonLastModified.name (main_tick cfg m env).effects =
        if (before_params cfg s1).dragon_last_modified_timeout > 0 then 0 else 1 := by
      rw [heff, reads_of_append, hq, Nat.zero_add, reads_of_filter, tick_rest_fit_reads,
        reads_of_append, ← reads_of_filter, ← reads_of_filter, reads_of_tick_generation,
        Nat.add_zero, reads_of_tick_params]
      rfl
    have hr' : reads_of Entry.DragonLastModified.name (main_tick cfg m env).effects ≠ 0 := hr
    rw [hn] at hr'
    rcases f1 with f1 | f1
    · rw [if_pos f1] at hr'
      exact absurd rfl hr'
    · exact f1
  · intro hne
    rcases f2 with f2 | f2
    · rw [g0] at hne
      exact absurd f2 hne
    · exact f2

/-- A pass that refreshes the settings from a store with a `DragonLocale` of 25
characters: the read of `DragonLocale` is made, the copy runs beyond the end
of the `char[20]` field, and the pass does not end normally. -/
theorem main_tick_long_locale_overflows :
    long_locale_env.store.fits 20 "DragonLocale" = false ∧
    reads_of "DragonLocale" (main_tick cfg_qcom main_start long_locale_env).effects = 1 ∧
    (main_tick cfg_qcom main_start long_locale_env).result =
      Except.error Fault.buffer_overflow :=
  ⟨by decide, by decide, rfl⟩

/-! ## C10 -/

/-- C10, as stated, fails: in the first pass from the start-up state with a
store that answers `1` to every read, the cached `DragonLastModified` becomes
`1` and differs from the recorded generation, `DragonLocale` is read, and the
display toggle `DragonUISpeed` is not read from the store, because
`DragonWazeMode` reads as set. -/
theorem main_tick_waze_skips_toggles :
    ∃ m', (main_tick cfg_qcom main_start waze_env).result = Except.ok m' ∧
      main_start.last_modified ≠ m'.s.dragon_last_modified ∧
      reads_of "DragonLocale" (main_tick cfg_qcom main_start waze_env).effects = 1 ∧
      reads_of "DragonUISpeed" (main_tick cfg_qcom main_start waze_env).effects = 0 :=
  ⟨_, rfl, by decide, by decide, by decide⟩

/-- C10, amended: in every pass of the main loop that ends normally, with
`cached` the cached `DragonLastModified` after the gated read of the pass:
each of the eight settings `DragonLocale`, `DragonWazeMode`,
`DragonUIVolumeBoost`, `DragonDynamicFollow`, `DragonAccelProfile`,
`DragonUIScreenOffReversing`, `DragonUIScreenOffDriving`, `DragonUIBrightness`
is read from the store (once, by no countdown) if and only if `cached` differs
from `last_modified`; `DragonEnableDriverMonitoring` and the twelve display
toggles are read if and only if it differs and `DragonWazeMode` then reads as
off; `DragonUIFace` is read if and only if moreover driver monitoring then
reads as enabled; after a refresh `last_modified` holds the first 20
characters of `cached`, so that after the pass it equals `cached` whenever
`cached` fits its 20-byte buffer.  A pass ends normally only when the strings
it reads fit their `char[20]` buffers: the value a gated read finds for
`DragonLastModified`, and the value a refresh finds for `DragonLocale`, is
shorter than 20 bytes.  A pass that reads a longer one copies it beyond the
end of the buffer and is not covered. -/
theorem main_tick_generation (cfg : Config) (m m' : MainState) (env : TickEnv)
    (h : (main_tick cfg m env).result = Except.ok m') :
    (∀ name ∈ settings_names,
      reads_of name (main_tick cfg m env).effects =
        if m.last_modified ≠ m'.s.dragon_last_modified then 1 else 0) ∧
    (∀ name ∈ "DragonEnableDriverMonitoring" :: toggle_names,
      reads_of name (main_tick cfg m env).effects =
        if m.last_modified ≠ m'.s.dragon_last_modified ∧ m'.s.dragon_waze_mode = false
        then 1 else 0) ∧
    reads_of "DragonUIFace" (main_tick cfg m env).effects =
      (if m.last_modified ≠ m'.s.dragon_last_modified ∧ m'.s.dragon_waze_mode = false ∧
          m'.s.dragon_enable_dm = true then 1 else 0) ∧
    m'.last_modified =
      (if m.last_modified ≠ m'.s.dragon_last_modified then m'.s.dragon_last_modified.take 20
       else m.last_modified) ∧
    (m'.s.dragon_last_modified.length < 20 → m'.last_modified = m'.s.dragon_last_modified) ∧
    (reads_of "DragonLastModified" (main_tick cfg m env).effects ≠ 0 →
      env.store.fits 20 "DragonLastModified" = true) ∧
    (m.last_modified ≠ m'.s.dragon_last_modified → env.store.fits 20 "DragonLocale" = true) := by
  obtain ⟨sp, hm', hreads⟩ := main_tick_dependent_reads cfg m m' env h
  obtain ⟨g0, g1, g2, g3, g4⟩ :=
    tick_generation_fit_reads cfg { s := sp, last_modified := m.last_modified } env.store
  rw [← hm'] at g0 g2 g3 g4
  simp only at g0 g1 g2 g3 g4
  simp only [← g0] at g1 g2 g3 g4
  refine ⟨fun n hn => ?_, fun n hn => ?_, ?_, g4, fun hlen => ?_,
    main_tick_strings_fit cfg m m' env h⟩
  · rw [hreads n (by simp only [dependent_names, List.mem_append]; exact Or.inl hn)]
    exact g1 n hn
  · rw [hreads n (by
      simp only [dependent_names, List.mem_append, List.mem_cons] at hn ⊢
      tauto)]
    exact g2 n hn
  · rw [hreads _ (by decide)]
    exact g3
  · rw [g4]
    split_ifs with hc
    · exact String.take_of_length_le _ 20 (Nat.le_of_lt hlen)
    · exact not_not.mp hc

/-- C10, amended, at the first pass from the start-up state with a store that
answers `1` to every read. -/
theorem main_tick_generation_witness :
    ∃ m', (main_tick cfg_qcom main_start waze_env).result = Except.ok m' ∧
      (∀ name ∈ settings_names,
        reads_of name (main_tick cfg_qcom main_start waze_env).effects =
          if main_start.last_modified ≠ m'.s.dragon_last_modified then 1 else 0) ∧
      m'.last_modified = m'.s.dragon_last_modified :=
  ⟨_, rfl,
    (main_tick_generation cfg_qcom main_start _ waze_env rfl).1,
    (main_tick_generation cfg_qcom main_start _ waze_env rfl).2.2.2.2.1 (by decide)⟩

/-! ## The controls watchdog -/

/-- The controls block while the countdown is positive: a decrement and no
effect. -/
theorem tick_controls_counting (s : UIState) (h : 0 < s.controls_timeout) :
    tick_controls s = ({ s with controls_timeout := s.controls_timeout - 1 }, []) := by
  simp only [tick_controls, gt_iff_lt, h, if_true]

theorem c_assert_andThen_ok {α : Type} (cfg : Config) (c : Bool) (f : Unit → Step α) (a : α)
    (h : ((c_assert cfg c).andThen f).result = Except.ok a) :
    (cfg.ndebug || c) = true ∧ (c_assert cfg c).andThen f = f () := by
  unfold c_assert at h ⊢
  by_cases hc : (cfg.ndebug || c) = true
  · simp only [hc, if_true, Step.andThen_ok_unit]
    exact ⟨trivial, trivial⟩
  · simp only [hc, Bool.false_eq_true, if_false, Step.andThen, Step.fail] at h
    cases h

theorem c_assert_andThen_of {α : Type} (cfg : Config) (c : Bool) (f : Unit → Step α)
    (h : (cfg.ndebug || c) = true) : (c_assert cfg c).andThen f = f () := by
  unfold c_assert
  simp only [h, if_true, Step.andThen_ok_unit]

/-- In waze mode `refresh_toggles` reads nothing and clears the thirteen
flags. -/
theorem refresh_toggles_waze (s : UIState) (store : Store) (h : s.dragon_waze_mode = true) :
    (refresh_toggles s store).2 = [] ∧
    (∀ b ∈ display_toggles (refresh_toggles s store).1, b = false) ∧
    (refresh_toggles s store).1.dragon_ui_face = false := by
  simp only [refresh_toggles, h, if_true, display_toggles]
  refine ⟨trivial, ?_, trivial⟩
  intro b hb
  simp only [List.mem_cons, List.mem_singleton, List.not_mem_nil, or_false, or_self] at hb
  exact hb

theorem ui_init_vision_params_fit_effects (cfg : Config) (m : MainState) (store : Store) :
    (ui_init_vision_params_fit cfg m store).2 = reads init_names := by
  simp only [ui_init_vision_params_fit, read_param_bool_effects, read_param_float_effects,
    read_param_uint64_effects, read_param_string_fit_effects]
  rfl

theorem ui_init_vision_timeouts_flags (s : UIState) :
    display_toggles (ui_init_vision_timeouts s) = display_toggles s ∧
    (ui_init_vision_timeouts s).dragon_ui_face = s.dragon_ui_face ∧
    (ui_init_vision_timeouts s).dragon_waze_mode = s.dragon_waze_mode := ⟨rfl, rfl, rfl⟩

/-- A run of `ui_init_vision` that ends normally: the state and the effects,
part by part. -/
theorem ui_init_vision_ok (cfg : Config) (m m' : MainState) (back_bufs : VisionStreamBufs)
    (num_back_fds : Int) (front_bufs : VisionStreamBufs) (num_front_fds : Int) (store : Store)
    (frontview fullview : Bool)
    (h : (ui_init_vision cfg m back_bufs num_back_fds front_bufs num_front_fds store frontview
      fullview).result = Except.ok m') :
    ∃ mp : MainState,
      mp = (ui_init_vision_params_fit cfg
        { m with s := ui_init_vision_state m.s back_bufs front_bufs frontview fullview }
        store).1 ∧
      m' = { mp with s := ui_init_vision_timeouts (refresh_toggles mp.s store).1 } ∧
      (ui_init_vision cfg m back_bufs num_back_fds front_bufs num_front_fds store frontview
        fullview).effects = reads init_names ++ (refresh_toggles mp.s store).2 := by
  unfold ui_init_vision at h ⊢
  obtain ⟨-, e1⟩ := c_assert_andThen_ok cfg _ _ m' h
  rw [e1] at h ⊢
  obtain ⟨-, e2⟩ := c_assert_andThen_ok cfg _ _ m' h
  rw [e2] at h ⊢
  obtain ⟨mp, hp, h3⟩ := Step.andThen_result_ok _ _ _ h
  obtain ⟨-, hm, he⟩ := ui_init_vision_params_ok cfg _ mp store hp
  rw [Step.andThen_effects_ok _ _ mp hp, he, ui_init_vision_params_fit_effects]
  unfold Step.lift at h3 ⊢
  cases h3
  exact ⟨mp, hm, rfl, rfl⟩

/-- A connection committed between two passes: a run of `ui_init_vision` (lines
383-400 and 437-444) that ends normally reads each of the six gated entries
from the store once, by no countdown, and sets the five countdowns to their
offsets, whatever they were. -/
theorem ui_init_vision_entries (cfg : Config) (m m' : MainState) (back_bufs : VisionStreamBufs)
    (num_back_fds : Int) (front_bufs : VisionStreamBufs) (num_front_fds : Int) (store : Store)
    (frontview fullview : Bool)
    (h : (ui_init_vision cfg m back_bufs num_back_fds front_bufs num_front_fds store frontview
      fullview).result = Except.ok m') :
    (∀ e : Entry,
      reads_of e.name (ui_init_vision cfg m back_bufs num_back_fds front_bufs num_front_fds store
        frontview fullview).effects = 1) ∧
    m'.s.longitudinal_control_timeout = UI_FREQ / 3 ∧ m'.s.is_metric_timeout = UI_FREQ / 2 ∧
    m'.s.limit_set_speed_timeout = UI_FREQ ∧ m'.s.dragon_last_modified_timeout = UI_FREQ / 4 ∧
    m'.s.dragon_updating_timeout = UI_FREQ / 5 := by
  obtain ⟨mp, -, hm', he⟩ := ui_init_vision_ok cfg m m' _ _ _ _ _ _ _ h
  rw [he, hm']
  refine ⟨fun e => ?_, rfl, rfl, rfl, rfl, rfl⟩
  rw [reads_of_append, refresh_toggles_effects]
  split_ifs <;> cases e <;> decide

/-- A connection committed after the fifteenth pass of a run: the sixteenth
pass would not read `IsMetric` (its countdown stands at 45), the connect reads
it and leaves the countdown at 15, and the run goes on from there. -/
theorem vision_connect_between_passes :
    ∃ m15 m0,
      (main_ticks cfg_qcom main_after_read (List.replicate 15 idle_env)).result = Except.ok m15 ∧
      m15.s.is_metric_timeout = 45 ∧
      (vision_connect_attempt cfg_qcom false m15 connect_env_ok).result = Except.ok m0 ∧
      reads_of "IsMetric" (vision_connect_attempt cfg_qcom false m15 connect_env_ok).effects = 1 ∧
      m0.s.is_metric_timeout = 15 := by
  simp only [main_ticks_fit_eq cfg_qcom _ _ (idle_fits 15)]
  exact ⟨_, _, rfl, by decide, rfl, by decide, by decide⟩

theorem reads_init_no_toggle :
    ∀ name ∈ "DragonUIFace" :: toggle_names, reads_of name (reads init_names) = 0 := by
  decide

/-- C11: whenever a settings refresh finds `DragonWazeMode` active, in
`ui_init_vision` at a connect or in a pass of the main loop whose generation
check finds a change, the twelve display toggles (and `dragon_ui_face`) are
false afterwards, whatever the store holds for them, and none of their keys is
read from the store: not by `ui_init_vision`, and not in the whole pass. -/
theorem refresh_waze_forces_toggles (cfg : Config) :
    (∀ (m m' : MainState) (back_bufs : VisionStreamBufs) (num_back_fds : Int)
        (front_bufs : VisionStreamBufs) (num_front_fds : Int) (store : Store)
        (frontview fullview : Bool),
      (ui_init_vision cfg m back_bufs num_back_fds front_bufs num_front_fds store frontview
        fullview).result = Except.ok m' →
      m'.s.dragon_waze_mode = true →
      (∀ b ∈ display_toggles m'.s, b = false) ∧ m'.s.dragon_ui_face = false ∧
      ∀ name ∈ "DragonUIFace" :: toggle_names,
        reads_of name (ui_init_vision cfg m back_bufs num_back_fds front_bufs num_front_fds
          store frontview fullview).effects = 0) ∧
    (∀ (m m' : MainState) (env : TickEnv),
      (main_tick cfg m env).result = Except.ok m' →
      m.last_modified ≠ m'.s.dragon_last_modified → m'.s.dragon_waze_mode = true →
      (∀ b ∈ display_toggles m'.s, b = false) ∧ m'.s.dragon_ui_face = false ∧
      ∀ name ∈ "DragonUIFace" :: toggle_names,
        reads_of name (main_tick cfg m env).effects = 0) := by
  constructor
  · intro m m' back_bufs num_back_fds front_bufs num_front_fds store frontview fullview h hw
    obtain ⟨mp, -, hm', he⟩ := ui_init_vision_ok cfg m m' _ _ _ _ _ _ _ h
    have hw' : mp.s.dragon_waze_mode = true := by
      rw [hm'] at hw
      have h1 := (ui_init_vision_timeouts_flags (refresh_toggles mp.s store).1).2.2
      have h2 := (refresh_toggles_flags mp.s store).1
      exact (h2.symm.trans h1.symm).trans hw
    obtain ⟨k1, k2, k3⟩ := refresh_toggles_waze mp.s store hw'
    refine ⟨?_, ?_, ?_⟩
    · rw [hm']
      exact k2
    · rw [hm']
      exact k3
    · intro name hn
      rw [he, k1, List.append_nil]
      exact reads_init_no_toggle name hn
  · intro m m' env h hch hw
    obtain ⟨sp, hm', hreads⟩ := main_tick_dependent_reads cfg m m' env h
    obtain ⟨g0, -, g2, g3, -⟩ :=
      tick_generation_fit_reads cfg { s := sp, last_modified := m.last_modified } env.store
    rw [← hm'] at g0 g2 g3
    simp only at g0 g2 g3
    have hch' : m.last_modified ≠ sp.dragon_last_modified := by
      rw [← g0]
      exact hch
    have hst : m'.s = (refresh_toggles (refresh_settings_fit cfg sp env.store).1 env.store).1 := by
      rw [hm']
      simp only [tick_generation_fit, ne_eq, hch', not_false_eq_true, if_true]
    have hw' : (refresh_settings_fit cfg sp env.store).1.dragon_waze_mode = true := by
      have h2 := (refresh_toggles_flags (refresh_settings_fit cfg sp env.store).1 env.store).1
      rw [← h2, ← hst]
      exact hw
    obtain ⟨-, k2, k3⟩ := refresh_toggles_waze _ env.store hw'
    refine ⟨?_, ?_, ?_⟩
    · rw [hst]
      exact k2
    · rw [hst]
      exact k3
    · intro name hn
      have hd : name ∈ dependent_names := by
        simp only [dependent_names, List.mem_append, List.mem_cons] at hn ⊢
        tauto
      rw [hreads name hd]
      rcases List.mem_cons.mp hn with rfl | hn'
      · rw [g3]
        simp only [hw, Bool.true_eq_false, false_and, and_false, if_false]
      · rw [g2 name (List.mem_cons_of_mem _ hn')]
        simp only [hw, Bool.true_eq_false, and_false, if_false]

/-- C11 at concrete refreshes with a store that answers `1` to every read, so
that `DragonWazeMode` and every display toggle are set in the store: a connect
from the start-up state, and the first pass of the main loop. -/
theorem refresh_waze_forces_toggles_witness :
    (∃ m', (ui_init_vision cfg_qcom main_start (bufs_of VisionStreamType.VISION_STREAM_RGB_BACK) 4
        (bufs_of VisionStreamType.VISION_STREAM_RGB_FRONT) 4 store_ones false false).result
        = Except.ok m' ∧
      m'.s.dragon_waze_mode = true ∧
      (∀ b ∈ display_toggles m'.s, b = false) ∧ m'.s.dragon_ui_face = false ∧
      ∀ name ∈ "DragonUIFace" :: toggle_names,
        reads_of name (ui_init_vision cfg_qcom main_start
          (bufs_of VisionStreamType.VISION_STREAM_RGB_BACK) 4
          (bufs_of VisionStreamType.VISION_STREAM_RGB_FRONT) 4 store_ones false false).effects
          = 0) ∧
    (∃ m', (main_tick cfg_qcom main_start waze_env).result = Except.ok m' ∧
      main_start.last_modified ≠ m'.s.dragon_last_modified ∧ m'.s.dragon_waze_mode = true ∧
      (∀ b ∈ display_toggles m'.s, b = false) ∧ m'.s.dragon_ui_face = false ∧
      ∀ name ∈ "DragonUIFace" :: toggle_names,
        reads_of name (main_tick cfg_qcom main_start waze_env).effects = 0) :=
  ⟨⟨_, rfl, by decide,
      (refresh_waze_forces_toggles cfg_qcom).1 main_start _
        (bufs_of VisionStreamType.VISION_STREAM_RGB_BACK) 4
        (bufs_of VisionStreamType.VISION_STREAM_RGB_FRONT) 4 store_ones false false rfl
        (by decide)⟩,
    ⟨_, rfl, by decide, by decide,
      (refresh_waze_forces_toggles cfg_qcom).2 main_start _ waze_env rfl (by decide)
        (by decide)⟩⟩

/-! ## The alert-sound edge -/

theorem set_awake_no_sound (cfg : Config) (s : UIState) (awake : Bool) :
    (set_awake cfg s awake).2.filter Effect.is_sound = [] := by
  rw [List.filter_eq_nil_iff]
  intro e he
  obtain ⟨b, rfl⟩ := set_awake_effects cfg s awake e he
  simp [Effect.is_sound]

/-- The sound calls of `handle_alert_sound`, and the sound it tracks at its
end. -/
theorem handle_alert_sound_edge (cfg : Config) (s : UIState) (d : ControlsStateData) :
    (handle_alert_sound cfg s d).2.filter Effect.is_sound = sound_edge s.alert_sound d.alertSound ∧
    (handle_alert_sound cfg s d).1.alert_sound = d.alertSound := by
  unfold handle_alert_sound sound_edge
  by_cases h : d.alertSound = s.alert_sound
  · simp only [h, ne_eq, not_true_eq_false, if_false, if_true, List.filter_nil]
    exact ⟨trivial, trivial⟩
  · simp only [h, ne_eq, not_false_eq_true, if_true, if_false, seq, List.filter_append]
    refine ⟨?_, trivial⟩
    congr 1
    · split_ifs <;> rfl
    · split_ifs
      · rfl
      · simp only [List.filter_append, set_awake_no_sound, List.append_nil]
        rfl
      · rfl

theorem handle_message_transition_no_sound (s : UIState) :
    (handle_message_transition s).2.filter Effect.is_sound = [] := by
  simp only [handle_message_transition, update_offroad_layout_state]
  split_ifs <;> rfl

/-- C12: for every `controlsState` event handled while `started` is true,
with `a` the alert sound the event requests and `p` the sound tracked in
`alert_sound` before the call: the call ends normally; if `a = p` it makes no
`stop_alert_sound` and no `play_alert_sound` call; if `a` differs from `p` its
sound calls are `stop_alert_sound(p)`, made exactly when `p` is not `NONE`,
followed by `play_alert_sound(a)`, made exactly when `a` is not `NONE`; and the
tracked sound is `a` afterwards. -/
theorem handle_message_alert_sound_edge (cfg : Config) (s : UIState) (t : Nat)
    (d : ControlsStateData) (hs : s.started = true) :
    ∃ s', (handle_message cfg s (Event.CONTROLS_STATE t d)).result = Except.ok s' ∧
      s'.alert_sound = d.alertSound ∧
      (handle_message cfg s (Event.CONTROLS_STATE t d)).effects.filter Effect.is_sound =
        (if d.alertSound = s.alert_sound then []
         else
          (if s.alert_sound ≠ AudibleAlert.NONE then [Effect.stop_alert_sound s.alert_sound]
            else []) ++
          (if d.alertSound ≠ AudibleAlert.NONE then [Effect.play_alert_sound d.alertSound]
            else [])) := by
  rw [handle_message_controls_started cfg s t d hs]
  refine ⟨_, rfl, ?_, ?_⟩
  · simp only [seq, handle_message_transition_alert_sound, handle_controls_state,
      handle_alert_blinking_alert_sound, handle_alert_status_alert_sound,
      handle_alert_text_alert_sound]
    exact (handle_alert_sound_edge cfg _ d).2
  · simp only [Step.lift, seq, handle_controls_state, List.append_nil, List.filter_append,
      handle_message_transition_no_sound, (handle_alert_sound_edge cfg _ d).1,
      handle_controls_fields_alert_sound]
    rfl

/-- C12 at a concrete event: in an onroad state that tracks no sound, an event
that requests `CHIME_WARNING_REPEAT`. -/
theorem handle_message_alert_sound_edge_witness :
    ∃ s', (handle_message cfg_qcom onroad_state
        (Event.CONTROLS_STATE 0
          { ControlsStateData.zero with alertSound := AudibleAlert.CHIME_WARNING_REPEAT })).result
        = Except.ok s' ∧
      s'.alert_sound = AudibleAlert.CHIME_WARNING_REPEAT ∧
      (handle_message cfg_qcom onroad_state
        (Event.CONTROLS_STATE 0
          { ControlsStateData.zero with alertSound := AudibleAlert.CHIME_WARNING_REPEAT })).effects.filter
          Effect.is_sound = [Effect.play_alert_sound AudibleAlert.CHIME_WARNING_REPEAT] :=
  handle_message_alert_sound_edge cfg_qcom onroad_state 0
    { ControlsStateData.zero with alertSound := AudibleAlert.CHIME_WARNING_REPEAT } rfl

/-! ## `vision_subscribe` -/

theorem vision_subscribe_release_eq (fd : Int) (p : VisionPacket) :
    vision_subscribe_release fd p = releases_of fd [RecvAnswer.recv p] := by
  cases p <;> rfl

theorem releases_of_cons (fd : Int) (a : RecvAnswer) (rest : List RecvAnswer) :
    releases_of fd (a :: rest) = releases_of fd [a] ++ releases_of fd rest := by
  unfold releases_of
  rw [← List.filterMap_append]
  rfl

/-- The loop of `vision_subscribe` after answers that all keep it going: a
`RELEASE` for every `ACQUIRE` among them, then the loop on what follows. -/
theorem vision_subscribe_loop_prefix (fd : Int) (type : VisionStreamType)
    (pre rest : List RecvAnswer) (hpre : ∀ a ∈ pre, a.continues type = true) :
    ∀ rp : VisionPacket,
      vision_subscribe_loop fd type rp (pre ++ rest) =
        ⟨releases_of fd pre ++ (vision_subscribe_loop fd type (last_rp rp pre) rest).effects,
          (vision_subscribe_loop fd type (last_rp rp pre) rest).result⟩ := by
  induction pre with
  | nil =>
    intro rp
    rfl
  | cons a pre ih =>
    intro rp
    have ha := hpre a (List.mem_cons_self a pre)
    have ih' := ih (fun b hb => hpre b (List.mem_cons_of_mem a hb))
    cases a with
    | recv_failed => cases ha
    | recv p =>
      have hp : p.is_bufs_of type = false := by
        simpa [RecvAnswer.continues] using ha
      simp only [List.cons_append, vision_subscribe_loop, hp, Bool.false_eq_true, if_false,
        Step.andThen, Step.emit, last_rp]
      rw [show pre.append rest = pre ++ rest from rfl, ih' p, releases_of_cons,
        vision_subscribe_release_eq, List.append_assoc]

/-- A return value of 1 from the loop of `vision_subscribe`: the answers
consumed end with a buffer descriptor of the requested stream, which `*rp`
holds, and every answer before it kept the loop going. -/
theorem vision_subscribe_loop_one (fd : Int) (type : VisionStreamType) (p : VisionPacket) :
    ∀ (answers : List RecvAnswer) (rp : VisionPacket),
      (vision_subscribe_loop fd type rp answers).result = Except.ok (1, p) →
      ∃ pre rest b n, answers = pre ++ RecvAnswer.recv (VisionPacket.VIPC_STREAM_BUFS b n) :: rest ∧
        b.type = type ∧ p = VisionPacket.VIPC_STREAM_BUFS b n ∧
        ∀ a ∈ pre, a.continues type = true := by
  intro answers
  induction answers with
  | nil =>
    intro rp h
    cases h
  | cons a rest ih =>
    intro rp h
    cases a with
    | recv_failed =>
      simp only [vision_subscribe_loop] at h
      cases h
    | recv q =>
      by_cases hq : q.is_bufs_of type = true
      · simp only [vision_subscribe_loop, hq, if_true, Step.andThen, Step.emit, Step.ok] at h
        cases h
        cases p with
        | VIPC_STREAM_BUFS b n =>
          refine ⟨[], rest, b, n, rfl, ?_, rfl, ?_⟩
          · simpa [VisionPacket.is_bufs_of] using hq
          · intro a ha
            cases ha
        | _ => cases hq
      · have hq' : q.is_bufs_of type = false := by simpa using hq
        simp only [vision_subscribe_loop, hq', Bool.false_eq_true, if_false, Step.andThen,
          Step.emit] at h
        obtain ⟨pre, rest', b, n, e, hb, hp, hpre⟩ := ih q h
        refine ⟨RecvAnswer.recv q :: pre, rest', b, n, ?_, hb, hp, ?_⟩
        · rw [e]
          rfl
        · intro a ha
          rcases List.mem_cons.mp ha with rfl | ha
          · simp [RecvAnswer.continues, hq']
          · exact hpre a ha

/-- C13: `vision_subscribe(fd, rp, type)` on a transport whose first answers
`pre` all keep its loop going (packets other than a buffer descriptor of the
requested stream; a descriptor of another stream is one of them).  It first
sends one `SUBSCRIBE` for the requested stream.  If that send fails it closes
the descriptor and returns 0.  Otherwise every `ACQUIRE` among `pre` is
answered with one `RELEASE` of the same stream type and slot index, in arrival
order, and nothing else is sent; if the receive after `pre` fails it closes
the descriptor and returns 0; if the packet after `pre` is a buffer descriptor
of the requested stream it returns 1 with that packet in `*rp`.  And it
returns 1 only in that way: the `SUBSCRIBE` send did not fail and the last
packet received is a buffer descriptor of the requested stream, held in
`*rp`. -/
theorem vision_subscribe_handshake (fd : Int) (rp : VisionPacket) (type : VisionStreamType)
    (send_err : Int) (pre rest : List RecvAnswer) (hpre : ∀ a ∈ pre, a.continues type = true) :
    (send_err < 0 →
      vision_subscribe fd rp type send_err (pre ++ rest) =
        ⟨[subscribe_send fd type, Effect.close fd], Except.ok (0, rp)⟩) ∧
    (¬ send_err < 0 →
      vision_subscribe fd rp type send_err (pre ++ RecvAnswer.recv_failed :: rest) =
        ⟨subscribe_send fd type :: (releases_of fd pre ++ [Effect.close fd]),
          Except.ok (0, last_rp rp pre)⟩) ∧
    (¬ send_err < 0 → ∀ (b : VisionStreamBufs) (n : Int), b.type = type →
      vision_subscribe fd rp type send_err
          (pre ++ RecvAnswer.recv (VisionPacket.VIPC_STREAM_BUFS b n) :: rest) =
        ⟨subscribe_send fd type :: releases_of fd pre,
          Except.ok (1, VisionPacket.VIPC_STREAM_BUFS b n)⟩) ∧
    (∀ (b : VisionStreamBufs) (n : Int), b.type ≠ type →
      (RecvAnswer.recv (VisionPacket.VIPC_STREAM_BUFS b n)).continues type = true) ∧
    (∀ (answers : List RecvAnswer) (p : VisionPacket),
      (vision_subscribe fd rp type send_err answers).result = Except.ok (1, p) →
      ¬ send_err < 0 ∧
      ∃ pre' rest' b n,
        answers = pre' ++ RecvAnswer.recv (VisionPacket.VIPC_STREAM_BUFS b n) :: rest' ∧
        b.type = type ∧ p = VisionPacket.VIPC_STREAM_BUFS b n ∧
        ∀ a ∈ pre', a.continues type = true) := by
  refine ⟨?_, ?_, ?_, ?_, ?_⟩
  · intro hs
    simp only [vision_subscribe, hs, if_true, Step.andThen, Step.emit, subscribe_send]
    rfl
  · intro hs
    simp only [vision_subscribe, hs, if_false, Step.andThen, Step.emit, subscribe_send,
      vision_subscribe_loop_prefix fd type pre _ hpre rp, vision_subscribe_loop]
    rfl
  · intro hs b n hb
    have hbufs : (VisionPacket.VIPC_STREAM_BUFS b n).is_bufs_of type = true := by
      simp [VisionPacket.is_bufs_of, hb]
    simp only [vision_subscribe, hs, if_false, Step.andThen, Step.emit, subscribe_send,
      vision_subscribe_loop_prefix fd type pre _ hpre rp, vision_subscribe_loop, hbufs, if_true,
      Step.ok, vision_subscribe_release, List.append_nil, List.nil_append]
    rfl
  · intro b n hb
    simp [RecvAnswer.continues, VisionPacket.is_bufs_of, hb]
  · intro answers p h
    by_cases hs : send_err < 0
    · simp only [vision_subscribe, hs, if_true, Step.andThen, Step.emit] at h
      cases h
    · simp only [vision_subscribe, hs, if_false, Step.andThen, Step.emit] at h
      exact ⟨hs, vision_subscribe_loop_one fd type p answers rp h⟩

/-- C13 at a concrete handshake for the rear stream on descriptor 5: the
transport delivers an `ACQUIRE` of slot 1 of the rear stream, a buffer
descriptor of the front stream and then the buffer descriptor of the rear
stream. -/
theorem vision_subscribe_handshake_witness :
    (∀ a ∈ [RecvAnswer.recv
          (VisionPacket.VIPC_STREAM_ACQUIRE VisionStreamType.VISION_STREAM_RGB_BACK 1),
        RecvAnswer.recv
          (VisionPacket.VIPC_STREAM_BUFS (bufs_of VisionStreamType.VISION_STREAM_RGB_FRONT) 4)],
      a.continues VisionStreamType.VISION_STREAM_RGB_BACK = true) ∧
    vision_subscribe 5 (VisionPacket.other 0) VisionStreamType.VISION_STREAM_RGB_BACK 1
        ([RecvAnswer.recv
            (VisionPacket.VIPC_STREAM_ACQUIRE VisionStreamType.VISION_STREAM_RGB_BACK 1),
          RecvAnswer.recv
            (VisionPacket.VIPC_STREAM_BUFS (bufs_of VisionStreamType.VISION_STREAM_RGB_FRONT) 4)]
          ++ RecvAnswer.recv
            (VisionPacket.VIPC_STREAM_BUFS (bufs_of VisionStreamType.VISION_STREAM_RGB_BACK) 4)
            :: []) =
      ⟨[subscribe_send 5 VisionStreamType.VISION_STREAM_RGB_BACK,
          Effect.vipc_send 5
            (VisionPacket.VIPC_STREAM_RELEASE VisionStreamType.VISION_STREAM_RGB_BACK 1)],
        Except.ok
          (1, VisionPacket.VIPC_STREAM_BUFS (bufs_of VisionStreamType.VISION_STREAM_RGB_BACK) 4)⟩ :=
  ⟨by decide,
    (vision_subscribe_handshake 5 (VisionPacket.other 0) VisionStreamType.VISION_STREAM_RGB_BACK 1
      _ [] (by decide)).2.2.1 (by decide) _ 4 rfl⟩

/-! ## `vision_connect_thread` -/

/-- The loop of `vision_subscribe` returns 0 or 1. -/
theorem vision_subscribe_loop_ret (fd : Int) (type : VisionStreamType) :
    ∀ (answers : List RecvAnswer) (rp : VisionPacket) (x : Int × VisionPacket),
      (vision_subscribe_loop fd type rp answers).result = Except.ok x → x.1 = 0 ∨ x.1 = 1 := by
  intro answers
  induction answers with
  | nil =>
    intro rp x h
    cases h
  | cons a rest ih =>
    intro rp x h
    cases a with
    | recv_failed =>
      simp only [vision_subscribe_loop] at h
      cases h
      exact Or.inl rfl
    | recv q =>
      by_cases hq : q.is_bufs_of type = true
      · simp only [vision_subscribe_loop, hq, if_true, Step.andThen, Step.emit, Step.ok] at h
        cases h
        exact Or.inr rfl
      · have hq' : q.is_bufs_of type = false := by simpa using hq
        simp only [vision_subscribe_loop, hq', Bool.false_eq_true, if_false, Step.andThen,
          Step.emit] at h
        exact ih q x h

/-- The function `vision_subscribe` returns 0 or 1. -/
theorem vision_subscribe_ret (fd : Int) (rp : VisionPacket) (type : VisionStreamType)
    (send_err : Int) (answers : List RecvAnswer) (x : Int × VisionPacket)
    (h : (vision_subscribe fd rp type send_err answers).result = Except.ok x) :
    x.1 = 0 ∨ x.1 = 1 := by
  by_cases hs : send_err < 0
  · simp only [vision_subscribe, hs, if_true, Step.andThen, Step.emit] at h
    cases h
    exact Or.inl rfl
  · simp only [vision_subscribe, hs, if_false, Step.andThen, Step.emit] at h
    exact vision_subscribe_loop_ret fd type answers rp x h

theorem refresh_toggles_connection (s : UIState) (store : Store) :
    (refresh_toggles s store).1.ipc_fd = s.ipc_fd ∧
    (refresh_toggles s store).1.vision_connected = s.vision_connected ∧
    (refresh_toggles s store).1.vision_seen = s.vision_seen ∧
    (refresh_toggles s store).1.vision_connect_firstrun = s.vision_connect_firstrun := by
  simp only [refresh_toggles]
  split_ifs <;> exact ⟨rfl, rfl, rfl, rfl⟩

/-- A run of `ui_init_vision` that ends normally keeps the descriptor. -/
theorem ui_init_vision_ipc_fd (cfg : Config) (m m' : MainState) (back_bufs : VisionStreamBufs)
    (num_back_fds : Int) (front_bufs : VisionStreamBufs) (num_front_fds : Int) (store : Store)
    (frontview fullview : Bool)
    (h : (ui_init_vision cfg m back_bufs num_back_fds front_bufs num_front_fds store frontview
      fullview).result = Except.ok m') :
    m'.s.ipc_fd = m.s.ipc_fd := by
  obtain ⟨mp, hmp, hm', -⟩ := ui_init_vision_ok cfg m m' _ _ _ _ _ _ _ h
  rw [hm']
  have h1 : (ui_init_vision_timeouts (refresh_toggles mp.s store).1).ipc_fd =
      (refresh_toggles mp.s store).1.ipc_fd := rfl
  have h2 := (refresh_toggles_connection mp.s store).1
  have h3 : mp.s.ipc_fd = m.s.ipc_fd := by
    rw [hmp]
    rfl
  exact h1.trans (h2.trans h3)

/-- The commit of a connection attempt, when it ends normally, sets the three
flags and records the descriptor. -/
theorem vision_connect_commit_ok (cfg : Config) (m m' : MainState) (env : ConnectEnv)
    (back_rp front_rp : VisionPacket)
    (h : (vision_connect_commit cfg m env back_rp front_rp).result = Except.ok m') :
    m'.s.vision_connected = true ∧ m'.s.vision_seen = true ∧
    m'.s.vision_connect_firstrun = true ∧ m'.s.ipc_fd = env.fd := by
  unfold vision_connect_commit at h
  obtain ⟨-, e1⟩ := c_assert_andThen_ok cfg _ _ m' h
  rw [e1] at h
  obtain ⟨m1, h1, h2⟩ := Step.andThen_result_ok _ _ _ h
  simp only [Step.ok] at h2
  cases h2
  exact ⟨rfl, rfl, rfl, ui_init_vision_ipc_fd cfg _ m1 _ _ _ _ _ _ _ h1⟩

/-- C14: in one connection attempt of `vision_connect_thread`, with `m` the
shared state and `m'` the shared state after an attempt that ends normally:
either `m' = m`, or both the rear-stream and the front-stream
`vision_subscribe` returned 1 and `vision_connected`, `vision_seen` and
`vision_connect_firstrun` are true and `ipc_fd` is the new descriptor.  When
the rear-stream `vision_subscribe` has returned 1 and the front-stream one
returns 0, the attempt ends with the shared state unchanged; when the
front-stream one does not return, nothing is written either. -/
theorem vision_connect_attempt_commit (cfg : Config) (connected : Bool) (m : MainState)
    (env : ConnectEnv) :
    (∀ m', (vision_connect_attempt cfg connected m env).result = Except.ok m' →
      m' = m ∨
      ∃ bp fp,
        (vision_subscribe env.fd env.back_rp VisionStreamType.VISION_STREAM_RGB_BACK
          env.back_send env.back_answers).result = Except.ok (1, bp) ∧
        (vision_subscribe env.fd env.front_rp VisionStreamType.VISION_STREAM_RGB_FRONT
          env.front_send env.front_answers).result = Except.ok (1, fp) ∧
        m'.s.vision_connected = true ∧ m'.s.vision_seen = true ∧
        m'.s.vision_connect_firstrun = true ∧ m'.s.ipc_fd = env.fd) ∧
    (∀ bp,
      (vision_subscribe env.fd env.back_rp VisionStreamType.VISION_STREAM_RGB_BACK
        env.back_send env.back_answers).result = Except.ok (1, bp) →
      (∀ fp,
        (vision_subscribe env.fd env.front_rp VisionStreamType.VISION_STREAM_RGB_FRONT
          env.front_send env.front_answers).result = Except.ok (0, fp) →
        (vision_connect_attempt cfg connected m env).result = Except.ok m) ∧
      (∀ e,
        (vision_subscribe env.fd env.front_rp VisionStreamType.VISION_STREAM_RGB_FRONT
          env.front_send env.front_answers).result = Except.error e →
        connected = false → 0 ≤ env.fd →
        (vision_connect_attempt cfg connected m env).result = Except.error e)) := by
  constructor
  · intro m' h
    unfold vision_connect_attempt at h
    by_cases hc : connected = true
    · simp only [hc, if_true, Step.ok] at h
      cases h
      exact Or.inl rfl
    · by_cases hfd : env.fd < 0
      · simp only [hc, Bool.false_eq_true, if_false, hfd, if_true, Step.ok] at h
        cases h
        exact Or.inl rfl
      · simp only [hc, Bool.false_eq_true, if_false, hfd] at h
        obtain ⟨b, hb, h⟩ := Step.andThen_result_ok _ _ _ h
        by_cases hb0 : b.1 = 0
        · simp only [hb0, if_true, Step.ok] at h
          cases h
          exact Or.inl rfl
        · simp only [hb0, if_false] at h
          obtain ⟨f, hf, h⟩ := Step.andThen_result_ok _ _ _ h
          by_cases hf0 : f.1 = 0
          · simp only [hf0, if_true, Step.ok] at h
            cases h
            exact Or.inl rfl
          · simp only [hf0, if_false] at h
            have hb1 : b.1 = 1 := (vision_subscribe_ret _ _ _ _ _ b hb).resolve_left hb0
            have hf1 : f.1 = 1 := (vision_subscribe_ret _ _ _ _ _ f hf).resolve_left hf0
            refine Or.inr ⟨b.2, f.2, ?_, ?_, vision_connect_commit_ok cfg m m' env b.2 f.2 h⟩
            · rw [hb, ← hb1]
            · rw [hf, ← hf1]
  · intro bp hb
    constructor
    · intro fp hf
      unfold vision_connect_attempt
      by_cases hc : connected = true
      · simp only [hc, if_true, Step.ok]
      · by_cases hfd : env.fd < 0
        · simp only [hc, Bool.false_eq_true, if_false, hfd, if_true, Step.ok]
        · simp only [hc, Bool.false_eq_true, if_false, hfd]
          rw [Step.andThen_result_of_ok _ _ _ hb]
          simp only [one_ne_zero, if_false]
          rw [Step.andThen_result_of_ok _ _ _ hf]
          simp only [if_true, Step.ok]
    · intro e hf hc hfd
      unfold vision_connect_attempt
      have hfd' : ¬ env.fd < 0 := not_lt.mpr hfd
      simp only [hc, Bool.false_eq_true, if_false, hfd']
      rw [Step.andThen_result_of_ok _ _ _ hb]
      simp only [one_ne_zero, if_false]
      simp only [Step.andThen, hf]

/-- C14 at concrete attempts from the start-up state: with both buffer
descriptors delivered the attempt connects; with the rear descriptor delivered
and the front-stream receive failing the shared state is unchanged. -/
theorem vision_connect_attempt_commit_witness :
    (∃ m', (vision_connect_attempt cfg_qcom false main_start connect_env_ok).result
        = Except.ok m' ∧
      (m' = main_start ∨
        ∃ bp fp,
          (vision_subscribe connect_env_ok.fd connect_env_ok.back_rp
            VisionStreamType.VISION_STREAM_RGB_BACK connect_env_ok.back_send
            connect_env_ok.back_answers).result = Except.ok (1, bp) ∧
          (vision_subscribe connect_env_ok.fd connect_env_ok.front_rp
            VisionStreamType.VISION_STREAM_RGB_FRONT connect_env_ok.front_send
            connect_env_ok.front_answers).result = Except.ok (1, fp) ∧
          m'.s.vision_connected = true ∧ m'.s.vision_seen = true ∧
          m'.s.vision_connect_firstrun = true ∧ m'.s.ipc_fd = connect_env_ok.fd) ∧
      m'.s.vision_connected = true) ∧
    (vision_connect_attempt cfg_qcom false main_start connect_env_front_lost).result
      = Except.ok main_start :=
  ⟨⟨_, rfl, (vision_connect_attempt_commit cfg_qcom false main_start connect_env_ok).1 _ rfl,
      by decide⟩,
    ((vision_connect_attempt_commit cfg_qcom false main_start connect_env_front_lost).2 _
      rfl).1 _ rfl⟩

/-! ## Transport failures and unexpected packets in `ui_update` -/

/-- The loop of `ui_update` starts over after an interrupted poll. -/
theorem ui_update_loop_skip (cfg : Config) (s : UIState) (rest : List PollAnswer)
    (hfd : 0 ≤ s.ipc_fd) (k : Nat) :
    ui_update_loop cfg s (List.replicate k PollAnswer.poll_interrupted ++ rest) =
      ui_update_loop cfg s rest := by
  have hc : c_assert cfg (decide (s.ipc_fd ≥ 0)) = Step.ok () := by
    simp [c_assert, hfd]
  induction k with
  | zero => rfl
  | succ n ih =>
    simp only [List.replicate, List.cons_append, ui_update_loop, hc, Step.andThen_ok_unit]
    exact ih

/-- With a passing GL check `ui_update` is its first-run block, which cannot
fail, followed by its loop. -/
theorem ui_update_gl_ok (cfg : Config) (s : UIState) (answers : List PollAnswer) :
    ui_update cfg s true answers =
      (Step.lift (if s.vision_connect_firstrun then ui_update_firstrun_state s else (s, []))).andThen
        fun s1 => ui_update_loop cfg s1 answers := by
  simp only [ui_update, ui_update_firstrun_ok]

/-- The first-run block closes nothing and keeps `vision_connected`. -/
theorem ui_update_firstrun_state_connection (s : UIState) :
    (ui_update_firstrun_state s).2.filter Effect.is_close = [] ∧
      (ui_update_firstrun_state s).1.vision_connected = s.vision_connected := by
  simp only [ui_update_firstrun_state, update_offroad_layout_state]
  split_ifs <;> exact ⟨rfl, rfl⟩

/-- The state the loop of `ui_update` starts from, with a passing GL check:
the descriptor, the connection flag and the slots are those of the call, and
nothing has been sent or closed. -/
theorem ui_update_before_loop (s : UIState) :
    ∃ (s1 : UIState) (es : List Effect),
      (if s.vision_connect_firstrun then ui_update_firstrun_state s else (s, [])) = (s1, es) ∧
      s1.ipc_fd = s.ipc_fd ∧ s1.vision_connected = s.vision_connected ∧
      s1.cur_vision_idx = s.cur_vision_idx ∧ s1.cur_vision_front_idx = s.cur_vision_front_idx ∧
      es.filter Effect.is_vipc_send = [] ∧ es.filter Effect.is_close = [] := by
  obtain ⟨k1, k2, k3, k4⟩ := ui_update_firstrun_state_keeps s
  obtain ⟨k5, k6⟩ := ui_update_firstrun_state_connection s
  split_ifs
  · exact ⟨_, _, rfl, k2, k6, k3, k4, k1, k5⟩
  · exact ⟨_, _, rfl, rfl, rfl, rfl, rfl, rfl, rfl⟩

/-- The loop of `ui_update` on a failed poll or a failed receive. -/
theorem ui_update_loop_failure (cfg : Config) (s : UIState) (answer : PollAnswer)
    (rest : List PollAnswer) (hfd : 0 ≤ s.ipc_fd)
    (ha : answer = PollAnswer.poll_failed ∨ answer = PollAnswer.recv_failed) :
    ui_update_loop cfg s (answer :: rest) =
      ⟨[Effect.close s.ipc_fd], Except.ok { s with ipc_fd := -1, vision_connected := false }⟩ := by
  have hc : c_assert cfg (decide (s.ipc_fd ≥ 0)) = Step.ok () := by
    simp [c_assert, hfd]
  rcases ha with rfl | rfl <;>
    simp only [ui_update_loop, hc, Step.andThen_ok_unit, Step.andThen, Step.emit, Step.ok] <;>
    rfl

/-- C15: when `ui_update` (with an open descriptor and a passing GL check)
meets, after any number of polls interrupted by `EINTR` or `EAGAIN`, a poll
failure of another kind or a receive failure, it returns with `ipc_fd = -1`
and `vision_connected = false`, having closed the descriptor once;
`cur_vision_idx` and `cur_vision_front_idx` are unchanged and no packet has
been sent. -/
theorem ui_update_transport_failure (cfg : Config) (s : UIState) (k : Nat) (answer : PollAnswer)
    (rest : List PollAnswer) (hfd : 0 ≤ s.ipc_fd)
    (ha : answer = PollAnswer.poll_failed ∨ answer = PollAnswer.recv_failed) :
    ∃ s', (ui_update cfg s true
          (List.replicate k PollAnswer.poll_interrupted ++ answer :: rest)).result
        = Except.ok s' ∧
      s'.ipc_fd = -1 ∧ s'.vision_connected = false ∧
      s'.cur_vision_idx = s.cur_vision_idx ∧
      s'.cur_vision_front_idx = s.cur_vision_front_idx ∧
      (ui_update cfg s true
          (List.replicate k PollAnswer.poll_interrupted ++ answer :: rest)).effects.filter
        Effect.is_vipc_send = [] ∧
      (ui_update cfg s true
          (List.replicate k PollAnswer.poll_interrupted ++ answer :: rest)).effects.filter
        Effect.is_close = [Effect.close s.ipc_fd] := by
  obtain ⟨s1, es, e, h1, -, h3, h4, h5, h6⟩ := ui_update_before_loop s
  have hfd1 : 0 ≤ s1.ipc_fd := by
    rw [h1]
    exact hfd
  rw [ui_update_gl_ok, e]
  simp only [Step.lift, Step.andThen, ui_update_loop_skip cfg s1 _ hfd1 k,
    ui_update_loop_failure cfg s1 answer rest hfd1 ha, List.filter_append, h5, h6,
    List.nil_append]
  refine ⟨_, rfl, rfl, rfl, h3, h4, rfl, ?_⟩
  rw [h1]
  rfl

/-- C15 at a concrete call: the connected state that owns slot 2 of the rear
camera, one interrupted poll and then a failed receive. -/
theorem ui_update_transport_failure_witness :
    ∃ s', (ui_update cfg_qcom connected_state true
          (List.replicate 1 PollAnswer.poll_interrupted ++ PollAnswer.recv_failed :: [])).result
        = Except.ok s' ∧
      s'.ipc_fd = -1 ∧ s'.vision_connected = false ∧
      s'.cur_vision_idx = connected_state.cur_vision_idx ∧
      s'.cur_vision_front_idx = connected_state.cur_vision_front_idx ∧
      (ui_update cfg_qcom connected_state true
          (List.replicate 1 PollAnswer.poll_interrupted ++
            PollAnswer.recv_failed :: [])).effects.filter Effect.is_vipc_send = [] ∧
      (ui_update cfg_qcom connected_state true
          (List.replicate 1 PollAnswer.poll_interrupted ++
            PollAnswer.recv_failed :: [])).effects.filter Effect.is_close
        = [Effect.close connected_state.ipc_fd] :=
  ui_update_transport_failure cfg_qcom connected_state 1 PollAnswer.recv_failed []
    (by decide) (Or.inr rfl)

/-- The packet handler of `ui_update` closes nothing and keeps the descriptor
and the connection flag. -/
theorem ui_update_packet_connection (cfg : Config) (s : UIState) (rp : VisionPacket) :
    (ui_update_packet cfg s rp).effects.filter Effect.is_close = [] ∧
    ∀ s', (ui_update_packet cfg s rp).result = Except.ok s' →
      s'.ipc_fd = s.ipc_fd ∧ s'.vision_connected = s.vision_connected := by
  cases rp with
  | VIPC_STREAM_ACQUIRE type idx =>
    constructor
    · rw [ui_update_packet_acquire_effects]
      split_ifs <;> rfl
    · intro s' h
      by_cases hi : idx < UI_BUF_COUNT ∨ cfg.ndebug = true
      · rw [ui_update_packet_acquire_result cfg s type idx hi] at h
        cases h
        split_ifs <;> exact ⟨rfl, rfl⟩
      · rw [ui_update_packet_acquire_abort cfg s type idx (fun h => hi (Or.inl h))
          (by
            cases hn : cfg.ndebug
            · rfl
            · exact absurd (Or.inr hn) hi)] at h
        cases h
  | _ =>
    simp only [ui_update_packet, c_assert, Bool.or_false]
    cases cfg.ndebug <;>
      (simp only [Bool.false_eq_true, if_false, if_true, Step.andThen, Step.fail, Step.ok,
        List.append_nil, List.filter_nil, true_and]
       intro s' h
       cases h)
    exact ⟨rfl, rfl⟩

/-- A call of `ui_update` (open descriptor, passing GL check) that receives a
packet after any number of interrupted polls: the packet handler runs on a
state with the descriptor, the connection flag and the slots of the call,
after effects among which nothing is sent or closed. -/
theorem ui_update_recv_packet (cfg : Config) (s : UIState) (rp : VisionPacket)
    (rest : List PollAnswer) (hfd : 0 ≤ s.ipc_fd) (k : Nat) :
    ∃ (s1 : UIState) (es : List Effect),
      s1.ipc_fd = s.ipc_fd ∧ s1.vision_connected = s.vision_connected ∧
      s1.cur_vision_idx = s.cur_vision_idx ∧ s1.cur_vision_front_idx = s.cur_vision_front_idx ∧
      es.filter Effect.is_vipc_send = [] ∧ es.filter Effect.is_close = [] ∧
      ui_update cfg s true
          (List.replicate k PollAnswer.poll_interrupted ++ PollAnswer.recv rp :: rest) =
        ⟨es ++ (ui_update_packet cfg s1 rp).effects, (ui_update_packet cfg s1 rp).result⟩ := by
  obtain ⟨s1, es, e, h1, h2, h3, h4, h5, h6⟩ := ui_update_before_loop s
  have hfd1 : 0 ≤ s1.ipc_fd := by
    rw [h1]
    exact hfd
  refine ⟨s1, es, h1, h2, h3, h4, h5, h6, ?_⟩
  rw [ui_update_gl_ok, e]
  simp only [Step.lift, Step.andThen, ui_update_loop_recv cfg s1 rp rest hfd1 k]

/-- C16, as stated, fails: the connected state on descriptor 5 that owns slot
2 of the rear camera receives an `ACQUIRE` of slot 3.  The `RELEASE` of slot 2
is sent at line 825, where the value `vipc_send` returns is discarded: whether
the send failed or not, nothing is closed, `ipc_fd` is still 5 and
`vision_connected` is still true, and slot 3 is recorded. -/
theorem ui_update_release_failure_ignored :
    ∃ s', ui_update cfg_qcom connected_state true
        [PollAnswer.recv
          (VisionPacket.VIPC_STREAM_ACQUIRE VisionStreamType.VISION_STREAM_RGB_BACK 3)] =
        ⟨[Effect.vipc_send 5
            (VisionPacket.VIPC_STREAM_RELEASE VisionStreamType.VISION_STREAM_RGB_BACK 2)],
          Except.ok s'⟩ ∧
      s'.ipc_fd = 5 ∧ s'.ipc_fd ≠ -1 ∧ s'.vision_connected = true ∧ s'.cur_vision_idx = 3 :=
  ⟨_, rfl, by decide, by decide, by decide, by decide⟩

/-- C16, amended: in `ui_update` (with an open descriptor and a passing GL
check) the value `vipc_send` returns for the `RELEASE` packet is not looked at.
When an `ACQUIRE` arrives for a camera whose slot is owned, and its index
passes the `assert` (or `NDEBUG` is set), the `RELEASE` is the only packet
sent, nothing is closed, `ipc_fd` and `vision_connected` are left as they
were, whatever became of the send, and the new slot is recorded. -/
theorem ui_update_release_unchecked (cfg : Config) (s : UIState) (type : VisionStreamType)
    (idx : Int) (k : Nat) (rest : List PollAnswer) (hfd : 0 ≤ s.ipc_fd)
    (hown : 0 ≤ owned_idx s type) (hidx : idx < UI_BUF_COUNT ∨ cfg.ndebug = true) :
    ∃ s', (ui_update cfg s true
          (List.replicate k PollAnswer.poll_interrupted ++
            PollAnswer.recv (VisionPacket.VIPC_STREAM_ACQUIRE type idx) :: rest)).result
        = Except.ok s' ∧
      (ui_update cfg s true
          (List.replicate k PollAnswer.poll_interrupted ++
            PollAnswer.recv (VisionPacket.VIPC_STREAM_ACQUIRE type idx) :: rest)).effects.filter
          Effect.is_vipc_send =
        [Effect.vipc_send s.ipc_fd (VisionPacket.VIPC_STREAM_RELEASE type (owned_idx s type))] ∧
      (ui_update cfg s true
          (List.replicate k PollAnswer.poll_interrupted ++
            PollAnswer.recv (VisionPacket.VIPC_STREAM_ACQUIRE type idx) :: rest)).effects.filter
          Effect.is_close = [] ∧
      s'.ipc_fd = s.ipc_fd ∧ s'.vision_connected = s.vision_connected ∧
      owned_idx s' type = idx := by
  obtain ⟨s1, es, h1, h2, h3, h4, h5, h6, e⟩ := ui_update_recv_packet cfg s
    (VisionPacket.VIPC_STREAM_ACQUIRE type idx) rest hfd k
  have ho : owned_idx s1 type = owned_idx s type := by
    simp only [owned_idx, h3, h4]
  obtain ⟨c1, c2⟩ := ui_update_packet_connection cfg s1 (VisionPacket.VIPC_STREAM_ACQUIRE type idx)
  have hres := ui_update_packet_acquire_result cfg s1 type idx hidx
  rw [e]
  refine ⟨_, hres, ?_, ?_, (c2 _ hres).1.trans h1, (c2 _ hres).2.trans h2, ?_⟩
  · simp only [List.filter_append, h5, List.nil_append, ui_update_packet_acquire_effects, ho,
      ge_iff_le, hown, if_true, h1]
    rfl
  · simp only [List.filter_append, h6, c1, List.append_nil]
  · simp only [owned_idx]
    split_ifs <;> rfl

/-- C16, amended, at the connected state on descriptor 5 that owns slot 2 of
the rear camera, for an `ACQUIRE` of slot 3. -/
theorem ui_update_release_unchecked_witness :
    ∃ s', (ui_update cfg_qcom connected_state true
          (List.replicate 0 PollAnswer.poll_interrupted ++
            PollAnswer.recv
              (VisionPacket.VIPC_STREAM_ACQUIRE VisionStreamType.VISION_STREAM_RGB_BACK 3)
              :: [])).result
        = Except.ok s' ∧
      (ui_update cfg_qcom connected_state true
          (List.replicate 0 PollAnswer.poll_interrupted ++
            PollAnswer.recv
              (VisionPacket.VIPC_STREAM_ACQUIRE VisionStreamType.VISION_STREAM_RGB_BACK 3)
              :: [])).effects.filter Effect.is_vipc_send =
        [Effect.vipc_send connected_state.ipc_fd
          (VisionPacket.VIPC_STREAM_RELEASE VisionStreamType.VISION_STREAM_RGB_BACK
            (owned_idx connected_state VisionStreamType.VISION_STREAM_RGB_BACK))] ∧
      (ui_update cfg_qcom connected_state true
          (List.replicate 0 PollAnswer.poll_interrupted ++
            PollAnswer.recv
              (VisionPacket.VIPC_STREAM_ACQUIRE VisionStreamType.VISION_STREAM_RGB_BACK 3)
              :: [])).effects.filter Effect.is_close = [] ∧
      s'.ipc_fd = connected_state.ipc_fd ∧
      s'.vision_connected = connected_state.vision_connected ∧
      owned_idx s' VisionStreamType.VISION_STREAM_RGB_BACK = 3 :=
  ui_update_release_unchecked cfg_qcom connected_state VisionStreamType.VISION_STREAM_RGB_BACK 3
    0 [] (by decide) (by decide) (Or.inl (by decide))

/-! ## C17 -/

/-- C17, as stated, fails: in a build with assertions, the connected state
receives a buffer descriptor after the handshake.  `ui_update` stops at
`assert(false)` (line 837): the process aborts; it does not return normally,
and nothing has been closed. -/
theorem ui_update_unexpected_packet_aborts :
    ui_update cfg_qcom connected_state true
        [PollAnswer.recv
          (VisionPacket.VIPC_STREAM_BUFS (bufs_of VisionStreamType.VISION_STREAM_RGB_BACK) 4)] =
      ⟨[], Except.error Fault.assert_failed⟩ ∧
    ¬ ∃ s', (ui_update cfg_qcom connected_state true
        [PollAnswer.recv
          (VisionPacket.VIPC_STREAM_BUFS (bufs_of VisionStreamType.VISION_STREAM_RGB_BACK)
            4)]).result = Except.ok s' :=
  ⟨rfl, fun ⟨_, h⟩ => by cases h⟩

theorem ui_update_packet_unexpected (cfg : Config) (s : UIState) (rp : VisionPacket)
    (hrp : rp.is_acquire = false) :
    ui_update_packet cfg s rp =
      if cfg.ndebug then ⟨[], Except.ok s⟩ else ⟨[], Except.error Fault.assert_failed⟩ := by
  cases rp with
  | VIPC_STREAM_ACQUIRE type idx => cases hrp
  | _ =>
    simp only [ui_update_packet, c_assert, Bool.or_false]
    cases cfg.ndebug <;> rfl

/-- C17, amended: when `ui_update` (with an open descriptor and a passing GL
check) receives, after the handshake, a vision packet of any kind other than
`ACQUIRE`, it reaches `assert(false)`.  In a build with assertions the process
aborts there, with nothing sent on the vision socket and nothing closed.  With
`NDEBUG` set `ui_update` returns normally and the channel stays as it was:
`vision_connected`, `ipc_fd` and the slots are unchanged, nothing is sent and
nothing is closed. -/
theorem ui_update_unexpected_packet (cfg : Config) (s : UIState) (rp : VisionPacket) (k : Nat)
    (rest : List PollAnswer) (hfd : 0 ≤ s.ipc_fd) (hrp : rp.is_acquire = false) :
    (ui_update cfg s true
        (List.replicate k PollAnswer.poll_interrupted ++ PollAnswer.recv rp :: rest)).effects.filter
        Effect.is_vipc_send = [] ∧
    (ui_update cfg s true
        (List.replicate k PollAnswer.poll_interrupted ++ PollAnswer.recv rp :: rest)).effects.filter
        Effect.is_close = [] ∧
    (cfg.ndebug = false →
      (ui_update cfg s true
          (List.replicate k PollAnswer.poll_interrupted ++ PollAnswer.recv rp :: rest)).result
        = Except.error Fault.assert_failed) ∧
    (cfg.ndebug = true →
      ∃ s', (ui_update cfg s true
            (List.replicate k PollAnswer.poll_interrupted ++ PollAnswer.recv rp :: rest)).result
          = Except.ok s' ∧
        s'.vision_connected = s.vision_connected ∧ s'.ipc_fd = s.ipc_fd ∧
        s'.cur_vision_idx = s.cur_vision_idx ∧
        s'.cur_vision_front_idx = s.cur_vision_front_idx) := by
  obtain ⟨s1, es, h1, h2, h3, h4, h5, h6, e⟩ := ui_update_recv_packet cfg s rp rest hfd k
  rw [e, ui_update_packet_unexpected cfg s1 rp hrp]
  cases cfg.ndebug
  · simp only [Bool.false_eq_true, if_false, List.append_nil, h5, h6, true_and, forall_true_left,
      false_implies, and_true]
  · simp only [if_true, List.append_nil, h5, h6, true_and, Bool.true_eq_false, false_implies,
      forall_true_left]
    exact ⟨s1, rfl, h2, h1, h3, h4⟩

/-- C17, amended, at the connected state receiving a buffer descriptor, in a
build with assertions. -/
theorem ui_update_unexpected_packet_witness :
    (ui_update cfg_qcom connected_state true
        (List.replicate 0 PollAnswer.poll_interrupted ++
          PollAnswer.recv
            (VisionPacket.VIPC_STREAM_BUFS (bufs_of VisionStreamType.VISION_STREAM_RGB_BACK) 4)
            :: [])).effects.filter Effect.is_close = [] ∧
    (ui_update cfg_qcom connected_state true
        (List.replicate 0 PollAnswer.poll_interrupted ++
          PollAnswer.recv
            (VisionPacket.VIPC_STREAM_BUFS (bufs_of VisionStreamType.VISION_STREAM_RGB_BACK) 4)
            :: [])).result = Except.error Fault.assert_failed :=
  have h := ui_update_unexpected_packet cfg_qcom connected_state
    (VisionPacket.VIPC_STREAM_BUFS (bufs_of VisionStreamType.VISION_STREAM_RGB_BACK) 4) 0 []
    (by decide) rfl
  ⟨h.2.1, h.2.2.1 rfl⟩

/-! ## C18 -/

/-- C18 fails on the code: in a build with assertions, the connected state
that owns slot 2 of the rear camera receives an `ACQUIRE` of the rear stream
with slot index `-2`.  The index passes `assert(idx < UI_BUF_COUNT)` (line
832), which has no lower bound, `ui_update` returns normally, and
`cur_vision_idx` is `-2`: neither `-1` nor within `0 .. UI_BUF_COUNT - 1`. -/
theorem ui_update_records_negative_idx :
    ∃ s', ui_update cfg_qcom connected_state true
        [PollAnswer.recv
          (VisionPacket.VIPC_STREAM_ACQUIRE VisionStreamType.VISION_STREAM_RGB_BACK (-2))] =
        ⟨[Effect.vipc_send 5
            (VisionPacket.VIPC_STREAM_RELEASE VisionStreamType.VISION_STREAM_RGB_BACK 2)],
          Except.ok s'⟩ ∧
      s'.cur_vision_idx = -2 ∧
      ¬ (s'.cur_vision_idx = -1 ∨ (0 ≤ s'.cur_vision_idx ∧ s'.cur_vision_idx < UI_BUF_COUNT)) :=
  ⟨_, rfl, by decide, by decide⟩

/-- What the `assert` of lines 829 and 832 does ensure, in a build with
assertions: a call of the packet handler that returns leaves both slot indices
below `UI_BUF_COUNT` when they were so before. -/
theorem ui_update_packet_idx_upper (cfg : Config) (hn : cfg.ndebug = false) (s s' : UIState)
    (rp : VisionPacket) (h : (ui_update_packet cfg s rp).result = Except.ok s')
    (h1 : s.cur_vision_idx < UI_BUF_COUNT) (h2 : s.cur_vision_front_idx < UI_BUF_COUNT) :
    s'.cur_vision_idx < UI_BUF_COUNT ∧ s'.cur_vision_front_idx < UI_BUF_COUNT := by
  cases hrp : rp.is_acquire
  · rw [ui_update_packet_unexpected cfg s rp hrp] at h
    simp only [hn, Bool.false_eq_true, if_false] at h
    cases h
  · cases rp with
    | VIPC_STREAM_ACQUIRE type idx =>
      by_cases hi : idx < UI_BUF_COUNT
      · rw [ui_update_packet_acquire_result cfg s type idx (Or.inl hi)] at h
        cases h
        split_ifs
        · exact ⟨h1, hi⟩
        · exact ⟨hi, h2⟩
      · rw [ui_update_packet_acquire_abort cfg s type idx hi hn] at h
        cases h
    | _ => cases hrp

/-- In a build with assertions, a call of the loop of `ui_update` that returns
leaves both slot indices below `UI_BUF_COUNT` when they were so before. -/
theorem ui_update_loop_idx_upper (cfg : Config) (hn : cfg.ndebug = false) (s s' : UIState)
    (h1 : s.cur_vision_idx < UI_BUF_COUNT) (h2 : s.cur_vision_front_idx < UI_BUF_COUNT) :
    ∀ answers : List PollAnswer, (ui_update_loop cfg s answers).result = Except.ok s' →
      s'.cur_vision_idx < UI_BUF_COUNT ∧ s'.cur_vision_front_idx < UI_BUF_COUNT := by
  intro answers
  induction answers with
  | nil =>
    intro h
    unfold ui_update_loop at h
    obtain ⟨-, e⟩ := c_assert_andThen_ok cfg _ _ s' h
    rw [e] at h
    cases h
  | cons a rest ih =>
    intro h
    unfold ui_update_loop at h
    obtain ⟨-, e⟩ := c_assert_andThen_ok cfg _ _ s' h
    rw [e] at h
    cases a with
    | poll_interrupted => exact ih h
    | poll_failed =>
      simp only [Step.andThen, Step.emit, Step.ok] at h
      cases h
      exact ⟨h1, h2⟩
    | poll_empty =>
      simp only [Step.ok] at h
      cases h
      exact ⟨h1, h2⟩
    | recv_failed =>
      simp only [Step.andThen, Step.emit, Step.ok] at h
      cases h
      exact ⟨h1, h2⟩
    | recv rp => exact ui_update_packet_idx_upper cfg hn s s' rp h h1 h2

/-- In a build with assertions, every call of `ui_update` that returns leaves
both slot indices below `UI_BUF_COUNT` when they were so before. -/
theorem ui_update_idx_upper (cfg : Config) (hn : cfg.ndebug = false) (s s' : UIState)
    (gl_ok : Bool) (answers : List PollAnswer)
    (h : (ui_update cfg s gl_ok answers).result = Except.ok s')
    (h1 : s.cur_vision_idx < UI_BUF_COUNT) (h2 : s.cur_vision_front_idx < UI_BUF_COUNT) :
    s'.cur_vision_idx < UI_BUF_COUNT ∧ s'.cur_vision_front_idx < UI_BUF_COUNT := by
  unfold ui_update at h
  obtain ⟨s1, hs1, h⟩ := Step.andThen_result_ok _ _ _ h
  have hk : s1.cur_vision_idx = s.cur_vision_idx ∧
      s1.cur_vision_front_idx = s.cur_vision_front_idx := by
    unfold ui_update_firstrun at hs1
    by_cases hf : s.vision_connect_firstrun = true
    · simp only [hf, if_true] at hs1
      obtain ⟨-, e⟩ := c_assert_andThen_ok cfg _ _ s1 hs1
      rw [e] at hs1
      simp only [Step.lift] at hs1
      cases hs1
      exact ⟨(ui_update_firstrun_state_keeps s).2.2.1, (ui_update_firstrun_state_keeps s).2.2.2⟩
    · simp only [hf, Bool.false_eq_true, if_false, Step.ok] at hs1
      cases hs1
      exact ⟨rfl, rfl⟩
  exact ui_update_loop_idx_upper cfg hn s1 s' (hk.1 ▸ h1) (hk.2 ▸ h2) answers h

/-! ## Layout notifications -/

/-- C20, as stated, fails: a connection attempt that succeeds while driving
runs `ui_init_vision`, whose assignment of a compound literal to `s->scene`
(lines 353-364) clears the speed, the engaged flag, the alert texts, the
sidebar flag, the hardware type and the reverse-gear flag that bus events had
recorded. -/
theorem vision_connect_resets_scene :
    ∃ m', (vision_connect_attempt cfg_qcom false main_driving connect_env_ok).result
        = Except.ok m' ∧
      main_driving.s.scene.v_ego = 20 ∧ m'.s.scene.v_ego = 0 ∧
      main_driving.s.scene.engaged = true ∧ m'.s.scene.engaged = false ∧
      main_driving.s.scene.alert_text2 = "Lane Departure" ∧ m'.s.scene.alert_text2 = "" ∧
      main_driving.s.scene.uilayout_sidebarcollapsed = true ∧
      m'.s.scene.uilayout_sidebarcollapsed = false ∧
      main_driving.s.scene.hwType = HwType.other 3 ∧ m'.s.scene.hwType = HwType.UNKNOWN ∧
      main_driving.s.scene.isReversing = true ∧ m'.s.scene.isReversing = false :=
  ⟨_, rfl, by decide, by decide, by decide, by decide, by decide, by decide, by decide,
    by decide, by decide, by decide, by decide, by decide⟩

/-- C20, amended: the Scene is reset at start-up and again at every
vision-channel (re)connect.  After every `ui_init_vision` that returns, the
Scene is the compound literal of lines 353-364: `frontview` and `fullview`
come from the environment, `transformed_width`, `transformed_height` and the
four `front_box` fields from the buffer descriptor of the rear stream, and
every other Scene field, those set by bus events included (`v_ego`, `engaged`,
`alert_text1`, `alert_text2`, `uilayout_sidebarcollapsed`, `hwType`,
`isReversing`), holds its zero default.  `status` and `started`, which live
outside the Scene, are left as they were. -/
theorem ui_init_vision_resets_scene (cfg : Config) (m m' : MainState)
    (back_bufs : VisionStreamBufs) (num_back_fds : Int) (front_bufs : VisionStreamBufs)
    (num_front_fds : Int) (store : Store) (frontview fullview : Bool)
    (h : (ui_init_vision cfg m back_bufs num_back_fds front_bufs num_front_fds store frontview
      fullview).result = Except.ok m') :
    m'.s.scene = ui_init_vision_scene back_bufs frontview fullview ∧
    m'.s.scene.v_ego = 0 ∧ m'.s.scene.engaged = false ∧ m'.s.scene.alert_text1 = "" ∧
    m'.s.scene.alert_text2 = "" ∧ m'.s.scene.uilayout_sidebarcollapsed = false ∧
    m'.s.scene.hwType = HwType.UNKNOWN ∧ m'.s.scene.isReversing = false ∧
    m'.s.status = m.s.status ∧ m'.s.started = m.s.started := by
  obtain ⟨mp, hmp, hm', -⟩ := ui_init_vision_ok cfg m m' _ _ _ _ _ _ _ h
  have hs : m'.s.scene = ui_init_vision_scene back_bufs frontview fullview := by
    rw [hm']
    have e1 : (ui_init_vision_timeouts (refresh_toggles mp.s store).1).scene =
        (refresh_toggles mp.s store).1.scene := rfl
    have e2 : mp.s.scene = ui_init_vision_scene back_bufs frontview fullview := by
      rw [hmp]
      rfl
    exact e1.trans ((refresh_toggles_scene mp.s store).trans e2)
  refine ⟨hs, ?_, ?_, ?_, ?_, ?_, ?_, ?_, ?_, ?_⟩
  any_goals
    rw [hs]
    rfl
  · rw [hm']
    have e1 : (ui_init_vision_timeouts (refresh_toggles mp.s store).1).status =
        (refresh_toggles mp.s store).1.status := rfl
    have e2 : mp.s.status = m.s.status := by
      rw [hmp]
      rfl
    exact e1.trans ((refresh_toggles_status mp.s store).trans e2)
  · rw [hm']
    have e1 : (ui_init_vision_timeouts (refresh_toggles mp.s store).1).started =
        (refresh_toggles mp.s store).1.started := rfl
    have e2 : mp.s.started = m.s.started := by
      rw [hmp]
      rfl
    exact e1.trans ((refresh_toggles_started mp.s store).trans e2)

/-- C20, amended, at a connect while driving, with the buffer descriptors of
`connect_env_ok`. -/
theorem ui_init_vision_resets_scene_witness :
    ∃ m', (ui_init_vision cfg_qcom main_driving
        (bufs_of VisionStreamType.VISION_STREAM_RGB_BACK) 4
        (bufs_of VisionStreamType.VISION_STREAM_RGB_FRONT) 4 store_empty false false).result
        = Except.ok m' ∧
      m'.s.scene =
        ui_init_vision_scene (bufs_of VisionStreamType.VISION_STREAM_RGB_BACK) false false ∧
      m'.s.scene.v_ego = 0 ∧ m'.s.scene.engaged = false ∧ m'.s.scene.alert_text1 = "" ∧
      m'.s.scene.alert_text2 = "" ∧ m'.s.scene.uilayout_sidebarcollapsed = false ∧
      m'.s.scene.hwType = HwType.UNKNOWN ∧ m'.s.scene.isReversing = false ∧
      m'.s.status = main_driving.s.status ∧ m'.s.started = main_driving.s.started :=
  ⟨_, rfl,
    ui_init_vision_resets_scene cfg_qcom main_driving _
      (bufs_of VisionStreamType.VISION_STREAM_RGB_BACK) 4
      (bufs_of VisionStreamType.VISION_STREAM_RGB_FRONT) 4 store_empty false false rfl⟩

/-! ## C21 -/

/-- C21 fails on the code: in the onroad state, with the sidebar open and
`ui_viz_rx` as recomputed in the pass (`box_x = 330`), a touch at `x = 300`
misses both dp buttons, lies in the sidebar region (`touch_x <= sbr_w`, line
105) and also passes the guard of `handle_vision_touch`
(`touch_x >= ui_viz_rx - bdr_s = 300`, line 166), which toggles the sidebar
and publishes the layout. -/
theorem tick_touch_edge_handled_twice :
    (tick_layout onroad_state).scene.ui_viz_rx = 330 ∧
    (tick_layout onroad_state).scene.uilayout_sidebarcollapsed = false ∧
    (300 : Int) ≤ sbr_w ∧
    (handle_dp_btn_touch (set_awake cfg_qcom (tick_layout onroad_state) true).1 300 500 0).1.1
      = false ∧
    (tick_touch cfg_qcom (tick_layout onroad_state) edge_touch_env).1.scene.uilayout_sidebarcollapsed
      = true ∧
    publishes (tick_touch cfg_qcom (tick_layout onroad_state) edge_touch_env).2
      = [(App.NONE, true)] := by
  refine ⟨by decide, by decide, by decide, by decide, by decide, by decide⟩

/-- The first half of C21 holds: when `handle_dp_btn_touch` hits, the routing
of the touch is that call alone; neither `handle_sidebar_touch` nor
`handle_vision_touch` runs. -/
theorem tick_route_touch_dp_hit (cfg : Config) (s : UIState) (touch_x touch_y : Int)
    (time : Nat) (h : (handle_dp_btn_touch s touch_x touch_y time).1.1 = true) :
    tick_route_touch cfg s touch_x touch_y time =
      ((handle_dp_btn_touch s touch_x touch_y time).1.2,
        (handle_dp_btn_touch s touch_x touch_y time).2) := by
  simp only [tick_route_touch, h, Bool.not_true, Bool.false_eq_true, if_false]

/-- Neither `handle_sidebar_touch` nor a dp-button miss moves `ui_viz_rx`. -/
theorem handle_sidebar_touch_ui_viz_rx (cfg : Config) (s : UIState) (touch_x touch_y : Int) :
    (handle_sidebar_touch cfg s touch_x touch_y).1.scene.ui_viz_rx = s.scene.ui_viz_rx := by
  unfold handle_sidebar_touch
  split_ifs
  all_goals
    simp only [seq]
    try split_ifs
  all_goals first
    | rfl
    | simp only [navigate_to_home_scene, navigate_to_settings_scene]

/-- Left of the strip `ui_viz_rx - bdr_s` the vision handler does nothing. -/
theorem handle_vision_touch_outside (s : UIState) (touch_x touch_y : Int)
    (h : touch_x < s.scene.ui_viz_rx - bdr_s) :
    handle_vision_touch s touch_x touch_y = (s, []) := by
  have h' : ¬ touch_x ≥ s.scene.ui_viz_rx - bdr_s := not_le.mpr h
  simp only [handle_vision_touch, h', false_and, and_false, if_false]

/-- The second half of C21 holds strictly inside the sidebar: with
`ui_viz_rx = box_x`, as recomputed for an open sidebar, a touch with
`x < sbr_w` that misses the dp buttons is routed to `handle_sidebar_touch`
alone; `handle_vision_touch` does nothing. -/
theorem tick_route_touch_sidebar (cfg : Config) (s : UIState) (touch_x touch_y : Int)
    (time : Nat) (hrx : s.scene.ui_viz_rx = box_x) (hx : touch_x < sbr_w)
    (hdp : (handle_dp_btn_touch s touch_x touch_y time).1.1 = false) :
    tick_route_touch cfg s touch_x touch_y time = handle_sidebar_touch cfg s touch_x touch_y := by
  have e : handle_dp_btn_touch s touch_x touch_y time = ((false, s), []) := by
    simp only [handle_dp_btn_touch] at hdp ⊢
    split_ifs at hdp ⊢ <;> rfl
  have hv : touch_x < (handle_sidebar_touch cfg s touch_x touch_y).1.scene.ui_viz_rx - bdr_s := by
    rw [handle_sidebar_touch_ui_viz_rx, hrx]
    simp only [box_x, sbr_w, bdr_s] at hx ⊢
    omega
  simp only [tick_route_touch, e, Bool.not_false, if_true, seq, List.nil_append,
    handle_vision_touch_outside _ touch_x touch_y hv, List.append_nil]

/-! ## C22 -/

theorem list_values_length (oob : List ℚ → Nat → ℚ) (l : List ℚ) (n : Nat) :
    (list_values oob l n).length = n := by
  unfold list_values
  rw [List.length_map, List.length_range]

/-- Beyond the end of the list, `list_values` holds what the reader hands back
for the index. -/
theorem list_values_beyond (oob : List ℚ → Nat → ℚ) (l : List ℚ) (n i : Nat)
    (h1 : l.length ≤ i) (h2 : i < n) : (list_values oob l n).get? i = some (oob l i) := by
  unfold list_values
  simp only [List.get?_eq_getElem?, List.getElem?_map, List.getElem?_range h2, Option.map_some',
    List.getElem?_eq_none h1, Option.getD_none]

/-- Within the list, `list_values` holds the elements of the list. -/
theorem list_values_of_le (oob : List ℚ → Nat → ℚ) (l : List ℚ) (n : Nat) (h : n ≤ l.length) :
    list_values oob l n = l.take n := by
  apply List.ext_get?
  intro i
  unfold list_values
  by_cases hi : i < n
  · have hl : i < l.length := lt_of_lt_of_le hi h
    simp only [List.get?_eq_getElem?, List.getElem?_map, List.getElem?_range hi,
      Option.map_some', List.getElem?_take_of_lt hi, List.getElem?_eq_getElem hl,
      Option.getD_some]
  · have h1 : ((List.range n).map fun i => (l.get? i).getD (oob l i)).get? i = none := by
      rw [List.get?_eq_none]
      rw [List.length_map, List.length_range]
      exact not_lt.mp hi
    have h2 : (l.take n).get? i = none := by
      rw [List.get?_eq_none, List.length_take]
      exact le_trans (min_le_left _ _) (not_lt.mp hi)
    rw [h1, h2]

/-- A list read with a reader that hands back a value at every index beyond
the end. -/
theorem list_read_some (cfg : Config) (l : List ℚ) (n : Nat) (oob : List ℚ → Nat → ℚ)
    (hc : cfg.list_oob = some oob) : list_read cfg l n = Step.ok (list_values oob l n) := by
  by_cases h : n ≤ l.length
  · rw [list_read_of_le cfg l n h, list_values_of_le oob l n h]
  · exact list_read_oob cfg l n oob (not_le.mp h) hc

/-- A list read ends normally when the list is long enough, and when the
reader hands back a value beyond its end. -/
theorem list_read_ok (cfg : Config) (l : List ℚ) (n : Nat)
    (h : n ≤ l.length ∨ cfg.list_oob.isSome = true) : ∃ v, list_read cfg l n = Step.ok v := by
  by_cases hn : n ≤ l.length
  · exact ⟨_, list_read_of_le cfg l n hn⟩
  · rcases h with h | h
    · exact absurd h hn
    · obtain ⟨oob, ho⟩ := Option.isSome_iff_exists.mp h
      exact ⟨_, list_read_oob cfg l n oob (not_le.mp hn) ho⟩

theorem read_path_result (cfg : Config) (pathp : PathMsg) :
    (cfg.POLYFIT_DEGREE ≤ pathp.poly.length ∨ cfg.list_oob.isSome = true →
      ∃ d, read_path cfg pathp = Step.ok d) ∧
    (cfg.list_oob = none → pathp.poly.length < cfg.POLYFIT_DEGREE →
      read_path cfg pathp = Step.fail Fault.out_of_range) := by
  unfold read_path
  constructor
  · intro h
    obtain ⟨v, hv⟩ := list_read_ok cfg _ _ h
    rw [hv, Step.ok_andThen]
    exact ⟨_, rfl⟩
  · intro hc h
    rw [list_read_stops cfg _ _ h hc]
    rfl

/-- The arms of `handle_message` end normally on an event whose lists are long
enough, and on every event when the list reader hands back a value beyond the
end of a list; with a list reader that stops there, they stop at an event with
a short list. -/
theorem handle_message_arms_result (cfg : Config) (s : UIState) (event : Event) :
    (event.well_formed cfg = true ∨ cfg.list_oob.isSome = true →
      ∃ s1, (handle_message_arms cfg s event).result = Except.ok s1) ∧
    (cfg.list_oob = none → event.well_formed cfg = false →
      (handle_message_arms cfg s event).result = Except.error Fault.out_of_range) := by
  cases event with
  | MODEL m =>
    obtain ⟨a1, b1⟩ := read_path_result cfg m.path
    obtain ⟨a2, b2⟩ := read_path_result cfg m.leftLane
    obtain ⟨a3, b3⟩ := read_path_result cfg m.rightLane
    simp only [Event.well_formed, Bool.and_eq_true, decide_eq_true_eq, Bool.and_eq_false_iff,
      decide_eq_false_iff_not, not_le]
    unfold handle_message_arms read_model
    dsimp only
    constructor
    · intro h
      obtain ⟨d1, e1⟩ := a1 (h.elim (fun h => Or.inl h.1.1) Or.inr)
      obtain ⟨d2, e2⟩ := a2 (h.elim (fun h => Or.inl h.1.2) Or.inr)
      obtain ⟨d3, e3⟩ := a3 (h.elim (fun h => Or.inl h.2) Or.inr)
      rw [e1, Step.ok_andThen, e2, Step.ok_andThen, e3, Step.ok_andThen, Step.ok_andThen]
      exact ⟨_, rfl⟩
    · intro hc h
      by_cases h1 : cfg.POLYFIT_DEGREE ≤ m.path.poly.length
      · obtain ⟨d1, e1⟩ := a1 (Or.inl h1)
        by_cases h2 : cfg.POLYFIT_DEGREE ≤ m.leftLane.poly.length
        · obtain ⟨d2, e2⟩ := a2 (Or.inl h2)
          have h3 : m.rightLane.poly.length < cfg.POLYFIT_DEGREE := by omega
          rw [e1, Step.ok_andThen, e2, Step.ok_andThen, b3 hc h3]
          rfl
        · rw [e1, Step.ok_andThen, b2 hc (not_le.mp h2)]
          rfl
      · rw [b1 hc (not_le.mp h1)]
        rfl
  | CONTROLS_STATE t d =>
    simp only [Event.well_formed, handle_message_arms, Step.lift, Step.ok]
    refine ⟨fun _ => ?_, fun _ h => by cases h⟩
    split_ifs <;> exact ⟨_, rfl⟩
  | UBLOX_GNSS r =>
    refine ⟨fun _ => ?_, fun _ h => by cases h⟩
    cases r <;> exact ⟨_, rfl⟩
  | LIVE_CALIBRATION l =>
    simp only [Event.well_formed, decide_eq_true_eq, decide_eq_false_iff_not, not_le]
    unfold handle_message_arms
    dsimp only
    constructor
    · intro h
      obtain ⟨v, e⟩ := list_read_ok cfg l (3 * 4) h
      rw [e, Step.ok_andThen]
      exact ⟨_, rfl⟩
    · intro hc h
      rw [list_read_stops cfg l (3 * 4) h hc]
      rfl
  | LIVE_MPC x y =>
    simp only [Event.well_formed, Bool.and_eq_true, decide_eq_true_eq, Bool.and_eq_false_iff,
      decide_eq_false_iff_not, not_le]
    unfold handle_message_arms
    dsimp only
    constructor
    · intro h
      obtain ⟨v, e⟩ := list_read_ok cfg x 50 (h.elim (fun h => Or.inl h.1) Or.inr)
      obtain ⟨w, f⟩ := list_read_ok cfg y 50 (h.elim (fun h => Or.inl h.2) Or.inr)
      rw [e, Step.ok_andThen, f, Step.ok_andThen]
      exact ⟨_, rfl⟩
    · intro hc h
      by_cases h1 : 50 ≤ x.length
      · have h2 : y.length < 50 := by omega
        rw [list_read_of_le cfg x 50 h1, Step.ok_andThen, list_read_stops cfg y 50 h2 hc]
        rfl
      · rw [list_read_stops cfg x 50 (not_le.mp h1) hc]
        rfl
  | DRIVER_STATE p l =>
    simp only [Event.well_formed, decide_eq_true_eq, decide_eq_false_iff_not, not_le]
    unfold handle_message_arms
    dsimp only
    constructor
    · intro h
      obtain ⟨v, e⟩ := list_read_ok cfg l 2 h
      rw [e, Step.ok_andThen]
      exact ⟨_, rfl⟩
    · intro hc h
      rw [list_read_stops cfg l 2 h hc]
      rfl
  | _ =>
    refine ⟨fun _ => ?_, fun _ h => by cases h⟩
    simp only [handle_message_arms, Step.ok]
    try split_ifs
    all_goals exact ⟨_, rfl⟩

/-- The outcome of `handle_message`: it ends normally on an event whose lists
are long enough, and on every event when the list reader hands back a value
beyond the end of a list; with a list reader that stops there, it stops at an
event with a short list. -/
theorem handle_message_result (cfg : Config) (s : UIState) (event : Event) :
    (event.well_formed cfg = true ∨ cfg.list_oob.isSome = true →
      ∃ s', (handle_message cfg s event).result = Except.ok s') ∧
    (cfg.list_oob = none → event.well_formed cfg = false →
      (handle_message cfg s event).result = Except.error Fault.out_of_range) := by
  obtain ⟨a, b⟩ := handle_message_arms_result cfg s event
  unfold handle_message
  constructor
  · intro h
    obtain ⟨s1, h1⟩ := a h
    rw [Step.andThen_result_of_ok _ _ _ h1]
    exact ⟨_, rfl⟩
  · intro hc h
    simp only [Step.andThen, b hc h]

/-- The outcome of `check_messages` when every event is one that
`handle_message` ends normally on. -/
theorem check_messages_ok (cfg : Config) :
    ∀ (events : List Event) (s : UIState),
      (∀ e ∈ events, e.well_formed cfg = true ∨ cfg.list_oob.isSome = true) →
      ∃ s', (check_messages cfg s events).result = Except.ok s' := by
  intro events
  induction events with
  | nil =>
    intro s _
    exact ⟨s, rfl⟩
  | cons e rest ih =>
    intro s h
    obtain ⟨s1, h1⟩ := (handle_message_result cfg s e).1 (h e (List.mem_cons_self e rest))
    obtain ⟨s', h'⟩ := ih s1 (fun x hx => h x (List.mem_cons_of_mem e hx))
    refine ⟨s', ?_⟩
    unfold check_messages
    rw [Step.andThen_result_of_ok _ _ _ h1]
    exact h'

/-- The outcome of `check_messages` on events whose lists are all long enough. -/
theorem check_messages_well_formed (cfg : Config) (events : List Event) (s : UIState)
    (h : ∀ e ∈ events, e.well_formed cfg = true) :
    ∃ s', (check_messages cfg s events).result = Except.ok s' :=
  check_messages_ok cfg events s fun e he => Or.inl (h e he)

/-- The outcome of `check_messages`, with a list reader that stops at an index
beyond the end, when an event with a short list follows events whose lists are
long enough: it stops there, with the later events not handled. -/
theorem check_messages_short (cfg : Config) (bad : Event) (rest : List Event)
    (hc : cfg.list_oob = none) (hbad : bad.well_formed cfg = false) :
    ∀ (pre : List Event) (s : UIState), (∀ e ∈ pre, e.well_formed cfg = true) →
      (check_messages cfg s (pre ++ bad :: rest)).result = Except.error Fault.out_of_range := by
  intro pre
  induction pre with
  | nil =>
    intro s _
    simp only [List.nil_append, check_messages, Step.andThen,
      (handle_message_result cfg s bad).2 hc hbad]
  | cons e pre ih =>
    intro s h
    obtain ⟨s1, h1⟩ := (handle_message_result cfg s e).1 (Or.inl (h e (List.mem_cons_self e pre)))
    simp only [List.cons_append, check_messages]
    rw [Step.andThen_result_of_ok _ _ _ h1]
    exact ih s1 (fun x hx => h x (List.mem_cons_of_mem e hx))

/-- A `liveMpc` event handled with a list reader that hands back a value
beyond the end of a list: both lists are taken over with 50 entries, those
beyond the end being what the reader hands back. -/
theorem handle_message_mpc_values (cfg : Config) (s : UIState) (x y : List ℚ)
    (oob : List ℚ → Nat → ℚ) (hc : cfg.list_oob = some oob) :
    ∃ s', (handle_message cfg s (Event.LIVE_MPC x y)).result = Except.ok s' ∧
      s'.scene.mpc_x = list_values oob x 50 ∧ s'.scene.mpc_y = list_values oob y 50 := by
  unfold handle_message handle_message_arms
  dsimp only
  rw [list_read_some cfg x 50 oob hc, Step.ok_andThen, list_read_some cfg y 50 oob hc,
    Step.ok_andThen, Step.ok_andThen]
  refine ⟨_, rfl, ?_, ?_⟩
  · rw [handle_message_transition_scene]
  · rw [handle_message_transition_scene]

/-- A `liveCalibration` event handled with a list reader that hands back a
value beyond the end of a list: the first 12 entries of the extrinsic matrix
are taken over, those beyond the end being what the reader hands back. -/
theorem handle_message_calibration_values (cfg : Config) (s : UIState) (l : List ℚ)
    (oob : List ℚ → Nat → ℚ) (hc : cfg.list_oob = some oob) :
    ∃ s', (handle_message cfg s (Event.LIVE_CALIBRATION l)).result = Except.ok s' ∧
      s'.scene.extrinsic_matrix =
        list_values oob l (3 * 4) ++ s.scene.extrinsic_matrix.drop (3 * 4) := by
  unfold handle_message handle_message_arms
  dsimp only
  rw [list_read_some cfg l (3 * 4) oob hc, Step.ok_andThen, Step.ok_andThen]
  refine ⟨_, rfl, ?_⟩
  rw [handle_message_transition_scene]

/-- A `driverState` event handled with a list reader that hands back a value
beyond the end of a list: the face position is taken over, an entry beyond the
end being what the reader hands back. -/
theorem handle_message_driver_values (cfg : Config) (s : UIState) (p : ℚ) (l : List ℚ)
    (oob : List ℚ → Nat → ℚ) (hc : cfg.list_oob = some oob) :
    ∃ s', (handle_message cfg s (Event.DRIVER_STATE p l)).result = Except.ok s' ∧
      s'.scene.face_x = (list_values oob l 2).getD 0 0 ∧
      s'.scene.face_y = (list_values oob l 2).getD 1 0 := by
  unfold handle_message handle_message_arms
  dsimp only
  rw [list_read_some cfg l 2 oob hc, Step.ok_andThen, Step.ok_andThen]
  refine ⟨_, rfl, ?_, ?_⟩
  · rw [handle_message_transition_scene]
  · rw [handle_message_transition_scene]

theorem list_read_reader (cfg : Config) (o : Option (List ℚ → Nat → ℚ)) (l : List ℚ) (n : Nat)
    (h : n ≤ l.length) : list_read { cfg with list_oob := o } l n = list_read cfg l n := by
  rw [list_read_of_le _ l n h, list_read_of_le _ l n h]

theorem read_path_reader (cfg : Config) (o : Option (List ℚ → Nat → ℚ)) (pathp : PathMsg)
    (h : cfg.POLYFIT_DEGREE ≤ pathp.poly.length) :
    read_path { cfg with list_oob := o } pathp = read_path cfg pathp := by
  unfold read_path
  dsimp only
  rw [list_read_reader cfg o _ _ h]

/-- On an event whose lists are long enough, the arms of `handle_message` do
the same whatever the list reader does beyond the end of a list. -/
theorem handle_message_arms_reader (cfg : Config) (o : Option (List ℚ → Nat → ℚ)) (s : UIState)
    (event : Event) (h : event.well_formed cfg = true) :
    handle_message_arms { cfg with list_oob := o } s event = handle_message_arms cfg s event := by
  cases event with
  | MODEL m =>
    simp only [Event.well_formed, Bool.and_eq_true, decide_eq_true_eq] at h
    unfold handle_message_arms read_model
    dsimp only
    rw [read_path_reader cfg o _ h.1.1, read_path_reader cfg o _ h.1.2,
      read_path_reader cfg o _ h.2]
  | LIVE_CALIBRATION l =>
    simp only [Event.well_formed, decide_eq_true_eq] at h
    unfold handle_message_arms
    dsimp only
    rw [list_read_reader cfg o l _ h]
  | LIVE_MPC x y =>
    simp only [Event.well_formed, Bool.and_eq_true, decide_eq_true_eq] at h
    unfold handle_message_arms
    dsimp only
    rw [list_read_reader cfg o x _ h.1, list_read_reader cfg o y _ h.2]
  | DRIVER_STATE p l =>
    simp only [Event.well_formed, decide_eq_true_eq] at h
    unfold handle_message_arms
    dsimp only
    rw [list_read_reader cfg o l _ h]
  | _ => rfl

/-- On an event whose lists are long enough, `handle_message` does the same
whatever the list reader does beyond the end of a list: no list is read
there. -/
theorem handle_message_reader (cfg : Config) (o : Option (List ℚ → Nat → ℚ)) (s : UIState)
    (event : Event) (h : event.well_formed cfg = true) :
    handle_message { cfg with list_oob := o } s event = handle_message cfg s event := by
  unfold handle_message
  rw [handle_message_arms_reader cfg o s event h]

/-- C22, as stated, fails: a `liveMpc` event without entries is not dropped.
`handle_message` reads `x_list[0]` (line 593) of a list without elements.
With a list reader that stops the program at such an index, `check_messages`
does not get to the `thermal` event that follows; with one that hands back 0,
the event is applied with fifty values that the message does not hold. -/
theorem handle_message_short_list_not_dropped :
    handle_message cfg_qcom onroad_state (Event.LIVE_MPC [] []) =
      ⟨[], Except.error Fault.out_of_range⟩ ∧
    check_messages cfg_qcom onroad_state [Event.LIVE_MPC [] [], Event.THERMAL ThermalData.zero] =
      ⟨[], Except.error Fault.out_of_range⟩ ∧
    (∃ s', handle_message cfg_unchecked onroad_state (Event.LIVE_MPC [] []) =
        ⟨[], Except.ok s'⟩ ∧
      s'.scene.mpc_x = List.replicate 50 0 ∧ s'.livempc_or_radarstate_changed = true) :=
  ⟨rfl, rfl, _, rfl, rfl, rfl⟩

/-- C22, amended: `handle_message` has no length check.  (1) On every decoded
event whose lists are as long as the code takes them to be (50 entries in both
lists of `liveMpc`, 12 in the extrinsic matrix of `liveCalibration`, 2 in the
face position of `driverState`, `POLYFIT_DEGREE` coefficients in each path of
`model`) it makes no out-of-range list access, its outcome being the same
whatever the list reader does beyond the end of a list, and ends normally with
the event applied; (2) `check_messages` handles every event of such a batch.
On an event with a shorter list it indexes the list beyond its end, and what
follows is decided by the list reader of the capnp library, which is not part
of this repository.  (3) With a reader that stops the program there,
`handle_message` does not return and `check_messages` does not continue with
the events after it.  (4) With a reader that hands back a value there, every
batch is handled to its end, and a `liveMpc`, `liveCalibration` or
`driverState` event is applied with the values handed back in the places of
the missing entries.  In neither case is the event dropped. -/
theorem handle_message_list_access (cfg : Config) :
    (∀ (s : UIState) (event : Event), event.well_formed cfg = true →
      (∃ s', (handle_message cfg s event).result = Except.ok s') ∧
      ∀ o, handle_message { cfg with list_oob := o } s event = handle_message cfg s event) ∧
    (∀ (s : UIState) (events : List Event), (∀ e ∈ events, e.well_formed cfg = true) →
      ∃ s', (check_messages cfg s events).result = Except.ok s') ∧
    (cfg.list_oob = none →
      (∀ (s : UIState) (event : Event), event.well_formed cfg = false →
        (handle_message cfg s event).result = Except.error Fault.out_of_range) ∧
      (∀ (s : UIState) (pre : List Event) (bad : Event) (rest : List Event),
        (∀ e ∈ pre, e.well_formed cfg = true) → bad.well_formed cfg = false →
        (check_messages cfg s (pre ++ bad :: rest)).result =
          Except.error Fault.out_of_range)) ∧
    (∀ oob : List ℚ → Nat → ℚ, cfg.list_oob = some oob →
      (∀ (s : UIState) (events : List Event),
        ∃ s', (check_messages cfg s events).result = Except.ok s') ∧
      (∀ (s : UIState) (x y : List ℚ),
        ∃ s', (handle_message cfg s (Event.LIVE_MPC x y)).result = Except.ok s' ∧
          s'.scene.mpc_x = list_values oob x 50 ∧ s'.scene.mpc_y = list_values oob y 50) ∧
      (∀ (s : UIState) (l : List ℚ),
        ∃ s', (handle_message cfg s (Event.LIVE_CALIBRATION l)).result = Except.ok s' ∧
          s'.scene.extrinsic_matrix =
            list_values oob l (3 * 4) ++ s.scene.extrinsic_matrix.drop (3 * 4)) ∧
      (∀ (s : UIState) (p : ℚ) (l : List ℚ),
        ∃ s', (handle_message cfg s (Event.DRIVER_STATE p l)).result = Except.ok s' ∧
          s'.scene.face_x = (list_values oob l 2).getD 0 0 ∧
          s'.scene.face_y = (list_values oob l 2).getD 1 0) ∧
      (∀ (l : List ℚ) (n i : Nat), l.length ≤ i → i < n →
        (list_values oob l n).get? i = some (oob l i))) :=
  ⟨fun s event h => ⟨(handle_message_result cfg s event).1 (Or.inl h),
      fun o => handle_message_reader cfg o s event h⟩,
    fun s events => check_messages_well_formed cfg events s,
    fun hc => ⟨fun s event => (handle_message_result cfg s event).2 hc,
      fun s pre bad rest hpre hbad => check_messages_short cfg bad rest hc hbad pre s hpre⟩,
    fun oob hc =>
      ⟨fun s events => check_messages_ok cfg events s fun _ _ => Or.inr (by rw [hc]; rfl),
        fun s x y => handle_message_mpc_values cfg s x y oob hc,
        fun s l => handle_message_calibration_values cfg s l oob hc,
        fun s p l => handle_message_driver_values cfg s p l oob hc,
        fun l n i => list_values_beyond oob l n i⟩⟩

/-- C22, amended, at concrete events in the onroad state: a `liveMpc` event
with 50 entries in both lists is applied; one with 49 entries in the first
list stops `handle_message` when the list reader stops at the missing entry,
and is applied with the value the reader hands back in the fiftieth place
when it hands one back. -/
theorem handle_message_list_access_witness :
    (Event.LIVE_MPC (List.replicate 50 0) (List.replicate 50 0)).well_formed cfg_qcom = true ∧
    (∃ s', (handle_message cfg_qcom onroad_state
      (Event.LIVE_MPC (List.replicate 50 0) (List.replicate 50 0))).result = Except.ok s') ∧
    cfg_qcom.list_oob = none ∧
    (Event.LIVE_MPC (List.replicate 49 0) (List.replicate 50 0)).well_formed cfg_qcom = false ∧
    (handle_message cfg_qcom onroad_state
      (Event.LIVE_MPC (List.replicate 49 0) (List.replicate 50 0))).result =
      Except.error Fault.out_of_range ∧
    cfg_unchecked.list_oob = some (fun _ _ => 0) ∧
    (∃ s', (handle_message cfg_unchecked onroad_state
        (Event.LIVE_MPC (List.replicate 49 1) (List.replicate 50 1))).result = Except.ok s' ∧
      s'.scene.mpc_x = list_values (fun _ _ => 0) (List.replicate 49 1) 50 ∧
      s'.scene.mpc_y = list_values (fun _ _ => 0) (List.replicate 50 1) 50) ∧
    (list_values (fun _ _ => 0) (List.replicate 49 1) 50).get? 49 = some 0 :=
  ⟨by decide, ((handle_message_list_access cfg_qcom).1 onroad_state _ (by decide)).1, rfl,
    by decide,
    ((handle_message_list_access cfg_qcom).2.2.1 rfl).1 onroad_state _ (by decide), rfl,
    ((handle_message_list_access cfg_unchecked).2.2.2 _ rfl).2.1 onroad_state _ _,
    ((handle_message_list_access cfg_unchecked).2.2.2 _ rfl).2.2.2.2 _ 50 49
      (by rw [List.length_replicate]) (by decide)⟩

/-! ## The blink phase -/

/-- The blink phase after `handle_alert_blinking` is one `blink_step`. -/
theorem handle_alert_blinking_blink (s : UIState) (rate : ℚ) :
    blink_view (handle_alert_blinking s rate) = blink_step (blink_view s) rate := by
  simp only [handle_alert_blinking, blink_step, blink_view]
  split_ifs with h1 h2 h3 h4
  · exact Prod.ext rfl h2
  · rfl
  · exact Prod.ext rfl (Bool.eq_false_iff.mpr h2)
  · rfl
  · rfl

/-- The blink phase after the `CONTROLS_STATE` arm is one `blink_step`. -/
theorem handle_controls_state_blink (cfg : Config) (s : UIState) (t : Nat)
    (d : ControlsStateData) :
    blink_view (handle_controls_state cfg s t d).1 =
      blink_step (blink_view s) d.alertBlinkingRate := by
  have e : (handle_controls_state cfg s t d).1 =
      handle_alert_blinking
        (handle_alert_status
          (handle_alert_text (handle_alert_sound cfg (handle_controls_fields s t d) d).1 t d)
          d.alertStatus) d.alertBlinkingRate := rfl
  rw [e, handle_alert_blinking_blink, handle_alert_status_blink_view, handle_alert_text_blink_view,
    handle_alert_sound_blink_view, handle_controls_fields_blink_view]

/-- The arms of `handle_message` other than `CONTROLS_STATE` keep the blink
phase. -/
theorem handle_message_arms_blink_view (cfg : Config) (s s1 : UIState) (event : Event)
    (hev : event.is_controls = false)
    (h : (handle_message_arms cfg s event).result = Except.ok s1) :
    blink_view s1 = blink_view s := by
  cases event with
  | CONTROLS_STATE t d => cases hev
  | MODEL m =>
    obtain ⟨v, rfl⟩ := handle_message_arms_model cfg s s1 m h
    rfl
  | LIVE_CALIBRATION l =>
    obtain ⟨v, rfl⟩ := handle_message_arms_calibration cfg s s1 l h
    rfl
  | LIVE_MPC x y =>
    obtain ⟨v, w, rfl⟩ := handle_message_arms_mpc cfg s s1 x y h
    rfl
  | DRIVER_STATE p l =>
    obtain ⟨v, rfl⟩ := handle_message_arms_driver cfg s s1 p l h
    rfl
  | UBLOX_GNSS r =>
    cases r <;>
    · simp only [handle_message_arms, Step.ok] at h
      cases h
      rfl
  | _ =>
    simp only [handle_message_arms, Step.ok, Step.fail] at h
    try split_ifs at h
    all_goals try dsimp only at h
    all_goals
      cases h
      rfl

/-- A `handle_message` call on an event other than `controlsState` keeps the
blink phase. -/
theorem handle_message_blink_other (cfg : Config) (s s' : UIState) (event : Event)
    (hev : event.is_controls = false)
    (h : (handle_message cfg s event).result = Except.ok s') :
    blink_view s' = blink_view s := by
  unfold handle_message at h
  obtain ⟨s1, h1, h2⟩ := Step.andThen_result_ok _ _ _ h
  rw [Step.lift_result_ok _ _ h2, handle_message_transition_blink_view]
  exact handle_message_arms_blink_view cfg s s1 event hev h1

/-- The blink phase after a `handle_message` call on a `controlsState` event:
one `blink_step` when `started` is true, unchanged otherwise. -/
theorem handle_message_blink_controls (cfg : Config) (s s' : UIState) (t : Nat)
    (d : ControlsStateData)
    (h : (handle_message cfg s (Event.CONTROLS_STATE t d)).result = Except.ok s') :
    blink_view s' =
      if s.started then blink_step (blink_view s) d.alertBlinkingRate else blink_view s := by
  unfold handle_message at h
  obtain ⟨s1, h1, h2⟩ := Step.andThen_result_ok _ _ _ h
  rw [Step.lift_result_ok _ _ h2, handle_message_transition_blink_view]
  by_cases hs : s.started = true
  · simp only [handle_message_arms, hs, if_true, Step.lift] at h1
    cases h1
    simp only [hs, if_true]
    exact handle_controls_state_blink cfg s t d
  · simp only [handle_message_arms, hs, Step.ok] at h1
    cases h1
    simp only [hs, Bool.false_eq_true, if_false]

/-- One `blink_step` at a rate of at most `R` keeps the phase between
`blink_low R` and `blink_high R`. -/
theorem blink_step_bounds (R : ℚ) (v : ℚ × Bool) (rate : ℚ) (hr : rate ≤ R)
    (h1 : blink_low R ≤ v.1) (h2 : v.1 ≤ blink_high R) :
    blink_low R ≤ (blink_step v rate).1 ∧ (blink_step v rate).1 ≤ blink_high R := by
  unfold blink_step
  simp only [blink_low, blink_high] at h1 h2 ⊢
  split_ifs with h3 h4 h5 h6
  · constructor <;> simp only <;> linarith [h5.1, h5.2]
  · exact ⟨h1, h2⟩
  · constructor <;> simp only <;> linarith
  · have h7 : v.1 ≤ 25 / 100 := not_lt.mp h6
    constructor <;> simp only <;> linarith
  · exact ⟨h1, h2⟩


/-- The four cases of a `blink_step` at a positive rate. -/
theorem blink_step_cases (v : ℚ × Bool) (rate : ℚ) (hr : 0 < rate) :
    (v.2 = false → v.1 > 25 / 100 → blink_step v rate = (v.1 - 5 / 100 * rate, false)) ∧
    (v.2 = false → v.1 ≤ 25 / 100 → blink_step v rate = (v.1 + 25 / 100, true)) ∧
    (v.2 = true → 0 < v.1 → v.1 < 1 → blink_step v rate = (v.1 + 5 / 100 * rate, true)) ∧
    (v.2 = true → ¬ (0 < v.1 ∧ v.1 < 1) → blink_step v rate = (v.1, false)) := by
  have hr' : rate > 0 := hr
  refine ⟨fun h1 h2 => ?_, fun h1 h2 => ?_, fun h1 h2 h3 => ?_, fun h1 h2 => ?_⟩
  · simp only [blink_step, hr', if_true, h1, Bool.false_eq_true, if_false, h2]
  · have h2' : ¬ v.1 > 25 / 100 := not_lt.mpr h2
    simp only [blink_step, hr', if_true, h1, Bool.false_eq_true, if_false, h2']
  · have h4 : v.1 > 0 ∧ v.1 < 1 := ⟨h2, h3⟩
    simp only [blink_step, hr', if_true, h1, h4, and_self]
  · have h4 : ¬ (v.1 > 0 ∧ v.1 < 1) := h2
    simp only [blink_step, hr', if_true, h1, h4, if_false]

/-- A `handle_message` call on an event with a blinking rate of at most `R`
keeps the blink phase between `blink_low R` and `blink_high R`. -/
theorem handle_message_blink_bounds (cfg : Config) (R : ℚ) (s s' : UIState) (event : Event)
    (hev : event.blink_rate_le R) (h : (handle_message cfg s event).result = Except.ok s')
    (h1 : blink_low R ≤ s.alert_blinking_alpha) (h2 : s.alert_blinking_alpha ≤ blink_high R) :
    blink_low R ≤ s'.alert_blinking_alpha ∧ s'.alert_blinking_alpha ≤ blink_high R := by
  by_cases hc : event.is_controls = false
  · have hk : s'.alert_blinking_alpha = s.alert_blinking_alpha :=
      congrArg Prod.fst (handle_message_blink_other cfg s s' event hc h)
    rw [hk]
    exact ⟨h1, h2⟩
  · cases event with
    | CONTROLS_STATE t d =>
      have hk := handle_message_blink_controls cfg s s' t d h
      have hk1 : s'.alert_blinking_alpha =
          (if s.started then blink_step (blink_view s) d.alertBlinkingRate else blink_view s).1 :=
        congrArg Prod.fst hk
      rw [hk1]
      split_ifs
      · exact blink_step_bounds R (blink_view s) d.alertBlinkingRate hev h1 h2
      · exact ⟨h1, h2⟩
    | _ => exact absurd rfl hc

/-- A batch of events with blinking rates of at most `R` keeps the blink phase
between `blink_low R` and `blink_high R`. -/
theorem check_messages_blink_bounds (cfg : Config) (R : ℚ) :
    ∀ (events : List Event) (s s' : UIState), (∀ e ∈ events, e.blink_rate_le R) →
      (check_messages cfg s events).result = Except.ok s' →
      blink_low R ≤ s.alert_blinking_alpha → s.alert_blinking_alpha ≤ blink_high R →
      blink_low R ≤ s'.alert_blinking_alpha ∧ s'.alert_blinking_alpha ≤ blink_high R := by
  intro events
  induction events with
  | nil =>
    intro s s' _ h h1 h2
    simp only [check_messages, Step.ok] at h
    cases h
    exact ⟨h1, h2⟩
  | cons e rest ih =>
    intro s s' hev h h1 h2
    unfold check_messages at h
    obtain ⟨s1, hs1, h⟩ := Step.andThen_result_ok _ _ _ h
    obtain ⟨k1, k2⟩ := handle_message_blink_bounds cfg R s s1 e
      (hev e (List.mem_cons_self e rest)) hs1 h1 h2
    exact ih s1 s' (fun x hx => hev x (List.mem_cons_of_mem e hx)) h k1 k2

/-! ## C23 -/

/-- C23, as stated, fails: no bounds that are independent of the blinking rate
hold the blink phase, not even over one message.  From `alert_blinking_alpha =
1.0` and `alert_blinked = false`, a `controlsState` event with blinking rate
`rate` leaves `alert_blinking_alpha = 1 - 0.05 * rate`, which is below any
given bound for a rate that is large enough. -/
theorem blink_phase_no_fixed_bounds :
    ¬ ∃ low high : ℚ, ∀ rate : ℚ, 0 < rate → ∀ s',
      (handle_message cfg_qcom blink_start (blink_event rate)).result = Except.ok s' →
      low ≤ s'.alert_blinking_alpha ∧ s'.alert_blinking_alpha ≤ high := by
  rintro ⟨low, high, h⟩
  have hpos : (0 : ℚ) < 20 * (|low| + 2) := by positivity
  have hres : (handle_message cfg_qcom blink_start (blink_event (20 * (|low| + 2)))).result =
      Except.ok (seq (handle_controls_state cfg_qcom blink_start 0
        { ControlsStateData.zero with alertBlinkingRate := 20 * (|low| + 2) })
        handle_message_transition).1 := by
    unfold blink_event
    rw [handle_message_controls_started cfg_qcom blink_start 0 _ rfl]
    rfl
  obtain ⟨k1, -⟩ := h _ hpos _ hres
  have hk := handle_message_blink_controls cfg_qcom blink_start _ 0 _ hres
  have hs : blink_start.started = true := rfl
  have hv : blink_view blink_start = (1, false) := rfl
  rw [hs, if_pos rfl, hv, (blink_step_cases (1, false) _ hpos).1 rfl (by norm_num)] at hk
  have ha := congrArg Prod.fst hk
  simp only [blink_view] at ha
  rw [ha] at k1
  have := neg_abs_le low
  linarith

/-- C23, amended: the bounds of the blink phase grow with the blinking rate.
For every bound `R >= 0` on the blinking rates: the start value `1.0` lies in
`[0.25 - 0.05 * R, 1 + 0.05 * R]`, and every `handle_message` call and every
batch of events whose `controlsState` events carry blinking rates of at most
`R` keeps `alert_blinking_alpha` in that interval.  A `controlsState` event
handled while `started` is true makes one step with its rate: for a positive
rate the phase changes by exactly `0.05 * rate` (down while `alert_blinked` is
false and the phase is above `0.25`, up while `alert_blinked` is true and the
phase is strictly between 0 and 1), except at the flips: `0.25` is added and
`alert_blinked` set at the lower one, and the phase is kept and `alert_blinked`
cleared at the upper one (arithmetic over exact rationals). -/
theorem blink_phase_bounds (cfg : Config) (R : ℚ) (hR : 0 ≤ R) :
    (blink_low R ≤ 1 ∧ 1 ≤ blink_high R) ∧
    (∀ (s s' : UIState) (event : Event), event.blink_rate_le R →
      (handle_message cfg s event).result = Except.ok s' →
      blink_low R ≤ s.alert_blinking_alpha → s.alert_blinking_alpha ≤ blink_high R →
      blink_low R ≤ s'.alert_blinking_alpha ∧ s'.alert_blinking_alpha ≤ blink_high R) ∧
    (∀ (events : List Event) (s s' : UIState), (∀ e ∈ events, e.blink_rate_le R) →
      (check_messages cfg s events).result = Except.ok s' →
      blink_low R ≤ s.alert_blinking_alpha → s.alert_blinking_alpha ≤ blink_high R →
      blink_low R ≤ s'.alert_blinking_alpha ∧ s'.alert_blinking_alpha ≤ blink_high R) ∧
    (∀ (s s' : UIState) (t : Nat) (d : ControlsStateData), s.started = true →
      (handle_message cfg s (Event.CONTROLS_STATE t d)).result = Except.ok s' →
      (s'.alert_blinking_alpha, s'.alert_blinked) =
        blink_step (s.alert_blinking_alpha, s.alert_blinked) d.alertBlinkingRate) ∧
    (∀ (v : ℚ × Bool) (rate : ℚ), 0 < rate →
      (v.2 = false → v.1 > 25 / 100 → blink_step v rate = (v.1 - 5 / 100 * rate, false)) ∧
      (v.2 = false → v.1 ≤ 25 / 100 → blink_step v rate = (v.1 + 25 / 100, true)) ∧
      (v.2 = true → 0 < v.1 → v.1 < 1 → blink_step v rate = (v.1 + 5 / 100 * rate, true)) ∧
      (v.2 = true → ¬ (0 < v.1 ∧ v.1 < 1) → blink_step v rate = (v.1, false))) := by
  refine ⟨?_, handle_message_blink_bounds cfg R, check_messages_blink_bounds cfg R, ?_,
    blink_step_cases⟩
  · simp only [blink_low, blink_high]
    constructor <;> linarith
  · intro s s' t d hs h
    have hk := handle_message_blink_controls cfg s s' t d h
    rw [hs, if_pos rfl] at hk
    exact hk

/-- C23, amended, for rates up to 1: from the first-run values, a batch of two
events with blinking rate 1 ends normally with the phase inside
`[0.2, 1.05]`. -/
theorem blink_phase_bounds_witness :
    (0 : ℚ) ≤ 1 ∧
    (∀ e ∈ [blink_event 1, blink_event 1], e.blink_rate_le 1) ∧
    blink_low 1 = 20 / 100 ∧ blink_high 1 = 105 / 100 ∧
    ∃ s', (check_messages cfg_qcom blink_start [blink_event 1, blink_event 1]).result
        = Except.ok s' ∧
      blink_low 1 ≤ s'.alert_blinking_alpha ∧ s'.alert_blinking_alpha ≤ blink_high 1 := by
  have hev : ∀ e ∈ [blink_event 1, blink_event 1], e.blink_rate_le 1 := by
    intro e he
    simp only [List.mem_cons, List.mem_singleton, List.not_mem_nil, or_false, or_self] at he
    rw [he]
    exact le_refl (1 : ℚ)
  have hwf : ∀ e ∈ [blink_event 1, blink_event 1], e.well_formed cfg_qcom = true := by
    intro e he
    simp only [List.mem_cons, List.mem_singleton, List.not_mem_nil, or_false, or_self] at he
    rw [he]
    rfl
  obtain ⟨s', h⟩ := check_messages_well_formed cfg_qcom _ blink_start hwf
  have h1 : blink_low 1 ≤ blink_start.alert_blinking_alpha := by
    show blink_low 1 ≤ (1 : ℚ)
    norm_num [blink_low]
  have h2 : blink_start.alert_blinking_alpha ≤ blink_high 1 := by
    show (1 : ℚ) ≤ blink_high 1
    norm_num [blink_high]
  exact ⟨by norm_num, hev, by norm_num [blink_low], by norm_num [blink_high], s', h,
    (blink_phase_bounds cfg_qcom 1 (by norm_num)).2.2.1 _ blink_start s' hev h h1 h2⟩

/-! ## C24 -/

/-- C24 fails in the sixteenth pass after the connection.  `ui_init_vision`
leaves `is_metric_timeout = UI_FREQ / 2 = 15` and `limit_set_speed_timeout =
UI_FREQ = 30` (lines 437-444, under the comment `Set offsets so params don't
get read at the same time`).  Each pass takes one off the first countdown and,
through the readers of `LimitSetSpeed` and `SpeedLimitOffset` that share the
second one (lines 1202-1203), two off the second.  After fifteen passes both
are zero, and the sixteenth pass reads `IsMetric` and `LimitSetSpeed` from the
store, one after the other. -/
theorem main_tick_staggered_reads_collide :
    ∃ m0 m15 m16,
      (vision_connect_attempt cfg_qcom false main_start connect_env_ok).result = Except.ok m0 ∧
      m0.s.is_metric_timeout = 15 ∧ m0.s.limit_set_speed_timeout = 30 ∧
      (main_ticks cfg_qcom m0 (List.replicate 15 idle_env)).result = Except.ok m15 ∧
      (∀ name ∈ staggered_names,
        reads_of name (main_ticks cfg_qcom m0 (List.replicate 15 idle_env)).effects ≤ 1) ∧
      m15.s.is_metric_timeout = 0 ∧ m15.s.limit_set_speed_timeout = 0 ∧
      (main_tick cfg_qcom m15 idle_env).result = Except.ok m16 ∧
      reads_of "IsMetric" (main_tick cfg_qcom m15 idle_env).effects = 1 ∧
      reads_of "LimitSetSpeed" (main_tick cfg_qcom m15 idle_env).effects = 1 ∧
      m16.s.is_metric_timeout = 60 ∧ m16.s.limit_set_speed_timeout = 59 := by
  simp only [main_ticks_fit_eq cfg_qcom _ _ (idle_fits 15),
    main_tick_fit_eq cfg_qcom _ idle_env rfl]
  exact ⟨_, _, _, rfl, by decide, by decide, rfl, by decide, by decide, by decide, rfl,
    by decide, by decide, by decide, by decide⟩

/-! ## The session flags and the tracked sound across a pass

The touch handlers, the screen policy, the vision update and the countdown
blocks other than the controls block and the end of the alert sound leave the
session flags, the status, the tracked sound and its countdown alone, and make
no sound call. -/

theorem core_view_scene (s : UIState) (sc : UIScene) :
    core_view { s with scene := sc } = core_view s := rfl

theorem set_awake_core (cfg : Config) (s : UIState) (awake : Bool) :
    core_view (set_awake cfg s awake).1 = core_view s := by
  simp only [core_view, set_awake_session_view, set_awake_sound_view]

theorem navigate_to_settings_no_sound (cfg : Config) (s : UIState) :
    (navigate_to_settings cfg s).2.filter Effect.is_sound = [] := by
  simp only [navigate_to_settings, update_offroad_layout_state]
  split_ifs <;> rfl

theorem navigate_to_home_no_sound (cfg : Config) (s : UIState) :
    (navigate_to_home cfg s).2.filter Effect.is_sound = [] := by
  simp only [navigate_to_home, update_offroad_layout_state]
  split_ifs <;> rfl

theorem navigate_to_settings_core (cfg : Config) (s : UIState) :
    core_view (navigate_to_settings cfg s).1 = core_view s := by
  simp only [core_view, navigate_to_settings_session_view, navigate_to_settings_sound_view]

theorem navigate_to_home_core (cfg : Config) (s : UIState) :
    core_view (navigate_to_home cfg s).1 = core_view s := by
  simp only [core_view, navigate_to_home_session_view, navigate_to_home_sound_view]

theorem handle_sidebar_touch_no_sound (cfg : Config) (s : UIState) (x y : Int) :
    (handle_sidebar_touch cfg s x y).2.filter Effect.is_sound = [] := by
  simp only [handle_sidebar_touch, seq]
  split_ifs <;>
    simp [List.filter_append, navigate_to_settings_no_sound, navigate_to_home_no_sound,
      update_offroad_layout_state, Effect.is_sound]

theorem handle_sidebar_touch_core (cfg : Config) (s : UIState) (x y : Int) :
    core_view (handle_sidebar_touch cfg s x y).1 = core_view s := by
  simp only [handle_sidebar_touch, seq]
  split_ifs <;>
    simp only [core_view_scene, navigate_to_settings_core, navigate_to_home_core]

theorem handle_dp_btn_touch_no_sound (s : UIState) (x y : Int) (time : Nat) :
    (handle_dp_btn_touch s x y time).2.filter Effect.is_sound = [] := by
  simp only [handle_dp_btn_touch]
  split_ifs <;> rfl

theorem handle_dp_btn_touch_core (s : UIState) (x y : Int) (time : Nat) :
    core_view (handle_dp_btn_touch s x y time).1.2 = core_view s := by
  simp only [core_view, handle_dp_btn_touch_session_view, handle_dp_btn_touch_sound_view]

theorem handle_vision_touch_no_sound (s : UIState) (x y : Int) :
    (handle_vision_touch s x y).2.filter Effect.is_sound = [] := by
  simp only [handle_vision_touch, handle_driver_view_touch, update_offroad_layout_state]
  split_ifs <;> rfl

theorem handle_vision_touch_core (s : UIState) (x y : Int) :
    core_view (handle_vision_touch s x y).1 = core_view s := by
  simp only [core_view, handle_vision_touch_session_view, handle_vision_touch_sound_view]

theorem tick_route_touch_no_sound (cfg : Config) (s : UIState) (x y : Int) (time : Nat) :
    (tick_route_touch cfg s x y time).2.filter Effect.is_sound = [] := by
  simp only [tick_route_touch, seq]
  split_ifs <;>
    simp only [List.filter_append, handle_dp_btn_touch_no_sound, handle_sidebar_touch_no_sound,
      handle_vision_touch_no_sound, List.append_nil]

theorem tick_route_touch_core (cfg : Config) (s : UIState) (x y : Int) (time : Nat) :
    core_view (tick_route_touch cfg s x y time).1 = core_view s := by
  simp only [tick_route_touch, seq]
  split_ifs <;>
    simp only [handle_vision_touch_core, handle_sidebar_touch_core, handle_dp_btn_touch_core]

theorem tick_touch_no_sound (cfg : Config) (s : UIState) (env : TickEnv) :
    (tick_touch cfg s env).2.filter Effect.is_sound = [] := by
  unfold tick_touch
  cases env.touch with
  | none =>
    simp only
    split_ifs <;> rfl
  | some p =>
    obtain ⟨x, y⟩ := p
    simp only
    split_ifs <;>
      simp only [seq, List.filter_append, set_awake_no_sound, tick_route_touch_no_sound,
        List.append_nil, List.filter_nil]

theorem tick_touch_core (cfg : Config) (s : UIState) (env : TickEnv) :
    core_view (tick_touch cfg s env).1 = core_view s := by
  unfold tick_touch
  cases env.touch with
  | none =>
    simp only
    split_ifs <;> rfl
  | some p =>
    obtain ⟨x, y⟩ := p
    simp only
    split_ifs
    · rfl
    · exact set_awake_core cfg s true
    · simp only [seq, tick_route_touch_core, set_awake_core]

theorem tick_layout_core (s : UIState) : core_view (tick_layout s) = core_view s := rfl

theorem tick_screen_no_sound (cfg : Config) (s : UIState) :
    (tick_screen cfg s).2.filter Effect.is_sound = [] := by
  unfold tick_screen
  split_ifs
  · rfl
  · exact set_awake_no_sound cfg s false
  · exact set_awake_no_sound cfg s true

theorem tick_screen_core (cfg : Config) (s : UIState) :
    core_view (tick_screen cfg s).1 = core_view s := by
  simp only [core_view, tick_screen_session_view, tick_screen_sound_view]

theorem tick_stopped_no_sound (s : UIState) :
    (tick_stopped s).2.filter Effect.is_sound = [] := by
  simp only [tick_stopped, update_offroad_layout_state]
  split_ifs <;> rfl

theorem tick_stopped_core (s : UIState) : core_view (tick_stopped s).1 = core_view s := by
  simp only [core_view, tick_stopped_session_view, tick_stopped_sound_view]

theorem c_assert_no_sound (cfg : Config) (c : Bool) :
    (c_assert cfg c).effects.filter Effect.is_sound = [] := by
  unfold c_assert
  split_ifs <;> rfl

theorem ui_update_firstrun_state_no_sound (s : UIState) :
    (ui_update_firstrun_state s).2.filter Effect.is_sound = [] := by
  simp only [ui_update_firstrun_state, update_offroad_layout_state]
  split_ifs <;> rfl

theorem ui_update_firstrun_no_sound (cfg : Config) (s : UIState) (gl_ok : Bool) :
    (ui_update_firstrun cfg s gl_ok).effects.filter Effect.is_sound = [] := by
  unfold ui_update_firstrun
  split_ifs
  · exact Step.andThen_effects_filter _ _ _ (c_assert_no_sound cfg gl_ok)
      (fun _ => ui_update_firstrun_state_no_sound s)
  · rfl

theorem ui_update_packet_no_sound (cfg : Config) (s : UIState) (rp : VisionPacket) :
    (ui_update_packet cfg s rp).effects.filter Effect.is_sound = [] := by
  cases rp with
  | VIPC_STREAM_ACQUIRE type idx =>
    simp only [ui_update_packet]
    refine Step.andThen_effects_filter _ _ _ ?_ (fun _ => ?_)
    · split_ifs <;> rfl
    · refine Step.andThen_effects_filter _ _ _ (c_assert_no_sound cfg _) (fun _ => ?_)
      split_ifs <;> rfl
  | _ =>
    simp only [ui_update_packet]
    exact Step.andThen_effects_filter _ _ _ (c_assert_no_sound cfg _) (fun _ => rfl)

theorem ui_update_loop_no_sound (cfg : Config) (s : UIState) (answers : List PollAnswer) :
    (ui_update_loop cfg s answers).effects.filter Effect.is_sound = [] := by
  induction answers with
  | nil =>
    simp only [ui_update_loop]
    exact Step.andThen_effects_filter _ _ _ (c_assert_no_sound cfg _) (fun _ => rfl)
  | cons a rest ih =>
    simp only [ui_update_loop]
    refine Step.andThen_effects_filter _ _ _ (c_assert_no_sound cfg _) (fun _ => ?_)
    cases a with
    | poll_interrupted => exact ih
    | poll_failed => rfl
    | poll_empty => rfl
    | recv_failed => rfl
    | recv rp => exact ui_update_packet_no_sound cfg s rp

theorem ui_update_no_sound (cfg : Config) (s : UIState) (gl_ok : Bool)
    (answers : List PollAnswer) :
    (ui_update cfg s gl_ok answers).effects.filter Effect.is_sound = [] :=
  Step.andThen_effects_filter _ _ _ (ui_update_firstrun_no_sound cfg s gl_ok)
    (fun s1 => ui_update_loop_no_sound cfg s1 answers)

theorem ui_update_firstrun_core (cfg : Config) (s s' : UIState) (gl_ok : Bool)
    (h : (ui_update_firstrun cfg s gl_ok).result = Except.ok s') :
    core_view s' = core_view s := by
  unfold ui_update_firstrun at h
  split_ifs at h
  · obtain ⟨_, -, h2⟩ := Step.andThen_result_ok _ _ _ h
    rw [Step.lift_result_ok _ _ h2]
    simp only [core_view, ui_update_firstrun_state_session_view,
      ui_update_firstrun_state_sound_view]
  · cases h
    rfl

theorem ui_update_packet_core (cfg : Config) (s s' : UIState) (rp : VisionPacket)
    (h : (ui_update_packet cfg s rp).result = Except.ok s') : core_view s' = core_view s := by
  cases rp with
  | VIPC_STREAM_ACQUIRE type idx =>
    simp only [ui_update_packet] at h
    obtain ⟨_, -, h2⟩ := Step.andThen_result_ok _ _ _ h
    obtain ⟨_, -, h3⟩ := Step.andThen_result_ok _ _ _ h2
    split_ifs at h3 <;>
    · cases h3
      rfl
  | _ =>
    simp only [ui_update_packet] at h
    obtain ⟨_, -, h2⟩ := Step.andThen_result_ok _ _ _ h
    cases h2
    rfl

theorem ui_update_loop_core (cfg : Config) (s s' : UIState) (answers : List PollAnswer)
    (h : (ui_update_loop cfg s answers).result = Except.ok s') : core_view s' = core_view s := by
  induction answers with
  | nil =>
    simp only [ui_update_loop] at h
    obtain ⟨_, -, h2⟩ := Step.andThen_result_ok _ _ _ h
    cases h2
  | cons a rest ih =>
    simp only [ui_update_loop] at h
    obtain ⟨_, -, h2⟩ := Step.andThen_result_ok _ _ _ h
    cases a with
    | poll_interrupted => exact ih h2
    | poll_failed =>
      cases h2
      rfl
    | poll_empty =>
      cases h2
      rfl
    | recv_failed =>
      cases h2
      rfl
    | recv rp => exact ui_update_packet_core cfg s s' rp h2

theorem ui_update_core (cfg : Config) (s s' : UIState) (gl_ok : Bool)
    (answers : List PollAnswer) (h : (ui_update cfg s gl_ok answers).result = Except.ok s') :
    core_view s' = core_view s := by
  obtain ⟨s1, h1, h2⟩ := Step.andThen_result_ok _ _ _ h
  exact (ui_update_loop_core cfg s1 s' answers h2).trans (ui_update_firstrun_core cfg s s1 gl_ok h1)

theorem tick_awake_no_sound (cfg : Config) (s : UIState) :
    (tick_awake cfg s).2.filter Effect.is_sound = [] := by
  unfold tick_awake
  split_ifs
  · rfl
  · exact set_awake_no_sound cfg s false

theorem tick_draw_no_sound (s : UIState) : (tick_draw s).filter Effect.is_sound = [] := by
  unfold tick_draw
  split_ifs <;> rfl

theorem tick_volume_no_sound (s : UIState) : (tick_volume s).2.filter Effect.is_sound = [] := by
  unfold tick_volume
  split_ifs <;> rfl

theorem gated_read_no_sound (c : Int) (name : String) :
    (gated_read c name).filter Effect.is_sound = [] := by
  unfold gated_read
  split_ifs <;> rfl

theorem reads_no_sound (names : List String) : (reads names).filter Effect.is_sound = [] := by
  rw [List.filter_eq_nil_iff]
  intro e he
  unfold reads at he
  obtain ⟨n, -, rfl⟩ := List.mem_map.mp he
  simp [Effect.is_sound]

theorem tick_params_fit_no_sound (cfg : Config) (s : UIState) (env : TickEnv) :
    (tick_params_fit cfg s env).2.filter Effect.is_sound = [] := by
  rw [tick_params_fit_effects]
  simp only [List.filter_append, gated_read_no_sound, List.append_nil, List.nil_append,
    update_offroad_layout_timeout, update_offroad_layout_state]
  split_ifs <;> rfl

theorem refresh_toggles_no_sound (s : UIState) (store : Store) :
    (refresh_toggles s store).2.filter Effect.is_sound = [] := by
  rw [refresh_toggles_effects]
  split_ifs
  · rfl
  · rfl
  · rfl

theorem tick_generation_fit_no_sound (cfg : Config) (m : MainState) (store : Store) :
    (tick_generation_fit cfg m store).2.filter Effect.is_sound = [] := by
  rw [tick_generation_fit_effects]
  split_ifs
  · simp only [List.filter_append, reads_no_sound, refresh_toggles_no_sound, List.append_nil]
  · rfl

theorem tick_generation_fit_core (cfg : Config) (m : MainState) (store : Store) :
    core_view (tick_generation_fit cfg m store).1.s = core_view m.s := by
  unfold tick_generation_fit
  split_ifs
  · simp only [core_view, refresh_toggles_session_view, refresh_settings_fit_session_view,
      refresh_toggles_sound_view, refresh_settings_fit_sound_view]
  · rfl

theorem before_controls_core (cfg : Config) (s : UIState) :
    core_view (before_controls cfg s) = core_view s := by
  simp only [before_controls, core_view, tick_volume_session_view, tick_hardware_session_view,
    tick_awake_session_view, tick_volume_sound_view, tick_hardware_sound_view,
    tick_awake_sound_view]

/-- The sound calls of the second half of a pass are those of the controls
block and of the end of the alert sound. -/
theorem tick_rest_fit_sounds (cfg : Config) (s : UIState) (lm : String) (env : TickEnv) :
    (tick_rest_fit cfg s lm env).2.filter Effect.is_sound =
      (tick_controls (before_controls cfg s)).2.filter Effect.is_sound ++
        (tick_alert_sound (tick_controls (before_controls cfg s)).1).2.filter Effect.is_sound := by
  rw [tick_rest_fit_effects]
  simp only [List.filter_append, tick_awake_no_sound, tick_draw_no_sound, tick_volume_no_sound,
    tick_params_fit_no_sound, tick_generation_fit_no_sound, List.append_nil, List.nil_append]

/-- The session flags, the status, the tracked sound and its countdown at the
end of a pass are those the end of the alert sound leaves. -/
theorem tick_rest_fit_core (cfg : Config) (s : UIState) (lm : String) (env : TickEnv) :
    core_view (tick_rest_fit cfg s lm env).1.s = core_view (before_params cfg s) := by
  rw [tick_rest_fit_state, tick_generation_fit_core]
  simp only [core_view, tick_params_fit_session_view, tick_params_fit_sound_view]

/-! ## C26 -/

theorem session_ok_of_view (s s' : UIState) (h : session_view s' = session_view s)
    (hs : session_ok s) : session_ok s' := by
  simp only [session_view, Prod.mk.injEq] at h
  obtain ⟨h1, h2, h3, h4⟩ := h
  unfold session_ok at hs ⊢
  rw [h1, h2, h3, h4]
  exact hs

theorem session_ok_of_core (s s' : UIState) (h : core_view s' = core_view s)
    (hs : session_ok s) : session_ok s' :=
  session_ok_of_view s s' (congrArg Prod.fst h) hs

theorem update_status_status (s : UIState) (status : Int) :
    (update_status s status).status = status := by
  unfold update_status
  split_ifs with h
  · rfl
  · exact not_not.mp h

theorem main_init_session_view (cfg : Config) :
    session_view (main_init cfg).1 = (false, false, false, STATUS_STOPPED) := by
  simp only [main_init, ui_init, seq]
  split_ifs <;> simp [session_view, UIState.zero, STATUS_STOPPED]

theorem main_init_session_ok (cfg : Config) : session_ok (main_init cfg).1 := by
  have h := main_init_session_view cfg
  simp only [session_view, Prod.mk.injEq] at h
  obtain ⟨h1, h2, h3, h4⟩ := h
  unfold session_ok
  rw [h1, h2, h3, h4]
  exact ⟨rfl, Or.inl rfl, ⟨fun _ => rfl, fun _ => rfl⟩⟩

theorem derived_status_valid (a : AlertStatus) (enabled : Bool) :
    status_valid (derived_status a enabled) := by
  unfold derived_status
  split_ifs
  · exact Or.inr (Or.inr (Or.inr (Or.inl rfl)))
  · exact Or.inr (Or.inr (Or.inr (Or.inr rfl)))
  · exact Or.inr (Or.inr (Or.inl rfl))
  · exact Or.inr (Or.inl rfl)

/-- The arms of `handle_message` leave a status that is one of the five
values. -/
theorem handle_message_arms_status_valid (cfg : Config) (s s1 : UIState) (event : Event)
    (hv : status_valid s.status)
    (h : (handle_message_arms cfg s event).result = Except.ok s1) :
    status_valid s1.status := by
  cases event with
  | CONTROLS_STATE t d =>
    by_cases hs : s.started = true
    · simp only [handle_message_arms, hs, if_true, Step.lift] at h
      cases h
      rw [handle_controls_state_status]
      exact derived_status_valid _ _
    · simp only [handle_message_arms, hs, Step.ok] at h
      cases h
      exact hv
  | MODEL m =>
    obtain ⟨v, rfl⟩ := handle_message_arms_model cfg s s1 m h
    exact hv
  | LIVE_CALIBRATION l =>
    obtain ⟨v, rfl⟩ := handle_message_arms_calibration cfg s s1 l h
    exact hv
  | LIVE_MPC x y =>
    obtain ⟨v, w, rfl⟩ := handle_message_arms_mpc cfg s s1 x y h
    exact hv
  | DRIVER_STATE p l =>
    obtain ⟨v, rfl⟩ := handle_message_arms_driver cfg s s1 p l h
    exact hv
  | UBLOX_GNSS r =>
    cases r <;>
    · simp only [handle_message_arms, Step.ok] at h
      cases h
      exact hv
  | _ =>
    simp only [handle_message_arms, Step.ok, Step.fail] at h
    try split_ifs at h
    all_goals try dsimp only at h
    all_goals
      cases h
      exact hv

theorem handle_message_transition_started (s : UIState) :
    (handle_message_transition s).1.started = (s.thermal_started || s.preview_started) := by
  simp only [handle_message_transition, update_status]
  split_ifs <;> rfl

theorem handle_message_transition_status (s : UIState) :
    (handle_message_transition s).1.status =
      if (s.thermal_started || s.preview_started) = false then STATUS_STOPPED
      else if s.status = STATUS_STOPPED then STATUS_DISENGAGED else s.status := by
  simp only [handle_message_transition, update_status]
  split_ifs <;> simp_all

/-- The onroad/offroad transition establishes the session invariant from any
state whose status is one of the five values. -/
theorem handle_message_transition_session_ok (s : UIState) (hv : status_valid s.status) :
    session_ok (handle_message_transition s).1 := by
  unfold session_ok
  rw [handle_message_transition_started, handle_message_transition_status,
    handle_message_transition_thermal_started, handle_message_transition_preview_started]
  refine ⟨rfl, ?_, ?_⟩
  · split_ifs
    · exact Or.inl rfl
    · exact Or.inr (Or.inl rfl)
    · exact hv
  · split_ifs with h1 h2
    · exact ⟨fun _ => h1, fun _ => rfl⟩
    · exact ⟨fun hx => absurd hx (by decide), fun hx => absurd hx h1⟩
    · exact ⟨fun hx => absurd hx h2, fun hx => absurd hx h1⟩

/-- A `handle_message` call that ends normally establishes the session
invariant from any state whose status is one of the five values. -/
theorem handle_message_session_ok (cfg : Config) (s s' : UIState) (event : Event)
    (hv : status_valid s.status) (h : (handle_message cfg s event).result = Except.ok s') :
    session_ok s' := by
  unfold handle_message at h
  obtain ⟨s1, h1, h2⟩ := Step.andThen_result_ok _ _ _ h
  rw [Step.lift_result_ok _ _ h2]
  exact handle_message_transition_session_ok s1
    (handle_message_arms_status_valid cfg s s1 event hv h1)

theorem check_messages_session_ok (cfg : Config) :
    ∀ (events : List Event) (s s' : UIState), session_ok s →
      (check_messages cfg s events).result = Except.ok s' → session_ok s' := by
  intro events
  induction events with
  | nil =>
    intro s s' hs h
    simp only [check_messages, Step.ok] at h
    cases h
    exact hs
  | cons e rest ih =>
    intro s s' hs h
    unfold check_messages at h
    obtain ⟨s1, h1, h2⟩ := Step.andThen_result_ok _ _ _ h
    exact ih s1 s' (handle_message_session_ok cfg s s1 e hs.2.1 h1) h2

theorem tick_messages_session_ok (cfg : Config) (s s' : UIState) (env : TickEnv)
    (hs : session_ok s) (h : (tick_messages cfg s env).result = Except.ok s') :
    session_ok s' := by
  unfold tick_messages at h
  split_ifs at h
  · exact check_messages_session_ok cfg env.events s s' hs h
  · obtain ⟨s1, h1, h⟩ := Step.andThen_result_ok _ _ _ h
    obtain ⟨s2, h2, h⟩ := Step.andThen_result_ok _ _ _ h
    obtain ⟨s3, h3, h⟩ := Step.andThen_result_ok _ _ _ h
    rw [Step.lift_result_ok _ _ h]
    refine session_ok_of_core _ _ (tick_stopped_core s3) ?_
    refine check_messages_session_ok cfg env.events s2 s3 ?_ h3
    have hs1 : session_ok s1 := by
      rw [Step.lift_result_ok _ _ h1]
      exact session_ok_of_core _ _ (tick_screen_core cfg s) hs
    split_ifs at h2
    · exact session_ok_of_core _ _ (ui_update_core cfg s1 s2 env.gl_ok env.answers h2) hs1
    · simp only [Step.ok] at h2
      cases h2
      exact hs1

theorem tick_events_session_ok (cfg : Config) (s s' : UIState) (env : TickEnv)
    (hs : session_ok s) (h : (tick_events cfg s env).result = Except.ok s') :
    session_ok s' := by
  unfold tick_events at h
  obtain ⟨s1, h1, h⟩ := Step.andThen_result_ok _ _ _ h
  refine tick_messages_session_ok cfg s1 s' env ?_ h
  rw [Step.lift_result_ok _ _ h1]
  exact session_ok_of_core _ _ ((tick_touch_core cfg _ env).trans (tick_layout_core s)) hs

/-- The controls block keeps the session invariant: it writes the status only
while `started` is true, and then to `STATUS_ALERT`. -/
theorem tick_controls_session_ok (s : UIState) (hs : session_ok s) :
    session_ok (tick_controls s).1 := by
  obtain ⟨h1, h2, h3⟩ := hs
  unfold tick_controls
  split_ifs with a b
  · exact ⟨h1, h2, h3⟩
  · have e : (tick_controls_unresponsive s).1.status = STATUS_ALERT := by
      simp only [tick_controls_unresponsive]
      exact update_status_status _ _
    have f : (tick_controls_unresponsive s).1.started = s.started ∧
        (tick_controls_unresponsive s).1.thermal_started = s.thermal_started ∧
        (tick_controls_unresponsive s).1.preview_started = s.preview_started := by
      simp only [tick_controls_unresponsive, update_status]
      split_ifs <;> exact ⟨rfl, rfl, rfl⟩
    refine ⟨?_, ?_, ?_⟩
    · show (tick_controls_unresponsive s).1.started =
        ((tick_controls_unresponsive s).1.thermal_started ||
          (tick_controls_unresponsive s).1.preview_started)
      rw [f.1, f.2.1, f.2.2]
      exact h1
    · show status_valid (tick_controls_unresponsive s).1.status
      rw [e]
      exact Or.inr (Or.inr (Or.inr (Or.inr rfl)))
    · show (tick_controls_unresponsive s).1.status = STATUS_STOPPED ↔
        (tick_controls_unresponsive s).1.started = false
      rw [e, f.1, b.1]
      constructor
      · intro hx
        exact absurd hx (by decide)
      · intro hx
        cases hx
  · exact ⟨h1, h2, h3⟩

theorem tick_rest_fit_session_ok (cfg : Config) (s : UIState) (lm : String) (env : TickEnv)
    (hs : session_ok s) : session_ok (tick_rest_fit cfg s lm env).1.s := by
  refine session_ok_of_core _ _ (tick_rest_fit_core cfg s lm env) ?_
  unfold before_params
  refine session_ok_of_view _ _ (tick_alert_sound_session_view _) ?_
  exact tick_controls_session_ok _ (session_ok_of_core _ _ (before_controls_core cfg s) hs)

theorem main_tick_session_ok (cfg : Config) (m m' : MainState) (env : TickEnv)
    (hs : session_ok m.s) (h : (main_tick cfg m env).result = Except.ok m') :
    session_ok m'.s := by
  obtain ⟨s1, h1, h2, -⟩ := main_tick_ok cfg m m' env h
  rw [h2]
  exact tick_rest_fit_session_ok cfg s1 m.last_modified env (tick_events_session_ok cfg m.s s1 env hs h1)

theorem main_ticks_session_ok (cfg : Config) :
    ∀ (envs : List TickEnv) (m m' : MainState), session_ok m.s →
      (main_ticks cfg m envs).result = Except.ok m' → session_ok m'.s := by
  intro envs
  induction envs with
  | nil =>
    intro m m' hs h
    simp only [main_ticks, Step.ok] at h
    cases h
    exact hs
  | cons env rest ih =>
    intro m m' hs h
    unfold main_ticks at h
    obtain ⟨m1, h1, h2⟩ := Step.andThen_result_ok _ _ _ h
    exact ih m1 m' (main_tick_session_ok cfg m m1 env hs h1) h2

theorem ui_init_vision_session_view (cfg : Config) (m m' : MainState)
    (back_bufs : VisionStreamBufs) (num_back_fds : Int) (front_bufs : VisionStreamBufs)
    (num_front_fds : Int) (store : Store) (frontview fullview : Bool)
    (h : (ui_init_vision cfg m back_bufs num_back_fds front_bufs num_front_fds store frontview
      fullview).result = Except.ok m') :
    session_view m'.s = session_view m.s := by
  obtain ⟨mp, hmp, hm', -⟩ := ui_init_vision_ok cfg m m' _ _ _ _ _ _ _ h
  rw [hm']
  have h1 : session_view (ui_init_vision_timeouts (refresh_toggles mp.s store).1) =
      session_view (refresh_toggles mp.s store).1 := rfl
  have h2 := refresh_toggles_session_view mp.s store
  have h3 : session_view mp.s = session_view m.s := by
    rw [hmp]
    exact Prod.ext rfl (Prod.ext rfl (Prod.ext rfl rfl))
  exact h1.trans (h2.trans h3)

theorem vision_connect_commit_session_view (cfg : Config) (m m' : MainState) (env : ConnectEnv)
    (back_rp front_rp : VisionPacket)
    (h : (vision_connect_commit cfg m env back_rp front_rp).result = Except.ok m') :
    session_view m'.s = session_view m.s := by
  unfold vision_connect_commit at h
  obtain ⟨-, e1⟩ := c_assert_andThen_ok cfg _ _ m' h
  rw [e1] at h
  obtain ⟨m1, h1, h2⟩ := Step.andThen_result_ok _ _ _ h
  simp only [Step.ok] at h2
  cases h2
  have h3 := ui_init_vision_session_view cfg _ m1 _ _ _ _ _ _ _ h1
  refine Eq.trans ?_ (h3.trans ?_)
  · rfl
  · rfl

/-- A connection attempt of `vision_connect_thread` keeps the session flags
and the status. -/
theorem vision_connect_attempt_session_view (cfg : Config) (connected : Bool) (m m' : MainState)
    (env : ConnectEnv) (h : (vision_connect_attempt cfg connected m env).result = Except.ok m') :
    session_view m'.s = session_view m.s := by
  unfold vision_connect_attempt at h
  by_cases hc : connected = true
  · simp only [hc, if_true, Step.ok] at h
    cases h
    rfl
  · by_cases hfd : env.fd < 0
    · simp only [hc, Bool.false_eq_true, if_false, hfd, if_true, Step.ok] at h
      cases h
      rfl
    · simp only [hc, Bool.false_eq_true, if_false, hfd] at h
      obtain ⟨b, hb, h⟩ := Step.andThen_result_ok _ _ _ h
      by_cases hb0 : b.1 = 0
      · simp only [hb0, if_true, Step.ok] at h
        cases h
        rfl
      · simp only [hb0, if_false] at h
        obtain ⟨f, hf, h⟩ := Step.andThen_result_ok _ _ _ h
        by_cases hf0 : f.1 = 0
        · simp only [hf0, if_true, Step.ok] at h
          cases h
          rfl
        · simp only [hf0, if_false] at h
          exact vision_connect_commit_session_view cfg m m' env b.2 f.2 h

/-- C26: the session invariant holds in the state `main` enters its loop with
(`status = STATUS_STOPPED`, `started`, `thermal_started` and `preview_started`
false) and is kept by every `handle_message` call, by every pass of the main
loop, by every run of passes and by every connection attempt of
`vision_connect_thread` that ends normally.  The invariant `session_ok` says
that `started` equals `thermal_started || preview_started`, that the status is
one of the five values 0..4, and that the status is `STATUS_STOPPED` exactly
when `started` is false. -/
theorem session_invariant (cfg : Config) :
    ((main_init cfg).1.status = STATUS_STOPPED ∧ (main_init cfg).1.started = false ∧
      (main_init cfg).1.thermal_started = false ∧ (main_init cfg).1.preview_started = false) ∧
    session_ok (main_init cfg).1 ∧
    (∀ (s s' : UIState) (event : Event), session_ok s →
      (handle_message cfg s event).result = Except.ok s' → session_ok s') ∧
    (∀ (m m' : MainState) (env : TickEnv), session_ok m.s →
      (main_tick cfg m env).result = Except.ok m' → session_ok m'.s) ∧
    (∀ (envs : List TickEnv) (m m' : MainState), session_ok m.s →
      (main_ticks cfg m envs).result = Except.ok m' → session_ok m'.s) ∧
    (∀ (connected : Bool) (m m' : MainState) (env : ConnectEnv), session_ok m.s →
      (vision_connect_attempt cfg connected m env).result = Except.ok m' → session_ok m'.s) ∧
    (∀ s : UIState, session_ok s ↔
      (s.started = (s.thermal_started || s.preview_started) ∧
        (s.status = 0 ∨ s.status = 1 ∨ s.status = 2 ∨ s.status = 3 ∨ s.status = 4) ∧
        (s.status = 0 ↔ s.started = false))) := by
  refine ⟨?_, main_init_session_ok cfg, ?_, main_tick_session_ok cfg, main_ticks_session_ok cfg,
    ?_, fun s => Iff.rfl⟩
  · have h := main_init_session_view cfg
    simp only [session_view, Prod.mk.injEq] at h
    exact ⟨h.2.2.2, h.1, h.2.1, h.2.2.1⟩
  · intro s s' event hs h
    exact handle_message_session_ok cfg s s' event hs.2.1 h
  · intro connected m m' env hs h
    exact session_ok_of_view _ _ (vision_connect_attempt_session_view cfg connected m m' env h) hs

/-- The session invariant on a run that starts a session: from the state
`main` enters its loop with, a pass that handles a `thermal` event reporting
`started` ends normally with `started` true and `status = STATUS_DISENGAGED`,
and a further pass that handles a `thermal` event reporting the stop ends with
`started` false and `status = STATUS_STOPPED`. -/
theorem session_start_stop :
    ∃ m1 m2,
      (main_tick cfg_qcom ⟨(main_init cfg_qcom).1, ""⟩
        { idle_env with events := [Event.THERMAL { ThermalData.zero with started := true }] }).result
        = Except.ok m1 ∧
      m1.s.started = true ∧ m1.s.thermal_started = true ∧ m1.s.status = STATUS_DISENGAGED ∧
      (main_tick cfg_qcom m1
        { idle_env with events := [Event.THERMAL ThermalData.zero] }).result = Except.ok m2 ∧
      m2.s.started = false ∧ m2.s.thermal_started = false ∧ m2.s.status = STATUS_STOPPED :=
  ⟨_, _, rfl, by decide, by decide, by decide, rfl, by decide, by decide, by decide⟩

/-! ## C25 -/

theorem core_view_fields (s s' : UIState) (h : core_view s' = core_view s) :
    s'.started = s.started ∧ s'.thermal_started = s.thermal_started ∧
    s'.alert_sound = s.alert_sound ∧ s'.alert_sound_timeout = s.alert_sound_timeout := by
  simp only [core_view, session_view, sound_view, Prod.mk.injEq] at h
  exact ⟨h.1.1, h.1.2.1, h.2.1, h.2.2⟩

theorem sound_edge_self (a : AudibleAlert) : sound_edge a a = [] := by
  simp only [sound_edge, if_true]

/-- The onroad/offroad transition while thermal reports `started`: the session
is started afterwards, and the tracked sound, its countdown and the controls
countdown are kept. -/
theorem handle_message_transition_onroad (s : UIState) (ht : s.thermal_started = true) :
    (handle_message_transition s).1.started = true ∧
    (handle_message_transition s).1.alert_sound = s.alert_sound ∧
    (handle_message_transition s).1.alert_sound_timeout = s.alert_sound_timeout ∧
    (handle_message_transition s).1.controls_timeout = s.controls_timeout := by
  refine ⟨?_, handle_message_transition_alert_sound s, ?_,
    handle_message_transition_controls_timeout s⟩
  · rw [handle_message_transition_started, ht]
    rfl
  · simp only [handle_message_transition, ht, Bool.true_or, Bool.not_true, Bool.false_eq_true,
      if_false, update_status]
    split_ifs <;> rfl

theorem handle_controls_state_sound_timeout (cfg : Config) (s : UIState) (t : Nat)
    (d : ControlsStateData) :
    (handle_controls_state cfg s t d).1.alert_sound_timeout = s.alert_sound_timeout := by
  simp only [handle_controls_state, seq, handle_alert_blinking_alert_sound_timeout,
    handle_alert_status_alert_sound_timeout, handle_alert_text_alert_sound_timeout,
    handle_alert_sound_alert_sound_timeout, handle_controls_fields_alert_sound_timeout]

theorem handle_controls_state_sound (cfg : Config) (s : UIState) (t : Nat)
    (d : ControlsStateData) :
    (handle_controls_state cfg s t d).1.alert_sound = d.alertSound ∧
    (handle_controls_state cfg s t d).2.filter Effect.is_sound =
      sound_edge s.alert_sound d.alertSound := by
  constructor
  · simp only [seq, handle_controls_state, handle_alert_blinking_alert_sound,
      handle_alert_status_alert_sound, handle_alert_text_alert_sound]
    exact (handle_alert_sound_edge cfg _ d).2
  · simp only [seq, handle_controls_state, List.append_nil, (handle_alert_sound_edge cfg _ d).1,
      handle_controls_fields_alert_sound]

theorem handle_controls_state_controls_timeout (cfg : Config) (s : UIState) (t : Nat)
    (d : ControlsStateData) :
    (handle_controls_state cfg s t d).1.controls_timeout = UI_FREQ := by
  simp only [handle_controls_state, seq, handle_alert_blinking_controls_timeout,
    handle_alert_status_controls_timeout, handle_alert_text_controls_timeout,
    handle_alert_sound_controls_timeout]
  exact handle_controls_fields_timeout s t d

/-- The arms of `handle_message` other than `CONTROLS_STATE` keep the tracked
sound and its countdown, and leave `thermal_started` true when it was and a
`thermal` event reports `started`. -/
theorem handle_message_arms_other_sound (cfg : Config) (a : AudibleAlert) (s s1 : UIState)
    (event : Event) (hev : event.is_controls = false) (hreq : event.requests a = true)
    (ht : s.thermal_started = true)
    (h : (handle_message_arms cfg s event).result = Except.ok s1) :
    sound_view s1 = sound_view s ∧ s1.thermal_started = true := by
  cases event with
  | CONTROLS_STATE t d => cases hev
  | MODEL m =>
    obtain ⟨v, rfl⟩ := handle_message_arms_model cfg s s1 m h
    exact ⟨rfl, ht⟩
  | LIVE_CALIBRATION l =>
    obtain ⟨v, rfl⟩ := handle_message_arms_calibration cfg s s1 l h
    exact ⟨rfl, ht⟩
  | LIVE_MPC x y =>
    obtain ⟨v, w, rfl⟩ := handle_message_arms_mpc cfg s s1 x y h
    exact ⟨rfl, ht⟩
  | DRIVER_STATE p l =>
    obtain ⟨v, rfl⟩ := handle_message_arms_driver cfg s s1 p l h
    exact ⟨rfl, ht⟩
  | UBLOX_GNSS r =>
    cases r <;>
    · simp only [handle_message_arms, Step.ok] at h
      cases h
      exact ⟨rfl, ht⟩
  | THERMAL data =>
    simp only [handle_message_arms, Step.ok] at h
    cases h
    exact ⟨rfl, hreq⟩
  | _ =>
    simp only [handle_message_arms, Step.ok, Step.fail] at h
    try split_ifs at h
    all_goals try dsimp only at h
    all_goals
      cases h
      exact ⟨rfl, ht⟩

/-- One event of a run in which controls keep requesting `a`, handled in a
session that thermal keeps started. -/
theorem handle_message_requests (cfg : Config) (a : AudibleAlert) (s s' : UIState)
    (event : Event) (hs : s.started = true) (ht : s.thermal_started = true)
    (hreq : event.requests a = true)
    (h : (handle_message cfg s event).result = Except.ok s') :
    s'.started = true ∧ s'.thermal_started = true ∧
    s'.alert_sound_timeout = s.alert_sound_timeout ∧
    (handle_message cfg s event).effects.filter Effect.is_sound =
      (if event.is_controls = true then sound_edge s.alert_sound a else []) ∧
    s'.alert_sound = (if event.is_controls = true then a else s.alert_sound) ∧
    s'.controls_timeout = (if event.is_controls = true then UI_FREQ else s.controls_timeout) := by
  by_cases hev : event.is_controls = false
  · unfold handle_message at h ⊢
    obtain ⟨s1, h1, h2⟩ := Step.andThen_result_ok _ _ _ h
    obtain ⟨k1, k2⟩ := handle_message_arms_other_sound cfg a s s1 event hev hreq ht h1
    have k3 := handle_message_arms_controls_view cfg s s1 event hev h1
    obtain ⟨t1, t2, t3, t4⟩ := handle_message_transition_onroad s1 k2
    rw [Step.lift_result_ok _ _ h2, Step.andThen_effects_ok _ _ s1 h1,
      handle_message_arms_other_effects cfg s event hev]
    simp only [hev, Bool.false_eq_true, if_false, handle_message_transition_thermal_started]
    refine ⟨t1, k2, ?_, ?_, ?_, ?_⟩
    · rw [t3]
      exact congrArg Prod.snd k1
    · exact handle_message_transition_no_sound s1
    · rw [t2]
      exact congrArg Prod.fst k1
    · rw [t4]
      exact congrArg Prod.snd k3
  · cases event with
    | CONTROLS_STATE t d =>
      have hd : d.alertSound = a := of_decide_eq_true hreq
      rw [handle_message_controls_started cfg s t d hs] at h ⊢
      rw [Step.lift_result_ok _ _ h]
      have k2 : (handle_controls_state cfg s t d).1.thermal_started = true := by
        rw [handle_controls_state_thermal_started]
        exact ht
      obtain ⟨t1, t2, t3, t4⟩ := handle_message_transition_onroad _ k2
      simp only [Event.is_controls, if_true, seq, Step.lift, List.filter_append,
        handle_message_transition_no_sound, List.append_nil,
        handle_message_transition_thermal_started]
      refine ⟨t1, k2, ?_, ?_, ?_, ?_⟩
      · rw [t3]
        exact handle_controls_state_sound_timeout cfg s t d
      · rw [(handle_controls_state_sound cfg s t d).2, hd]
      · rw [t2, (handle_controls_state_sound cfg s t d).1, hd]
      · rw [t4]
        exact handle_controls_state_controls_timeout cfg s t d
    | _ => exact absurd rfl hev

/-- The events of a pass of a run in which controls keep requesting `a`. -/
theorem check_messages_requests (cfg : Config) (a : AudibleAlert) :
    ∀ (events : List Event) (s s' : UIState), s.started = true → s.thermal_started = true →
      events.all (Event.requests a) = true →
      (check_messages cfg s events).result = Except.ok s' →
      s'.started = true ∧ s'.thermal_started = true ∧
      s'.alert_sound_timeout = s.alert_sound_timeout ∧
      (check_messages cfg s events).effects.filter Effect.is_sound =
        (if events.any Event.is_controls = true then sound_edge s.alert_sound a else []) ∧
      s'.alert_sound = (if events.any Event.is_controls = true then a else s.alert_sound) ∧
      s'.controls_timeout =
        (if events.any Event.is_controls = true then UI_FREQ else s.controls_timeout) := by
  intro events
  induction events with
  | nil =>
    intro s s' hs ht _ h
    simp only [check_messages, Step.ok] at h
    cases h
    exact ⟨hs, ht, rfl, rfl, rfl, rfl⟩
  | cons e rest ih =>
    intro s s' hs ht hall h
    simp only [List.all_cons, Bool.and_eq_true] at hall
    unfold check_messages at h ⊢
    obtain ⟨s1, h1, h2⟩ := Step.andThen_result_ok _ _ _ h
    obtain ⟨a1, a2, a3, a4, a5, a6⟩ := handle_message_requests cfg a s s1 e hs ht hall.1 h1
    obtain ⟨b1, b2, b3, b4, b5, b6⟩ := ih s1 s' a1 a2 hall.2 h2
    rw [Step.andThen_effects_ok _ _ s1 h1, List.filter_append, a4, b4, b5, b6, a5, a6, b3, a3]
    refine ⟨b1, b2, rfl, ?_, ?_, ?_⟩
    · by_cases he : e.is_controls = true
      · simp only [he, if_true, List.any_cons, Bool.true_or, sound_edge_self, ite_self,
          List.append_nil]
      · simp only [he, Bool.false_eq_true, if_false, List.any_cons, Bool.false_or,
          List.nil_append]
    · by_cases he : e.is_controls = true
      · simp only [he, if_true, List.any_cons, Bool.true_or, ite_self]
      · simp only [he, Bool.false_eq_true, if_false, List.any_cons, Bool.false_or]
    · by_cases he : e.is_controls = true
      · simp only [he, if_true, List.any_cons, Bool.true_or, ite_self]
      · simp only [he, Bool.false_eq_true, if_false, List.any_cons, Bool.false_or]

theorem tick_messages_requests (cfg : Config) (a : AudibleAlert) (s s' : UIState)
    (env : TickEnv) (hs : s.started = true) (ht : s.thermal_started = true)
    (hreq : env.requests a = true) (h : (tick_messages cfg s env).result = Except.ok s') :
    s'.started = true ∧ s'.thermal_started = true ∧
    s'.alert_sound_timeout = s.alert_sound_timeout ∧
    (tick_messages cfg s env).effects.filter Effect.is_sound = sound_edge s.alert_sound a ∧
    s'.alert_sound = a ∧ s'.controls_timeout = UI_FREQ := by
  simp only [TickEnv.requests, Bool.and_eq_true] at hreq
  obtain ⟨hall, hany⟩ := hreq
  unfold tick_messages at h ⊢
  simp only [hs, Bool.not_true, Bool.false_eq_true, if_false] at h ⊢
  obtain ⟨s1, h1, h⟩ := Step.andThen_result_ok _ _ _ h
  obtain ⟨s2, h2, h⟩ := Step.andThen_result_ok _ _ _ h
  obtain ⟨s3, h3, h⟩ := Step.andThen_result_ok _ _ _ h
  have e1 : s1 = (tick_screen cfg s).1 := Step.lift_result_ok _ _ h1
  obtain ⟨c1, c2, c3, c4⟩ := core_view_fields s s1 (by rw [e1]; exact tick_screen_core cfg s)
  have k2 : core_view s2 = core_view s1 ∧
      (if s1.vision_connected = true then ui_update cfg s1 env.gl_ok env.answers
        else Step.ok s1).effects.filter Effect.is_sound = [] := by
    split_ifs at h2 ⊢
    · exact ⟨ui_update_core cfg s1 s2 env.gl_ok env.answers h2,
        ui_update_no_sound cfg s1 env.gl_ok env.answers⟩
    · simp only [Step.ok] at h2
      cases h2
      exact ⟨rfl, rfl⟩
  obtain ⟨d1, d2, d3, d4⟩ := core_view_fields s1 s2 k2.1
  obtain ⟨b1, b2, b3, b4, b5, b6⟩ :=
    check_messages_requests cfg a env.events s2 s3 (by rw [d1, c1]; exact hs)
      (by rw [d2, c2]; exact ht) hall h3
  rw [hany] at b4 b5 b6
  simp only [if_true] at b4 b5 b6
  have e4 : s' = (tick_stopped s3).1 := Step.lift_result_ok _ _ h
  obtain ⟨f1, f2, f3, f4⟩ := core_view_fields s3 s' (by rw [e4]; exact tick_stopped_core s3)
  have f5 : s'.controls_timeout = s3.controls_timeout := by
    rw [e4]
    exact congrArg Prod.snd (tick_stopped_controls_view s3)
  rw [Step.andThen_effects_ok _ _ s1 h1, Step.andThen_effects_ok _ _ s2 h2,
    Step.andThen_effects_ok _ _ s3 h3]
  simp only [List.filter_append, k2.2, b4, List.nil_append]
  refine ⟨f1.trans b1, f2.trans b2, ?_, ?_, f3.trans b5, f5.trans b6⟩
  · rw [f4, b3, d4, c4]
  · have g1 : (Step.lift (tick_screen cfg s)).effects.filter Effect.is_sound = [] :=
      tick_screen_no_sound cfg s
    have g2 : (Step.lift (tick_stopped s3)).effects.filter Effect.is_sound = [] :=
      tick_stopped_no_sound s3
    rw [g1, g2, List.nil_append, List.append_nil, d3, c3]

/-- The first half of a pass of a run in which controls keep requesting `a`:
the sound calls are the edge from the tracked sound to `a`, and the controls
countdown is at `UI_FREQ` afterwards. -/
theorem tick_events_requests (cfg : Config) (a : AudibleAlert) (s s' : UIState)
    (env : TickEnv) (hs : s.started = true) (ht : s.thermal_started = true)
    (hreq : env.requests a = true) (h : (tick_events cfg s env).result = Except.ok s') :
    s'.started = true ∧ s'.thermal_started = true ∧
    s'.alert_sound_timeout = s.alert_sound_timeout ∧
    (tick_events cfg s env).effects.filter Effect.is_sound = sound_edge s.alert_sound a ∧
    s'.alert_sound = a ∧ s'.controls_timeout = UI_FREQ := by
  unfold tick_events at h ⊢
  obtain ⟨s1, h1, h2⟩ := Step.andThen_result_ok _ _ _ h
  have e1 : s1 = (tick_touch cfg (tick_layout s) env).1 := Step.lift_result_ok _ _ h1
  obtain ⟨c1, c2, c3, c4⟩ := core_view_fields s s1
    (by rw [e1]; exact (tick_touch_core cfg _ env).trans (tick_layout_core s))
  obtain ⟨b1, b2, b3, b4, b5, b6⟩ :=
    tick_messages_requests cfg a s1 s' env (c1.trans hs) (c2.trans ht) hreq h2
  have g1 : (Step.lift (tick_touch cfg (tick_layout s) env)).effects.filter Effect.is_sound
      = [] := tick_touch_no_sound cfg _ env
  rw [Step.andThen_effects_ok _ _ s1 h1, List.filter_append, g1, List.nil_append, b4, c3]
  exact ⟨b1, b2, b3.trans c4, rfl, b5, b6⟩

/-- The end of the alert sound while the session is started. -/
theorem tick_alert_sound_onroad (s : UIState) (hs : s.started = true) :
    tick_alert_sound s =
      if s.alert_sound_timeout = 0 ∧ s.alert_sound ≠ AudibleAlert.NONE then
        ({ s with alert_sound := AudibleAlert.NONE }, [Effect.stop_alert_sound s.alert_sound])
      else (s, []) := by
  unfold tick_alert_sound
  simp only [hs, Bool.not_true, Bool.false_or, Bool.true_and, decide_eq_true_eq]

/-- The second half of a pass that starts with the session started and the
controls countdown at `UI_FREQ`: the controls block only counts down, and the
tracked sound is stopped exactly when its countdown is at zero. -/
theorem tick_rest_fit_requests (cfg : Config) (s : UIState) (lm : String) (env : TickEnv)
    (hs : s.started = true) (hc : s.controls_timeout = UI_FREQ) :
    (tick_rest_fit cfg s lm env).2.filter Effect.is_sound =
      (if s.alert_sound_timeout = 0 ∧ s.alert_sound ≠ AudibleAlert.NONE then
        [Effect.stop_alert_sound s.alert_sound]
      else []) ∧
    (tick_rest_fit cfg s lm env).1.s.started = true ∧
    (tick_rest_fit cfg s lm env).1.s.thermal_started = s.thermal_started ∧
    (tick_rest_fit cfg s lm env).1.s.alert_sound_timeout = s.alert_sound_timeout ∧
    (tick_rest_fit cfg s lm env).1.s.alert_sound =
      (if s.alert_sound_timeout = 0 then AudibleAlert.NONE else s.alert_sound) := by
  obtain ⟨c1, c2, c3, c4⟩ := core_view_fields s _ (before_controls_core cfg s)
  have c5 : (before_controls cfg s).controls_timeout = s.controls_timeout :=
    congrArg Prod.snd (before_controls_keeps cfg s).2
  have hpos : 0 < (before_controls cfg s).controls_timeout := by
    rw [c5, hc]
    decide
  obtain ⟨X, hX, x1, x2, x3, x4⟩ : ∃ X : UIState,
      tick_controls (before_controls cfg s) = (X, []) ∧ X.started = true ∧
      X.thermal_started = s.thermal_started ∧ X.alert_sound = s.alert_sound ∧
      X.alert_sound_timeout = s.alert_sound_timeout :=
    ⟨_, tick_controls_counting _ hpos, c1.trans hs, c2, c3, c4⟩
  obtain ⟨d1, d2, d3, d4⟩ := core_view_fields _ _ (tick_rest_fit_core cfg s lm env)
  unfold before_params at d1 d2 d3 d4
  rw [tick_rest_fit_sounds, d1, d2, d3, d4, hX, tick_alert_sound_onroad X x1, x3, x4]
  simp only [List.filter_nil, List.nil_append]
  refine ⟨?_, ?_, ?_, ?_, ?_⟩
  · split_ifs <;> rfl
  · split_ifs <;> exact x1
  · split_ifs <;> exact x2
  · split_ifs
    · rfl
    · exact x4
  · by_cases hC : s.alert_sound_timeout = 0 ∧ s.alert_sound ≠ AudibleAlert.NONE
    · rw [if_pos hC, if_pos hC.1]
    · rw [if_neg hC]
      by_cases hz : s.alert_sound_timeout = 0
      · rw [if_pos hz]
        refine x3.trans ?_
        by_contra hn
        exact hC ⟨hz, hn⟩
      · rw [if_neg hz]
        exact x3

/-- One pass of a run in which controls keep requesting `a`. -/
theorem main_tick_requests (cfg : Config) (a : AudibleAlert) (m m' : MainState) (env : TickEnv)
    (hs : m.s.started = true) (ht : m.s.thermal_started = true)
    (hreq : env.requests a = true) (h : (main_tick cfg m env).result = Except.ok m') :
    (main_tick cfg m env).effects.filter Effect.is_sound =
      pass_sounds m.s.alert_sound a m.s.alert_sound_timeout ∧
    m'.s.alert_sound = (if m.s.alert_sound_timeout = 0 then AudibleAlert.NONE else a) ∧
    m'.s.started = true ∧ m'.s.thermal_started = true ∧
    m'.s.alert_sound_timeout = m.s.alert_sound_timeout := by
  obtain ⟨s1, h1, h2, h3⟩ := main_tick_ok cfg m m' env h
  obtain ⟨b1, b2, b3, b4, b5, b6⟩ := tick_events_requests cfg a m.s s1 env hs ht hreq h1
  obtain ⟨r1, r2, r3, r4, r5⟩ := tick_rest_fit_requests cfg s1 m.last_modified env b1 b6
  rw [h3, h2, List.filter_append, b4, r1, r2, r3, r4, r5, b3, b5, b2]
  exact ⟨rfl, rfl, rfl, rfl, rfl⟩

/-- A run in which controls keep requesting the sound that is tracked already,
with the sound countdown away from zero, makes no sound call. -/
theorem main_ticks_requests_tracked (cfg : Config) (a : AudibleAlert) :
    ∀ (envs : List TickEnv) (m m' : MainState), m.s.started = true →
      m.s.thermal_started = true → m.s.alert_sound_timeout ≠ 0 → m.s.alert_sound = a →
      (∀ env ∈ envs, env.requests a = true) →
      (main_ticks cfg m envs).result = Except.ok m' →
      (main_ticks cfg m envs).effects.filter Effect.is_sound = [] ∧
      m'.s.alert_sound = a ∧ m'.s.started = true ∧ m'.s.thermal_started = true ∧
      m'.s.alert_sound_timeout = m.s.alert_sound_timeout := by
  intro envs
  induction envs with
  | nil =>
    intro m m' hs ht _ ha _ h
    simp only [main_ticks, Step.ok] at h
    cases h
    exact ⟨rfl, ha, hs, ht, rfl⟩
  | cons env rest ih =>
    intro m m' hs ht hz ha hreq h
    unfold main_ticks at h ⊢
    obtain ⟨m1, h1, h2⟩ := Step.andThen_result_ok _ _ _ h
    obtain ⟨a1, a2, a3, a4, a5⟩ :=
      main_tick_requests cfg a m m1 env hs ht (hreq env (List.mem_cons_self env rest)) h1
    rw [if_neg hz] at a2
    obtain ⟨b1, b2, b3, b4, b5⟩ := ih m1 m' a3 a4 (by rw [a5]; exact hz) a2
      (fun x hx => hreq x (List.mem_cons_of_mem env hx)) h2
    rw [Step.andThen_effects_ok _ _ m1 h1, List.filter_append, a1, b1, List.append_nil]
    refine ⟨?_, b2, b3, b4, b5.trans a5⟩
    simp only [pass_sounds, ha, sound_edge_self, hz, false_and, if_false, List.append_nil]

/-- C25, as stated, fails when the sound countdown is at zero.  From the state
`main` enters its loop with, a pass that handles a `thermal` event reporting
`started` and a `controlsState` event requesting `CHIME_WARNING_REPEAT` starts
the session; `alert_sound_timeout` is still 0, its start-up value, because the
controls countdown was set to `UI_FREQ` by the event, and the block of lines
1194-1198 has stopped the sound and reset the tracked sound to `NONE`.  In each
of the two passes that follow, the `controlsState` event requests the same
sound again: it is played again by `handle_message` and stopped again at the
end of the pass. -/
theorem main_ticks_alert_sound_retriggered :
    ∃ m1 m3,
      (main_tick cfg_qcom ⟨(main_init cfg_qcom).1, ""⟩ thermal_chime_env).result
        = Except.ok m1 ∧
      m1.s.started = true ∧ m1.s.status = STATUS_DISENGAGED ∧
      m1.s.alert_sound_timeout = 0 ∧ m1.s.alert_sound = AudibleAlert.NONE ∧
      chime_env.requests AudibleAlert.CHIME_WARNING_REPEAT = true ∧
      (main_ticks cfg_qcom m1 [chime_env, chime_env]).result = Except.ok m3 ∧
      (main_ticks cfg_qcom m1 [chime_env, chime_env]).effects.filter Effect.is_sound =
        [Effect.play_alert_sound AudibleAlert.CHIME_WARNING_REPEAT,
          Effect.stop_alert_sound AudibleAlert.CHIME_WARNING_REPEAT,
          Effect.play_alert_sound AudibleAlert.CHIME_WARNING_REPEAT,
          Effect.stop_alert_sound AudibleAlert.CHIME_WARNING_REPEAT] :=
  ⟨_, _, rfl, by decide, by decide, by decide, by decide, by decide, rfl, by decide⟩

/-- C25, amended with the sound countdown.  In a session that thermal keeps
started (`started` and `thermal_started` true at the start, every `thermal`
event reporting `started`), over passes of the main loop that each handle at
least one `controlsState` event and whose `controlsState` events all request
the alert sound `a` (`TickEnv.requests`), with `p` the sound tracked at the
start:  (1) when `alert_sound_timeout` is not 0 at the start, the sound calls
of a run of one or more passes that ends normally are exactly the edge from `p`
to `a`, made by the first `controlsState` event: nothing if `p = a`, otherwise
`stop_alert_sound(p)` unless `p` is `NONE`, then `play_alert_sound(a)` unless
`a` is `NONE`; the tracked sound is `a` afterwards and `alert_sound_timeout`
is unchanged.  (2) In every pass, whatever `alert_sound_timeout` is, the sound
calls are that edge, followed by `stop_alert_sound(a)` when
`alert_sound_timeout` is 0 and `a` is not `NONE`; the tracked sound is then
`NONE`, so that the next pass plays `a` again.  (3) For a sound `a` other than
`NONE`: the edge from `NONE` is the single call `play_alert_sound(a)`, the edge
from `a` is empty, and a pass that starts with no tracked sound and the
countdown at 0 makes the calls `play_alert_sound(a)`, `stop_alert_sound(a)`. -/
theorem main_ticks_alert_sound_edge (cfg : Config) (a : AudibleAlert) :
    (∀ (envs : List TickEnv) (m m' : MainState), m.s.started = true →
      m.s.thermal_started = true → m.s.alert_sound_timeout ≠ 0 → envs ≠ [] →
      (∀ env ∈ envs, env.requests a = true) →
      (main_ticks cfg m envs).result = Except.ok m' →
      (main_ticks cfg m envs).effects.filter Effect.is_sound = sound_edge m.s.alert_sound a ∧
      m'.s.alert_sound = a ∧ m'.s.started = true ∧
      m'.s.alert_sound_timeout = m.s.alert_sound_timeout) ∧
    (∀ (m m' : MainState) (env : TickEnv), m.s.started = true → m.s.thermal_started = true →
      env.requests a = true → (main_tick cfg m env).result = Except.ok m' →
      (main_tick cfg m env).effects.filter Effect.is_sound =
        sound_edge m.s.alert_sound a ++
          (if m.s.alert_sound_timeout = 0 ∧ a ≠ AudibleAlert.NONE then
            [Effect.stop_alert_sound a]
          else []) ∧
      m'.s.alert_sound = (if m.s.alert_sound_timeout = 0 then AudibleAlert.NONE else a) ∧
      m'.s.started = true ∧ m'.s.thermal_started = true ∧
      m'.s.alert_sound_timeout = m.s.alert_sound_timeout) ∧
    (a ≠ AudibleAlert.NONE →
      sound_edge AudibleAlert.NONE a = [Effect.play_alert_sound a] ∧ sound_edge a a = [] ∧
      pass_sounds AudibleAlert.NONE a 0 = [Effect.play_alert_sound a, Effect.stop_alert_sound a])
    := by
  refine ⟨?_, ?_, ?_⟩
  · intro envs m m' hs ht hz hne hreq h
    cases envs with
    | nil => exact absurd rfl hne
    | cons env rest =>
      unfold main_ticks at h ⊢
      obtain ⟨m1, h1, h2⟩ := Step.andThen_result_ok _ _ _ h
      obtain ⟨a1, a2, a3, a4, a5⟩ :=
        main_tick_requests cfg a m m1 env hs ht (hreq env (List.mem_cons_self env rest)) h1
      rw [if_neg hz] at a2
      obtain ⟨b1, b2, b3, -, b5⟩ := main_ticks_requests_tracked cfg a rest m1 m' a3 a4
        (by rw [a5]; exact hz) a2 (fun x hx => hreq x (List.mem_cons_of_mem env hx)) h2
      rw [Step.andThen_effects_ok _ _ m1 h1, List.filter_append, a1, b1, List.append_nil]
      refine ⟨?_, b2, b3, b5.trans a5⟩
      simp only [pass_sounds, hz, false_and, if_false, List.append_nil]
  · intro m m' env hs ht hreq h
    exact main_tick_requests cfg a m m' env hs ht hreq h
  · intro ha
    have ha' : AudibleAlert.NONE ≠ a := fun hx => ha hx.symm
    refine ⟨?_, sound_edge_self a, ?_⟩
    · simp only [sound_edge, ha, ne_eq, not_true_eq_false, not_false_eq_true, if_true, if_false,
        List.nil_append]
    · simp only [pass_sounds, sound_edge, ha, ne_eq, not_true_eq_false, not_false_eq_true,
        if_true, if_false, List.nil_append, and_self, List.singleton_append]

/-- C25, amended, on a run from the start-up state: an idle pass takes the
sound countdown to -1, a pass with a `thermal` event starts the session, and
over the two passes that follow, each handling a `controlsState` event that
requests `CHIME_WARNING_REPEAT`, the sound is played once and never stopped. -/
theorem main_ticks_alert_sound_edge_witness :
    ∃ m2 m4,
      (main_ticks cfg_qcom ⟨(main_init cfg_qcom).1, ""⟩ [idle_env, thermal_env]).result
        = Except.ok m2 ∧
      m2.s.started = true ∧ m2.s.thermal_started = true ∧ m2.s.alert_sound_timeout = -2 ∧
      m2.s.alert_sound = AudibleAlert.NONE ∧
      (main_ticks cfg_qcom m2 [chime_env, chime_env]).result = Except.ok m4 ∧
      (main_ticks cfg_qcom m2 [chime_env, chime_env]).effects.filter Effect.is_sound =
        [Effect.play_alert_sound AudibleAlert.CHIME_WARNING_REPEAT] ∧
      m4.s.alert_sound = AudibleAlert.CHIME_WARNING_REPEAT :=
  ⟨_, _, rfl, by decide, by decide, by decide, by decide, rfl,
    ((main_ticks_alert_sound_edge cfg_qcom AudibleAlert.CHIME_WARNING_REPEAT).1
      [chime_env, chime_env] _ _ (by decide) (by decide) (by decide) (List.cons_ne_nil _ _)
      (by decide) (by rfl)).1,
    by decide⟩

end UI
